import Mathlib

/-!
Colobot mission orchestrator (`src/object/robotmain.cpp`).

A shallow embedding of the parts of `CRobotMain` that drive the phase state
machine (`ChangePhase`), the end-of-mission evaluator (`CheckEndMission`,
`CheckEndMissionForGroup`) and the per-frame driver (`ProcessEvent`,
`EventFrame`).

Conventions of the embedding:
* `float` members that are only assigned constants, compared and decremented
  are rationals;
* a `float` operation of the save code (`IOWriteObject`, `IOReadObject`) is
  the exact operation on rationals followed by a rounding (`Env.round`);
* a C++ exception is an `Option String` next to the state the call leaves
  behind (`none`: the call returned normally);
* collaborators that live outside `robotmain.cpp` (display text, event queue,
  object manager, UI) are modelled by the log of the calls made to them, or
  are taken as parameters.
-/

namespace Colobot

/-! ## Phases -/

/-- The `Phase` enumeration of `robotmain.h`, in declaration order. -/
inductive Phase
  | PHASE_WELCOME1
  | PHASE_WELCOME2
  | PHASE_WELCOME3
  | PHASE_PLAYER_SELECT
  | PHASE_APPERANCE
  | PHASE_MAIN_MENU
  | PHASE_LEVEL_LIST
  | PHASE_SIMUL
  | PHASE_SETUPd
  | PHASE_SETUPg
  | PHASE_SETUPp
  | PHASE_SETUPc
  | PHASE_SETUPs
  | PHASE_SETUPds
  | PHASE_SETUPgs
  | PHASE_SETUPps
  | PHASE_SETUPcs
  | PHASE_SETUPss
  | PHASE_WRITEs
  | PHASE_READ
  | PHASE_READs
  | PHASE_WIN
  | PHASE_LOST
  | PHASE_QUIT_SCREEN
  deriving DecidableEq, Repr

open Phase

/-- The integer value of an enumerator (its position in the declaration). -/
def Phase.toNat : Phase → Nat
  | PHASE_WELCOME1 => 0
  | PHASE_WELCOME2 => 1
  | PHASE_WELCOME3 => 2
  | PHASE_PLAYER_SELECT => 3
  | PHASE_APPERANCE => 4
  | PHASE_MAIN_MENU => 5
  | PHASE_LEVEL_LIST => 6
  | PHASE_SIMUL => 7
  | PHASE_SETUPd => 8
  | PHASE_SETUPg => 9
  | PHASE_SETUPp => 10
  | PHASE_SETUPc => 11
  | PHASE_SETUPs => 12
  | PHASE_SETUPds => 13
  | PHASE_SETUPgs => 14
  | PHASE_SETUPps => 15
  | PHASE_SETUPcs => 16
  | PHASE_SETUPss => 17
  | PHASE_WRITEs => 18
  | PHASE_READ => 19
  | PHASE_READs => 20
  | PHASE_WIN => 21
  | PHASE_LOST => 22
  | PHASE_QUIT_SCREEN => 23

/-- `IsInSimulationConfigPhase` (robotmain.cpp:370). -/
def IsInSimulationConfigPhase (phase : Phase) : Bool :=
  (decide (phase.toNat ≥ PHASE_SETUPds.toNat) && decide (phase.toNat ≤ PHASE_SETUPss.toNat))
    || phase == PHASE_READs || phase == PHASE_WRITEs

/-- `IsPhaseWithWorld` (robotmain.cpp:375). -/
def IsPhaseWithWorld (phase : Phase) : Bool :=
  if phase == PHASE_SIMUL then true
  else if phase == PHASE_WIN then true
  else if phase == PHASE_LOST then true
  else if phase == PHASE_APPERANCE then true
  else if IsInSimulationConfigPhase phase then true
  else false

/-- `IsMainMenuPhase` (robotmain.cpp:385). -/
def IsMainMenuPhase (phase : Phase) : Bool :=
  !IsPhaseWithWorld phase

/-! ## Data model -/

/-- The values of the `Error` enumeration that the orchestrator inspects. -/
inductive Error
  | ERR_OK
  | ERR_MISSION_NOTERM
  | INFO_WIN
  | INFO_LOST
  | INFO_LOSTq
  | INFO_BEGINSATCOM
  | ERR_OTHER (code : Nat)
  deriving DecidableEq, Repr

open Error

/-- The event types queued or dispatched by the code modelled here. -/
inductive EventType
  | EVENT_FRAME
  | EVENT_WIN
  | EVENT_LOST
  | EVENT_QUIT
  | EVENT_UPDINTERFACE
  | EVENT_WRITE_SCENE_FINISHED
  | EVENT_KEY_DOWN
  | EVENT_OTHER (code : Nat)
  deriving DecidableEq, Repr

open EventType

/-- Object types told apart by the code modelled here.  The families
`OBJECT_MOBILEfa`, ... (`OBJECT_MOBILE "fa"`), `OBJECT_PLANT0`, ...
(`OBJECT_PLANT 0`), `OBJECT_TREE0`, ..., `OBJECT_QUARTZ0`, ... and
`OBJECT_ROOT0`, ... are written with the suffix as an argument; the integer
values of the enumerators (`object_type.h`) are not part of the sources, and
the members of a family are taken to be consecutive, so that a range test such
as `type >= OBJECT_PLANT0 && type <= OBJECT_PLANT19` selects the members 0 to
19 of the family. -/
inductive ObjectType
  | OBJECT_TOTO
  | OBJECT_HUMAN
  | OBJECT_CONTROLLER
  | OBJECT_OTHER (code : Nat)
  | OBJECT_FIX
  | OBJECT_BASE
  | OBJECT_DERRICK
  | OBJECT_FACTORY
  | OBJECT_REPAIR
  | OBJECT_DESTROYER
  | OBJECT_STATION
  | OBJECT_CONVERT
  | OBJECT_TOWER
  | OBJECT_RESEARCH
  | OBJECT_RADAR
  | OBJECT_INFO
  | OBJECT_ENERGY
  | OBJECT_LABO
  | OBJECT_NUCLEAR
  | OBJECT_PARA
  | OBJECT_SAFE
  | OBJECT_HUSTON
  | OBJECT_APOLLO2
  | OBJECT_MOTHER
  | OBJECT_ANT
  | OBJECT_SPIDER
  | OBJECT_BEE
  | OBJECT_WORM
  | OBJECT_TECH
  | OBJECT_MOBILE (kind : String)
  | OBJECT_PLANT (n : Nat)
  | OBJECT_TREE (n : Nat)
  | OBJECT_QUARTZ (n : Nat)
  | OBJECT_ROOT (n : Nat)
  deriving DecidableEq, Repr

open ObjectType

/-- What the orchestrator reads from a `CObject` of the registry. -/
structure CObject where
  /-- Stable object id. -/
  id : Nat
  /-- `GetType()`. -/
  type : ObjectType
  /-- `GetTeam()`. -/
  team : Int
  /-- `IsObjectBeingTransported(obj)`. -/
  transported : Bool
  /-- `Implements(ObjectInterfaceType::Interactive)`. -/
  interactive : Bool
  deriving DecidableEq, Repr

/-- The fields of `CSceneEndCondition` read by `robotmain.cpp`, with the
parameters of the condition reduced to a `tag` that the evaluator
`GetMissionResult` (outside `robotmain.cpp`) interprets. -/
structure CSceneEndCondition where
  /-- `winTeam`: owning team, 0 for a global condition. -/
  winTeam : Int
  /-- `lost`: negative for a winning condition. -/
  lost : Int
  /-- `immediat`. -/
  immediat : Bool
  /-- Stands for the condition's predicate parameters. -/
  tag : Nat
  deriving DecidableEq, Repr

/-- The pause types told apart by the code modelled here
(`m_pause->GetPause()`). -/
inductive PauseType
  | PAUSE_NONE
  | PAUSE_USER
  | PAUSE_CODE_BATTLE_LOCK
  | PAUSE_OTHER (code : Nat)
  deriving DecidableEq, Repr

open PauseType

/-- The target of an `EventProcess(event)` call made by the per-frame
driver. -/
inductive Update
  | object (id : Nat)
  | pyro
  | camera
  deriving DecidableEq, Repr

/-- What the orchestrator reads from an `Event`. -/
structure Event where
  /-- `type`. -/
  type : EventType
  /-- `rTime`: relative time since the last frame. -/
  rTime : ℚ
  deriving DecidableEq, Repr

/-- A call recorded by the display text (`m_displayText`). -/
inductive Msg
  | error (e : Error)
  | teamLost (team : Int)
  | teamWon (team : Int)
  | missionTime
  deriving DecidableEq, Repr

/-- The members of `CRobotMain` (and of its collaborators) that the modelled
methods read or write. -/
structure CRobotMain where
  m_phase : Phase
  /-- Ghost: a world (terrain and objects) has been built by `CreateScene` and
  not torn down since. -/
  worldExists : Bool
  /-- The registry `m_objMan->GetAllObjects()`, in registry order. -/
  objects : List CObject
  m_winDelay : ℚ
  m_lostDelay : ℚ
  m_movieLock : Bool
  m_satComLock : Bool
  m_editLock : Bool
  m_editFull : Bool
  m_freePhoto : Bool
  m_resetCreate : Bool
  m_beginSatCom : Bool
  m_missionTimerEnabled : Bool
  m_missionTimerStarted : Bool
  m_missionTimer : ℚ
  m_endingWinRank : Int
  m_endingLostRank : Int
  m_winTerminate : Bool
  m_endTake : List CSceneEndCondition
  m_endTakeResearch : Int
  m_endTakeWinDelay : ℚ
  m_endTakeLostDelay : ℚ
  /-- The table `m_researchDone` (team, done mask): a `std::map<int, int>`, as
  an association list in key order. -/
  m_researchDone : List (Int × Int)
  m_missionResult : Error
  /-- `m_controller != nullptr`. -/
  m_controller : Bool
  m_exitAfterMission : Bool
  /-- `m_base != nullptr && m_base->GetSelectable()`. -/
  baseSelectable : Bool
  /-- `m_displayText` enable flag (`SetEnable`). -/
  displayEnabled : Bool
  /-- Messages shown by `m_displayText`, oldest first. -/
  messages : List Msg
  /-- Events added to `m_eventQueue`, oldest first. -/
  events : List EventType
  /-- Information dialogs started (`StartInformation`), oldest first. -/
  dialogs : List String
  /-- `m_pause->GetPause()`. -/
  pause : PauseType
  m_time : ℚ
  m_gameTime : ℚ
  m_immediatSatCom : Bool
  /-- `GetMissionType() == MISSION_CODE_BATTLE`. -/
  codeBattle : Bool
  m_codeBattleInit : Bool
  m_codeBattleStarted : Bool
  /-- Ghost: the `EventProcess(event)` calls made by the per-frame driver on
  objects, the pyrotechnic manager and the camera, oldest first. -/
  updates : List Update
  /-- Ghost: number of times the per-frame driver `EventFrame` has run. -/
  frames : Nat
  deriving DecidableEq, Repr

/-! ## Phase state machine -/

/-- Outcome of a call that may raise `std::runtime_error`: the exception that
escaped (if any) and the state left behind. -/
abbrev Outcome := Option String × CRobotMain

/-- Sequencing of calls: an exception that escaped the first call skips the
second; `none` (the call did not return within the fuel) is propagated. -/
def Outcome.andThen (r : Option Outcome) (k : CRobotMain → Option Outcome) : Option Outcome :=
  match r with
  | none => none
  | some (some e, s) => some (some e, s)
  | some (none, s) => k s

/-- `CRobotMain::DeleteAllObjects` (robotmain.cpp:1861): empties the registry;
the world built by the last scene construction is gone. -/
def DeleteAllObjects (s : CRobotMain) : CRobotMain :=
  { s with objects := [], worldExists := false }

/-- The level file of a scene, reduced to what its interpretation by
`CreateScene` (with `resetObject = false`) leaves in the modelled members when
it runs to the end: for a member that `CreateScene` resets before it reads the
file, the value that the commands of the file leave in it (the reset value
when no command assigns it). -/
structure LevelFile where
  /-- The objects that the `CreateObject` and `LevelController` commands
  create, or that are read from the saved game. -/
  objects : List CObject
  /-- `m_immediatSatCom` (`Instructions immediat=`, robotmain.cpp:3017-3019);
  reset to `false`. -/
  m_immediatSatCom : Bool
  /-- The value that the file assigns last to `m_beginSatCom`, if it assigns
  one (`Instructions lock=`, robotmain.cpp:3018; the load of a saved game with a
  selected object, robotmain.cpp:4022). -/
  m_beginSatCom : Option Bool
  /-- The file has a `BeginObject` command, which calls `SetMovieLock(false)`
  (robotmain.cpp:3477). -/
  BeginObject : Bool
  /-- `m_missionTimerEnabled` (`MissionTimer`, robotmain.cpp:3060-3068); reset
  to `false`. -/
  m_missionTimerEnabled : Bool
  /-- `m_missionTimerStarted`; reset to `false`. -/
  m_missionTimerStarted : Bool
  /-- `m_endingWinRank` (`EndingFile win=`, robotmain.cpp:3049); reset to 0. -/
  m_endingWinRank : Int
  /-- `m_endingLostRank` (`EndingFile lost=`, robotmain.cpp:3050); reset to 0. -/
  m_endingLostRank : Int
  /-- `m_endTake` (`EndMissionTake`, robotmain.cpp:3872-3878); reset to empty. -/
  m_endTake : List CSceneEndCondition
  /-- `m_endTakeResearch` (`EndMissionResearch`, robotmain.cpp:3885-3889);
  reset to 0. -/
  m_endTakeResearch : Int
  /-- `m_endTakeWinDelay` (`EndMissionDelay win=`, robotmain.cpp:3879-3884);
  reset to 2. -/
  m_endTakeWinDelay : ℚ
  /-- `m_endTakeLostDelay` (`EndMissionDelay lost=`); reset to 2. -/
  m_endTakeLostDelay : ℚ
  /-- `m_researchDone` (`DoneResearch`, robotmain.cpp:3925-3929; the unlocks
  of a free game, robotmain.cpp:3964-3967); reset to the single entry
  `(0, 0)`. -/
  m_researchDone : List (Int × Int)
  /-- `m_controller != nullptr` (`LevelController`, robotmain.cpp:3492-3509);
  reset to `nullptr`. -/
  m_controller : Bool
  /-- `m_base != nullptr && m_base->GetSelectable()` (`CreateObject` of the
  space ship, robotmain.cpp:3592); `m_base` is reset to `nullptr`. -/
  baseSelectable : Bool
  /-- `m_missionType == MISSION_CODE_BATTLE` (`Level type=`,
  robotmain.cpp:3275); reset to `MISSION_NORMAL`. -/
  codeBattle : Bool
  /-- The events that the load adds to the queue (`EVENT_QUIT` in scene test
  mode, robotmain.cpp:4032-4033). -/
  events : List EventType
  deriving DecidableEq, Repr

/-- `CRobotMain::CreateScene` (robotmain.cpp:2865) with `resetObject = false`,
reduced to what the phase machine and the per-frame driver observe.  `level`
is the outcome of interpreting the level file of the scene to build: what the
file leaves in the modelled members, or the message of the
`std::runtime_error` that the interpretation raises.  The members are reset
before any command is read (robotmain.cpp:2867-2961); terrain and objects are
created as the file is read, so the ghost flag is set whether or not the
interpretation completes.  When it raises, the exception leaves `CreateScene`
at once (robotmain.cpp:4025-4029) and what the commands read so far have
assigned is not modelled: the members are left as reset. -/
def CreateScene (level : Except String LevelFile) (s : CRobotMain) : Outcome :=
  let s := { s with baseSelectable := false, m_researchDone := [(0, 0)],
                    displayEnabled := true, m_immediatSatCom := false,
                    m_endingWinRank := 0, m_endingLostRank := 0, m_endTake := [],
                    m_endTakeResearch := 0, m_endTakeWinDelay := 2, m_endTakeLostDelay := 2,
                    m_controller := false, codeBattle := false, m_codeBattleInit := false,
                    m_codeBattleStarted := false, m_missionResult := ERR_MISSION_NOTERM,
                    m_missionTimerEnabled := false, m_missionTimerStarted := false,
                    m_missionTimer := 0 }
  match level with
  | .ok file =>
    (none,
      { s with worldExists := true, objects := s.objects ++ file.objects,
               m_immediatSatCom := file.m_immediatSatCom,
               m_beginSatCom := file.m_beginSatCom.getD s.m_beginSatCom,
               m_movieLock := if file.BeginObject then false else s.m_movieLock,
               m_missionTimerEnabled := file.m_missionTimerEnabled,
               m_missionTimerStarted := file.m_missionTimerStarted,
               m_endingWinRank := file.m_endingWinRank,
               m_endingLostRank := file.m_endingLostRank,
               m_endTake := file.m_endTake,
               m_endTakeResearch := file.m_endTakeResearch,
               m_endTakeWinDelay := file.m_endTakeWinDelay,
               m_endTakeLostDelay := file.m_endTakeLostDelay,
               m_researchDone := file.m_researchDone,
               m_controller := file.m_controller,
               baseSelectable := file.baseSelectable,
               codeBattle := file.codeBattle,
               m_time := 0, m_gameTime := 0,
               events := s.events ++ file.events })
  | .error e => (some e, { s with worldExists := true })

/-- `CRobotMain::LevelLoadingError` (robotmain.cpp:4039); `changePhase` is the
call back into `ChangePhase`. -/
def LevelLoadingError (changePhase : Phase → CRobotMain → Option Outcome)
    (error : String) (exception : String) (exitPhase : Phase) (s : CRobotMain) :
    Option Outcome :=
  Outcome.andThen (changePhase exitPhase s) fun s =>
    some (none, { s with dialogs := s.dialogs ++ [error ++ ": " ++ exception] })

/-- `m_displayText->DisplayError` / `DisplayText`: the message is shown unless
the display text has been disabled with `SetEnable(false)` ("to prevent
messages", robotmain.cpp:5605). -/
def display (m : Msg) (s : CRobotMain) : CRobotMain :=
  if s.displayEnabled then { s with messages := s.messages ++ [m] } else s

/-- `m_eventQueue->AddEvent`. -/
def AddEvent (e : EventType) (s : CRobotMain) : CRobotMain :=
  { s with events := s.events ++ [e] }

/-- The part of `ChangePhase` executed before `m_phase = phase` when the world
is reset (robotmain.cpp:400-426). -/
def ChangePhase.teardown (s : CRobotMain) : CRobotMain :=
  let s := { s with m_missionTimerEnabled := false, m_missionTimerStarted := false,
                    m_missionTimer := 0 }
  DeleteAllObjects s

/-- `CRobotMain::ChangePause` (robotmain.cpp:5912): `SetPause(pause)`, or
`ClearPause()` for `PAUSE_NONE`; muting, shortcuts and highlight touch no
modelled member. -/
def ChangePause (pause : PauseType) (s : CRobotMain) : CRobotMain :=
  { s with pause := pause }

/-- The part of `ChangePhase` executed after `m_phase = phase` when the world
is reset (robotmain.cpp:430-473); the engine, terrain and camera resets touch
no modelled member. -/
def ChangePhase.flush (s : CRobotMain) : CRobotMain :=
  let s := { s with m_winDelay := 0, m_lostDelay := 0, m_beginSatCom := false,
                    m_movieLock := false, m_satComLock := false, m_editLock := false,
                    m_freePhoto := false, m_resetCreate := false }
  ChangePause PAUSE_NONE s

/-- The `if (m_phase == PHASE_SIMUL)` block of `ChangePhase`
(robotmain.cpp:516-547). -/
def ChangePhase.enterSimul (changePhase : Phase → CRobotMain → Option Outcome)
    (level : Except String LevelFile) (s : CRobotMain) : Option Outcome :=
  if s.m_phase == PHASE_SIMUL then
    match CreateScene level s with
    | (none, s) => some (none, s)
    | (some e, s) =>
      LevelLoadingError changePhase "An error occured while trying to load a level" e
        PHASE_LEVEL_LIST s
  else some (none, s)

/-- The `if (m_phase == PHASE_WIN)` block of `ChangePhase`
(robotmain.cpp:549-591). -/
def ChangePhase.enterWin (changePhase : Phase → CRobotMain → Option Outcome)
    (level : Except String LevelFile) (s : CRobotMain) : Option Outcome :=
  if s.m_phase == PHASE_WIN then
    if s.m_endingWinRank == -1 then changePhase PHASE_LEVEL_LIST s
    else
      let s := { s with m_winTerminate := (s.m_endingWinRank == 904) }
      match CreateScene level s with
      | (none, s) => some (none, if s.m_winTerminate then s else display (Msg.error INFO_WIN) s)
      | (some e, s) =>
        LevelLoadingError changePhase "An error occured while trying to load win scene" e
          PHASE_LEVEL_LIST s
  else some (none, s)

/-- The `if (m_phase == PHASE_LOST)` block of `ChangePhase`
(robotmain.cpp:593-621). -/
def ChangePhase.enterLost (changePhase : Phase → CRobotMain → Option Outcome)
    (level : Except String LevelFile) (s : CRobotMain) : Option Outcome :=
  if s.m_phase == PHASE_LOST then
    if s.m_endingLostRank == -1 then changePhase PHASE_LEVEL_LIST s
    else
      let s := { s with m_winTerminate := false }
      match CreateScene level s with
      | (none, s) => some (none, display (Msg.error INFO_LOST) s)
      | (some e, s) =>
        LevelLoadingError changePhase "An error occured while trying to load lost scene" e
          PHASE_LEVEL_LIST s
  else some (none, s)

/-- `CRobotMain::ScenePerso` (robotmain.cpp:2830): the scene of the appearance
screen; `changePhase` is the call back into `ChangePhase`.  What follows the
`try` block touches the engine and the astronaut's motion only. -/
def ScenePerso (changePhase : Phase → CRobotMain → Option Outcome)
    (level : Except String LevelFile) (s : CRobotMain) : Option Outcome :=
  match CreateScene level (DeleteAllObjects s) with
  | (none, s) => some (none, s)
  | (some e, s) =>
    LevelLoadingError changePhase "An error occured while trying to load apperance scene" e
      PHASE_PLAYER_SELECT s

/-- Modelled from the spec: `m_ui->ChangePhase(m_phase)` (robotmain.cpp:499),
which rebuilds the interface of the new phase (§4.3, step 5) and whose class is
not in the sources.  A world exists in the appearance phase (§3), and
`ScenePerso`, the public method of `CRobotMain` that loads "the scene for the
character", has no caller in `robotmain.cpp`: the screen of
`PHASE_APPERANCE` calls it when it is built.  The other screens touch no
modelled member. -/
def ChangePhase.ui (changePhase : Phase → CRobotMain → Option Outcome)
    (level : Except String LevelFile) (s : CRobotMain) : Option Outcome :=
  if s.m_phase == PHASE_APPERANCE then ScenePerso changePhase level s else some (none, s)

/-- `CRobotMain::ChangePhase` (robotmain.cpp:391).  The first argument bounds
the depth of the recursive calls (`ChangePhase(PHASE_LEVEL_LIST)`, directly and
through `LevelLoadingError`, and `ChangePhase(PHASE_PLAYER_SELECT)` through
`ScenePerso`).  `level` is the outcome of interpreting the level file that the
scene construction started by this call reads. -/
def ChangePhase (level : Except String LevelFile) :
    Nat → Phase → CRobotMain → Option Outcome
  | 0, _, _ => none
  | fuel + 1, phase, s =>
    let resetWorld :=
      (IsPhaseWithWorld s.m_phase || IsPhaseWithWorld phase)
        && !IsInSimulationConfigPhase s.m_phase && !IsInSimulationConfigPhase phase
    let s := if resetWorld then ChangePhase.teardown s else s
    let s := { s with m_phase := phase }
    let s := if resetWorld then ChangePhase.flush s else s
    Outcome.andThen (ChangePhase.ui (ChangePhase level fuel) level s) fun s =>
      if !resetWorld then some (none, s)
      else
        Outcome.andThen
          (Outcome.andThen (ChangePhase.enterSimul (ChangePhase level fuel) level s)
            (ChangePhase.enterWin (ChangePhase level fuel) level))
          (ChangePhase.enterLost (ChangePhase level fuel) level)

/-- The state left by the constructor of `CRobotMain` (robotmain.cpp:120-270);
members the constructor leaves unset (the countdowns, the end-condition
delays) carry the values `CreateScene` and `ChangePhase` reset them to. -/
def CRobotMain.initial : CRobotMain :=
  { m_phase := PHASE_PLAYER_SELECT, worldExists := false, objects := [],
    m_winDelay := 0, m_lostDelay := 0, m_movieLock := false, m_satComLock := false,
    m_editLock := false, m_editFull := false, m_freePhoto := false, m_resetCreate := false,
    m_beginSatCom := false, m_missionTimerEnabled := false, m_missionTimerStarted := false,
    m_missionTimer := 0, m_endingWinRank := 0, m_endingLostRank := 0, m_winTerminate := false,
    m_endTake := [], m_endTakeResearch := 0, m_endTakeWinDelay := 2, m_endTakeLostDelay := 2,
    m_researchDone := [(0, 0)], m_missionResult := ERR_MISSION_NOTERM, m_controller := false,
    m_exitAfterMission := false, baseSelectable := false, displayEnabled := true,
    messages := [], events := [], dialogs := [], pause := PAUSE_NONE, m_time := 0,
    m_gameTime := 0, m_immediatSatCom := false, codeBattle := false,
    m_codeBattleInit := false, m_codeBattleStarted := false, updates := [], frames := 0 }

/-- A level file without commands: nothing is created and every member keeps
the value it is reset to. -/
def LevelFile.empty : LevelFile :=
  { objects := [], m_immediatSatCom := false, m_beginSatCom := none, BeginObject := false,
    m_missionTimerEnabled := false, m_missionTimerStarted := false, m_endingWinRank := 0,
    m_endingLostRank := 0, m_endTake := [], m_endTakeResearch := 0, m_endTakeWinDelay := 2,
    m_endTakeLostDelay := 2, m_researchDone := [(0, 0)], m_controller := false,
    baseSelectable := false, codeBattle := false, events := [] }

/-- Path condition under which `ChangePhase(next)` reaches a `CreateScene`
call: the world is reset (the phase left is not an in-simulation setup
screen) and the phase entered is `PHASE_SIMUL`, or `PHASE_WIN` / `PHASE_LOST`
with an ending scene configured (rank other than -1). -/
def ChangePhase.reachesCreateScene (s : CRobotMain) (next : Phase) : Bool :=
  !IsInSimulationConfigPhase s.m_phase &&
    (next == PHASE_SIMUL
      || (next == PHASE_WIN && s.m_endingWinRank != -1)
      || (next == PHASE_LOST && s.m_endingLostRank != -1))

/-! ## End-of-mission evaluation -/

/-- The loop of `CheckEndMissionForGroup` (robotmain.cpp:5527-5545) from a
given position, with the current values of `finalResult` and
`hasWinningConditions`; `GetMissionResult` gives `endTake->GetMissionResult()`. -/
def CheckEndMissionForGroup.loop (GetMissionResult : CSceneEndCondition → Error) :
    List CSceneEndCondition → Error → Bool → Error × Bool
  | [], finalResult, hasWinningConditions => (finalResult, hasWinningConditions)
  | endTake :: rest, finalResult, hasWinningConditions =>
    let result := GetMissionResult endTake
    let hasWinningConditions := if endTake.lost < 0 then true else hasWinningConditions
    if result = ERR_OK && endTake.immediat then (result, true)
    else if result ≠ ERR_OK then (result, hasWinningConditions)
    else CheckEndMissionForGroup.loop GetMissionResult rest finalResult hasWinningConditions

/-- `CRobotMain::CheckEndMissionForGroup` (robotmain.cpp:5523). -/
def CheckEndMissionForGroup (GetMissionResult : CSceneEndCondition → Error)
    (endTakes : List CSceneEndCondition) : Error :=
  let r := CheckEndMissionForGroup.loop GetMissionResult endTakes ERR_OK false
  if r.1 = ERR_OK && !r.2 then ERR_MISSION_NOTERM else r.1

/-- `teams[endTake->winTeam].push_back(endTake)` on the
`std::map<int, std::vector<CSceneEndCondition*>>` of `CheckEndMission`, kept
as an association list in key order. -/
def teamsPush (endTake : CSceneEndCondition) :
    List (Int × List CSceneEndCondition) → List (Int × List CSceneEndCondition)
  | [] => [(endTake.winTeam, [endTake])]
  | (team, group) :: rest =>
    if endTake.winTeam < team then (endTake.winTeam, [endTake]) :: (team, group) :: rest
    else if endTake.winTeam = team then (team, group ++ [endTake]) :: rest
    else (team, group) :: teamsPush endTake rest

/-- "Sort end conditions by teams" (robotmain.cpp:5558-5564). -/
def sortByTeams (endTake : List CSceneEndCondition) : List (Int × List CSceneEndCondition) :=
  endTake.foldl (fun teams e => teamsPush e teams) []

/-- `teams[team]` read on the map of `CheckEndMission`: the group, empty when
the team has no entry. -/
def teamsAt (teams : List (Int × List CSceneEndCondition)) (team : Int) :
    List CSceneEndCondition :=
  match teams.find? (fun g => g.1 == team) with
  | some g => g.2
  | none => []

/-- `m[team]` on a `std::map<int, int>`: the value stored, a zero entry being
inserted (in key order) when the team has none. -/
def mapIndex (team : Int) : List (Int × Int) → Int × List (Int × Int)
  | [] => (0, [(team, 0)])
  | (k, v) :: rest =>
    if team < k then (0, (team, 0) :: (k, v) :: rest)
    else if team = k then (v, (k, v) :: rest)
    else ((mapIndex team rest).1, (k, v) :: (mapIndex team rest).2)

/-- Modelled from the spec: `CObjectManager::TeamExists`, which is not part of
`robotmain.cpp`: "a team with zero living members (no registry entries
matching its id) is considered defeated". -/
def TeamExists (team : Int) (objects : List CObject) : Bool :=
  objects.any (fun o => o.team == team)

/-- Modelled from the spec: `CObjectManager::DestroyTeam`, which is not part of
`robotmain.cpp`: "a team whose group evaluates to lost has all its objects
destroyed". -/
def DestroyTeam (team : Int) (objects : List CObject) : List CObject :=
  objects.filter (fun o => o.team != team)

/-- `m_displayText->SetEnable`. -/
def SetEnable (enable : Bool) (s : CRobotMain) : CRobotMain :=
  { s with displayEnabled := enable }

/-- The messages and state changes of a win announced for the first time
(robotmain.cpp:5616-5623 and 5696-5703), after the win message itself. -/
def CheckEndMission.armWin (s : CRobotMain) : CRobotMain :=
  let s := if s.m_missionTimerEnabled && s.m_missionTimerStarted
    then display Msg.missionTime s else s
  { s with m_missionTimerEnabled := false, m_missionTimerStarted := false,
           m_winDelay := s.m_endTakeWinDelay, m_lostDelay := 0 }

/-- A team whose group evaluates to a lose result (robotmain.cpp:5602-5607):
its loss is announced and its objects are destroyed, the display text being
disabled meanwhile "to prevent bot destroyed messages". -/
def CheckEndMission.teamLost (team : Int) (s : CRobotMain) : CRobotMain :=
  let s := display (Msg.teamLost team) s
  let s := SetEnable false s
  let s := { s with objects := DestroyTeam team s.objects }
  SetEnable true s

/-- A team whose group evaluates to `ERR_OK` (robotmain.cpp:5611-5628): the win
is announced unless a win countdown is running, and `m_missionResult` is set;
the caller then returns `ERR_OK`. -/
def CheckEndMission.teamWon (team : Int) (s : CRobotMain) : CRobotMain :=
  let s := if s.m_winDelay = 0 then
      let s := display (Msg.teamWon team) s
      let s := CheckEndMission.armWin s
      let s := if s.m_exitAfterMission then AddEvent EVENT_QUIT s else s
      SetEnable false s
    else s
  { s with m_missionResult := ERR_OK }

/-- The per-team loop of `CheckEndMission` (robotmain.cpp:5593-5631) from a
given position.  The Boolean tells whether the loop left the function with
`return ERR_OK`.  `GetMissionResult` evaluates a condition against the
registry as it stands when the condition is reached. -/
def CheckEndMission.teamLoop (GetMissionResult : CSceneEndCondition → List CObject → Error) :
    List (Int × List CSceneEndCondition) → CRobotMain → Bool × CRobotMain
  | [], s => (false, s)
  | (team, group) :: rest, s =>
    if team = 0 then CheckEndMission.teamLoop GetMissionResult rest s
    else if !TeamExists team s.objects then CheckEndMission.teamLoop GetMissionResult rest s
    else if CheckEndMissionForGroup (fun e => GetMissionResult e s.objects) group = INFO_LOST
        ∨ CheckEndMissionForGroup (fun e => GetMissionResult e s.objects) group = INFO_LOSTq then
      CheckEndMission.teamLoop GetMissionResult rest (CheckEndMission.teamLost team s)
    else if CheckEndMissionForGroup (fun e => GetMissionResult e s.objects) group = ERR_OK then
      (true, CheckEndMission.teamWon team s)
    else CheckEndMission.teamLoop GetMissionResult rest s

/-- The evaluation of the end-conditions, sorted by teams
(robotmain.cpp:5557-5633).  The Boolean tells whether the function returned
`ERR_OK` from inside the per-team loop. -/
def CheckEndMission.groups (GetMissionResult : CSceneEndCondition → List CObject → Error)
    (s : CRobotMain) : Bool × CRobotMain :=
  let teams := sortByTeams s.m_endTake
  let teamCount := (teams.filter fun g => g.1 != 0 && TeamExists g.1 s.objects).length
  let usesTeamConditions := teams.any fun g => g.1 != 0
  if !usesTeamConditions then
    let result := CheckEndMissionForGroup (fun e => GetMissionResult e s.objects) (teamsAt teams 0)
    (false, { s with m_missionResult := result })
  else
    let s := { s with m_missionResult := ERR_MISSION_NOTERM }
    if teamCount = 0 then (false, { s with m_missionResult := INFO_LOST })
    else CheckEndMission.teamLoop GetMissionResult teams s

/-- The required-research override (robotmain.cpp:5635-5644); reading
`m_researchDone[0]` goes through `operator[]` of the map. -/
def CheckEndMission.researchGate (s : CRobotMain) : CRobotMain :=
  if s.m_missionResult ≠ INFO_LOST ∧ s.m_missionResult ≠ INFO_LOSTq then
    if s.m_endTakeResearch ≠ 0 then
      if s.m_endTakeResearch ≠ Int.land s.m_endTakeResearch (mapIndex 0 s.m_researchDone).1 then
        { s with m_researchDone := (mapIndex 0 s.m_researchDone).2,
                 m_missionResult := ERR_MISSION_NOTERM }
      else { s with m_researchDone := (mapIndex 0 s.m_researchDone).2 }
    else s
  else s

/-- The first half of `CheckEndMission` (robotmain.cpp:5555-5645): computes
`m_missionResult` from the end-conditions unless a mission controller is in
charge.  The Boolean tells whether the function returned `ERR_OK` from inside
the per-team loop. -/
def CheckEndMission.evaluate (GetMissionResult : CSceneEndCondition → List CObject → Error)
    (s : CRobotMain) : Bool × CRobotMain :=
  if s.m_controller then (false, s)
  else
    let r := CheckEndMission.groups GetMissionResult s
    if r.1 then r else (false, CheckEndMission.researchGate r.2)

/-- The action taken on `INFO_LOSTq` (robotmain.cpp:5651-5659): "lost
immediately". -/
def CheckEndMission.lostNow (s : CRobotMain) : CRobotMain :=
  let s := if s.m_lostDelay = 0 then { s with m_lostDelay := 1 / 10, m_winDelay := 0 } else s
  let s := { s with m_missionTimerEnabled := false, m_missionTimerStarted := false }
  let s := SetEnable false s
  if s.m_exitAfterMission then AddEvent EVENT_QUIT s else s

/-- The action taken on `INFO_LOST` (robotmain.cpp:5665-5674). -/
def CheckEndMission.lost (s : CRobotMain) : CRobotMain :=
  let s := if s.m_lostDelay = 0 then
      let s := display (Msg.error INFO_LOST) s
      { s with m_lostDelay := s.m_endTakeLostDelay, m_winDelay := 0 }
    else s
  let s := { s with m_missionTimerEnabled := false, m_missionTimerStarted := false }
  let s := SetEnable false s
  if s.m_exitAfterMission then AddEvent EVENT_QUIT s else s

/-- The action taken on `ERR_OK` when the win delay is -1
(robotmain.cpp:5682-5687): "wins in one second". -/
def CheckEndMission.wonNow (s : CRobotMain) : CRobotMain :=
  let s := { s with m_winDelay := 1, m_lostDelay := 0,
                    m_missionTimerEnabled := false, m_missionTimerStarted := false }
  let s := SetEnable false s
  if s.m_exitAfterMission then AddEvent EVENT_QUIT s else s

/-- The action taken on `ERR_OK` otherwise (robotmain.cpp:5693-5707). -/
def CheckEndMission.won (s : CRobotMain) : CRobotMain :=
  let s := if s.m_winDelay = 0 then CheckEndMission.armWin (display (Msg.error INFO_WIN) s)
    else s
  let s := if s.m_exitAfterMission then AddEvent EVENT_QUIT s else s
  SetEnable false s

/-- The second half of `CheckEndMission` (robotmain.cpp:5647-5714): "take
action depending on m_missionResult". -/
def CheckEndMission.act (frame isImmediat : Bool) (s : CRobotMain) : Error × CRobotMain :=
  if s.m_missionResult = INFO_LOSTq then (INFO_LOSTq, CheckEndMission.lostNow s)
  else if s.m_missionResult = INFO_LOST then (INFO_LOST, CheckEndMission.lost s)
  else if s.m_missionResult = ERR_OK then
    if s.m_endTakeWinDelay = -1 then (ERR_OK, CheckEndMission.wonNow s)
    else if frame && s.baseSelectable && !isImmediat then (ERR_MISSION_NOTERM, s)
    else (ERR_OK, CheckEndMission.won s)
  else (ERR_MISSION_NOTERM, SetEnable true s)

/-- `CRobotMain::CheckEndMission` (robotmain.cpp:5551).  `GetMissionResult` is
`CSceneEndCondition::GetMissionResult`, which evaluates a condition against
the object registry and lives outside `robotmain.cpp`. -/
def CheckEndMission (GetMissionResult : CSceneEndCondition → List CObject → Error)
    (frame : Bool) (s : CRobotMain) : Error × CRobotMain :=
  let isImmediat := !s.m_controller && s.m_endTake.any (fun e => e.immediat)
  let r := CheckEndMission.evaluate GetMissionResult s
  if r.1 then (ERR_OK, r.2) else CheckEndMission.act frame isImmediat r.2

/-! ## Per-frame driver -/

/-- "Advances all the robots, but not toto" (robotmain.cpp:2572-2584): the loop
from a given position, with the current value of `toto` and the `EventProcess`
calls made so far.  The minimap refresh `pm->UpdateObject` touches no modelled
member. -/
def EventFrame.advanceRobots :
    List CObject → Option CObject → List Update → Option CObject × List Update
  | [], toto, log => (toto, log)
  | obj :: rest, toto, log =>
    if obj.transported then EventFrame.advanceRobots rest toto log
    else if obj.type = OBJECT_TOTO then EventFrame.advanceRobots rest (some obj) log
    else if obj.interactive then
      EventFrame.advanceRobots rest toto (log ++ [Update.object obj.id])
    else EventFrame.advanceRobots rest toto log

/-- "Advances all objects transported by robots" (robotmain.cpp:2586-2593): the
loop from a given position, with the `EventProcess` calls made so far. -/
def EventFrame.advanceTransported : List CObject → List Update → List Update
  | [], log => log
  | obj :: rest, log =>
    if !obj.transported then EventFrame.advanceTransported rest log
    else if obj.interactive then
      EventFrame.advanceTransported rest (log ++ [Update.object obj.id])
    else EventFrame.advanceTransported rest log

/-- The object, pyrotechnic, camera and companion updates of `EventFrame`
(robotmain.cpp:2568-2616): the `EventProcess` calls made, in call order. -/
def EventFrame.advance (s : CRobotMain) : List Update :=
  let r : Option CObject × List Update :=
    if !s.m_freePhoto then
      let r := EventFrame.advanceRobots s.objects none []
      let log := EventFrame.advanceTransported s.objects r.2
      (r.1, log ++ [Update.pyro])
    else (none, [])
  let toto := r.1
  let log := r.2
  let log := if s.m_phase = PHASE_SIMUL ∧ !s.m_editFull then log ++ [Update.camera] else log
  let log := if s.m_phase = PHASE_APPERANCE ∨ s.m_phase = PHASE_WIN ∨ s.m_phase = PHASE_LOST
    then log ++ [Update.camera] else log
  match toto with
  | some obj => log ++ [Update.object obj.id]
  | none => log

/-- The win countdown of `EventFrame` (robotmain.cpp:2721-2731). -/
def EventFrame.winCountdown (rTime : ℚ) (s : CRobotMain) : CRobotMain :=
  if s.m_winDelay > 0 ∧ !s.m_editLock then
    let s := { s with m_winDelay := s.m_winDelay - rTime }
    if s.m_winDelay ≤ 0 then
      if s.m_movieLock then { s with m_winDelay := 1 }
      else AddEvent EVENT_WIN s
    else s
  else s

/-- The lose countdown of `EventFrame` (robotmain.cpp:2733-2743). -/
def EventFrame.lostCountdown (rTime : ℚ) (s : CRobotMain) : CRobotMain :=
  if s.m_lostDelay > 0 ∧ !s.m_editLock then
    let s := { s with m_lostDelay := s.m_lostDelay - rTime }
    if s.m_lostDelay ≤ 0 then
      if s.m_movieLock then { s with m_winDelay := 1 }
      else AddEvent EVENT_LOST s
    else s
  else s

/-- The win and lose countdowns of `EventFrame` (robotmain.cpp:2721-2743),
executed in `PHASE_SIMUL`. -/
def EventFrame.countdowns (rTime : ℚ) (s : CRobotMain) : CRobotMain :=
  EventFrame.lostCountdown rTime (EventFrame.winCountdown rTime s)

/-- The start of `EventFrame` (robotmain.cpp:2523-2538): the "SatCom" welcome
message and the time counters. -/
def EventFrame.clock (rTime : ℚ) (s : CRobotMain) : CRobotMain :=
  let s :=
    if !s.m_immediatSatCom && !s.m_beginSatCom && !s.m_movieLock
        && decide (s.m_gameTime > 1 / 10) && s.m_phase == PHASE_SIMUL then
      { display (Msg.error INFO_BEGINSATCOM) s with m_beginSatCom := true }
    else s
  let s := { s with m_time := s.m_time + rTime }
  let s := if !s.m_movieLock && s.pause == PAUSE_NONE
    then { s with m_gameTime := s.m_gameTime + rTime } else s
  if !s.m_movieLock && s.pause == PAUSE_NONE && s.m_missionTimerStarted
    then { s with m_missionTimer := s.m_missionTimer + rTime } else s

/-- The end-of-mission step of `EventFrame` (robotmain.cpp:2713-2744). -/
def EventFrame.endOfMission (GetMissionResult : CSceneEndCondition → List CObject → Error)
    (rTime : ℚ) (s : CRobotMain) : CRobotMain :=
  if s.m_phase = PHASE_SIMUL then
    let s := if !s.m_editLock then (CheckEndMission GetMissionResult true s).2 else s
    EventFrame.countdowns rTime s
  else s

/-- The code-battle bootstrapping of `EventFrame` (robotmain.cpp:2746-2762). -/
def EventFrame.codeBattleStep (s : CRobotMain) : CRobotMain :=
  if s.codeBattle then
    let s := if !s.m_codeBattleInit
      then { ChangePause PAUSE_CODE_BATTLE_LOCK s with m_codeBattleInit := true } else s
    if !s.m_codeBattleStarted && s.pause == PAUSE_NONE
      then AddEvent EVENT_UPDINTERFACE { s with m_codeBattleStarted := true } else s
  else s

/-- `CRobotMain::EventFrame` (robotmain.cpp:2520).  The autosave check, the
environmental subsystems, the interface indicators, the visit arrow, the
show-limit circles and `UpdateAudio` touch no modelled member.  Object updates
are recorded as calls; their effect on the objects is outside
`robotmain.cpp`. -/
def EventFrame (GetMissionResult : CSceneEndCondition → List CObject → Error)
    (event : Event) (s : CRobotMain) : Bool × CRobotMain :=
  let s := { s with frames := s.frames + 1 }
  let s := EventFrame.clock event.rTime s
  let s := { s with updates := s.updates ++ EventFrame.advance s }
  let s := EventFrame.endOfMission GetMissionResult event.rTime s
  let s := EventFrame.codeBattleStep s
  (true, s)

/-- What the handlers called by `ProcessEvent` before the per-frame driver
return for the event at hand; they live outside `robotmain.cpp`. -/
structure Handlers where
  /-- `m_ui->EventProcess(event)`. -/
  uiEventProcess : Bool
  /-- `m_movie->EventProcess(event)`. -/
  movieEventProcess : Bool
  /-- `m_movie->GetStopType() == MM_SATCOMopen`. -/
  movieStopSatComOpen : Bool
  /-- `m_displayText->EventProcess(event)`. -/
  displayTextEventProcess : Bool
  /-- `m_interface->EventProcess(event)`. -/
  interfaceEventProcess : Bool
  /-- `m_displayInfo->EventProcess(event)`, when `m_displayInfo != nullptr`. -/
  displayInfoEventProcess : Option Bool
  deriving DecidableEq, Repr

/-- `CRobotMain::ProcessEvent` (robotmain.cpp:656) up to the dispatch of frame
events; `others` stands for the rest of the function, which handles every
other event type (robotmain.cpp:689 onwards).  The results of the display
text, interface and display-info handlers are discarded by the code; of what
is done when the movie ends on an open SatCom, only the pause change touches a
modelled member. -/
def ProcessEvent (GetMissionResult : CSceneEndCondition → List CObject → Error)
    (h : Handlers) (others : Event → CRobotMain → Bool × CRobotMain)
    (event : Event) (s : CRobotMain) : Bool × CRobotMain :=
  if !h.uiEventProcess then (false, s)
  else if event.type = EVENT_FRAME then
    let s :=
      if !h.movieEventProcess then
        if h.movieStopSatComOpen then ChangePause PAUSE_NONE s else s
      else s
    EventFrame GetMissionResult event s
  else others event s

/-- The companion updated at the end of a frame: the last object of the
registry that is a Toto and is not being transported. -/
def EventFrame.companion (s : CRobotMain) : Option CObject :=
  (s.objects.filter fun o => !o.transported && o.type == OBJECT_TOTO).getLast?

/-- The camera is advanced in `PHASE_SIMUL` unless the editor is full screen,
and in the appearance, win and lost phases. -/
def EventFrame.cameraAdvances (s : CRobotMain) : Bool :=
  (s.m_phase == PHASE_SIMUL && !s.m_editFull)
    || s.m_phase == PHASE_APPERANCE || s.m_phase == PHASE_WIN || s.m_phase == PHASE_LOST

/-- The order of the updates of one frame as the specification gives it:
outside free-photo mode, the interactive objects that are not transported and
are not Toto, in registry order; the transported interactive objects, in
registry order; the pyrotechnic manager; then the camera (when it is advanced
at all); then the companion.  In free-photo mode only the camera. -/
def EventFrame.updateOrder (s : CRobotMain) : List Update :=
  (if s.m_freePhoto then []
    else
      (s.objects.filter fun o => !o.transported && o.type != OBJECT_TOTO && o.interactive).map
          (fun o => Update.object o.id)
        ++ (s.objects.filter fun o => o.transported && o.interactive).map
          (fun o => Update.object o.id)
        ++ [Update.pyro])
    ++ (if EventFrame.cameraAdvances s then [Update.camera] else [])
    ++ (if s.m_freePhoto then []
        else match EventFrame.companion s with
          | some toto => [Update.object toto.id]
          | none => [])

/-- The state with another list of end-conditions. -/
def withEndTake (endTake : List CSceneEndCondition) (s : CRobotMain) : CRobotMain :=
  { s with m_endTake := endTake }

/-- The members that decide what `CheckEndMission` evaluates and which action
it takes are the same in both states. -/
def sameMission (s t : CRobotMain) : Prop :=
  t.m_missionResult = s.m_missionResult ∧ t.m_endTakeWinDelay = s.m_endTakeWinDelay
    ∧ t.baseSelectable = s.baseSelectable ∧ t.m_researchDone = s.m_researchDone
    ∧ t.m_endTakeResearch = s.m_endTakeResearch ∧ t.m_endTake = s.m_endTake
    ∧ t.objects = s.objects ∧ t.m_controller = s.m_controller

/-- The state with `EVENT_QUIT` queued once more when `again` is set. -/
def requeueQuit (again : Bool) (s : CRobotMain) : CRobotMain :=
  if again then AddEvent EVENT_QUIT s else s

/-- The second state shows the messages of the first followed by new ones that
all satisfy `P`. -/
def messagesExtend (P : Msg → Prop) (s t : CRobotMain) : Prop :=
  ∃ new, t.messages = s.messages ++ new ∧ ∀ m ∈ new, P m

/-- The ghost members of the per-frame driver (frame counter, update log) are
the same in both states. -/
def sameFrameLog (s t : CRobotMain) : Prop :=
  t.frames = s.frames ∧ t.updates = s.updates

/-! ## Autosave rotation -/

/-- The assignment `m[key] = value` on a `std::map<int, T>`, kept as an
association list in increasing key order. -/
def mapSet {β : Type} (key : Int) (value : β) : List (Int × β) → List (Int × β)
  | [] => [(key, value)]
  | (k, v) :: rest =>
    if key < k then (key, value) :: (k, v) :: rest
    else if key = k then (key, value) :: rest
    else (k, v) :: mapSet key value rest

/-- Modelled from the spec: `CResourceManager::RemoveDirectory` (resource
manager, not part of the sources here) on the directory `autosave<dir>`: the
directory and the saved game it holds are deleted. -/
def CResourceManager.RemoveDirectory {α : Type} (dir : Int) (fs : List (Int × α)) :
    List (Int × α) :=
  fs.filter fun e => e.1 != dir

/-- Modelled from the spec: `CResourceManager::Move` (resource manager, not
part of the sources here), the renaming of directory `autosave<src>` to
`autosave<dst>`: the saved game keeps its place in the listing and is found
under the new number.  Renaming a directory to its own name changes nothing;
renaming onto another existing directory fails and leaves both in place. -/
def CResourceManager.Move {α : Type} (src dst : Int) (fs : List (Int × α)) :
    List (Int × α) :=
  if src ≠ dst ∧ fs.any (fun e => e.1 == dst) then fs
  else fs.map fun e => if e.1 = src then (dst, e.2) else e

/-- The scan of `AutosaveRotate` (robotmain.cpp:6197-6215).  The save
directory is given by its entries named `autosave<N>` with `N` an integer, as
pairs of `N` and the saved game inside (entries with another name are skipped
by the scan and touched by nothing); `autosaveDirs` maps `N` to the directory,
which is identified by its number. -/
def AutosaveRotate.scan {α : Type} (saveDirs : List (Int × α)) : List (Int × Int) :=
  saveDirs.foldl (fun autosaveDirs dir => mapSet dir.1 dir.1 autosaveDirs) []

/-- The variables of `AutosaveRotate` that its main loop updates, with the
save directory. -/
structure AutosaveRotate.State (α : Type) where
  /-- The save directory. -/
  fs : List (Int × α)
  count : Int
  rotate : Bool
  /-- The map `autosavesToKeep` from new slot number to directory. -/
  autosavesToKeep : List (Int × Int)

/-- The body of the main loop of `AutosaveRotate` for index `i`
(robotmain.cpp:6227-6241). -/
def AutosaveRotate.body {α : Type} (m_autosaveSlots : Int) (m_autosave freeOne : Bool)
    (autosaveDirs : List (Int × Int)) (new_last_id : Int) (i : Int)
    (st : AutosaveRotate.State α) : AutosaveRotate.State α :=
  match autosaveDirs.lookup i with
  | none => st
  | some dir =>
    if st.count + 1 > m_autosaveSlots - (if freeOne then 1 else 0) ∨ m_autosave = false then
      { st with count := st.count + 1, fs := CResourceManager.RemoveDirectory dir st.fs,
                rotate := true }
    else
      { st with count := st.count + 1,
                autosavesToKeep :=
                  mapSet (new_last_id - (st.count + 1) + 1) dir st.autosavesToKeep }

/-- The main loop `for (int i = last_id; i > 0; i--)` of `AutosaveRotate`
(robotmain.cpp:6225), from index `i` down to 1. -/
def AutosaveRotate.loop {α : Type} (m_autosaveSlots : Int) (m_autosave freeOne : Bool)
    (autosaveDirs : List (Int × Int)) (new_last_id : Int) :
    Nat → AutosaveRotate.State α → AutosaveRotate.State α
  | 0, st => st
  | i + 1, st =>
    AutosaveRotate.loop m_autosaveSlots m_autosave freeOne autosaveDirs new_last_id i
      (AutosaveRotate.body m_autosaveSlots m_autosave freeOne autosaveDirs new_last_id
        ((i : Int) + 1) st)

/-- The renaming loop of `AutosaveRotate` (robotmain.cpp:6247-6252), over
`autosavesToKeep` in key order. -/
def AutosaveRotate.rename {α : Type} (autosavesToKeep : List (Int × Int))
    (fs : List (Int × α)) : List (Int × α) :=
  autosavesToKeep.foldl (fun fs save => CResourceManager.Move save.2 save.1 fs) fs

/-- `CRobotMain::AutosaveRotate` (robotmain.cpp:6193): the value returned and
the save directory left behind.  `m_autosaveSlots` and `m_autosave` are the
members of that name. -/
def AutosaveRotate {α : Type} (m_autosaveSlots : Int) (m_autosave : Bool) (freeOne : Bool)
    (saveDirs : List (Int × α)) : Int × List (Int × α) :=
  let autosaveDirs := AutosaveRotate.scan saveDirs
  match autosaveDirs.getLast? with
  | none => (1, saveDirs)
  | some last =>
    let last_id := last.1
    let to_keep := m_autosaveSlots - (if freeOne then 1 else 0)
    let new_last_id := min (autosaveDirs.length : Int) to_keep
    let st := AutosaveRotate.loop m_autosaveSlots m_autosave freeOne autosaveDirs new_last_id
      last_id.toNat { fs := saveDirs, count := 0, rotate := false, autosavesToKeep := [] }
    if st.rotate then (st.count, AutosaveRotate.rename st.autosavesToKeep st.fs)
    else (st.count + 1, st.fs)


/-- Number of autosave directories of the listing whose number is higher than
`i`: the saves more recent than slot `i`. -/
def AutosaveRotate.newer {α : Type} (saveDirs : List (Int × α)) (i : Int) : Nat :=
  saveDirs.countP fun d => decide (i < d.1)

/-- The test under which the main loop of `AutosaveRotate` keeps the directory
numbered `i` (the negation of the removal test of robotmain.cpp:6230, with
`count` the number of directories numbered `i` or higher). -/
def AutosaveRotate.kept {α : Type} (m_autosaveSlots : Int) (m_autosave freeOne : Bool)
    (saveDirs : List (Int × α)) (i : Int) : Bool :=
  m_autosave &&
    decide ((AutosaveRotate.newer saveDirs i : Int) + 1
      ≤ m_autosaveSlots - (if freeOne then 1 else 0))

/-- Invariant of the main loop of `AutosaveRotate` once the indices above `j`
have been visited; `L` is `new_last_id`. -/
def AutosaveRotate.Inv {α : Type} (m_autosaveSlots : Int) (m_autosave freeOne : Bool)
    (saveDirs : List (Int × α)) (L : Int) (j : Int) (st : AutosaveRotate.State α) : Prop :=
  st.count = AutosaveRotate.newer saveDirs j
  ∧ st.fs = saveDirs.filter (fun e =>
      decide (e.1 ≤ j) || AutosaveRotate.kept m_autosaveSlots m_autosave freeOne saveDirs e.1)
  ∧ (st.rotate = true ↔ ∃ e ∈ saveDirs,
      j < e.1 ∧ AutosaveRotate.kept m_autosaveSlots m_autosave freeOne saveDirs e.1 = false)
  ∧ st.autosavesToKeep.Pairwise (fun x y => x.1 < y.1 ∧ x.2 < y.2)
  ∧ ∀ p, p ∈ st.autosavesToKeep ↔
      (p.2 ∈ saveDirs.map Prod.fst ∧ j < p.2
        ∧ AutosaveRotate.kept m_autosaveSlots m_autosave freeOne saveDirs p.2 = true
        ∧ p.1 = L - AutosaveRotate.newer saveDirs p.2)

/-- Where the renaming loop of `AutosaveRotate` leaves the entry `e` of the save
directory: under the new number that `autosavesToKeep` gives its directory, or
in place when the map does not hold it. -/
def AutosaveRotate.renamed {α : Type} (autosavesToKeep : List (Int × Int)) (e : Int × α) :
    Int × α :=
  match autosavesToKeep.find? (fun save => save.2 == e.1) with
  | some save => (save.1, e.2)
  | none => e

/-- The variables of `AutosaveRotate` when its main loop has ended
(robotmain.cpp:6243), before the renaming loop: the save directory after the
removals, `count`, `rotate` and the map `autosavesToKeep`, whose entries the
renaming loop moves in key order.  Without an autosave directory the function
has returned before the loop. -/
def AutosaveRotate.rotation {α : Type} (m_autosaveSlots : Int) (m_autosave freeOne : Bool)
    (saveDirs : List (Int × α)) : AutosaveRotate.State α :=
  match (AutosaveRotate.scan saveDirs).getLast? with
  | none => { fs := saveDirs, count := 0, rotate := false, autosavesToKeep := [] }
  | some last =>
    AutosaveRotate.loop m_autosaveSlots m_autosave freeOne (AutosaveRotate.scan saveDirs)
      (min ((AutosaveRotate.scan saveDirs).length : Int)
        (m_autosaveSlots - (if freeOne then 1 else 0)))
      last.1.toNat { fs := saveDirs, count := 0, rotate := false, autosavesToKeep := [] }

/-- Modelled from the spec: `CPlayerProfile::SaveScene(dir, info)` (player
profile, not part of the sources here) for the directory `autosave<id>`:
"trigger rotation+save".  The saved game is written into the directory, which
is created at the end of the listing when it does not exist. -/
def CPlayerProfile.SaveScene {α : Type} (id : Int) (save : α) (fs : List (Int × α)) :
    List (Int × α) :=
  if fs.any (fun e => e.1 == id) then fs.map fun e => if e.1 = id then (id, save) else e
  else fs ++ [(id, save)]

/-- `CRobotMain::Autosave` (robotmain.cpp:6258): the save directory left,
`save` being the saved game written. -/
def Autosave {α : Type} (m_autosaveSlots : Int) (m_autosave : Bool) (save : α)
    (saveDirs : List (Int × α)) : List (Int × α) :=
  CPlayerProfile.SaveScene (AutosaveRotate m_autosaveSlots m_autosave true saveDirs).1 save
    (AutosaveRotate m_autosaveSlots m_autosave true saveDirs).2

/-! ## Objects and level files -/

/-- `Math::Vector`, with rational coordinates. -/
structure Math.Vector where
  x : ℚ
  y : ℚ
  z : ℚ
  deriving DecidableEq, Repr

/-- Multiplication of a vector by a scalar (`Math::Vector::operator*`). -/
def Math.Vector.mul (v : Math.Vector) (k : ℚ) : Math.Vector :=
  { x := v.x * k, y := v.y * k, z := v.z * k }

/-- Division of a vector by a scalar (`Math::Vector::operator/`). -/
def Math.Vector.div (v : Math.Vector) (k : ℚ) : Math.Vector :=
  { x := v.x / k, y := v.y / k, z := v.z / k }

/-- The vector of the coordinates rounded by `round`: a vector computed in
`float` arithmetic, from its exact value. -/
def Math.Vector.round (v : Math.Vector) (round : ℚ → ℚ) : Math.Vector :=
  { x := round v.x, y := round v.y, z := round v.z }

/-- A `Program` of a brain (`brain.h`): the text of the script it holds, the
file the level attached it from, and its marks. -/
structure Program where
  /-- The text of the script (`program->script`). -/
  script : String
  filename : String
  readOnly : Bool
  runnable : Bool
  deriving DecidableEq, Repr

/-- The program `CBrain::AddProgram` appends: empty, writable, runnable. -/
def Program.empty : Program :=
  { script := "", filename := "", readOnly := false, runnable := true }

/-- The capability tags (`Implements(ObjectInterfaceType::...)`) that the
modelled code tests. -/
structure Capabilities where
  /-- `ObjectInterfaceType::Old`. -/
  old : Bool
  programmable : Bool
  carrier : Bool
  powered : Bool
  transportable : Bool
  deriving DecidableEq, Repr

/-- What scene construction and the save code read from and write to an object
of the registry; other objects are referred to by their id. -/
structure COldObject where
  /-- `GetID()`. -/
  id : Nat
  /-- `GetType()`. -/
  type : ObjectType
  /-- `GetPosition()`. -/
  position : Math.Vector
  /-- `GetRotation()`, in radians. -/
  rotation : Math.Vector
  /-- `GetScale()`. -/
  scale : Math.Vector
  team : Int
  trainer : Bool
  toy : Bool
  option : Int
  /-- `GetDefRank()`: rank of the object among those of the level or save
  file, -1 for none. -/
  defRank : Int
  /-- `GetSelect()`. -/
  select : Bool
  /-- `GetSelectable()`. -/
  selectable : Bool
  /-- `GetBurn()`. -/
  burn : Bool
  /-- `GetDead()`. -/
  dead : Bool
  /-- `IsExploding()`. -/
  exploding : Bool
  /-- `GetAnimateOnReset()`. -/
  animateOnReset : Bool
  caps : Capabilities
  /-- `GetCargo()`: the object carried, for a carrier. -/
  cargo : Option Nat
  /-- `GetPower()`: the power cell held, for a powered object. -/
  power : Option Nat
  /-- `GetTransporter()`: the object that carries this one. -/
  transporter : Option Nat
  /-- `brain->GetPrograms()`. -/
  programs : List Program
  /-- `brain->GetProgram()`: index of the program running, -1 for none. -/
  program : Int
  /-- `brain->GetScriptRun()`: index of the program marked to be started. -/
  scriptRun : Option Nat
  /-- The execution stack of the brain (`WriteStack` / `ReadStack`). -/
  stack : Option Nat
  deriving DecidableEq, Repr

/-- `IsObjectBeingTransported(obj)`: a transportable object with a
transporter. -/
def IsObjectBeingTransported (obj : COldObject) : Bool :=
  obj.caps.transportable && obj.transporter.isSome

/-- A value of a parameter of a level-file line (`CLevelParserParam`). -/
inductive CLevelParserParam
  | int (n : Int)
  | float (x : ℚ)
  | bool (b : Bool)
  | string (s : String)
  | point (p : Math.Vector)
  | objectType (t : ObjectType)
  | array (xs : List ℚ)
  deriving DecidableEq, Repr

/-- The name of a parameter of a level-file line: a word, followed by a number
for the numbered parameters (`script1` is the word `script` with the number
1). -/
structure ParamName where
  word : String
  number : Option Nat
  deriving DecidableEq, Repr

instance : Coe String ParamName := ⟨fun word => { word := word, number := none }⟩

/-- A line of a level file (`CLevelParserLine`): a command with named
parameters. -/
structure CLevelParserLine where
  /-- `GetCommand()`. -/
  command : String
  /-- The parameters, in the order they were added. -/
  params : List (ParamName × CLevelParserParam)
  /-- `GetLevelFilename()`. -/
  levelFilename : String
  /-- `GetLineNumber()`. -/
  lineNumber : Nat
  deriving DecidableEq, Repr

/-- Modelled from the spec: `CLevelParserLine::GetParam` (level parser, not
part of the sources here): "parameters are a name→value map with per-type
coercion and defined? query"; `none` is a parameter that is not defined. -/
def CLevelParserLine.GetParam (line : CLevelParserLine) (name : ParamName) :
    Option CLevelParserParam :=
  line.params.lookup name

/-- Modelled from the spec: `CLevelParserLine::AddParam`; a parameter that the
line already has keeps its first value. -/
def CLevelParserLine.AddParam (line : CLevelParserLine) (name : ParamName)
    (value : CLevelParserParam) : CLevelParserLine :=
  { line with params := line.params ++ [(name, value)] }

/-- Modelled from the spec: `CLevelParserParam::AsInt()`, which raises when the
parameter is not defined or is not an integer. -/
def AsInt (name : String) : Option CLevelParserParam → Except String Int
  | some (.int n) => .ok n
  | _ => .error ("Missing or malformed parameter: " ++ name)

/-- Modelled from the spec: `CLevelParserParam::AsInt(def)`, the default
standing for a parameter that is not defined. -/
def AsIntOr (name : String) (d : Int) : Option CLevelParserParam → Except String Int
  | none => .ok d
  | some (.int n) => .ok n
  | some _ => .error ("Malformed parameter: " ++ name)

/-- Modelled from the spec: `CLevelParserParam::AsFloat()`. -/
def AsFloat (name : String) : Option CLevelParserParam → Except String ℚ
  | some (.float x) => .ok x
  | some (.int n) => .ok n
  | _ => .error ("Missing or malformed parameter: " ++ name)

/-- Modelled from the spec: `CLevelParserParam::AsFloat(def)`. -/
def AsFloatOr (name : String) (d : ℚ) : Option CLevelParserParam → Except String ℚ
  | none => .ok d
  | some (.float x) => .ok x
  | some (.int n) => .ok n
  | some _ => .error ("Malformed parameter: " ++ name)

/-- Modelled from the spec: `CLevelParserParam::AsBool()`. -/
def AsBool (name : String) : Option CLevelParserParam → Except String Bool
  | some (.bool b) => .ok b
  | _ => .error ("Missing or malformed parameter: " ++ name)

/-- Modelled from the spec: `CLevelParserParam::AsBool(def)`. -/
def AsBoolOr (name : String) (d : Bool) : Option CLevelParserParam → Except String Bool
  | none => .ok d
  | some (.bool b) => .ok b
  | some _ => .error ("Malformed parameter: " ++ name)

/-- Modelled from the spec: `CLevelParserParam::AsString()`. -/
def AsString (name : String) : Option CLevelParserParam → Except String String
  | some (.string s) => .ok s
  | _ => .error ("Missing or malformed parameter: " ++ name)

/-- Modelled from the spec: `CLevelParserParam::AsPoint()`. -/
def AsPoint (name : String) : Option CLevelParserParam → Except String Math.Vector
  | some (.point p) => .ok p
  | _ => .error ("Missing or malformed parameter: " ++ name)

/-- Modelled from the spec: `CLevelParserParam::AsObjectType()`. -/
def AsObjectType (name : String) : Option CLevelParserParam → Except String ObjectType
  | some (.objectType t) => .ok t
  | _ => .error ("Missing or malformed parameter: " ++ name)

/-- One item of the stack file `cbot.run`, which is read from front to back. -/
inductive StackItem
  /-- A `long` written with `fWrite`. -/
  | long (n : Int)
  /-- The execution stack of one brain (`CBrain::WriteStack`). -/
  | stack (s : Option Nat)
  /-- The static state of the interpreter classes
  (`CBotClass::SaveStaticState`). -/
  | static (s : Nat)
  deriving DecidableEq, Repr

/-- A saved game: the files that `IOWriteScene` writes and `IOReadScene`
reads. -/
structure SaveFile where
  /-- The lines of the scene file `data.sav`. -/
  lines : List CLevelParserLine
  /-- The program files `prog%.3d%.3d.txt` beside it, by object rank and
  program index, with the script text they hold. -/
  programs : List ((Int × Nat) × String)
  /-- The stack file `cbot.run`; `none` when it cannot be opened. -/
  stack : Option (List StackItem)
  deriving DecidableEq, Repr

/-- What scene construction and the save code take from outside
`robotmain.cpp`. -/
structure Env where
  /-- `Math::PI`. -/
  PI : ℚ
  /-- `Math::RAD_TO_DEG`. -/
  RAD_TO_DEG : ℚ
  /-- The rounding of a real number to a `float`: a `float` operation of the
  save code gives its exact result, rounded. -/
  round : ℚ → ℚ
  /-- The capabilities of the object that the object factory builds for a
  type, `none` when it raises `CObjectCreateException`. -/
  factory : ObjectType → Option Capabilities
  /-- `m_engine->GetGadgetQuantity()`. -/
  gadgetQuantity : ℚ
  /-- The exception, if any, that the body of a one-time setup command raises
  while it reads its parameters and calls the engine, terrain, water, cloud,
  lightning, planet, particle, light, map or sound managers. -/
  raises : CLevelParserLine → Option String
  /-- `m_app->GetSceneTestMode()`. -/
  sceneTestMode : Bool
  /-- `CBotProgram::GetVersion()`. -/
  cbotVersion : Int
  /-- The saved game under the directory `m_sceneReadPath`. -/
  saved : SaveFile

/-- A call of `m_camera->Init(eye, lookat, delay)`. -/
structure CameraInit where
  eye : Math.Vector
  lookat : Math.Vector
  delay : ℚ
  deriving DecidableEq, Repr

/-- The members of `CRobotMain` and of its collaborators that scene
construction (`CreateScene`), selection and the save code (`IOWriteScene`,
`IOReadScene`) read or write. -/
structure Scene where
  m_sceneReadPath : String
  m_fixScene : Bool
  /-- `m_base`, by object id. -/
  m_base : Option Nat
  /-- `m_controller`, by object id. -/
  m_controller : Option Nat
  /-- `m_selectObject`, by object id. -/
  m_selectObject : Option Nat
  /-- The registry `m_objMan->GetAllObjects()`, in registry order. -/
  objects : List COldObject
  /-- The id the object manager gives to the next object created without
  one. -/
  nextId : Nat
  m_movieLock : Bool
  m_editLock : Bool
  /-- `m_movie->IsExist()`. -/
  movieExists : Bool
  m_selectInsect : Bool
  /-- `m_selectionHistory`, by object id, oldest first. -/
  m_selectionHistory : List Nat
  m_missionTimerEnabled : Bool
  m_missionTimerStarted : Bool
  m_missionTimer : ℚ
  /-- `m_teamNames`, a `std::map<int, std::string>` in key order. -/
  m_teamNames : List (Int × String)
  /-- `m_endTake`: the `EndMissionTake` lines read, in order. -/
  m_endTake : List CLevelParserLine
  m_endTakeWinDelay : ℚ
  m_endTakeLostDelay : ℚ
  m_endTakeResearch : Int
  /-- `m_audioChange`: the `AudioChange` lines read, in order. -/
  m_audioChange : List CLevelParserLine
  /-- `m_researchDone`, a `std::map<int, int>` in key order. -/
  m_researchDone : List (Int × Int)
  m_beginSatCom : Bool
  /-- The level unit factor `g_unit`. -/
  g_unit : ℚ
  /-- The one-time setup commands executed since the scene was last built
  from scratch, in order: the members they assign (`m_title`, `m_build`,
  the colours, ...) and the state they give the engine, terrain, water, cloud,
  lightning, planet, particle, light, map and sound managers are determined by
  this log.  The `Map` and `BlitzMode` lines that `IOReadScene` applies are
  logged here too. -/
  setup : List CLevelParserLine
  /-- The `m_camera->Init` calls made for `Camera` commands, oldest first. -/
  cameraInit : List CameraInit
  /-- Events added to `m_eventQueue`, oldest first. -/
  events : List EventType
  /-- The remainders of the stack file that `CBotClass::RestoreStaticState`
  was called on, oldest first. -/
  staticRestored : List (List StackItem)
  deriving DecidableEq, Repr

/-- The registry entry with id `id`
(`CObjectManager::GetObjectById`). -/
def Scene.find (s : Scene) (id : Nat) : Option COldObject :=
  s.objects.find? fun o => o.id == id

/-- The registry after `f` has been applied to the object with id `id`: a
call of a setter on that object. -/
def Scene.update (s : Scene) (id : Nat) (f : COldObject → COldObject) : Scene :=
  { s with objects := s.objects.map fun o => if o.id = id then f o else o }

/-- Modelled from the spec: `CObjectManager::CreateObject` (object manager, not
part of the sources here): "created by the Object Registry", "identified by a
stable integer ID and an enumerated Type; owns a 3D position/rotation/scale;
carries a dynamic set of capability tags".  The object is appended to the
registry with the id given, or the next free id; the factory raises
`CObjectCreateException` for a type it cannot build. -/
def CObjectManager.CreateObject (env : Env) (pos : Math.Vector) (angle : ℚ)
    (type : ObjectType) (trainer toy : Bool) (option team : Int) (id : Option Nat)
    (s : Scene) : Except String (COldObject × Scene) :=
  match env.factory type with
  | none => .error "CObjectCreateException"
  | some caps =>
    let obj : COldObject :=
      { id := id.getD s.nextId, type := type, position := pos,
        rotation := { x := 0, y := angle, z := 0 }, scale := { x := 1, y := 1, z := 1 },
        team := team, trainer := trainer, toy := toy, option := option, defRank := -1,
        select := false, selectable := true, burn := false, dead := false,
        exploding := false, animateOnReset := false, caps := caps, cargo := none,
        power := none, transporter := none, programs := [], program := -1,
        scriptRun := none, stack := none }
    .ok (obj, { s with objects := s.objects ++ [obj],
                       nextId := if id.isSome then s.nextId else s.nextId + 1 })

/-- The test of `CRobotMain::IsSelectable` on the type of the object
(robotmain.cpp:2085-2149). -/
def IsSelectable.type (m_selectInsect : Bool) (type : ObjectType) : Bool :=
  if type = OBJECT_HUMAN ∨ type = OBJECT_TOTO
      ∨ type ∈ (["fa", "ta", "wa", "ia", "fc", "tc", "wc", "ic", "fi", "ti", "wi", "ii",
          "fs", "ts", "ws", "is", "rt", "rc", "rr", "rs", "sa", "ft", "tt", "wt", "it",
          "dr"].map OBJECT_MOBILE)
      ∨ type ∈ [OBJECT_APOLLO2, OBJECT_BASE, OBJECT_DERRICK, OBJECT_FACTORY,
          OBJECT_REPAIR, OBJECT_DESTROYER, OBJECT_STATION, OBJECT_CONVERT, OBJECT_TOWER,
          OBJECT_RESEARCH, OBJECT_RADAR, OBJECT_INFO, OBJECT_ENERGY, OBJECT_LABO,
          OBJECT_NUCLEAR, OBJECT_PARA, OBJECT_SAFE, OBJECT_HUSTON] then true
  else if m_selectInsect
      ∧ type ∈ [OBJECT_MOTHER, OBJECT_ANT, OBJECT_SPIDER, OBJECT_BEE, OBJECT_WORM,
          OBJECT_MOBILE "tg"] then true
  else false

/-- `CRobotMain::IsSelectable` (robotmain.cpp:2081). -/
def IsSelectable (s : Scene) (obj : COldObject) : Bool :=
  if !obj.selectable then false
  else IsSelectable.type s.m_selectInsect obj.type

/-- `CRobotMain::DeselectAll` (robotmain.cpp:1758): the object that was
selected (the last one in registry order), and the registry with every
selected flag cleared. -/
def DeselectAll (s : Scene) : Option Nat × Scene :=
  (((s.objects.filter fun o => o.select).getLast?).map fun o => o.id,
    { s with objects := s.objects.map fun o => { o with select := false } })

/-- `CRobotMain::PushToSelectionHistory` (robotmain.cpp:6432). -/
def PushToSelectionHistory (obj : Nat) (s : Scene) : Scene :=
  if s.m_selectionHistory ≠ [] ∧ s.m_selectionHistory.getLast? = some obj then s
  else
    let s := { s with m_selectionHistory := s.m_selectionHistory ++ [obj] }
    if s.m_selectionHistory.length > 50 then
      { s with m_selectionHistory := s.m_selectionHistory.tail }
    else s

/-- `CRobotMain::SelectOneObject` (robotmain.cpp:1770): `obj->SetSelect(true)`;
the camera and the companion, which the call also informs, are not modelled
here. -/
def SelectOneObject (obj : Nat) (s : Scene) : Scene :=
  s.update obj fun o => { o with select := true }

/-- `CRobotMain::SelectObject` (robotmain.cpp:1823): whether the selection
was made, and the state left.  The camera is not in visit mode while a scene is
built (`StopDisplayVisit` is not modelled). -/
def SelectObject (obj : Option Nat) (s : Scene) : Bool × Scene :=
  if s.m_movieLock ∨ s.m_editLock then (false, s)
  else if s.movieExists then (false, s)
  else
    match obj.bind s.find with
    | none => (false, s)
    | some o =>
      if !IsSelectable s o then (false, s)
      else
        let prev := (DeselectAll s).1
        let s := (DeselectAll s).2
        let s := if prev.isSome ∧ prev ≠ some o.id then
            PushToSelectionHistory (prev.getD 0) s
          else s
        (true, SelectOneObject o.id s)

/-- Modelled from the spec: `CRobotMain::SearchHuman` (robotmain.cpp:1885),
which asks the object manager (`FindNearest`, not part of the sources here)
for the object of type `OBJECT_HUMAN`: "the default pilot object". -/
def SearchHuman (s : Scene) : Option Nat :=
  (s.objects.find? fun o => o.type == OBJECT_HUMAN).map fun o => o.id

/-! ## Save and restore -/

/-- `CBrain::GetOrAddProgram` (brain, not part of the sources here), as its
name says: the index of the program at `index`, or of a new program appended
when the brain has none there. -/
def GetOrAddProgram (index : Int) (programs : List Program) : Nat × List Program :=
  if index < 0 ∨ index ≥ programs.length then (programs.length, programs ++ [Program.empty])
  else (index.toNat, programs)

/-- The `scriptReadOnly` parameters written for the programs from index `i`
on (robotmain.cpp:5046-5052). -/
def IOWriteObject.readOnly (line : CLevelParserLine) : Nat → List Program → CLevelParserLine
  | _, [] => line
  | i, p :: rest =>
    IOWriteObject.readOnly
      (if p.readOnly then
        line.AddParam { word := "scriptReadOnly", number := some (i + 1) } (.bool true)
      else line)
      (i + 1) rest

/-- `CRobotMain::IOWriteObject` (robotmain.cpp:4984).  The quotient of the
position by the unit factor and the product of the rotation by `RAD_TO_DEG`
(robotmain.cpp:4990-4991) are `float` operations.  The positions of the parts
of the object and what `obj->Write(line)` adds (the parameters of the object's
own class, under other names) are not modelled. -/
def IOWriteObject (env : Env) (s : Scene) (line : CLevelParserLine) (obj : COldObject) :
    CLevelParserLine :=
  if obj.type = OBJECT_FIX then line
  else
    let line := line.AddParam "type" (.objectType obj.type)
    let line := line.AddParam "id" (.int obj.id)
    let line := line.AddParam "pos" (.point ((obj.position.div s.g_unit).round env.round))
    let line := line.AddParam "angle"
      (.point ((obj.rotation.mul env.RAD_TO_DEG).round env.round))
    let line := line.AddParam "zoom" (.point obj.scale)
    let line :=
      if obj.caps.old then
        (line.AddParam "trainer" (.bool obj.trainer)).AddParam "option" (.int obj.option)
      else line
    let line := if obj.select then line.AddParam "select" (.bool true) else line
    let line := if obj.type = OBJECT_BASE then line.AddParam "run" (.int 3) else line
    if obj.caps.programmable then
      let line := if obj.program ≠ -1 then line.AddParam "run" (.int (obj.program + 1)) else line
      IOWriteObject.readOnly line 0 obj.programs
    else line

/-- A new line with the given command (`MakeUnique<CLevelParserLine>`). -/
def CLevelParserLine.new (command : String) : CLevelParserLine :=
  { command := command, params := [], levelFilename := "", lineNumber := 0 }

/-- The objects that the scene loop of `IOWriteScene` saves
(robotmain.cpp:5114-5119). -/
def IOWriteScene.saved (obj : COldObject) : Bool :=
  !(obj.type == OBJECT_TOTO) && !(obj.type == OBJECT_FIX) && !IsObjectBeingTransported obj
    && !obj.burn && !obj.dead && !obj.exploding

/-- The cargo for which the scene loop of `IOWriteScene` writes a `CreateFret`
line before the line of the object (robotmain.cpp:5121-5130); `GetCargo()` is
the registry entry with the id held. -/
def IOWriteScene.cargo (s : Scene) (obj : COldObject) : Option COldObject :=
  if obj.caps.carrier then obj.cargo.bind s.find else none

/-- The power cell for which the scene loop of `IOWriteScene` writes a
`CreatePower` line before the line of the object (robotmain.cpp:5132-5141). -/
def IOWriteScene.power (s : Scene) (obj : COldObject) : Option COldObject :=
  if obj.caps.powered then obj.power.bind s.find else none

/-- The lines that the scene loop of `IOWriteScene` adds for one saved object
(robotmain.cpp:5121-5146). -/
def IOWriteScene.objectLines (env : Env) (s : Scene) (obj : COldObject) :
    List CLevelParserLine :=
  ((IOWriteScene.cargo s obj).map
      (IOWriteObject env s (CLevelParserLine.new "CreateFret"))).toList
  ++ ((IOWriteScene.power s obj).map
      (IOWriteObject env s (CLevelParserLine.new "CreatePower"))).toList
  ++ [IOWriteObject env s (CLevelParserLine.new "CreateObject") obj]

/-- `CRobotMain::SaveFileScript` (robotmain.cpp:4863) on the program files of
the save directory: files 0 to 999 of the rank are written from the programs
of the brain, or removed where it has none. -/
def SaveFileScript (obj : COldObject) (objRank : Int)
    (files : List ((Int × Nat) × String)) : List ((Int × Nat) × String) :=
  if objRank = -1 then files
  else if !obj.caps.programmable then files
  else if obj.type = OBJECT_HUMAN then files
  else
    (files.filter fun f => !(f.1.1 == objRank && decide (f.1.2 ≤ 999)))
      ++ ((obj.programs.take 1000).enum.map fun p => ((objRank, p.1), p.2.script))

/-- The scene loop of `IOWriteScene` (robotmain.cpp:5111-5149): the lines
added, the program files and the next object rank. -/
def IOWriteScene.objects (env : Env) (s : Scene) :
    List COldObject → List CLevelParserLine × List ((Int × Nat) × String) × Int →
      List CLevelParserLine × List ((Int × Nat) × String) × Int
  | [], acc => acc
  | obj :: rest, (lines, files, objRank) =>
    if IOWriteScene.saved obj then
      IOWriteScene.objects env s rest
        (lines ++ IOWriteScene.objectLines env s obj, SaveFileScript obj objRank files,
          objRank + 1)
    else IOWriteScene.objects env s rest (lines, files, objRank)

/-- `CRobotMain::SaveFileStack` (robotmain.cpp:4895): what is appended to the
stack file. -/
def SaveFileStack (obj : COldObject) (objRank : Int) : List StackItem :=
  if objRank = -1 then []
  else if !obj.caps.programmable then []
  else if obj.type = OBJECT_HUMAN then []
  else [StackItem.stack obj.stack]

/-- The objects that the stack loop of `IOWriteScene` visits
(robotmain.cpp:5172-5177). -/
def IOWriteScene.stacked (obj : COldObject) : Bool :=
  !(obj.type == OBJECT_TOTO) && !(obj.type == OBJECT_FIX) && !IsObjectBeingTransported obj
    && !obj.burn && !obj.dead

/-- The stack loop of `IOWriteScene` (robotmain.cpp:5169-5180). -/
def IOWriteScene.stacks : List COldObject → Int → List StackItem
  | [], _ => []
  | obj :: rest, objRank =>
    if IOWriteScene.stacked obj then
      SaveFileStack obj objRank ++ IOWriteScene.stacks rest (objRank + 1)
    else IOWriteScene.stacks rest objRank

/-- What `IOWriteScene` takes from its arguments and from collaborators for the
header of the scene file and the end of the stack file. -/
structure SaveInfo where
  /-- The argument `info`. -/
  info : String
  /-- `GetCurrentTimestamp()`. -/
  timestamp : Int
  /-- The parameters of the `Mission` line (level category, chapter or
  directory, rank). -/
  mission : List (ParamName × CLevelParserParam)
  /-- `m_map->GetZoomMap()`. -/
  mapZoom : ℚ
  /-- `m_lightning->GetStatus`: sleep, delay, magnetic and progress when the
  lightning is active. -/
  lightning : Option (ℚ × ℚ × ℚ × ℚ)
  /-- What `CBotClass::SaveStaticState` writes. -/
  staticState : Nat

/-- The header of the scene file (robotmain.cpp:5066-5108). -/
def IOWriteScene.header (info : SaveInfo) (s : Scene) : List CLevelParserLine :=
  [(CLevelParserLine.new "Title").AddParam "text" (.string info.info),
   ((CLevelParserLine.new "Version").AddParam "maj" (.int 0)).AddParam "min" (.int 1),
   (CLevelParserLine.new "Created").AddParam "date" (.int info.timestamp),
   { CLevelParserLine.new "Mission" with params := info.mission },
   (CLevelParserLine.new "Map").AddParam "zoom" (.float info.mapZoom),
   (CLevelParserLine.new "DoneResearch").AddParam "bits" (.int (mapIndex 0 s.m_researchDone).1)]
  ++ match info.lightning with
    | some (sleep, delay, magnetic, progress) =>
      [((((CLevelParserLine.new "BlitzMode").AddParam "sleep" (.float sleep)).AddParam "delay"
          (.float delay)).AddParam "magnetic" (.float (magnetic / s.g_unit))).AddParam
          "progress" (.float progress)]
    | none => []

/-- `CRobotMain::IOWriteScene` (robotmain.cpp:5057): the saved game written
over the program files `files` that the directory held.  Failures of the file
system are not modelled: the function returns true. -/
def IOWriteScene (env : Env) (info : SaveInfo) (files : List ((Int × Nat) × String))
    (s : Scene) : SaveFile :=
  let out := IOWriteScene.objects env s s.objects (IOWriteScene.header info s, files, 0)
  { lines := out.1, programs := out.2.1,
    stack := some ([StackItem.long 1, StackItem.long env.cbotVersion]
      ++ IOWriteScene.stacks s.objects 0 ++ [StackItem.static info.staticState]) }

/-- The loop of `IOReadObject` over the `scriptReadOnly` parameters from index
`i` on, `n` indices being left (robotmain.cpp:5277-5284). -/
def IOReadObject.readOnly (line : CLevelParserLine) :
    Nat → Nat → List Program → Except String (List Program)
  | 0, _, programs => .ok programs
  | n + 1, i, programs =>
    match AsBoolOr "scriptReadOnly" false
        (line.GetParam { word := "scriptReadOnly", number := some (i + 1) }) with
    | .error e => .error e
    | .ok true =>
      IOReadObject.readOnly line n (i + 1)
        (((GetOrAddProgram i programs).2).modify
          (fun prog => { prog with readOnly := true }) (GetOrAddProgram i programs).1)
    | .ok false => IOReadObject.readOnly line n (i + 1) programs

/-- The setters that `IOReadObject` calls on the object it has created
(robotmain.cpp:5220-5285), `programs` being the programs left by the loop over
the `scriptReadOnly` parameters.  The parts of the object, what
`obj->Read(line)` reads and the automaton are not modelled. -/
def IOReadObject.setup (objRank : Int) (pos dir zoom : Math.Vector) (run : Int)
    (obj : COldObject) : COldObject :=
  let obj :=
    if obj.caps.old then
      { obj with defRank := objRank, position := pos, rotation := dir,
                 scale := if zoom.x ≠ 0 ∨ zoom.y ≠ 0 ∨ zoom.z ≠ 0 then zoom else obj.scale }
    else obj
  if obj.caps.programmable then
    if run ≠ -1 then
      { obj with programs := (GetOrAddProgram (run - 1) obj.programs).2,
                 scriptRun := some (GetOrAddProgram (run - 1) obj.programs).1 }
    else obj
  else obj

/-- The end of `IOReadObject` for a programmable object: the programs after
the loop over the `scriptReadOnly` parameters. -/
def IOReadObject.programs (line : CLevelParserLine) (obj : COldObject) :
    Except String (List Program) :=
  if obj.caps.programmable then IOReadObject.readOnly line 1000 0 obj.programs
  else .ok obj.programs

/-- The registry entry of the object that `IOReadObject` has created and set
up, and `m_base` (robotmain.cpp:5255). -/
def IOReadObject.register (obj : COldObject) (programs : List Program) (s : Scene) :
    Nat × Scene :=
  (obj.id,
    if obj.type = OBJECT_BASE then
      { s.update obj.id fun _ => { obj with programs := programs } with m_base := some obj.id }
    else s.update obj.id fun _ => { obj with programs := programs })

/-- `CRobotMain::IOReadObject` (robotmain.cpp:5197): the id of the object
created, and the state left.  The products of the position by the unit factor
and of the angle by `PI/180`, and that quotient (robotmain.cpp:5199-5200), are
`float` operations. -/
def IOReadObject (env : Env) (line : CLevelParserLine) (objRank : Int) (s : Scene) :
    Except String (Nat × Scene) := do
  let pos ← AsPoint "pos" (line.GetParam "pos")
  let dir ← AsPoint "angle" (line.GetParam "angle")
  let zoom ← AsPoint "zoom" (line.GetParam "zoom")
  let type ← AsObjectType "type" (line.GetParam "type")
  let id ← AsInt "id" (line.GetParam "id")
  let trainer ← AsBoolOr "trainer" false (line.GetParam "trainer")
  let toy ← AsBoolOr "toy" false (line.GetParam "toy")
  let option ← AsIntOr "option" 0 (line.GetParam "option")
  let team ← AsIntOr "team" 0 (line.GetParam "team")
  let created ← CObjectManager.CreateObject env ((pos.mul s.g_unit).round env.round)
    ((dir.mul (env.round (env.PI / 180))).round env.round).y
    type trainer toy option team (some id.toNat) s
  let run ← AsIntOr "run" (-1) (line.GetParam "run")
  let programs ← IOReadObject.programs line
    (IOReadObject.setup objRank ((pos.mul s.g_unit).round env.round)
      ((dir.mul (env.round (env.PI / 180))).round env.round) zoom run created.1)
  .ok (IOReadObject.register
    (IOReadObject.setup objRank ((pos.mul s.g_unit).round env.round)
      ((dir.mul (env.round (env.PI / 180))).round env.round) zoom run created.1)
    programs created.2)

/-- The loop of `LoadFileScript` over the program files from index `i` on, `n`
indices being left (robotmain.cpp:4804-4813). -/
def LoadFileScript.loop (files : List ((Int × Nat) × String)) (objRank : Int) :
    Nat → Nat → List Program → List Program
  | 0, _, programs => programs
  | n + 1, i, programs =>
    match files.lookup (objRank, i) with
    | some text =>
      LoadFileScript.loop files objRank n (i + 1)
        (((GetOrAddProgram i programs).2).modify
          (fun prog => { prog with script := text }) (GetOrAddProgram i programs).1)
    | none => LoadFileScript.loop files objRank n (i + 1) programs

/-- `CRobotMain::LoadFileScript` (robotmain.cpp:4789). -/
def LoadFileScript (files : List ((Int × Nat) × String)) (obj : COldObject) (objRank : Int) :
    COldObject :=
  if objRank = -1 then obj
  else if !obj.caps.programmable then obj
  else if obj.type = OBJECT_HUMAN then obj
  else { obj with programs := LoadFileScript.loop files objRank 1000 0 obj.programs }

/-- `CRobotMain::ReadFileStack` (robotmain.cpp:4910) on the rest of the stack
file: whether the read succeeded, the object and the rest of the file left.
`CBrain::ReadStack` (not part of the sources here) succeeds when the file
holds a stack there. -/
def ReadFileStack (obj : COldObject) (file : List StackItem) (objRank : Int) :
    Bool × COldObject × List StackItem :=
  if objRank = -1 then (true, obj, file)
  else if !obj.caps.programmable then (true, obj, file)
  else if obj.type = OBJECT_HUMAN then (true, obj, file)
  else
    match file with
    | StackItem.stack st :: rest => (true, { obj with stack := st }, rest)
    | _ => (false, obj, file)

/-- The loop of `IOReadScene` over the registry that restores the execution
stacks (robotmain.cpp:5413-5423): the registry and the rest of the file
left. -/
def IOReadScene.stacks : List COldObject → List StackItem → Int →
    List COldObject × List StackItem
  | [], file, _ => ([], file)
  | obj :: rest, file, objRank =>
    if obj.type = OBJECT_TOTO ∨ obj.type = OBJECT_FIX ∨ IsObjectBeingTransported obj
        ∨ obj.burn ∨ obj.dead then
      ((obj :: (IOReadScene.stacks rest file objRank).1),
        (IOReadScene.stacks rest file objRank).2)
    else if (ReadFileStack obj file objRank).1 then
      (((ReadFileStack obj file objRank).2.1 ::
          (IOReadScene.stacks rest (ReadFileStack obj file objRank).2.2 (objRank + 1)).1),
        (IOReadScene.stacks rest (ReadFileStack obj file objRank).2.2 (objRank + 1)).2)
    else ((ReadFileStack obj file objRank).2.1 :: rest, (ReadFileStack obj file objRank).2.2)

/-- `fRead(&version, sizeof(long), 1, file)`: the value read and the rest of
the file; a read that finds no `long` there leaves a value that matches no
version. -/
def fReadLong : List StackItem → Option Int × List StackItem
  | StackItem.long n :: rest => (some n, rest)
  | _ :: rest => (none, rest)
  | [] => (none, [])

/-- The end of `IOReadScene` (robotmain.cpp:5402-5428): the stack file is read
when it can be opened. -/
def IOReadScene.readStackFile (env : Env) (stack : Option (List StackItem)) (s : Scene) :
    Scene :=
  match stack with
  | none => s
  | some file =>
    let version := (fReadLong file).1
    let file := (fReadLong file).2
    let r :=
      if version = some 1 then
        let version := (fReadLong file).1
        let file := (fReadLong file).2
        if version = some env.cbotVersion then IOReadScene.stacks s.objects file 0
        else (s.objects, file)
      else (s.objects, file)
    { s with objects := r.1, staticRestored := s.staticRestored ++ [r.2] }

/-- The variables of `IOReadScene` that its loop over the lines updates, with
the state. -/
structure IOReadScene.State where
  s : Scene
  cargo : Option Nat
  power : Option Nat
  sel : Option Nat
  objRank : Int
  objCounter : Nat
  deriving DecidableEq, Repr

/-- The attaching of the pending cargo to the object that a `CreateObject`
line has created (robotmain.cpp:5340-5348).  A failed `assert` is reported
like an exception; `CTaskManip::Start(TMO_AUTO, TMA_GRAB)` (not part of the
sources here) "holds the object": the cargo is carried by the object. -/
def IOReadScene.attachCargo (cargo : Option Nat) (obj : Nat) (s : Scene) :
    Except String Scene :=
  match cargo with
  | none => .ok s
  | some cargo =>
    if (s.find obj).any fun o => o.caps.carrier && o.caps.old then
      .ok ((s.update obj fun o => { o with cargo := some cargo }).update cargo
        fun c => { c with transporter := some obj })
    else .error "assert: the object is not a carrier"

/-- The attaching of the pending power cell to the object that a
`CreateObject` line has created (robotmain.cpp:5350-5356). -/
def IOReadScene.attachPower (power : Option Nat) (obj : Nat) (s : Scene) :
    Except String Scene :=
  match power with
  | none => .ok s
  | some power =>
    if ((s.find obj).any fun o => o.caps.powered)
        ∧ ((s.find power).any fun p => p.caps.transportable) then
      .ok ((s.update obj fun o => { o with power := some power }).update power
        fun p => { p with transporter := some obj })
    else .error "assert: the object is not powered"

/-- The `CreateObject` line of a scene file (robotmain.cpp:5333-5361). -/
def IOReadScene.CreateObject (env : Env) (line : CLevelParserLine) (st : IOReadScene.State) :
    Except String IOReadScene.State := do
  let r ← IOReadObject env line st.objRank st.s
  let select ← AsBoolOr "select" false (line.GetParam "select")
  let s ← IOReadScene.attachCargo st.cargo r.1 r.2
  let s ← IOReadScene.attachPower st.power r.1 s
  .ok { s := s, cargo := none, power := none, sel := if select then some r.1 else st.sel,
        objRank := st.objRank + 1, objCounter := st.objCounter + 1 }

/-- The `CreateFret` line of a scene file (robotmain.cpp:5321-5325). -/
def IOReadScene.CreateFret (env : Env) (line : CLevelParserLine) (st : IOReadScene.State) :
    Except String IOReadScene.State := do
  let r ← IOReadObject env line (-1) st.s
  .ok { st with s := r.2, cargo := some r.1, objCounter := st.objCounter + 1 }

/-- The `CreatePower` line of a scene file (robotmain.cpp:5327-5331). -/
def IOReadScene.CreatePower (env : Env) (line : CLevelParserLine) (st : IOReadScene.State) :
    Except String IOReadScene.State := do
  let r ← IOReadObject env line (-1) st.s
  .ok { st with s := r.2, power := some r.1, objCounter := st.objCounter + 1 }

/-- The `Map` line of a scene file (robotmain.cpp:5306-5307). -/
def IOReadScene.Map (line : CLevelParserLine) (st : IOReadScene.State) :
    Except String IOReadScene.State := do
  let _ ← AsFloat "zoom" (line.GetParam "zoom")
  .ok { st with s := { st.s with setup := st.s.setup ++ [line] } }

/-- The `DoneResearch` line of a scene file (robotmain.cpp:5309-5310). -/
def IOReadScene.DoneResearch (line : CLevelParserLine) (st : IOReadScene.State) :
    Except String IOReadScene.State := do
  let bits ← AsInt "bits" (line.GetParam "bits")
  .ok { st with s := { st.s with m_researchDone := mapSet 0 bits st.s.m_researchDone } }

/-- The `BlitzMode` line of a scene file (robotmain.cpp:5312-5319). -/
def IOReadScene.BlitzMode (line : CLevelParserLine) (st : IOReadScene.State) :
    Except String IOReadScene.State := do
  let _ ← AsFloat "sleep" (line.GetParam "sleep")
  let _ ← AsFloat "delay" (line.GetParam "delay")
  let _ ← AsFloat "magnetic" (line.GetParam "magnetic")
  let _ ← AsFloat "progress" (line.GetParam "progress")
  .ok { st with s := { st.s with setup := st.s.setup ++ [line] } }

/-- The body of the loop of `IOReadScene` over the lines of the scene file
(robotmain.cpp:5306-5361). -/
def IOReadScene.line (env : Env) (line : CLevelParserLine) (st : IOReadScene.State) :
    Except String IOReadScene.State :=
  if line.command = "Map" then IOReadScene.Map line st
  else if line.command = "DoneResearch" then IOReadScene.DoneResearch line st
  else if line.command = "BlitzMode" then IOReadScene.BlitzMode line st
  else if line.command = "CreateFret" then IOReadScene.CreateFret env line st
  else if line.command = "CreatePower" then IOReadScene.CreatePower env line st
  else if line.command = "CreateObject" then IOReadScene.CreateObject env line st
  else .ok st

/-- The loop of `IOReadScene` over the lines of the scene file
(robotmain.cpp:5304). -/
def IOReadScene.lines (env : Env) :
    List CLevelParserLine → IOReadScene.State → Except String IOReadScene.State
  | [], st => .ok st
  | line :: rest, st =>
    match IOReadScene.line env line st with
    | .error e => .error e
    | .ok st => IOReadScene.lines env rest st

/-- The loops of `IOReadScene` that load the program files and start the
programs marked to run (robotmain.cpp:5369-5398), on one object. -/
def IOReadScene.compile (files : List ((Int × Nat) × String)) (obj : COldObject) :
    COldObject :=
  let obj :=
    if !obj.caps.programmable then obj
    else if IsObjectBeingTransported obj then obj
    else if obj.defRank = -1 then obj
    else LoadFileScript files obj obj.defRank
  if !obj.caps.programmable then obj
  else if obj.defRank = -1 then obj
  else
    match obj.scriptRun with
    | some i => { obj with program := i }
    | none => obj

/-- `CRobotMain::IOReadScene` (robotmain.cpp:5291): the object to be selected,
and the state left. -/
def IOReadScene (env : Env) (file : SaveFile) (s : Scene) : Except String (Option Nat × Scene) :=
  match IOReadScene.lines env file.lines
      { s := { s with m_base := none }, cargo := none, power := none, sel := none,
        objRank := 0, objCounter := 0 } with
  | .error e => .error e
  | .ok st =>
    let s := { st.s with objects := st.s.objects.map (IOReadScene.compile file.programs) }
    .ok (st.sel, IOReadScene.readStackFile env file.stack s)

/-! ## Scene construction -/

/-- `CRobotMain::TestGadgetQuantity` (robotmain.cpp:4249). -/
def TestGadgetQuantity (env : Env) (rank : Int) : Bool :=
  if env.gadgetQuantity = 0 then false
  else if env.gadgetQuantity = 1 then true
  else
    (if env.gadgetQuantity ≤ 15 / 100 then [0, 1, 0, 0, 0, 0, 0, 0, 0, 0]
      else if env.gadgetQuantity ≤ 25 / 100 then [0, 1, 0, 0, 0, 1, 0, 0, 0, 0]
      else if env.gadgetQuantity ≤ 35 / 100 then [0, 1, 0, 1, 0, 1, 0, 0, 0, 0]
      else if env.gadgetQuantity ≤ 45 / 100 then [0, 1, 0, 1, 0, 1, 0, 1, 0, 0]
      else if env.gadgetQuantity ≤ 55 / 100 then [0, 1, 0, 1, 0, 1, 0, 1, 0, 1]
      else if env.gadgetQuantity ≤ 65 / 100 then [0, 1, 0, 1, 1, 1, 0, 1, 0, 1]
      else if env.gadgetQuantity ≤ 75 / 100 then [0, 1, 0, 1, 1, 1, 0, 1, 1, 1]
      else if env.gadgetQuantity ≤ 85 / 100 then [0, 1, 1, 1, 1, 1, 0, 1, 1, 1]
      else [0, 1, 1, 1, 1, 1, 1, 1, 1, 1] : List Nat).getD (rank % 10).toNat 0 != 0

/-- The decorative types for which a `CreateObject` command without `gadget`
parameter makes a gadget (robotmain.cpp:3519-3527): `OBJECT_TECH`,
`OBJECT_PLANT0` to `OBJECT_PLANT19`, `OBJECT_TREE0` to `OBJECT_TREE5`,
`OBJECT_QUARTZ0` to `OBJECT_QUARTZ3`, `OBJECT_ROOT0` to `OBJECT_ROOT4`. -/
def CRobotMain.CreateScene.decorative : ObjectType → Bool
  | OBJECT_TECH => true
  | OBJECT_PLANT n => decide (n ≤ 19)
  | OBJECT_TREE n => decide (n ≤ 5)
  | OBJECT_QUARTZ n => decide (n ≤ 3)
  | OBJECT_ROOT n => decide (n ≤ 4)
  | _ => false

/-- The local variables of `CreateScene` that its loop over the lines
updates, with the state. -/
structure CRobotMain.CreateScene.State where
  s : Scene
  rankObj : Int
  rankGadget : Int
  sel : Option Nat
  deriving DecidableEq, Repr

/-- The commands whose branch in the loop of `CreateScene` is guarded by
`!resetObject` alone and whose body only reads parameters, assigns members
that no other command reads and calls collaborators (robotmain.cpp:2989-3058,
3078-3084, 3170-3267, 3281-3472, 3730-3857, 3891-3923, 3931-3935), in the order
of the source. -/
def CRobotMain.CreateScene.oneTime : List String :=
  ["Title", "Resume", "ScriptName", "ScriptFile", "Instructions", "Satellite", "Loading",
   "HelpFile", "SoluceFile", "EndingFile", "MessageDelay", "CacheAudio", "AmbientColor",
   "FogColor", "VehicleColor", "InsectColor", "GreeneryColor", "DeepView", "FogStart",
   "SecondTexture", "Background", "Planet", "ForegroundName", "TerrainGenerate",
   "TerrainWind", "TerrainRelief", "TerrainRandomRelief", "TerrainResource", "TerrainWater",
   "TerrainLava", "TerrainCloud", "TerrainBlitz", "TerrainInitTextures", "TerrainInit",
   "TerrainMaterial", "TerrainLevel", "TerrainCreate", "CreateFog", "CreateLight",
   "CreateSpot", "GroundSpot", "WaterColor", "MapColor", "MapZoom", "MaxFlyingHeight",
   "AddFlyingHeight", "ObligatoryToken", "ProhibitedToken", "EnableBuild", "EnableResearch",
   "NewScript"]

/-- The other commands that the loop of `CreateScene` has a branch for, each
under guards of its own. -/
def CRobotMain.CreateScene.guarded : List String :=
  ["MissionTimer", "TeamName", "AudioChange", "Audio", "Level", "BeginObject",
   "LevelController", "CreateObject", "Camera", "EndMissionTake", "EndMissionDelay",
   "EndMissionResearch", "DoneResearch"]

/-- The body of a one-time setup command: it raises what its parameter
accessors and collaborators raise, or is logged as executed. -/
def CRobotMain.CreateScene.setup (env : Env) (line : CLevelParserLine) (s : Scene) :
    Except String Scene :=
  match env.raises line with
  | some e => .error e
  | none => .ok { s with setup := s.setup ++ [line] }

/-- The `MissionTimer` command (robotmain.cpp:3060-3068). -/
def CRobotMain.CreateScene.MissionTimer (line : CLevelParserLine) (s : Scene) :
    Except String Scene := do
  let enabled ← AsBool "enabled" (line.GetParam "enabled")
  let program ← AsBoolOr "program" false (line.GetParam "program")
  .ok { s with m_missionTimerEnabled := enabled,
               m_missionTimerStarted := if !program then true else s.m_missionTimerStarted }

/-- The `TeamName` command (robotmain.cpp:3070-3076). -/
def CRobotMain.CreateScene.TeamName (line : CLevelParserLine) (s : Scene) :
    Except String Scene := do
  let team ← AsInt "team" (line.GetParam "team")
  let name ← AsString "name" (line.GetParam "name")
  .ok { s with m_teamNames := mapSet team name s.m_teamNames }

/-- The `AudioChange` command (robotmain.cpp:3086-3094); `audioChange->Read`
and the caching of the music are collaborators. -/
def CRobotMain.CreateScene.AudioChange (env : Env) (line : CLevelParserLine) (s : Scene) :
    Except String Scene :=
  match env.raises line with
  | some e => .error e
  | none => .ok { s with m_audioChange := s.m_audioChange ++ [line] }

/-- The `Audio` command (robotmain.cpp:3096-3168): the tracks it assigns and
caches are determined by the line, which is logged. -/
def CRobotMain.CreateScene.Audio (env : Env) (line : CLevelParserLine) (s : Scene) :
    Except String Scene :=
  if (line.GetParam "track").isSome ∧ (line.GetParam "filename").isSome then
    .error "You can't use track and filename at the same time"
  else CRobotMain.CreateScene.setup env line s

/-- The `Level` command (robotmain.cpp:3269-3279): the unit factor; the other
members it assigns are determined by the line, which is logged. -/
def CRobotMain.CreateScene.Level (env : Env) (line : CLevelParserLine) (s : Scene) :
    Except String Scene := do
  let unitScale ← AsFloatOr "unitScale" 4 (line.GetParam "unitScale")
  CRobotMain.CreateScene.setup env line { s with g_unit := unitScale }

/-- The `BeginObject` command (robotmain.cpp:3474-3490); `InitEye` touches
the camera only. -/
def CRobotMain.CreateScene.BeginObject (env : Env) (st : CRobotMain.CreateScene.State) :
    Except String CRobotMain.CreateScene.State :=
  let s := { st.s with m_movieLock := false }
  if s.m_sceneReadPath ≠ "" then
    match IOReadScene env env.saved s with
    | .error e => .error e
    | .ok r => .ok { st with s := r.2, sel := r.1 }
  else .ok { st with s := s }

/-- The program that the `LevelController` command gives the controller
(robotmain.cpp:3497-3507). -/
def CRobotMain.CreateScene.LevelController.script (line : CLevelParserLine)
    (obj : COldObject) : Except String COldObject :=
  if obj.caps.programmable then
    match line.GetParam "script" with
    | some script =>
      (AsString "script" (some script)).map fun path =>
        { obj with programs := obj.programs ++
                     [{ script := "", filename := "../" ++ path, readOnly := true,
                        runnable := true }],
                   scriptRun := some obj.programs.length }
    | none => .ok obj
  else .ok obj

/-- The `LevelController` command (robotmain.cpp:3492-3509). -/
def CRobotMain.CreateScene.LevelController (env : Env) (line : CLevelParserLine) (s : Scene) :
    Except String Scene := do
  let created ← CObjectManager.CreateObject env { x := 0, y := 0, z := 0 } 0 OBJECT_CONTROLLER
    false false 0 0 none s
  let obj ← CRobotMain.CreateScene.LevelController.script line created.1
  .ok ({ created.2 with m_controller := some obj.id }.update obj.id fun _ => obj)

/-- The loop of the `CreateObject` command over the parameters `script1`,
`script2`, ... (robotmain.cpp:3671-3688), from index `i` on: the programs
added, with the index they were read at. -/
def CRobotMain.CreateScene.scripts (line : CLevelParserLine) :
    Nat → Nat → Bool → Except String (List (Nat × Program))
  | 0, _, _ => .ok []
  | fuel + 1, i, allFilled =>
    if i < 10 ∨ allFilled then
      match line.GetParam { word := "script", number := some (i + 1) } with
      | some script => do
        let path ← AsString "script" (some script)
        let readOnly ← AsBoolOr "scriptReadOnly" true
          (line.GetParam { word := "scriptReadOnly", number := some (i + 1) })
        let runnable ← AsBoolOr "scriptRunnable" true
          (line.GetParam { word := "scriptRunnable", number := some (i + 1) })
        let rest ← CRobotMain.CreateScene.scripts line fuel (i + 1) allFilled
        .ok ((i, { script := "", filename := "../" ++ path, readOnly := readOnly,
                   runnable := runnable }) :: rest)
      | none => CRobotMain.CreateScene.scripts line fuel (i + 1) false
    else .ok []

/-- The programs that the `CreateObject` command gives the brain of the
object it has created (robotmain.cpp:3664-3696). -/
def CRobotMain.CreateScene.brain (line : CLevelParserLine) (obj : COldObject) :
    Except String COldObject :=
  if obj.caps.programmable then do
    let loaded ← CRobotMain.CreateScene.scripts line (line.params.length + 11) 0 true
    let run ← AsIntOr "run" 0 (line.GetParam "run")
    .ok { obj with
      programs := obj.programs ++ loaded.map Prod.snd,
      scriptRun := (if run ≠ 0 then
          (if run - 1 < 0 then none
            else ((loaded.map Prod.fst).indexOf? (run - 1).toNat).map fun k =>
              obj.programs.length + k)
        else obj.scriptRun) }
  else .ok obj

/-- The setters that the `CreateObject` command calls on the object it has
created, when the object implements the old interface
(robotmain.cpp:3585-3724).  The camera, the pyrotechnic effect, the command
line, the automaton and the other properties of the object set from the line
are not modelled. -/
def CRobotMain.CreateScene.configure (line : CLevelParserLine) (rankObj : Int)
    (obj : COldObject) : Except String COldObject := do
  let selectable ← AsBoolOr "selectable" true (line.GetParam "selectable")
  let obj ← CRobotMain.CreateScene.brain line
    { obj with defRank := rankObj, selectable := selectable }
  let reset ← AsBoolOr "reset" false (line.GetParam "reset")
  .ok (if reset then { obj with animateOnReset := true } else obj)

/-- The value of the variable `gadget` of the `CreateObject` command
(robotmain.cpp:3515-3531). -/
def CRobotMain.CreateScene.gadget (line : CLevelParserLine) (type : ObjectType) :
    Except String Int := do
  let gadget ← AsIntOr "gadget" (-1) (line.GetParam "gadget")
  .ok (if gadget = -1 then (if CRobotMain.CreateScene.decorative type then 1 else 0)
    else gadget)

/-- The `CreateObject` command once the object has been created and implements
the old interface (robotmain.cpp:3585-3727). -/
def CRobotMain.CreateScene.register (line : CLevelParserLine) (type : ObjectType)
    (st : CRobotMain.CreateScene.State) (created : COldObject × Scene) :
    Except String CRobotMain.CreateScene.State := do
  let select ← AsBoolOr "select" false (line.GetParam "select")
  let obj ← CRobotMain.CreateScene.configure line st.rankObj created.1
  .ok { st with
    s := (if type = OBJECT_BASE then
        { created.2.update obj.id fun _ => obj with m_base := some obj.id }
      else created.2.update obj.id fun _ => obj),
    sel := if select then some obj.id else st.sel,
    rankObj := st.rankObj + 1 }

/-- The `CreateObject` command from the outcome of the creation on
(robotmain.cpp:3564-3727): the exception of a gadget is dropped with the
command, that of another object propagates. -/
def CRobotMain.CreateScene.created (line : CLevelParserLine) (type : ObjectType)
    (gadget : Int) (st : CRobotMain.CreateScene.State)
    (r : Except String (COldObject × Scene)) : Except String CRobotMain.CreateScene.State :=
  match r with
  | .error e => if gadget ≠ 0 then .ok st else .error e
  | .ok created =>
    if created.1.caps.old then CRobotMain.CreateScene.register line type st created
    else .ok { st with s := created.2, rankObj := st.rankObj + 1 }

/-- The `CreateObject` command from the reading of the position on
(robotmain.cpp:3538-3727). -/
def CRobotMain.CreateScene.place (env : Env) (line : CLevelParserLine) (type : ObjectType)
    (gadget : Int) (st : CRobotMain.CreateScene.State) :
    Except String CRobotMain.CreateScene.State := do
  let pos ← AsPoint "pos" (line.GetParam "pos")
  let dir ← AsFloatOr "dir" 0 (line.GetParam "dir")
  let trainer ← AsBoolOr "trainer" false (line.GetParam "trainer")
  let toy ← AsBoolOr "toy" false (line.GetParam "toy")
  let option ← AsIntOr "option" 0 (line.GetParam "option")
  let team ← AsIntOr "team" 0 (line.GetParam "team")
  CRobotMain.CreateScene.created line type gadget st
    (CObjectManager.CreateObject env (pos.mul st.s.g_unit) (dir * env.PI) type trainer toy
      option team none st.s)

/-- The `CreateObject` command (robotmain.cpp:3511-3728). -/
def CRobotMain.CreateScene.CreateObject (env : Env) (line : CLevelParserLine)
    (st : CRobotMain.CreateScene.State) : Except String CRobotMain.CreateScene.State := do
  let type ← AsObjectType "type" (line.GetParam "type")
  let gadget ← CRobotMain.CreateScene.gadget line type
  if gadget ≠ 0 ∧ TestGadgetQuantity env st.rankGadget = false then
    .ok { st with rankGadget := st.rankGadget + 1 }
  else
    CRobotMain.CreateScene.place env line type gadget
      (if gadget ≠ 0 then { st with rankGadget := st.rankGadget + 1 } else st)

/-- Modelled from the spec: `CLevelParserParam::AsPoint(def)`. -/
def AsPointOr (name : String) (d : Math.Vector) :
    Option CLevelParserParam → Except String Math.Vector
  | none => .ok d
  | some (.point p) => .ok p
  | some _ => .error ("Malformed parameter: " ++ name)

/-- The `Camera` command (robotmain.cpp:3859-3870); the fade and the fixed
direction touch the camera only. -/
def CRobotMain.CreateScene.Camera (resetObject : Bool) (line : CLevelParserLine) (s : Scene) :
    Except String Scene := do
  let eye ← AsPointOr "eye" { x := 0, y := 0, z := 0 } (line.GetParam "eye")
  let lookat ← AsPointOr "lookat" { x := 0, y := 0, z := 0 } (line.GetParam "lookat")
  let delay ← (if resetObject then .ok 0 else AsFloatOr "delay" 0 (line.GetParam "delay"))
  .ok { s with cameraInit := s.cameraInit ++
                 [{ eye := eye.mul s.g_unit, lookat := lookat.mul s.g_unit, delay := delay }] }

/-- The `EndMissionTake` command (robotmain.cpp:3872-3878); `endTake->Read`
is a collaborator. -/
def CRobotMain.CreateScene.EndMissionTake (env : Env) (line : CLevelParserLine) (s : Scene) :
    Except String Scene :=
  match env.raises line with
  | some e => .error e
  | none => .ok { s with m_endTake := s.m_endTake ++ [line] }

/-- The `EndMissionDelay` command (robotmain.cpp:3879-3884). -/
def CRobotMain.CreateScene.EndMissionDelay (line : CLevelParserLine) (s : Scene) :
    Except String Scene := do
  let win ← AsFloatOr "win" 2 (line.GetParam "win")
  let lost ← AsFloatOr "lost" 2 (line.GetParam "lost")
  .ok { s with m_endTakeWinDelay := win, m_endTakeLostDelay := lost }

/-- The `EndMissionResearch` command (robotmain.cpp:3885-3889); the research
flag is given by its integer value. -/
def CRobotMain.CreateScene.EndMissionResearch (line : CLevelParserLine) (s : Scene) :
    Except String Scene := do
  let flag ← AsInt "type" (line.GetParam "type")
  .ok { s with m_endTakeResearch := Int.lor s.m_endTakeResearch flag }

/-- The `DoneResearch` command (robotmain.cpp:3925-3929). -/
def CRobotMain.CreateScene.DoneResearch (line : CLevelParserLine) (s : Scene) :
    Except String Scene := do
  let flag ← AsInt "type" (line.GetParam "type")
  .ok { s with
    m_researchDone := mapSet 0 (Int.lor (mapIndex 0 s.m_researchDone).1 flag) s.m_researchDone }

/-- The exception of robotmain.cpp:3940. -/
def CRobotMain.CreateScene.unknown (line : CLevelParserLine) : String :=
  "Unknown command: '" ++ line.command ++ "' in " ++ line.levelFilename ++ ":"
    ++ toString line.lineNumber

/-- Lifts a command that only touches the state to the variables of the
loop. -/
def CRobotMain.CreateScene.State.lift (st : CRobotMain.CreateScene.State)
    (r : Except String Scene) : Except String CRobotMain.CreateScene.State :=
  match r with
  | .error e => .error e
  | .ok s => .ok { st with s := s }

/-- The body of the loop of `CreateScene` over the lines of the level file
(robotmain.cpp:2987-3941).  The branches are tried in the order of the source;
those of the commands of `oneTime`, which have the same guard and are told
apart by the command name only, are tried together. -/
def CRobotMain.CreateScene.command (env : Env) (resetObject : Bool)
    (line : CLevelParserLine) (st : CRobotMain.CreateScene.State) :
    Except String CRobotMain.CreateScene.State :=
  if line.command ∈ CRobotMain.CreateScene.oneTime ∧ resetObject = false then
    st.lift (CRobotMain.CreateScene.setup env line st.s)
  else if line.command = "MissionTimer" then
    st.lift (CRobotMain.CreateScene.MissionTimer line st.s)
  else if line.command = "TeamName" then
    st.lift (CRobotMain.CreateScene.TeamName line st.s)
  else if line.command = "AudioChange" ∧ resetObject = false ∧ st.s.m_controller = none then
    st.lift (CRobotMain.CreateScene.AudioChange env line st.s)
  else if line.command = "Audio" ∧ resetObject = false ∧ st.s.m_controller = none then
    st.lift (CRobotMain.CreateScene.Audio env line st.s)
  else if line.command = "Level" ∧ resetObject = false then
    st.lift (CRobotMain.CreateScene.Level env line st.s)
  else if line.command = "BeginObject" then
    CRobotMain.CreateScene.BeginObject env st
  else if line.command = "LevelController" ∧ st.s.m_sceneReadPath = "" then
    st.lift (CRobotMain.CreateScene.LevelController env line st.s)
  else if line.command = "CreateObject" ∧ st.s.m_sceneReadPath = "" then
    CRobotMain.CreateScene.CreateObject env line st
  else if line.command = "Camera" then
    st.lift (CRobotMain.CreateScene.Camera resetObject line st.s)
  else if line.command = "EndMissionTake" ∧ resetObject = false
      ∧ st.s.m_controller = none then
    st.lift (CRobotMain.CreateScene.EndMissionTake env line st.s)
  else if line.command = "EndMissionDelay" ∧ resetObject = false
      ∧ st.s.m_controller = none then
    st.lift (CRobotMain.CreateScene.EndMissionDelay line st.s)
  else if line.command = "EndMissionResearch" ∧ resetObject = false
      ∧ st.s.m_controller = none then
    st.lift (CRobotMain.CreateScene.EndMissionResearch line st.s)
  else if line.command = "DoneResearch" ∧ st.s.m_sceneReadPath = ""
      ∧ resetObject = false then
    st.lift (CRobotMain.CreateScene.DoneResearch line st.s)
  else if st.s.m_sceneReadPath ≠ "" then .ok st
  else if resetObject then .ok st
  else .error (CRobotMain.CreateScene.unknown line)

/-- The loop of `CreateScene` over the lines of the level file
(robotmain.cpp:2987). -/
def CRobotMain.CreateScene.lines (env : Env) (resetObject : Bool) :
    List CLevelParserLine → CRobotMain.CreateScene.State →
      Except String CRobotMain.CreateScene.State
  | [], st => .ok st
  | line :: rest, st =>
    match CRobotMain.CreateScene.command env resetObject line st with
    | .error e => .error e
    | .ok st => CRobotMain.CreateScene.lines env resetObject rest st

/-- The part of `CreateScene` before the level file is read
(robotmain.cpp:2867-2961). -/
def CRobotMain.CreateScene.begin (fixScene resetObject : Bool) (s : Scene) : Scene :=
  let s := { s with m_fixScene := fixScene, m_base := none }
  let s :=
    if !resetObject then
      { s with m_researchDone := [(0, 0)], m_audioChange := [], m_endTake := [],
               m_endTakeResearch := 0, m_endTakeWinDelay := 2, m_endTakeLostDelay := 2,
               m_controller := none, m_teamNames := [], setup := [] }
    else s
  { s with m_missionTimerEnabled := false, m_missionTimerStarted := false,
           m_missionTimer := 0 }

/-- The part of `CreateScene` after the level file has been read
(robotmain.cpp:3943-4036).  `CompileScript`, which reads the program files
into the brains and starts the programs marked to run, creates and selects no
object and is not modelled.  The background, the unlocks of the player profile
(which in a free game replace `m_researchDone[0]` and `m_build`), the map, the
clocks and the camera are not modelled either: none of them reaches the
registry or the selection. -/
def CRobotMain.CreateScene.finish (env : Env) (st : CRobotMain.CreateScene.State) : Scene :=
  let s := { st.s with m_selectObject := st.sel }
  let s :=
    if s.m_base = none ∧ s.m_fixScene = false then
      match (if st.sel = none then SearchHuman s else st.sel) with
      | some obj => (SelectObject (some obj) s).2
      | none => s
    else s
  let s :=
    if s.m_sceneReadPath ≠ "" ∧ st.sel ≠ none then
      { (SelectObject st.sel s).2 with m_beginSatCom := true }
    else s
  let s := { s with m_sceneReadPath := "" }
  if env.sceneTestMode then { s with events := s.events ++ [EVENT_QUIT] } else s

/-- `CRobotMain::CreateScene` (robotmain.cpp:2865), `lines` being the lines of
the level file that `levelParser.Load()` has read: the exception that escapes,
or the state left.  The argument `soluce` only reaches `CompileScript` and the
solution name of a brain, which are not modelled. -/
def CRobotMain.CreateScene (env : Env) (fixScene resetObject : Bool)
    (lines : List CLevelParserLine) (s : Scene) : Except String Scene :=
  match CRobotMain.CreateScene.lines env resetObject lines
      { s := CRobotMain.CreateScene.begin fixScene resetObject s, rankObj := 0,
        rankGadget := 0, sel := none } with
  | .error e => .error e
  | .ok st => .ok (CRobotMain.CreateScene.finish env st)

/-! ## Saved games read back -/

/-- The objects that `IOWriteScene` passes to `IOWriteObject`, in the order of
their lines in the scene file (robotmain.cpp:5111-5146). -/
def IOWriteScene.written (s : Scene) : List COldObject :=
  (s.objects.filter IOWriteScene.saved).flatMap fun obj =>
    (IOWriteScene.cargo s obj).toList ++ (IOWriteScene.power s obj).toList ++ [obj]

/-- The object with the position and the rotation that `IOReadObject` computes
from what `IOWriteObject` writes: the position divided by the unit factor and
multiplied by it again, the rotation turned to degrees and back, in `float`
arithmetic. -/
def IOReadScene.placed (env : Env) (s : Scene) (obj : COldObject) : COldObject :=
  { obj with
    position := (((obj.position.div s.g_unit).round env.round).mul s.g_unit).round env.round,
    rotation := (((obj.rotation.mul env.RAD_TO_DEG).round env.round).mul
      (env.round (env.PI / 180))).round env.round }

/-- What the lines written for one saved object describe: the cargo and the
power cell, without rank and carried by the object, and the object with its
rank, holding them. -/
def IOReadScene.group (env : Env) (s : Scene) (obj : COldObject) (objRank : Int) :
    List COldObject :=
  ((IOWriteScene.cargo s obj).map fun c =>
      { IOReadScene.placed env s c with defRank := -1, cargo := none, power := none,
                                        transporter := some obj.id }).toList
  ++ ((IOWriteScene.power s obj).map fun p =>
      { IOReadScene.placed env s p with defRank := -1, cargo := none, power := none,
                                        transporter := some obj.id }).toList
  ++ [{ IOReadScene.placed env s obj with
          defRank := objRank, cargo := (IOWriteScene.cargo s obj).map fun c => c.id,
          power := (IOWriteScene.power s obj).map fun p => p.id, transporter := none }]

/-- What the scene file written for the objects `objs` of the scene `s`
describes, the next object rank being `objRank`. -/
def IOReadScene.described (env : Env) (s : Scene) : List COldObject → Int → List COldObject
  | [], _ => []
  | obj :: rest, objRank =>
    if IOWriteScene.saved obj then
      IOReadScene.group env s obj objRank ++ IOReadScene.described env s rest (objRank + 1)
    else IOReadScene.described env s rest objRank

/-- An object `r` of the registry renders the described object `e`: same id,
type, capabilities, position, rotation, rank and links, and no more programs
than `e` when `e` has a rank and does not run a program it does not have. -/
def IOReadScene.Renders (r e : COldObject) : Prop :=
  r.id = e.id ∧ r.type = e.type ∧ r.caps = e.caps ∧ r.position = e.position
    ∧ r.rotation = e.rotation ∧ r.defRank = e.defRank ∧ r.cargo = e.cargo
    ∧ r.power = e.power ∧ r.transporter = e.transporter
    ∧ (e.defRank ≠ -1 → ((e.type = OBJECT_BASE ∨ e.program ≠ -1) → e.programs ≠ []) →
        r.programs.length ≤ e.programs.length)

/-- An object `r` of the registry restores the described object `e`: same id,
type, capabilities, position, rotation, rank and links, and the same script
texts when `e` has a rank and a brain, is not the astronaut, has at most 1000
programs and does not run a program it does not have. -/
def IOReadScene.Restores (r e : COldObject) : Prop :=
  r.id = e.id ∧ r.type = e.type ∧ r.caps = e.caps ∧ r.position = e.position
    ∧ r.rotation = e.rotation ∧ r.defRank = e.defRank ∧ r.cargo = e.cargo
    ∧ r.power = e.power ∧ r.transporter = e.transporter
    ∧ (e.defRank ≠ -1 → e.caps.programmable = true → e.type ≠ OBJECT_HUMAN →
        ((e.type = OBJECT_BASE ∨ e.program ≠ -1) → e.programs ≠ []) →
        e.programs.length ≤ 1000 →
        r.programs.map (fun p => p.script) = e.programs.map fun p => p.script)

/-! ## Selection history and deselection -/

/-- `CRobotMain::PopFromSelectionHistory` (robotmain.cpp:6443): the object
returned, `none` for `nullptr`, and the state left. -/
def PopFromSelectionHistory (s : Scene) : Option Nat × Scene :=
  if s.m_selectionHistory = [] then (none, s)
  else
    (s.m_selectionHistory.getLast?,
      { s with m_selectionHistory := s.m_selectionHistory.dropLast })

/-- `CRobotMain::RemoveFromSelectionHistory` (robotmain.cpp:6453):
`std::remove_if` with `erase` drops the entries equal to `object` and keeps
the others in order. -/
def RemoveFromSelectionHistory (object : Nat) (s : Scene) : Scene :=
  { s with m_selectionHistory := s.m_selectionHistory.filter fun obj => !(obj == object) }

/-- A call of one of the three operations on the selection history. -/
inductive SelectionHistoryOp
  | push (obj : Nat)
  | pop
  | remove (obj : Nat)
  deriving DecidableEq, Repr

/-- The state after the call `op`. -/
def SelectionHistoryOp.apply (op : SelectionHistoryOp) (s : Scene) : Scene :=
  match op with
  | .push obj => PushToSelectionHistory obj s
  | .pop => (PopFromSelectionHistory s).2
  | .remove obj => RemoveFromSelectionHistory obj s

/-- The state after the calls `ops`, made in order. -/
def SelectionHistoryOp.run (ops : List SelectionHistoryOp) (s : Scene) : Scene :=
  ops.foldl (fun s op => op.apply s) s

/-- The camera types (`Gfx::CameraType`, camera.h, not part of the sources
here) that the modelled code names; the others are told apart by a number. -/
inductive Gfx.CameraType
  | CAM_TYPE_FREE
  | CAM_TYPE_BACK
  | CAM_TYPE_VISIT
  | CAM_TYPE_EXPLO
  | CAM_TYPE_OTHER (n : Nat)
  deriving DecidableEq, Repr

/-- What selection sets on the camera `m_camera`. -/
structure Gfx.CCamera where
  /-- `SetType` / `GetType`. -/
  type : Gfx.CameraType
  /-- `SetControllingObject`, by object id. -/
  controllingObject : Option Nat
  deriving DecidableEq, Repr

/-- The types for which `SelectOneObject` gives the camera the type that the
object asks for (robotmain.cpp:1776-1803). -/
def SelectOneObject.ownCamera (type : ObjectType) : Bool :=
  decide (type = OBJECT_HUMAN
    ∨ type ∈ (["fa", "ta", "wa", "ia", "fc", "tc", "wc", "ic", "fi", "ti", "wi", "ii",
        "fs", "ts", "ws", "is", "rt", "rc", "rr", "rs", "sa", "ft", "tt", "wt", "it",
        "dr"].map OBJECT_MOBILE)
    ∨ type = OBJECT_APOLLO2)

/-- What `CRobotMain::SelectOneObject` (robotmain.cpp:1770) does to the
camera for the object with id `obj`, of type `type`; `GetCameraType` is
`obj->GetCameraType()` by object id.  The camera distance and the companion
are not modelled. -/
def SelectOneObject.camera (GetCameraType : Nat → Gfx.CameraType) (obj : Nat)
    (type : ObjectType) (camera : Gfx.CCamera) : Gfx.CCamera :=
  { camera with
    controllingObject := some obj,
    type := if SelectOneObject.ownCamera type then GetCameraType obj
            else Gfx.CameraType.CAM_TYPE_BACK }

/-- `CRobotMain::DeselectObject` (robotmain.cpp:1843): the value returned, the
camera and the state left.  An object of the history is looked up in the
registry by its id; `m_short->UpdateShortcuts()` is not modelled. -/
def DeselectObject (GetCameraType : Nat → Gfx.CameraType) (camera : Gfx.CCamera)
    (s : Scene) : Bool × Gfx.CCamera × Scene :=
  let s := (DeselectAll s).2
  let popped := (PopFromSelectionHistory s).1
  let s := (PopFromSelectionHistory s).2
  let obj := if popped = none then SearchHuman s else popped
  match obj with
  | some obj =>
    (true,
      match s.find obj with
      | some o => SelectOneObject.camera GetCameraType obj o.type camera
      | none => camera,
      SelectOneObject obj s)
  | none => (true, { camera with type := Gfx.CameraType.CAM_TYPE_FREE }, s)

/-! ## Terrain levels -/

/-- The array accesses of the `TerrainLevel` command: the indices of the reads
`idArray[i]` and the indices of the writes `id[i] = ...` into the local buffer
`int id[50]`, each in the order made. -/
structure TerrainLevel.Access where
  reads : List Nat
  writes : List Nat
  deriving DecidableEq, Repr

/-- The loop `while (i < 50)` of the `TerrainLevel` command
(robotmain.cpp:3448-3453) for an id array of `size` entries, from index `i`
on, `fuel` bounding the iterations: the index left and the accesses made. -/
def TerrainLevel.loop (size : Nat) :
    Nat → Nat → TerrainLevel.Access → Nat × TerrainLevel.Access
  | 0, i, acc => (i, acc)
  | fuel + 1, i, acc =>
    if i < 50 then
      if i + 1 ≥ size then (i + 1, { reads := acc.reads ++ [i], writes := acc.writes ++ [i] })
      else
        TerrainLevel.loop size fuel (i + 1)
          { reads := acc.reads ++ [i], writes := acc.writes ++ [i] }
    else (i, acc)

/-- The part of the `TerrainLevel` command of `CreateScene` that fills the
buffer `id` (robotmain.cpp:3439-3455), for the size of the parameter `id`
(`none` when it is not defined): the exception raised, or the accesses made,
the last write being `id[i] = 0`.  The loop ends within 50 iterations. -/
def TerrainLevel (idArray : Option Nat) : Except String TerrainLevel.Access :=
  match idArray with
  | none => .ok { reads := [], writes := [] }
  | some size =>
    if size > 50 then .error "In TerrainLevel: id array size must be < 50"
    else
      .ok { reads := (TerrainLevel.loop size 50 0 { reads := [], writes := [] }).2.reads,
            writes := (TerrainLevel.loop size 50 0 { reads := [], writes := [] }).2.writes
              ++ [(TerrainLevel.loop size 50 0 { reads := [], writes := [] }).1] }

/-! ## Research done -/

/-- `CRobotMain::GetDoneResearch` (robotmain.cpp:6321): the value returned and
the table `m_researchDone` left by `m_researchDone[team]`. -/
def GetDoneResearch (team : Int) (m_researchDone : List (Int × Int)) :
    Int × List (Int × Int) :=
  mapIndex team m_researchDone

/-- `CRobotMain::SetDoneResearch` (robotmain.cpp:6326). -/
def SetDoneResearch (doneResearch team : Int) (m_researchDone : List (Int × Int)) :
    List (Int × Int) :=
  mapSet team doneResearch m_researchDone

/-- The block `// Initialize with defaults` of `IsResearchDone` and
`MarkResearchDone` (robotmain.cpp:6364-6368, 6375-6379): a team other than 0
that has no entry (`m_researchDone.count(team) == 0`) is given the value of
`m_researchDone[0]`. -/
def IsResearchDone.init (team : Int) (m_researchDone : List (Int × Int)) :
    List (Int × Int) :=
  if team ≠ 0 ∧ m_researchDone.lookup team = none then
    mapSet team (mapIndex 0 m_researchDone).1 (mapIndex 0 m_researchDone).2
  else m_researchDone

/-- `CRobotMain::IsResearchDone` (robotmain.cpp:6362), the research type being
given by its flag: the value returned and the table left. -/
def IsResearchDone (type team : Int) (m_researchDone : List (Int × Int)) :
    Bool × List (Int × Int) :=
  (decide (Int.land (mapIndex team (IsResearchDone.init team m_researchDone)).1 type ≠ 0),
    (mapIndex team (IsResearchDone.init team m_researchDone)).2)

/-- `CRobotMain::MarkResearchDone` (robotmain.cpp:6373): the table left, and
the research unlocked in the player profile (`GetFreeGameResearchUnlock`), which
is `unlock` before the call. -/
def MarkResearchDone (type team : Int) (unlock : Int) (m_researchDone : List (Int × Int)) :
    List (Int × Int) × Int :=
  let m := IsResearchDone.init team m_researchDone
  let m := mapSet team (Int.lor (mapIndex team m).1 type) (mapIndex team m).2
  if team = 0 then ((mapIndex 0 m).2, Int.lor unlock (mapIndex 0 m).1)
  else (m, unlock)

/-! ## Simulation clock -/

/-- The time members of `CApplication` that app.h declares
(app.h:383-399); time stamps and exact times are in nanoseconds. -/
structure CApplication where
  m_baseTimeStamp : Int
  m_lastTimeStamp : Int
  m_curTimeStamp : Int
  m_realAbsTimeBase : Int
  m_realAbsTime : Int
  m_realRelTime : Int
  m_absTimeBase : Int
  m_exactAbsTime : Int
  m_exactRelTime : Int
  m_absTime : ℚ
  m_relTime : ℚ
  m_simulationSpeed : ℚ
  m_simulationSuspended : Bool
  deriving DecidableEq, Repr

/-- `CApplication::GetAbsTime` (declared at app.h:228). -/
def CApplication.GetAbsTime (app : CApplication) : ℚ := app.m_absTime

/-- `CApplication::GetExactAbsTime` (declared at app.h:230). -/
def CApplication.GetExactAbsTime (app : CApplication) : Int := app.m_exactAbsTime

/-- `CApplication::GetRealAbsTime` (declared at app.h:233). -/
def CApplication.GetRealAbsTime (app : CApplication) : Int := app.m_realAbsTime

/-- Modelled from the spec: the tick of the clock (`CreateUpdateEvent`,
declared in app.h and defined in app.cpp, which is not part of the sources
here), at the time stamp `now`: "samples real elapsed time since the previous
tick; produces both a real relative/absolute time (nanosecond precision,
unaffected by speed) and a scaled relative/absolute time (real time × current
speed multiplier)"; while the simulation is suspended, "freezes scaled-time
accumulation; real time keeps advancing".  Absolute times are counted from the
base time stamp. -/
def CApplication.Tick (now : Int) (app : CApplication) : CApplication :=
  let app :=
    { app with
      m_lastTimeStamp := app.m_curTimeStamp,
      m_curTimeStamp := now,
      m_realAbsTime := app.m_realAbsTimeBase + (now - app.m_baseTimeStamp),
      m_realRelTime := now - app.m_curTimeStamp }
  if app.m_simulationSuspended then app
  else
    { app with
      m_exactAbsTime :=
        app.m_absTimeBase + ⌊app.m_simulationSpeed * (now - app.m_baseTimeStamp : Int)⌋,
      m_exactRelTime := ⌊app.m_simulationSpeed * app.m_realRelTime⌋,
      m_absTime :=
        (app.m_absTimeBase + ⌊app.m_simulationSpeed * (now - app.m_baseTimeStamp : Int)⌋ : Int)
          / 1000000000,
      m_relTime := (⌊app.m_simulationSpeed * app.m_realRelTime⌋ : Int) / 1000000000 }

/-- Modelled from the spec: `CApplication::SuspendSimulation` (declared at
app.h:212, "Suspends animation (time will not be updated)"; defined in
app.cpp, which is not part of the sources here): "freezes scaled-time
accumulation". -/
def CApplication.SuspendSimulation (app : CApplication) : CApplication :=
  { app with m_simulationSuspended := true }

/-- Modelled from the spec: `CApplication::ResumeSimulation` (declared at
app.h:214; defined in app.cpp, which is not part of the sources here), at the
time stamp `now`: "On resume, internal base timestamps are resynchronized so no
time jump is observed by simulation-time consumers", "real-absolute-time
unaffected by suspend/resume at all".  The base time stamp becomes `now`; the
scaled time goes on from the value it was frozen at and the real time from the
value it has at `now`. -/
def CApplication.ResumeSimulation (now : Int) (app : CApplication) : CApplication :=
  { app with
    m_simulationSuspended := false,
    m_baseTimeStamp := now,
    m_absTimeBase := app.m_exactAbsTime,
    m_realAbsTimeBase := app.m_realAbsTimeBase + (now - app.m_baseTimeStamp) }

/-! ## Sample data -/

/-- The members after the constructor of `CRobotMain` (robotmain.cpp:178-259),
with an empty registry; `UNIT` is the default unit factor of the `Level`
command. -/
def Scene.initial : Scene :=
  { m_sceneReadPath := "", m_fixScene := false, m_base := none, m_controller := none,
    m_selectObject := none, objects := [], nextId := 0, m_movieLock := false,
    m_editLock := false, movieExists := false, m_selectInsect := false,
    m_selectionHistory := [], m_missionTimerEnabled := false,
    m_missionTimerStarted := false, m_missionTimer := 0, m_teamNames := [],
    m_endTake := [], m_endTakeWinDelay := 0, m_endTakeLostDelay := 0,
    m_endTakeResearch := 0, m_audioChange := [], m_researchDone := [(0, 0)],
    m_beginSatCom := false, g_unit := 4, setup := [], cameraInit := [], events := [],
    staticRestored := [] }

/-- An environment for the examples: the factory builds an object with every
capability for each type but `OBJECT_OTHER 7`, for which it raises; every
gadget is wanted; no one-time command raises; the numbers of the examples are
machine numbers that the operations do not round. -/
def Env.sample : Env :=
  { PI := 355 / 113,
    RAD_TO_DEG := 180 / (355 / 113),
    round := fun q => q,
    factory := fun type =>
      match type with
      | OBJECT_OTHER 7 => none
      | _ => some { old := true, programmable := true, carrier := true, powered := true,
                    transportable := true },
    gadgetQuantity := 1,
    raises := fun _ => none,
    sceneTestMode := false,
    cbotVersion := 2,
    saved := { lines := [], programs := [], stack := none } }

/-- Rounding to the nearest IEEE 754 binary32 number (the `float` of the
platforms the game runs on), ties to even, for a number in the normal range of
the format: with `e` the binary exponent of the number, the number divided by
`2^(e-23)`, between `2^23` and `2^24`, is rounded to an integer. -/
def Math.roundFloat (q : ℚ) : ℚ :=
  if q = 0 then 0
  else
    let e : Int := Int.log 2 |q|
    let scaled : ℚ := |q| / 2 ^ (e - 23)
    let f : Int := ⌊scaled⌋
    let m : Int :=
      if scaled - f < 1 / 2 then f
      else if 1 / 2 < scaled - f then f + 1
      else if f % 2 = 0 then f
      else f + 1
    (if q < 0 then -1 else 1) * m * 2 ^ (e - 23)

/-- The environment of the examples with `float` arithmetic: `Math::PI` and
`Math::RAD_TO_DEG` are the `float`s nearest to π and to 180/π, and an
operation gives the `float` nearest to its exact result. -/
def Env.float : Env :=
  { Env.sample with
    PI := Math.roundFloat (314159265358979323846 / 100000000000000000000),
    RAD_TO_DEG := Math.roundFloat (5729577951308232286465 / 100000000000000000000),
    round := Math.roundFloat }

/-- An object for the examples: of the given id and type, at the origin, with
every capability, that holds nothing and has no program. -/
def COldObject.sample (id : Nat) (type : ObjectType) : COldObject :=
  { id := id, type := type, position := { x := 0, y := 0, z := 0 },
    rotation := { x := 0, y := 0, z := 0 }, scale := { x := 1, y := 1, z := 1 }, team := 0,
    trainer := false, toy := false, option := 0, defRank := -1, select := false,
    selectable := true, burn := false, dead := false, exploding := false,
    animateOnReset := false,
    caps := { old := true, programmable := true, carrier := true, powered := true,
              transportable := true },
    cargo := none, power := none, transporter := none, programs := [], program := -1,
    scriptRun := none, stack := none }

/-- What a save of the examples takes from outside the scene. -/
def SaveInfo.sample : SaveInfo :=
  { info := "save", timestamp := 0, mission := [], mapZoom := 1, lightning := none,
    staticState := 0 }

/-- A scene for the examples: a winged grabber with one program, that carries
a cube and holds a power cell. -/
def Scene.sample : Scene :=
  { Scene.initial with
    objects :=
      [{ COldObject.sample 1 (OBJECT_MOBILE "fa") with
          position := { x := 4, y := 0, z := 8 }, rotation := { x := 0, y := 1, z := 0 },
          cargo := some 2, power := some 3,
          programs := [{ script := "extern void object::Main() {}", filename := "",
                         readOnly := false, runnable := true }] },
       { COldObject.sample 2 (OBJECT_OTHER 1) with transporter := some 1 },
       { COldObject.sample 3 (OBJECT_OTHER 2) with transporter := some 1 }] }

/-- A scene for the examples: two wheeled grabbers, with ids 1 and 2. -/
def Scene.twoRobots : Scene :=
  { Scene.initial with
    objects := [COldObject.sample 1 (OBJECT_MOBILE "wa"),
                COldObject.sample 2 (OBJECT_MOBILE "wa")] }

/-- A camera for the examples, behind no object. -/
def Gfx.CCamera.sample : Gfx.CCamera :=
  { type := Gfx.CameraType.CAM_TYPE_BACK, controllingObject := none }

/-- A scene for the examples: robot 1, which is exploding, and robot 2, each in
the middle of a program run. -/
def Scene.exploding : Scene :=
  { Scene.initial with
    objects := [{ COldObject.sample 1 (OBJECT_MOBILE "wa") with
                    exploding := true, stack := some 7 },
                { COldObject.sample 2 (OBJECT_MOBILE "wa") with stack := some 9 }] }

/-! ## Theorems -/

/-! ### Phase state machine -/

theorem IsInSimulationConfigPhase_LEVEL_LIST :
    IsInSimulationConfigPhase PHASE_LEVEL_LIST = false := by decide

/-- The interface of a phase other than the appearance screen touches no
modelled member. -/
theorem ui_skip (cp : Phase → CRobotMain → Option Outcome)
    (level : Except String LevelFile) (s : CRobotMain) (h : s.m_phase ≠ PHASE_APPERANCE) :
    ChangePhase.ui cp level s = some (none, s) := by
  simp [ChangePhase.ui, h]

/-- One unfolding of `ChangePhase`. -/
theorem ChangePhase_succ (level : Except String LevelFile) (fuel : Nat) (phase : Phase)
    (s : CRobotMain) :
    ChangePhase level (fuel + 1) phase s =
      (let resetWorld :=
        (IsPhaseWithWorld s.m_phase || IsPhaseWithWorld phase)
          && !IsInSimulationConfigPhase s.m_phase && !IsInSimulationConfigPhase phase
      let s := if resetWorld then ChangePhase.teardown s else s
      let s := { s with m_phase := phase }
      let s := if resetWorld then ChangePhase.flush s else s
      Outcome.andThen (ChangePhase.ui (ChangePhase level fuel) level s) fun s =>
        if !resetWorld then some (none, s)
        else
          Outcome.andThen
            (Outcome.andThen (ChangePhase.enterSimul (ChangePhase level fuel) level s)
              (ChangePhase.enterWin (ChangePhase level fuel) level))
            (ChangePhase.enterLost (ChangePhase level fuel) level)) := rfl

/-- With the world reset, `ChangePhase` is the interface of the new phase and
the three phase blocks, run on the flushed state. -/
theorem ChangePhase_reset_ui (level : Except String LevelFile) (fuel : Nat) (phase : Phase)
    (s : CRobotMain)
    (h : ((IsPhaseWithWorld s.m_phase || IsPhaseWithWorld phase)
          && !IsInSimulationConfigPhase s.m_phase && !IsInSimulationConfigPhase phase) = true) :
    ChangePhase level (fuel + 1) phase s =
      Outcome.andThen
        (ChangePhase.ui (ChangePhase level fuel) level
          (ChangePhase.flush { ChangePhase.teardown s with m_phase := phase }))
        fun s =>
          Outcome.andThen
            (Outcome.andThen (ChangePhase.enterSimul (ChangePhase level fuel) level s)
              (ChangePhase.enterWin (ChangePhase level fuel) level))
            (ChangePhase.enterLost (ChangePhase level fuel) level) := by
  rw [ChangePhase_succ]
  simp only [h, if_true, Bool.not_true, Bool.false_eq_true, if_false]

/-- Without a world reset, `ChangePhase` assigns the phase and builds its
interface. -/
theorem ChangePhase_keep_ui (level : Except String LevelFile) (fuel : Nat) (phase : Phase)
    (s : CRobotMain)
    (h : ((IsPhaseWithWorld s.m_phase || IsPhaseWithWorld phase)
          && !IsInSimulationConfigPhase s.m_phase && !IsInSimulationConfigPhase phase) = false) :
    ChangePhase level (fuel + 1) phase s =
      Outcome.andThen
        (ChangePhase.ui (ChangePhase level fuel) level { s with m_phase := phase })
        fun s => some (none, s) := by
  rw [ChangePhase_succ]
  simp only [h, Bool.false_eq_true, if_false, Bool.not_false, if_true]

/-- With the world reset and outside the appearance screen, `ChangePhase` is
the three phase blocks run on the flushed state. -/
theorem ChangePhase_reset (level : Except String LevelFile) (fuel : Nat) (phase : Phase)
    (s : CRobotMain)
    (h : ((IsPhaseWithWorld s.m_phase || IsPhaseWithWorld phase)
          && !IsInSimulationConfigPhase s.m_phase && !IsInSimulationConfigPhase phase) = true)
    (hp : phase ≠ PHASE_APPERANCE) :
    ChangePhase level (fuel + 1) phase s =
      Outcome.andThen
        (Outcome.andThen
          (ChangePhase.enterSimul (ChangePhase level fuel) level
            (ChangePhase.flush { ChangePhase.teardown s with m_phase := phase }))
          (ChangePhase.enterWin (ChangePhase level fuel) level))
        (ChangePhase.enterLost (ChangePhase level fuel) level) := by
  rw [ChangePhase_reset_ui _ _ _ _ h, ui_skip _ _ _ (by exact hp)]
  rfl

/-- Without a world reset and outside the appearance screen, `ChangePhase`
only assigns the phase. -/
theorem ChangePhase_keep (level : Except String LevelFile) (fuel : Nat) (phase : Phase)
    (s : CRobotMain)
    (h : ((IsPhaseWithWorld s.m_phase || IsPhaseWithWorld phase)
          && !IsInSimulationConfigPhase s.m_phase && !IsInSimulationConfigPhase phase) = false)
    (hp : phase ≠ PHASE_APPERANCE) :
    ChangePhase level (fuel + 1) phase s = some (none, { s with m_phase := phase }) := by
  rw [ChangePhase_keep_ui _ _ _ _ h, ui_skip _ _ _ (by exact hp)]
  rfl

theorem flush_teardown_phase (s : CRobotMain) (phase : Phase) :
    (ChangePhase.flush { ChangePhase.teardown s with m_phase := phase }).m_phase = phase := rfl

theorem enterSimul_skip (cp : Phase → CRobotMain → Option Outcome)
    (level : Except String LevelFile) (s : CRobotMain) (h : s.m_phase ≠ PHASE_SIMUL) :
    ChangePhase.enterSimul cp level s = some (none, s) := by
  simp [ChangePhase.enterSimul, h]

theorem enterWin_skip (cp : Phase → CRobotMain → Option Outcome)
    (level : Except String LevelFile) (s : CRobotMain) (h : s.m_phase ≠ PHASE_WIN) :
    ChangePhase.enterWin cp level s = some (none, s) := by
  simp [ChangePhase.enterWin, h]

theorem enterLost_skip (cp : Phase → CRobotMain → Option Outcome)
    (level : Except String LevelFile) (s : CRobotMain) (h : s.m_phase ≠ PHASE_LOST) :
    ChangePhase.enterLost cp level s = some (none, s) := by
  simp [ChangePhase.enterLost, h]

/-- `ChangePhase` to the level list or to the player selection makes no
recursive call: one unit of fuel is enough, no exception escapes, and the world
is torn down when the call comes from a worldful phase that is not an
in-simulation setup screen. -/
theorem ChangePhase_menu (level : Except String LevelFile) (fuel : Nat) (exit : Phase)
    (hexit : exit = PHASE_LEVEL_LIST ∨ exit = PHASE_PLAYER_SELECT) (s : CRobotMain) :
    ∃ s', ChangePhase level (fuel + 1) exit s = some (none, s')
      ∧ s'.m_phase = exit
      ∧ (IsPhaseWithWorld s.m_phase = true → IsInSimulationConfigPhase s.m_phase = false →
          s'.worldExists = false) := by
  have hA : exit ≠ PHASE_APPERANCE := by rcases hexit with h | h <;> rw [h] <;> decide
  have hS : exit ≠ PHASE_SIMUL := by rcases hexit with h | h <;> rw [h] <;> decide
  have hW : exit ≠ PHASE_WIN := by rcases hexit with h | h <;> rw [h] <;> decide
  have hL : exit ≠ PHASE_LOST := by rcases hexit with h | h <;> rw [h] <;> decide
  have hC : IsInSimulationConfigPhase exit = false := by
    rcases hexit with h | h <;> rw [h] <;> decide
  by_cases hreset : ((IsPhaseWithWorld s.m_phase || IsPhaseWithWorld exit)
      && !IsInSimulationConfigPhase s.m_phase && !IsInSimulationConfigPhase exit) = true
  · rw [ChangePhase_reset _ _ _ _ hreset hA]
    rw [enterSimul_skip _ _ _ (by rw [flush_teardown_phase]; exact hS)]
    simp only [Outcome.andThen]
    rw [enterWin_skip _ _ _ (by rw [flush_teardown_phase]; exact hW)]
    simp only []
    rw [enterLost_skip _ _ _ (by rw [flush_teardown_phase]; exact hL)]
    exact ⟨_, rfl, rfl, fun _ _ => rfl⟩
  · simp only [Bool.not_eq_true] at hreset
    rw [ChangePhase_keep _ _ _ _ hreset hA]
    refine ⟨_, rfl, rfl, fun hw hc => ?_⟩
    simp [hw, hc, hC] at hreset

/-- `ChangePhase(PHASE_LEVEL_LIST)` makes no recursive call: one unit of fuel is
enough, no exception escapes, and the world is torn down when the call comes
from a worldful phase that is not an in-simulation setup screen. -/
theorem ChangePhase_LEVEL_LIST (level : Except String LevelFile) (fuel : Nat)
    (s : CRobotMain) :
    ∃ s', ChangePhase level (fuel + 1) PHASE_LEVEL_LIST s = some (none, s')
      ∧ s'.m_phase = PHASE_LEVEL_LIST
      ∧ (IsPhaseWithWorld s.m_phase = true → IsInSimulationConfigPhase s.m_phase = false →
          s'.worldExists = false) :=
  ChangePhase_menu level fuel PHASE_LEVEL_LIST (Or.inl rfl) s

/-- `LevelLoadingError` returns normally in the phase its `ChangePhase` call
reached, the world left as that call left it. -/
theorem LevelLoadingError_returns (cp : Phase → CRobotMain → Option Outcome)
    (error exception : String) (exitPhase : Phase) (s t : CRobotMain)
    (h : cp exitPhase s = some (none, t)) :
    ∃ s', LevelLoadingError cp error exception exitPhase s = some (none, s')
      ∧ s'.m_phase = t.m_phase ∧ s'.worldExists = t.worldExists := by
  simp [LevelLoadingError, h, Outcome.andThen]

/-- C2: when `ChangePhase` reaches scene construction and `CreateScene` raises a
runtime error, `ChangePhase` returns normally (two levels of recursion are
enough, and no exception escapes) with `PHASE_LEVEL_LIST` as the active
phase. -/
theorem ChangePhase_scene_error_falls_back (e : String) (fuel : Nat) (next : Phase)
    (s : CRobotMain) (h : ChangePhase.reachesCreateScene s next = true) :
    ∃ s', ChangePhase (.error e) (fuel + 2) next s = some (none, s')
      ∧ s'.m_phase = PHASE_LEVEL_LIST := by
  simp only [ChangePhase.reachesCreateScene, Bool.and_eq_true, Bool.not_eq_true',
    Bool.or_eq_true, beq_iff_eq, bne_iff_ne, ne_eq] at h
  obtain ⟨hc, hn⟩ := h
  have h1 : IsPhaseWithWorld next = true ∧ IsInSimulationConfigPhase next = false
      ∧ next ≠ PHASE_APPERANCE := by
    rcases hn with (hn | ⟨hn, -⟩) | ⟨hn, -⟩ <;> subst hn <;> decide
  have hreset : ((IsPhaseWithWorld s.m_phase || IsPhaseWithWorld next)
          && !IsInSimulationConfigPhase s.m_phase && !IsInSimulationConfigPhase next) = true := by
    simp [hc, h1.1, h1.2.1]
  rw [show fuel + 2 = (fuel + 1) + 1 from rfl, ChangePhase_reset _ _ _ _ hreset h1.2.2]
  generalize hs0 : ChangePhase.flush { ChangePhase.teardown s with m_phase := next } = s0
  have hp0 : s0.m_phase = next := by rw [← hs0]; rfl
  have hw0 : s0.m_endingWinRank = s.m_endingWinRank := by rw [← hs0]; rfl
  have hl0 : s0.m_endingLostRank = s.m_endingLostRank := by rw [← hs0]; rfl
  have key : ∀ (msg : String) (t : CRobotMain), ∃ s',
      LevelLoadingError (ChangePhase (.error e) (fuel + 1)) msg e PHASE_LEVEL_LIST t
        = some (none, s') ∧ s'.m_phase = PHASE_LEVEL_LIST := fun msg t => by
    obtain ⟨t', h1, h2, -⟩ := ChangePhase_LEVEL_LIST (.error e) fuel t
    obtain ⟨s', h3, h4, -⟩ := LevelLoadingError_returns _ msg e _ _ _ h1
    exact ⟨s', h3, h4.trans h2⟩
  rcases hn with (hn | ⟨hn, hr⟩) | ⟨hn, hr⟩
  · obtain ⟨s', h1, h2⟩ : ∃ s', ChangePhase.enterSimul (ChangePhase (.error e) (fuel + 1))
        (.error e) s0 = some (none, s') ∧ s'.m_phase = PHASE_LEVEL_LIST := by
      unfold ChangePhase.enterSimul CreateScene
      rw [if_pos (by rw [hp0, hn]; rfl)]
      exact key _ _
    refine ⟨s', ?_, h2⟩
    rw [h1]
    simp only [Outcome.andThen]
    rw [enterWin_skip _ _ _ (by rw [h2]; decide)]
    simp only []
    rw [enterLost_skip _ _ _ (by rw [h2]; decide)]
  · rw [enterSimul_skip _ _ _ (by rw [hp0, hn]; decide)]
    simp only [Outcome.andThen]
    obtain ⟨s', h1, h2⟩ : ∃ s', ChangePhase.enterWin (ChangePhase (.error e) (fuel + 1))
        (.error e) s0 = some (none, s') ∧ s'.m_phase = PHASE_LEVEL_LIST := by
      unfold ChangePhase.enterWin CreateScene
      rw [if_pos (by rw [hp0, hn]; rfl), if_neg (by rw [hw0]; simpa using hr)]
      exact key _ _
    refine ⟨s', ?_, h2⟩
    rw [h1]
    simp only []
    rw [enterLost_skip _ _ _ (by rw [h2]; decide)]
  · rw [enterSimul_skip _ _ _ (by rw [hp0, hn]; decide)]
    simp only [Outcome.andThen]
    rw [enterWin_skip _ _ _ (by rw [hp0, hn]; decide)]
    simp only []
    unfold ChangePhase.enterLost CreateScene
    rw [if_pos (by rw [hp0, hn]; rfl), if_neg (by rw [hl0]; simpa using hr)]
    exact key _ _

theorem ChangePhase_scene_error_falls_back_witness :
    ChangePhase.reachesCreateScene CRobotMain.initial PHASE_SIMUL = true
      ∧ ∃ s', ChangePhase (.error "Unknown command") (0 + 2) PHASE_SIMUL CRobotMain.initial
          = some (none, s') ∧ s'.m_phase = PHASE_LEVEL_LIST :=
  ⟨by decide,
    ChangePhase_scene_error_falls_back "Unknown command" 0 PHASE_SIMUL CRobotMain.initial
      (by decide)⟩

theorem CreateScene_phase (level : Except String LevelFile) (s : CRobotMain) :
    (CreateScene level s).2.m_phase = s.m_phase := by
  cases level <;> rfl

/-- The world invariant holds after a `CreateScene` call, whichever way it
ends, once the failure has been handled by `LevelLoadingError`; the phase is
kept when the scene is built, and is the exit phase otherwise. -/
theorem CreateScene_handled (cp : Phase → CRobotMain → Option Outcome) (exit : Phase)
    (hexit : IsPhaseWithWorld exit = false)
    (hcp : ∀ t, ∃ s', cp exit t = some (none, s') ∧ s'.m_phase = exit
      ∧ (IsPhaseWithWorld t.m_phase = true → IsInSimulationConfigPhase t.m_phase = false →
          s'.worldExists = false))
    (level : Except String LevelFile) (msg : String) (s : CRobotMain)
    (post : CRobotMain → CRobotMain)
    (hpost : ∀ t, (post t).m_phase = t.m_phase ∧ (post t).worldExists = t.worldExists)
    (hw : IsPhaseWithWorld s.m_phase = true) (hc : IsInSimulationConfigPhase s.m_phase = false) :
    ∃ s', (match CreateScene level s with
          | (none, s) => some (none, post s)
          | (some e, s) => LevelLoadingError cp msg e exit s) = some (none, s')
      ∧ s'.worldExists = IsPhaseWithWorld s'.m_phase
      ∧ s'.m_phase = if level.isOk = true then s.m_phase else exit := by
  cases level with
  | ok file =>
    refine ⟨post _, rfl, ?_, ?_⟩
    · rw [(hpost _).1, (hpost _).2]; exact hw.symm
    · rw [(hpost _).1]; rfl
  | error e =>
    obtain ⟨t', h1, h2, h3⟩ := hcp (CreateScene (.error e) s).2
    obtain ⟨s', h4, h5, h6⟩ := LevelLoadingError_returns cp msg e _ _ _ h1
    refine ⟨s', h4, ?_, ?_⟩
    · rw [h6, h5, h2, h3 hw hc, hexit]
    · rw [h5, h2]; rfl

/-- Showing a message changes neither the phase nor the world. -/
theorem display_frame (m : Msg) (s : CRobotMain) :
    (display m s).m_phase = s.m_phase ∧ (display m s).worldExists = s.worldExists := by
  unfold display
  split <;> exact ⟨rfl, rfl⟩

/-- The phase blocks of `ChangePhase` skip a phase that has none. -/
theorem enter_skip (cp : Phase → CRobotMain → Option Outcome)
    (level : Except String LevelFile) (s : CRobotMain) (h1 : s.m_phase ≠ PHASE_SIMUL)
    (h2 : s.m_phase ≠ PHASE_WIN) (h3 : s.m_phase ≠ PHASE_LOST) :
    Outcome.andThen
        (Outcome.andThen (ChangePhase.enterSimul cp level s) (ChangePhase.enterWin cp level))
        (ChangePhase.enterLost cp level) = some (none, s) := by
  rw [enterSimul_skip _ _ _ h1]
  simp only [Outcome.andThen]
  rw [enterWin_skip _ _ _ h2]
  simp only []
  rw [enterLost_skip _ _ _ h3]

/-- The appearance screen: `ScenePerso` leaves the scene of the character in
`PHASE_APPERANCE`, or no world in `PHASE_PLAYER_SELECT` when the scene cannot
be built. -/
theorem ui_APPERANCE (level : Except String LevelFile) (fuel : Nat) (s : CRobotMain)
    (hp : s.m_phase = PHASE_APPERANCE) :
    ∃ s', ChangePhase.ui (ChangePhase level (fuel + 1)) level s = some (none, s')
      ∧ s'.worldExists = IsPhaseWithWorld s'.m_phase
      ∧ s'.m_phase = if level.isOk = true then PHASE_APPERANCE else PHASE_PLAYER_SELECT := by
  obtain ⟨s', e1, e2, e3⟩ := CreateScene_handled (ChangePhase level (fuel + 1))
    PHASE_PLAYER_SELECT (by decide) (ChangePhase_menu level fuel PHASE_PLAYER_SELECT (Or.inr rfl))
    level "An error occured while trying to load apperance scene" (DeleteAllObjects s) id
    (fun _ => ⟨rfl, rfl⟩)
    (by show IsPhaseWithWorld s.m_phase = true; rw [hp]; decide)
    (by show IsInSimulationConfigPhase s.m_phase = false; rw [hp]; decide)
  refine ⟨s', ?_, e2, ?_⟩
  · unfold ChangePhase.ui ScenePerso
    rw [if_pos (by rw [hp]; rfl)]
    simp only [id] at e1
    exact e1
  · rw [e3]
    show (if level.isOk = true then s.m_phase else PHASE_PLAYER_SELECT) = _
    rw [hp]

/-- C1, as stated, fails: leaving an in-simulation setup screen (world present)
for the main menu does not reset the world, so the orchestrator ends in
`PHASE_MAIN_MENU`, a phase without world, with the world still there. -/
theorem ChangePhase_world_counterexample :
    (ChangePhase (.ok LevelFile.empty) 2 PHASE_MAIN_MENU
        { CRobotMain.initial with m_phase := PHASE_SETUPds, worldExists := true }).map
      (fun r => (r.1, r.2.m_phase, r.2.worldExists, IsPhaseWithWorld r.2.m_phase))
      = some (none, PHASE_MAIN_MENU, true, false) := by
  decide

/-- C1, amended: from a state where the world exists iff the phase is worldful,
`ChangePhase(next)` returns normally in a state where the world exists iff the
active phase is worldful, provided that a transition from or to an
in-simulation setup screen (which never resets the world) joins two phases of
equal worldfulness.  The active phase on return is `next`, except that it is
`PHASE_PLAYER_SELECT` when the scene of `PHASE_APPERANCE` cannot be built, and
`PHASE_LEVEL_LIST` when the scene of `PHASE_SIMUL`, `PHASE_WIN` or
`PHASE_LOST` cannot be built or `PHASE_WIN` / `PHASE_LOST` has no ending
configured (rank -1), the phase left not being an in-simulation setup
screen. -/
theorem ChangePhase_world_invariant (level : Except String LevelFile) (fuel : Nat)
    (next : Phase) (s : CRobotMain)
    (hinv : s.worldExists = IsPhaseWithWorld s.m_phase)
    (hcfg : (IsInSimulationConfigPhase s.m_phase || IsInSimulationConfigPhase next) = true →
      IsPhaseWithWorld s.m_phase = IsPhaseWithWorld next) :
    ∃ s', ChangePhase level (fuel + 2) next s = some (none, s')
      ∧ s'.worldExists = IsPhaseWithWorld s'.m_phase
      ∧ s'.m_phase =
          if next = PHASE_APPERANCE ∧ level.isOk = false then PHASE_PLAYER_SELECT
          else if (ChangePhase.reachesCreateScene s next = true ∧ level.isOk = false)
              ∨ (IsInSimulationConfigPhase s.m_phase = false
                ∧ (next = PHASE_WIN ∧ s.m_endingWinRank = -1
                  ∨ next = PHASE_LOST ∧ s.m_endingLostRank = -1)) then PHASE_LEVEL_LIST
          else next := by
  rw [show fuel + 2 = (fuel + 1) + 1 from rfl]
  by_cases hA : next = PHASE_APPERANCE
  · subst hA
    have hr : ChangePhase.reachesCreateScene s PHASE_APPERANCE = false := by
      simp [ChangePhase.reachesCreateScene]
    have hphase : ∀ p : Phase,
        p = (if level.isOk = true then PHASE_APPERANCE else PHASE_PLAYER_SELECT) →
        p = if PHASE_APPERANCE = PHASE_APPERANCE ∧ level.isOk = false then PHASE_PLAYER_SELECT
          else if (ChangePhase.reachesCreateScene s PHASE_APPERANCE = true ∧ level.isOk = false)
              ∨ (IsInSimulationConfigPhase s.m_phase = false
                ∧ (PHASE_APPERANCE = PHASE_WIN ∧ s.m_endingWinRank = -1
                  ∨ PHASE_APPERANCE = PHASE_LOST ∧ s.m_endingLostRank = -1))
            then PHASE_LEVEL_LIST
          else PHASE_APPERANCE := by
      intro p hp
      rw [hp, hr]
      cases level.isOk <;> simp
    by_cases hreset : ((IsPhaseWithWorld s.m_phase || IsPhaseWithWorld PHASE_APPERANCE)
        && !IsInSimulationConfigPhase s.m_phase
        && !IsInSimulationConfigPhase PHASE_APPERANCE) = true
    · rw [ChangePhase_reset_ui _ _ _ _ hreset]
      obtain ⟨s', e1, e2, e3⟩ := ui_APPERANCE level fuel
        (ChangePhase.flush { ChangePhase.teardown s with m_phase := PHASE_APPERANCE }) rfl
      refine ⟨s', ?_, e2, hphase _ e3⟩
      rw [e1]
      simp only [Outcome.andThen]
      exact enter_skip _ _ _ (by rw [e3]; split <;> decide) (by rw [e3]; split <;> decide)
        (by rw [e3]; split <;> decide)
    · simp only [Bool.not_eq_true] at hreset
      rw [ChangePhase_keep_ui _ _ _ _ hreset]
      obtain ⟨s', e1, e2, e3⟩ := ui_APPERANCE level fuel
        { s with m_phase := PHASE_APPERANCE } rfl
      refine ⟨s', ?_, e2, hphase _ e3⟩
      rw [e1]
      rfl
  · rw [if_neg (fun h => hA h.1)]
    by_cases hreset : ((IsPhaseWithWorld s.m_phase || IsPhaseWithWorld next)
          && !IsInSimulationConfigPhase s.m_phase && !IsInSimulationConfigPhase next) = true
    · rw [ChangePhase_reset _ _ _ _ hreset hA]
      simp only [Bool.and_eq_true, Bool.or_eq_true, Bool.not_eq_true'] at hreset
      obtain ⟨⟨-, hco⟩, hcn⟩ := hreset
      generalize hs0 : ChangePhase.flush { ChangePhase.teardown s with m_phase := next } = s0
      have hp0 : s0.m_phase = next := by rw [← hs0]; rfl
      have hx0 : s0.worldExists = false := by rw [← hs0]; rfl
      have hw0 : s0.m_endingWinRank = s.m_endingWinRank := by rw [← hs0]; rfl
      have hl0 : s0.m_endingLostRank = s.m_endingLostRank := by rw [← hs0]; rfl
      have hcp := ChangePhase_LEVEL_LIST level fuel
      by_cases h1 : next = PHASE_SIMUL
      · obtain ⟨s', e1, e2, e3⟩ := CreateScene_handled _ PHASE_LEVEL_LIST (by decide) hcp level
          "An error occured while trying to load a level" s0 id (fun _ => ⟨rfl, rfl⟩)
          (by rw [hp0, h1]; decide) (by rw [hp0, h1]; decide)
        rw [hp0] at e3
        refine ⟨s', ?_, e2, ?_⟩
        · have hS : s'.m_phase ≠ PHASE_WIN ∧ s'.m_phase ≠ PHASE_LOST := by
            rw [e3, h1]; split <;> decide
          have e1' : ChangePhase.enterSimul (ChangePhase level (fuel + 1)) level s0
              = some (none, s') := by
            unfold ChangePhase.enterSimul
            rw [if_pos (by rw [hp0, h1]; rfl)]
            exact e1
          rw [e1']
          simp only [Outcome.andThen]
          rw [enterWin_skip _ _ _ hS.1]
          simp only []
          rw [enterLost_skip _ _ _ hS.2]
        · rw [e3]
          subst h1
          cases level.isOk <;> simp [ChangePhase.reachesCreateScene, hco]
      · rw [enterSimul_skip _ _ _ (by rw [hp0]; exact h1)]
        simp only [Outcome.andThen]
        by_cases h2 : next = PHASE_WIN
        · have hwin : ∃ s', ChangePhase.enterWin (ChangePhase level (fuel + 1)) level s0
              = some (none, s') ∧ s'.worldExists = IsPhaseWithWorld s'.m_phase
              ∧ s'.m_phase = if s.m_endingWinRank = -1 ∨ level.isOk = false
                  then PHASE_LEVEL_LIST else PHASE_WIN := by
            unfold ChangePhase.enterWin
            rw [if_pos (by rw [hp0, h2]; rfl)]
            by_cases hr : (s0.m_endingWinRank == -1) = true
            · rw [if_pos hr]
              obtain ⟨s', e1, e2, e3⟩ := hcp s0
              refine ⟨s', e1, ?_, ?_⟩
              · rw [e2, e3 (by rw [hp0, h2]; decide) (by rw [hp0, h2]; decide)]
                decide
              · rw [e2, if_pos (Or.inl (by rw [← hw0]; simpa using hr))]
            · rw [if_neg hr]
              obtain ⟨s', e1, e2, e3⟩ := CreateScene_handled _ PHASE_LEVEL_LIST (by decide) hcp
                level "An error occured while trying to load win scene"
                { s0 with m_winTerminate := (s0.m_endingWinRank == 904) }
                (fun s => if s.m_winTerminate then s else display (Msg.error INFO_WIN) s)
                (fun t => by
                  beta_reduce
                  split
                  · exact ⟨rfl, rfl⟩
                  · exact display_frame _ _)
                (by show IsPhaseWithWorld s0.m_phase = true; rw [hp0, h2]; decide)
                (by show IsInSimulationConfigPhase s0.m_phase = false; rw [hp0, h2]; decide)
              refine ⟨s', e1, e2, ?_⟩
              rw [e3]
              show (if level.isOk = true then s0.m_phase else PHASE_LEVEL_LIST) = _
              have hr2 : ¬ s.m_endingWinRank = -1 := by rw [← hw0]; simpa using hr
              rw [hp0, h2]
              cases level.isOk <;> simp [hr2]
          obtain ⟨s', e1, e2, e3⟩ := hwin
          refine ⟨s', ?_, e2, ?_⟩
          · rw [e1]
            simp only []
            rw [enterLost_skip _ _ _ (by rw [e3]; split <;> decide)]
          · rw [e3]
            subst h2
            by_cases hr : s.m_endingWinRank = -1 <;> cases level.isOk <;>
              simp [ChangePhase.reachesCreateScene, hco, hr]
        · rw [enterWin_skip _ _ _ (by rw [hp0]; exact h2)]
          simp only []
          by_cases h3 : next = PHASE_LOST
          · unfold ChangePhase.enterLost
            rw [if_pos (by rw [hp0, h3]; rfl)]
            by_cases hr : (s0.m_endingLostRank == -1) = true
            · rw [if_pos hr]
              obtain ⟨s', e1, e2, e3⟩ := hcp s0
              have hr2 : s.m_endingLostRank = -1 := by rw [← hl0]; simpa using hr
              refine ⟨s', e1, ?_, ?_⟩
              · rw [e2, e3 (by rw [hp0, h3]; decide) (by rw [hp0, h3]; decide)]
                decide
              · rw [e2]
                subst h3
                simp [hco, hr2]
            · rw [if_neg hr]
              obtain ⟨s', e1, e2, e3⟩ := CreateScene_handled _ PHASE_LEVEL_LIST (by decide) hcp
                level "An error occured while trying to load lost scene"
                { s0 with m_winTerminate := false }
                (fun s => display (Msg.error INFO_LOST) s)
                (fun t => display_frame _ _)
                (by show IsPhaseWithWorld s0.m_phase = true; rw [hp0, h3]; decide)
                (by show IsInSimulationConfigPhase s0.m_phase = false; rw [hp0, h3]; decide)
              refine ⟨s', e1, e2, ?_⟩
              rw [e3]
              show (if level.isOk = true then s0.m_phase else PHASE_LEVEL_LIST) = _
              have hr2 : ¬ s.m_endingLostRank = -1 := by rw [← hl0]; simpa using hr
              rw [hp0]
              subst h3
              cases level.isOk <;> simp [ChangePhase.reachesCreateScene, hco, hr2]
          · rw [enterLost_skip _ _ _ (by rw [hp0]; exact h3)]
            refine ⟨s0, rfl, ?_, ?_⟩
            · rw [hx0, hp0]
              simp only [IsPhaseWithWorld, beq_iff_eq, h1, h2, h3, hA, hcn, if_false,
                Bool.false_eq_true]
            · rw [hp0]
              simp [ChangePhase.reachesCreateScene, h1, h2, h3]
    · simp only [Bool.not_eq_true] at hreset
      rw [ChangePhase_keep _ _ _ _ hreset hA]
      refine ⟨_, rfl, ?_, ?_⟩
      · show s.worldExists = IsPhaseWithWorld next
        rw [hinv]
        by_cases hc : (IsInSimulationConfigPhase s.m_phase || IsInSimulationConfigPhase next)
            = true
        · exact hcfg hc
        · simp only [Bool.or_eq_true, not_or, Bool.not_eq_true] at hc
          simp only [hc.1, hc.2, Bool.not_false, Bool.and_true, Bool.or_eq_false_iff] at hreset
          rw [hreset.1, hreset.2]
      · show next = _
        by_cases hco : IsInSimulationConfigPhase s.m_phase = true
        · simp [ChangePhase.reachesCreateScene, hco]
        · simp only [Bool.not_eq_true] at hco
          have hw1 : IsPhaseWithWorld PHASE_SIMUL = true := by decide
          have hw2 : IsPhaseWithWorld PHASE_WIN = true := by decide
          have hw3 : IsPhaseWithWorld PHASE_LOST = true := by decide
          have hc1 : IsInSimulationConfigPhase PHASE_SIMUL = false := by decide
          have hc2 : IsInSimulationConfigPhase PHASE_WIN = false := by decide
          have hc3 : IsInSimulationConfigPhase PHASE_LOST = false := by decide
          have h3 : next ≠ PHASE_SIMUL ∧ next ≠ PHASE_WIN ∧ next ≠ PHASE_LOST := by
            refine ⟨?_, ?_, ?_⟩ <;> intro h <;> subst h <;>
              simp [hco, hw1, hw2, hw3, hc1, hc2, hc3] at hreset
          simp [ChangePhase.reachesCreateScene, h3.1, h3.2.1, h3.2.2]

theorem ChangePhase_world_invariant_witness :
    CRobotMain.initial.worldExists = IsPhaseWithWorld CRobotMain.initial.m_phase
      ∧ ∃ s', ChangePhase (.ok LevelFile.empty) (0 + 2) PHASE_SIMUL CRobotMain.initial
          = some (none, s')
        ∧ s'.worldExists = IsPhaseWithWorld s'.m_phase
        ∧ s'.m_phase = PHASE_SIMUL :=
  ⟨by decide,
    ChangePhase_world_invariant (.ok LevelFile.empty) 0 PHASE_SIMUL CRobotMain.initial
      (by decide) (by decide)⟩

/-! ### `CheckEndMissionForGroup` -/

/-- The loop passes over a prefix of conditions that report success without
being immediate, only recording whether one of them is a winning condition. -/
theorem CheckEndMissionForGroup.loop_append (eval : CSceneEndCondition → Error)
    (pre rest : List CSceneEndCondition) (fin : Error) (hw : Bool)
    (hpre : ∀ e ∈ pre, eval e = ERR_OK ∧ e.immediat = false) :
    CheckEndMissionForGroup.loop eval (pre ++ rest) fin hw
      = CheckEndMissionForGroup.loop eval rest fin (hw || pre.any (fun e => decide (e.lost < 0))) := by
  induction pre generalizing hw with
  | nil => simp
  | cons e pre ih =>
    have he := hpre e (List.mem_cons_self _ _)
    have ih' := fun hw => ih hw (fun x hx => hpre x (List.mem_cons_of_mem _ hx))
    simp only [List.cons_append, CheckEndMissionForGroup.loop, he.1, he.2, Bool.and_false,
      Bool.false_eq_true, if_false, ne_eq, not_true_eq_false, List.any_cons, List.append_eq]
    rw [ih']
    by_cases hl : e.lost < 0 <;> simp [hl]

/-- C4, as stated, fails: a condition that is merely not yet satisfied and stands
before a condition reporting `INFO_LOST` decides the group: the result is
`ERR_MISSION_NOTERM`, not a lose result. -/
theorem CheckEndMissionForGroup_lose_counterexample :
    CheckEndMissionForGroup (fun e => if e.tag = 1 then INFO_LOST else ERR_MISSION_NOTERM)
      [{ winTeam := 0, lost := -1, immediat := false, tag := 0 },
       { winTeam := 0, lost := 0, immediat := false, tag := 1 }] = ERR_MISSION_NOTERM := by
  decide

/-- C4, amended: a condition reporting a lose result (`INFO_LOST` or
`INFO_LOSTq`) decides the group when every condition before it in the list
reports success without being immediate; the group result is then that lose
result. -/
theorem CheckEndMissionForGroup_first_lose (eval : CSceneEndCondition → Error)
    (pre post : List CSceneEndCondition) (c : CSceneEndCondition)
    (hpre : ∀ e ∈ pre, eval e = ERR_OK ∧ e.immediat = false)
    (hc : eval c = INFO_LOST ∨ eval c = INFO_LOSTq) :
    CheckEndMissionForGroup eval (pre ++ c :: post) = eval c := by
  have hne : eval c ≠ ERR_OK := by rcases hc with h | h <;> rw [h] <;> decide
  unfold CheckEndMissionForGroup
  rw [CheckEndMissionForGroup.loop_append eval pre (c :: post) ERR_OK false hpre]
  simp [CheckEndMissionForGroup.loop, hne]

theorem CheckEndMissionForGroup_first_lose_witness :
    CheckEndMissionForGroup (fun e => if e.tag = 1 then INFO_LOST else ERR_OK)
      ([{ winTeam := 0, lost := -1, immediat := false, tag := 0 }]
        ++ { winTeam := 0, lost := 0, immediat := false, tag := 1 }
          :: [{ winTeam := 0, lost := -1, immediat := true, tag := 2 }]) = INFO_LOST :=
  CheckEndMissionForGroup_first_lose (fun e => if e.tag = 1 then INFO_LOST else ERR_OK)
    [{ winTeam := 0, lost := -1, immediat := false, tag := 0 }]
    [{ winTeam := 0, lost := -1, immediat := true, tag := 2 }]
    { winTeam := 0, lost := 0, immediat := false, tag := 1 }
    (by decide) (by decide)

/-- What a successful run of the loop means: it stopped at an immediate
success, or it ran to the end over successes only. -/
theorem CheckEndMissionForGroup.loop_ok (eval : CSceneEndCondition → Error)
    (l : List CSceneEndCondition) (hw : Bool)
    (h : (CheckEndMissionForGroup.loop eval l ERR_OK hw).1 = ERR_OK) :
    (∃ pre c post, l = pre ++ c :: post ∧ c.immediat = true ∧ eval c = ERR_OK
        ∧ ∀ e ∈ pre, eval e = ERR_OK)
      ∨ ((∀ e ∈ l, eval e = ERR_OK)
          ∧ (CheckEndMissionForGroup.loop eval l ERR_OK hw).2
              = (hw || l.any (fun e => decide (e.lost < 0)))) := by
  induction l generalizing hw with
  | nil => right; simp [CheckEndMissionForGroup.loop]
  | cons e l ih =>
    by_cases hr : eval e = ERR_OK
    · by_cases hi : e.immediat = true
      · exact Or.inl ⟨[], e, l, rfl, hi, hr, by simp⟩
      · simp only [Bool.not_eq_true] at hi
        simp only [CheckEndMissionForGroup.loop, hr, hi, Bool.and_false, Bool.false_eq_true,
          if_false, ne_eq, not_true_eq_false] at h ⊢
        rcases ih _ h with ⟨pre, c, post, h1, h2, h3, h4⟩ | ⟨h1, h2⟩
        · refine Or.inl ⟨e :: pre, c, post, by rw [h1]; rfl, h2, h3, ?_⟩
          intro x hx
          rcases List.mem_cons.1 hx with hx | hx
          · rw [hx]; exact hr
          · exact h4 x hx
        · refine Or.inr ⟨?_, ?_⟩
          · intro x hx
            rcases List.mem_cons.1 hx with hx | hx
            · rw [hx]; exact hr
            · exact h1 x hx
          · rw [h2]
            by_cases hl : e.lost < 0 <;> simp [hl]
    · simp [CheckEndMissionForGroup.loop, hr] at h

/-- C5, as stated, fails: a list made only of one satisfied lose-marker
condition (`lost >= 0`) that is immediate is reported as won. -/
theorem CheckEndMissionForGroup_win_counterexample :
    CheckEndMissionForGroup (fun _ => ERR_OK)
      [{ winTeam := 0, lost := 0, immediat := true, tag := 0 }] = ERR_OK := by
  decide

/-- C5, amended: `CheckEndMissionForGroup` returns `ERR_OK` only if some
immediate condition reported success with every condition before it also
reporting success, or every condition reported success and one of them is a
winning condition (`lost < 0`); for the empty list, and for a list made only
of satisfied lose-marker conditions none of which is immediate, it returns
`ERR_MISSION_NOTERM`. -/
theorem CheckEndMissionForGroup_win_only_if (eval : CSceneEndCondition → Error)
    (l : List CSceneEndCondition) :
    (CheckEndMissionForGroup eval l = ERR_OK →
      (∃ pre c post, l = pre ++ c :: post ∧ c.immediat = true ∧ eval c = ERR_OK
          ∧ ∀ e ∈ pre, eval e = ERR_OK)
        ∨ ((∀ e ∈ l, eval e = ERR_OK) ∧ ∃ e ∈ l, e.lost < 0))
    ∧ CheckEndMissionForGroup eval [] = ERR_MISSION_NOTERM
    ∧ ((∀ e ∈ l, eval e = ERR_OK ∧ 0 ≤ e.lost ∧ e.immediat = false) →
        CheckEndMissionForGroup eval l = ERR_MISSION_NOTERM) := by
  refine ⟨fun h => ?_, by simp [CheckEndMissionForGroup, CheckEndMissionForGroup.loop],
    fun h => ?_⟩
  · unfold CheckEndMissionForGroup at h
    by_cases h1 : (CheckEndMissionForGroup.loop eval l ERR_OK false).1 = ERR_OK
    · by_cases h2 : (CheckEndMissionForGroup.loop eval l ERR_OK false).2 = true
      · rcases CheckEndMissionForGroup.loop_ok eval l false h1 with h3 | ⟨h3, h4⟩
        · exact Or.inl h3
        · refine Or.inr ⟨h3, ?_⟩
          rw [h4] at h2
          simpa using h2
      · simp [h1, h2] at h
    · simp [h1] at h
  · unfold CheckEndMissionForGroup
    have := CheckEndMissionForGroup.loop_append eval l [] ERR_OK false
      (fun e he => ⟨(h e he).1, (h e he).2.2⟩)
    rw [List.append_nil] at this
    rw [this]
    have hany : l.any (fun e => decide (e.lost < 0)) = false := by
      rw [List.any_eq_false]
      intro e he
      simpa using (h e he).2.1
    simp [CheckEndMissionForGroup.loop, hany]

theorem CheckEndMissionForGroup_win_only_if_witness :
    (CheckEndMissionForGroup (fun _ => ERR_OK)
        [{ winTeam := 0, lost := 0, immediat := false, tag := 0 }] = ERR_OK →
      (∃ pre c post, [({ winTeam := 0, lost := 0, immediat := false, tag := 0 } :
            CSceneEndCondition)] = pre ++ c :: post
          ∧ c.immediat = true ∧ (fun _ => ERR_OK) c = ERR_OK
          ∧ ∀ e ∈ pre, (fun _ => ERR_OK) e = ERR_OK)
        ∨ ((∀ e ∈ [({ winTeam := 0, lost := 0, immediat := false, tag := 0 } :
              CSceneEndCondition)], (fun _ => ERR_OK) e = ERR_OK)
            ∧ ∃ e ∈ [({ winTeam := 0, lost := 0, immediat := false, tag := 0 } :
              CSceneEndCondition)], e.lost < 0))
    ∧ CheckEndMissionForGroup (fun _ => ERR_OK) [] = ERR_MISSION_NOTERM
    ∧ CheckEndMissionForGroup (fun _ => ERR_OK)
        [{ winTeam := 0, lost := 0, immediat := false, tag := 0 }] = ERR_MISSION_NOTERM :=
  have h := CheckEndMissionForGroup_win_only_if (fun _ => ERR_OK)
    [{ winTeam := 0, lost := 0, immediat := false, tag := 0 }]
  ⟨h.1, h.2.1, h.2.2 (by decide)⟩

/-! ### Per-frame driver -/

theorem sameFrameLog.same (s : CRobotMain) : sameFrameLog s s := ⟨rfl, rfl⟩

theorem sameFrameLog.chain {s t u : CRobotMain} (h1 : sameFrameLog s t)
    (h2 : sameFrameLog t u) : sameFrameLog s u :=
  ⟨h2.1.trans h1.1, h2.2.trans h1.2⟩

theorem display_sameFrameLog (m : Msg) (s : CRobotMain) : sameFrameLog s (display m s) := by
  unfold display
  split <;> exact ⟨rfl, rfl⟩

theorem armWin_sameFrameLog (s : CRobotMain) :
    sameFrameLog s (CheckEndMission.armWin s) := by
  unfold CheckEndMission.armWin
  split
  · exact (display_sameFrameLog _ s).chain ⟨rfl, rfl⟩
  · exact ⟨rfl, rfl⟩

theorem teamLost_sameFrameLog (team : Int) (s : CRobotMain) :
    sameFrameLog s (CheckEndMission.teamLost team s) :=
  (display_sameFrameLog _ s).chain ⟨rfl, rfl⟩

theorem teamWon_sameFrameLog (team : Int) (s : CRobotMain) :
    sameFrameLog s (CheckEndMission.teamWon team s) := by
  unfold CheckEndMission.teamWon
  by_cases h : s.m_winDelay = 0
  · simp only [h, if_true]
    have h1 : sameFrameLog s (CheckEndMission.armWin (display (Msg.teamWon team) s)) :=
      (display_sameFrameLog (Msg.teamWon team) s).chain (armWin_sameFrameLog _)
    have h2 : sameFrameLog s
        (if (CheckEndMission.armWin (display (Msg.teamWon team) s)).m_exitAfterMission = true
          then AddEvent EVENT_QUIT (CheckEndMission.armWin (display (Msg.teamWon team) s))
          else CheckEndMission.armWin (display (Msg.teamWon team) s)) := by
      split
      · exact h1.chain ⟨rfl, rfl⟩
      · exact h1
    exact h2.chain ⟨rfl, rfl⟩
  · simp only [h, if_false]
    exact ⟨rfl, rfl⟩

theorem teamLoop_sameFrameLog (eval : CSceneEndCondition → List CObject → Error)
    (teams : List (Int × List CSceneEndCondition)) (s : CRobotMain) :
    sameFrameLog s (CheckEndMission.teamLoop eval teams s).2 := by
  induction teams generalizing s with
  | nil => exact sameFrameLog.same s
  | cons g teams ih =>
    obtain ⟨team, group⟩ := g
    unfold CheckEndMission.teamLoop
    split
    · exact ih s
    · split
      · exact ih s
      · split
        · exact (teamLost_sameFrameLog team s).chain (ih _)
        · split
          · exact teamWon_sameFrameLog team s
          · exact ih s

theorem groups_sameFrameLog (eval : CSceneEndCondition → List CObject → Error)
    (s : CRobotMain) : sameFrameLog s (CheckEndMission.groups eval s).2 := by
  unfold CheckEndMission.groups
  simp only []
  split
  · exact ⟨rfl, rfl⟩
  · split
    · exact ⟨rfl, rfl⟩
    · exact sameFrameLog.chain (t := { s with m_missionResult := ERR_MISSION_NOTERM })
        ⟨rfl, rfl⟩ (teamLoop_sameFrameLog _ _ _)

theorem researchGate_sameFrameLog (s : CRobotMain) :
    sameFrameLog s (CheckEndMission.researchGate s) := by
  unfold CheckEndMission.researchGate
  repeat' split
  all_goals exact ⟨rfl, rfl⟩

theorem evaluate_sameFrameLog (eval : CSceneEndCondition → List CObject → Error)
    (s : CRobotMain) : sameFrameLog s (CheckEndMission.evaluate eval s).2 := by
  unfold CheckEndMission.evaluate
  split
  · exact sameFrameLog.same s
  · simp only []
    split
    · exact groups_sameFrameLog eval s
    · exact (groups_sameFrameLog eval s).chain (researchGate_sameFrameLog _)

theorem lostNow_sameFrameLog (s : CRobotMain) :
    sameFrameLog s (CheckEndMission.lostNow s) := by
  unfold CheckEndMission.lostNow
  simp only []
  split <;> split <;> exact ⟨rfl, rfl⟩

theorem lost_sameFrameLog (s : CRobotMain) : sameFrameLog s (CheckEndMission.lost s) := by
  unfold CheckEndMission.lost
  simp only []
  split <;> split <;>
    first
      | exact ⟨rfl, rfl⟩
      | exact (display_sameFrameLog _ s).chain ⟨rfl, rfl⟩

theorem wonNow_sameFrameLog (s : CRobotMain) :
    sameFrameLog s (CheckEndMission.wonNow s) := by
  unfold CheckEndMission.wonNow
  simp only []
  split <;> exact ⟨rfl, rfl⟩

theorem won_sameFrameLog (s : CRobotMain) : sameFrameLog s (CheckEndMission.won s) := by
  unfold CheckEndMission.won
  simp only []
  split <;> split <;>
    first
      | exact ⟨rfl, rfl⟩
      | exact ((display_sameFrameLog _ s).chain (armWin_sameFrameLog _)).chain ⟨rfl, rfl⟩

theorem act_sameFrameLog (frame isImmediat : Bool) (s : CRobotMain) :
    sameFrameLog s (CheckEndMission.act frame isImmediat s).2 := by
  unfold CheckEndMission.act
  split
  · exact lostNow_sameFrameLog s
  · split
    · exact lost_sameFrameLog s
    · split
      · split
        · exact wonNow_sameFrameLog s
        · split
          · exact ⟨rfl, rfl⟩
          · exact won_sameFrameLog s
      · exact ⟨rfl, rfl⟩

theorem CheckEndMission_sameFrameLog (eval : CSceneEndCondition → List CObject → Error)
    (frame : Bool) (s : CRobotMain) : sameFrameLog s (CheckEndMission eval frame s).2 := by
  unfold CheckEndMission
  simp only []
  split
  · exact evaluate_sameFrameLog eval s
  · exact (evaluate_sameFrameLog eval s).chain (act_sameFrameLog _ _ _)

/-- C8: the code at the failing input.  In `PHASE_SIMUL`, with a cut-scene lock
and no edit lock, a lose countdown of half a second expiring on a one-second
frame is not re-armed: it is left at minus half a second, the win countdown
(which was not running) is armed to one second instead, and no event is
queued. -/
theorem EventFrame_lost_expiry_arms_win :
    (EventFrame (fun _ _ => ERR_MISSION_NOTERM) { type := EVENT_FRAME, rTime := 1 }
        { CRobotMain.initial with m_phase := PHASE_SIMUL, worldExists := true,
                                  m_movieLock := true, m_lostDelay := 1 / 2 }).2.m_lostDelay
      = -1 / 2
    ∧ (EventFrame (fun _ _ => ERR_MISSION_NOTERM) { type := EVENT_FRAME, rTime := 1 }
        { CRobotMain.initial with m_phase := PHASE_SIMUL, worldExists := true,
                                  m_movieLock := true, m_lostDelay := 1 / 2 }).2.m_winDelay
      = 1
    ∧ (EventFrame (fun _ _ => ERR_MISSION_NOTERM) { type := EVENT_FRAME, rTime := 1 }
        { CRobotMain.initial with m_phase := PHASE_SIMUL, worldExists := true,
                                  m_movieLock := true, m_lostDelay := 1 / 2 }).2.events
      = [] := by
  simp [EventFrame, EventFrame.clock, EventFrame.endOfMission, EventFrame.codeBattleStep,
    EventFrame.countdowns, EventFrame.winCountdown, EventFrame.lostCountdown, CheckEndMission, CheckEndMission.evaluate,
    CheckEndMission.groups, CheckEndMission.researchGate, CheckEndMission.act,
    CheckEndMission.lostNow, CheckEndMission.lost, CheckEndMission.wonNow, CheckEndMission.won, CheckEndMissionForGroup, CheckEndMissionForGroup.loop, sortByTeams,
    teamsAt, SetEnable, CRobotMain.initial, EventFrame.advance, EventFrame.advanceRobots,
    EventFrame.advanceTransported]
  norm_num

theorem countdowns_sameFrameLog (rTime : ℚ) (s : CRobotMain) :
    sameFrameLog s (EventFrame.countdowns rTime s) := by
  have h1 : sameFrameLog s (EventFrame.winCountdown rTime s) := by
    unfold EventFrame.winCountdown
    split
    · simp only []
      split
      · split <;> exact ⟨rfl, rfl⟩
      · exact ⟨rfl, rfl⟩
    · exact ⟨rfl, rfl⟩
  have h2 : ∀ t, sameFrameLog t (EventFrame.lostCountdown rTime t) := fun t => by
    unfold EventFrame.lostCountdown
    split
    · simp only []
      split
      · split <;> exact ⟨rfl, rfl⟩
      · exact ⟨rfl, rfl⟩
    · exact ⟨rfl, rfl⟩
  exact h1.chain (h2 _)

theorem endOfMission_sameFrameLog (eval : CSceneEndCondition → List CObject → Error)
    (rTime : ℚ) (s : CRobotMain) : sameFrameLog s (EventFrame.endOfMission eval rTime s) := by
  unfold EventFrame.endOfMission
  split
  · simp only []
    split
    · exact (CheckEndMission_sameFrameLog eval true s).chain (countdowns_sameFrameLog _ _)
    · exact countdowns_sameFrameLog _ _
  · exact ⟨rfl, rfl⟩

theorem codeBattleStep_sameFrameLog (s : CRobotMain) :
    sameFrameLog s (EventFrame.codeBattleStep s) := by
  unfold EventFrame.codeBattleStep
  split
  · simp only []
    split <;> split <;> exact ⟨rfl, rfl⟩
  · exact ⟨rfl, rfl⟩

/-- The clock step leaves alone what the update pass reads. -/
theorem clock_frame (rTime : ℚ) (s : CRobotMain) :
    sameFrameLog s (EventFrame.clock rTime s)
      ∧ EventFrame.advance (EventFrame.clock rTime s) = EventFrame.advance s := by
  unfold EventFrame.clock display
  simp only []
  repeat' split
  all_goals exact ⟨⟨rfl, rfl⟩, rfl⟩

/-- One frame: the driver ran once more and logged the calls of its update
pass after those of the earlier frames. -/
theorem EventFrame_log (eval : CSceneEndCondition → List CObject → Error)
    (event : Event) (s : CRobotMain) :
    (EventFrame eval event s).1 = true
      ∧ (EventFrame eval event s).2.frames = s.frames + 1
      ∧ (EventFrame eval event s).2.updates = s.updates ++ EventFrame.advance s := by
  unfold EventFrame
  simp only []
  have h0 := clock_frame event.rTime { s with frames := s.frames + 1 }
  generalize EventFrame.clock event.rTime { s with frames := s.frames + 1 } = s1 at h0 ⊢
  have h2 := endOfMission_sameFrameLog eval event.rTime
    { s1 with updates := s1.updates ++ EventFrame.advance s1 }
  have h3 := codeBattleStep_sameFrameLog (EventFrame.endOfMission eval event.rTime
    { s1 with updates := s1.updates ++ EventFrame.advance s1 })
  have h4 := h2.chain h3
  refine ⟨trivial, ?_, ?_⟩
  · rw [h4.1]
    exact h0.1.1
  · rw [h4.2]
    show s1.updates ++ EventFrame.advance s1 = _
    rw [h0.1.2, h0.2]
    rfl

/-- C9, as stated, fails: a frame event for which `m_ui->EventProcess` returns
false is swallowed: `ProcessEvent` returns false and the per-frame driver does
not run (the state, frame counter included, is untouched). -/
theorem ProcessEvent_frame_swallowed :
    ProcessEvent (fun _ _ => ERR_MISSION_NOTERM)
      { uiEventProcess := false, movieEventProcess := true, movieStopSatComOpen := false,
        displayTextEventProcess := true, interfaceEventProcess := true,
        displayInfoEventProcess := none }
      (fun _ s => (true, s)) { type := EVENT_FRAME, rTime := 1 } CRobotMain.initial
      = (false, CRobotMain.initial) := by
  rfl

/-- C9, amended: for every `EVENT_FRAME` event that `m_ui->EventProcess` lets
through (returns true), the per-frame driver `EventFrame` is executed for that
event, whatever the movie, display-text, interface and display-info handlers
return. -/
theorem ProcessEvent_frame_reaches_driver
    (eval : CSceneEndCondition → List CObject → Error) (h : Handlers)
    (others : Event → CRobotMain → Bool × CRobotMain) (event : Event) (s : CRobotMain)
    (hui : h.uiEventProcess = true) (hf : event.type = EVENT_FRAME) :
    (∃ s0, ProcessEvent eval h others event s = EventFrame eval event s0)
      ∧ (ProcessEvent eval h others event s).2.frames = s.frames + 1 := by
  unfold ProcessEvent
  simp only [hui, Bool.not_true, Bool.false_eq_true, if_false, hf, if_true]
  refine ⟨⟨_, rfl⟩, ?_⟩
  rw [(EventFrame_log eval event _).2.1]
  unfold ChangePause
  repeat' split
  all_goals rfl

theorem ProcessEvent_frame_reaches_driver_witness :
    (∃ s0, ProcessEvent (fun _ _ => ERR_MISSION_NOTERM)
        { uiEventProcess := true, movieEventProcess := false, movieStopSatComOpen := true,
          displayTextEventProcess := false, interfaceEventProcess := false,
          displayInfoEventProcess := some false }
        (fun _ s => (false, s)) { type := EVENT_FRAME, rTime := 1 } CRobotMain.initial
        = EventFrame (fun _ _ => ERR_MISSION_NOTERM) { type := EVENT_FRAME, rTime := 1 } s0)
      ∧ (ProcessEvent (fun _ _ => ERR_MISSION_NOTERM)
        { uiEventProcess := true, movieEventProcess := false, movieStopSatComOpen := true,
          displayTextEventProcess := false, interfaceEventProcess := false,
          displayInfoEventProcess := some false }
        (fun _ s => (false, s)) { type := EVENT_FRAME, rTime := 1 } CRobotMain.initial).2.frames
        = CRobotMain.initial.frames + 1 :=
  ProcessEvent_frame_reaches_driver _ _ _ _ _ rfl rfl

theorem advanceRobots_eq (l : List CObject) (toto : Option CObject) (log : List Update) :
    EventFrame.advanceRobots l toto log =
      (((l.filter fun o => !o.transported && o.type == OBJECT_TOTO).getLast?).or toto,
        log ++ (l.filter fun o => !o.transported && o.type != OBJECT_TOTO && o.interactive).map
          (fun o => Update.object o.id)) := by
  induction l generalizing toto log with
  | nil => simp [EventFrame.advanceRobots]
  | cons o l ih =>
    unfold EventFrame.advanceRobots
    by_cases ht : o.transported = true
    · simp [ht, ih]
    · simp only [Bool.not_eq_true] at ht
      by_cases hty : o.type = OBJECT_TOTO
      · simp only [ht, Bool.false_eq_true, if_false, hty, if_true, ih]
        simp only [List.filter_cons, ht, hty, Bool.not_false, beq_self_eq_true, Bool.and_self,
          if_true, bne_self_eq_false, Bool.and_false, Bool.false_and, Bool.false_eq_true,
          if_false, Prod.mk.injEq, and_true]
        rw [List.getLast?_cons]
        cases (l.filter fun o => !o.transported && o.type == OBJECT_TOTO).getLast? <;> rfl
      · by_cases hi : o.interactive = true
        · simp [ht, hty, hi, ih]
        · simp [ht, hty, hi, ih]

theorem advanceTransported_eq (l : List CObject) (log : List Update) :
    EventFrame.advanceTransported l log =
      log ++ (l.filter fun o => o.transported && o.interactive).map
        (fun o => Update.object o.id) := by
  induction l generalizing log with
  | nil => simp [EventFrame.advanceTransported]
  | cons o l ih =>
    unfold EventFrame.advanceTransported
    by_cases ht : o.transported = true <;> by_cases hi : o.interactive = true <;>
      simp [ht, hi, ih]

/-- The update pass of the code follows the order the specification gives. -/
theorem advance_eq_updateOrder (s : CRobotMain) :
    EventFrame.advance s = EventFrame.updateOrder s := by
  unfold EventFrame.advance EventFrame.updateOrder EventFrame.cameraAdvances
    EventFrame.companion
  simp only [advanceRobots_eq, advanceTransported_eq]
  by_cases hf : s.m_freePhoto = true
  · cases hp : s.m_phase <;> cases he : s.m_editFull <;> simp [hf]
  · simp only [Bool.not_eq_true] at hf
    cases hp : s.m_phase <;> cases he : s.m_editFull <;>
      cases hc : (s.objects.filter fun o => !o.transported && o.type == OBJECT_TOTO).getLast? <;>
      simp [hf, hc]

/-- C10: in one `EventFrame` call the `EventProcess` calls are made in the order
of the specification: outside free-photo mode, the non-transported interactive
objects other than Toto in registry order, then the transported interactive
objects in registry order, then the pyrotechnic manager, then the camera, then
the companion; in free-photo mode no object is updated. -/
theorem EventFrame_update_order (eval : CSceneEndCondition → List CObject → Error)
    (event : Event) (s : CRobotMain) :
    (EventFrame eval event s).2.updates = s.updates ++ EventFrame.updateOrder s
      ∧ (s.m_freePhoto = true → ∀ id, Update.object id ∉ EventFrame.updateOrder s) := by
  refine ⟨?_, fun hf id => ?_⟩
  · rw [(EventFrame_log eval event s).2.2, advance_eq_updateOrder]
  · unfold EventFrame.updateOrder
    simp only [hf, if_true, List.nil_append, List.append_nil]
    split <;> simp

theorem EventFrame_update_order_witness :
    (EventFrame (fun _ _ => ERR_MISSION_NOTERM) { type := EVENT_FRAME, rTime := 1 }
        { CRobotMain.initial with m_freePhoto := true }).2.updates
        = CRobotMain.initial.updates
          ++ EventFrame.updateOrder { CRobotMain.initial with m_freePhoto := true }
      ∧ ∀ id, Update.object id
          ∉ EventFrame.updateOrder { CRobotMain.initial with m_freePhoto := true } :=
  have h := EventFrame_update_order (fun _ _ => ERR_MISSION_NOTERM)
    { type := EVENT_FRAME, rTime := 1 } { CRobotMain.initial with m_freePhoto := true }
  ⟨h.1, h.2 rfl⟩

/-! ### `CheckEndMission` -/

theorem teamsPush_any (p : Int → Bool) (e : CSceneEndCondition)
    (m : List (Int × List CSceneEndCondition)) :
    (teamsPush e m).any (fun g => p g.1) = (p e.winTeam || m.any (fun g => p g.1)) := by
  induction m with
  | nil => simp [teamsPush]
  | cons g m ih =>
    obtain ⟨team, group⟩ := g
    unfold teamsPush
    by_cases h1 : e.winTeam < team
    · simp [h1]
    · by_cases h2 : e.winTeam = team
      · simp [h1, h2]
      · simp only [h1, h2, if_false, List.any_cons, ih]
        cases p e.winTeam <;> cases p team <;> simp

theorem foldl_teamsPush_any (p : Int → Bool) (l : List CSceneEndCondition)
    (m : List (Int × List CSceneEndCondition)) :
    (l.foldl (fun teams e => teamsPush e teams) m).any (fun g => p g.1)
      = (m.any (fun g => p g.1) || l.any (fun e => p e.winTeam)) := by
  induction l generalizing m with
  | nil => simp
  | cons e l ih =>
    simp only [List.foldl_cons, ih, teamsPush_any, List.any_cons]
    cases p e.winTeam <;> simp

/-- The map of `CheckEndMission` has a key satisfying `p` exactly when some
end-condition belongs to a team satisfying `p`. -/
theorem sortByTeams_any (p : Int → Bool) (l : List CSceneEndCondition) :
    (sortByTeams l).any (fun g => p g.1) = l.any (fun e => p e.winTeam) := by
  unfold sortByTeams
  rw [foldl_teamsPush_any]
  simp

/-- With global conditions only, the evaluation is that of the single group
of team 0. -/
theorem groups_global (eval : CSceneEndCondition → List CObject → Error) (s : CRobotMain)
    (hglobal : ∀ e ∈ s.m_endTake, e.winTeam = 0) :
    CheckEndMission.groups eval s
      = (false, { s with m_missionResult := (CheckEndMissionForGroup
          (fun e => eval e s.objects) (teamsAt (sortByTeams s.m_endTake) 0)) }) := by
  have h : (sortByTeams s.m_endTake).any (fun g => g.1 != 0) = false := by
    rw [sortByTeams_any (fun t => t != 0), List.any_eq_false]
    intro e he
    simp [hglobal e he]
  unfold CheckEndMission.groups
  simp only [h, Bool.not_false, if_true]

/-- C6, as stated, fails for conditions partitioned by team: with a required
research that is not done, a team whose group evaluates to won is reported as
the winner (`ERR_OK`) and the win countdown is armed. -/
theorem CheckEndMission_research_counterexample :
    (CheckEndMission (fun _ _ => ERR_OK) true
        { CRobotMain.initial with
          m_phase := PHASE_SIMUL, worldExists := true,
          m_endTake := [{ winTeam := 1, lost := -1, immediat := false, tag := 0 }],
          objects := [{ id := 1, type := OBJECT_OTHER 0, team := 1, transported := false,
                        interactive := true }],
          m_endTakeResearch := 1, m_researchDone := [(0, 0)] }).1 = ERR_OK
    ∧ (CheckEndMission (fun _ _ => ERR_OK) true
        { CRobotMain.initial with
          m_phase := PHASE_SIMUL, worldExists := true,
          m_endTake := [{ winTeam := 1, lost := -1, immediat := false, tag := 0 }],
          objects := [{ id := 1, type := OBJECT_OTHER 0, team := 1, transported := false,
                        interactive := true }],
          m_endTakeResearch := 1, m_researchDone := [(0, 0)] }).2.m_winDelay = 2
    ∧ Int.land 1 (mapIndex 0 [(0, 0)]).1 ≠ 1 := by
  decide

/-- A result other than `ERR_OK` is never acted upon as a win: the value
returned is not `ERR_OK` and the win countdown is left alone or cleared. -/
theorem act_not_won (frame isImmediat : Bool) (s : CRobotMain)
    (h : s.m_missionResult ≠ ERR_OK) :
    (CheckEndMission.act frame isImmediat s).1 ≠ ERR_OK
      ∧ ((CheckEndMission.act frame isImmediat s).2.m_winDelay = s.m_winDelay
          ∨ (CheckEndMission.act frame isImmediat s).2.m_winDelay = 0) := by
  unfold CheckEndMission.act
  by_cases h1 : s.m_missionResult = INFO_LOSTq
  · rw [if_pos h1]
    refine ⟨fun h => Error.noConfusion h, ?_⟩
    unfold CheckEndMission.lostNow SetEnable AddEvent
    by_cases h2 : s.m_lostDelay = 0
    · right
      simp only [h2, if_true]
      split <;> rfl
    · left
      simp only [h2, if_false]
      split <;> rfl
  · rw [if_neg h1]
    by_cases h3 : s.m_missionResult = INFO_LOST
    · rw [if_pos h3]
      refine ⟨fun h => Error.noConfusion h, ?_⟩
      unfold CheckEndMission.lost SetEnable AddEvent display
      by_cases h2 : s.m_lostDelay = 0
      · right
        simp only [h2, if_true]
        repeat' split
        all_goals rfl
      · left
        simp only [h2, if_false]
        split <;> rfl
    · rw [if_neg h3, if_neg h]
      exact ⟨fun h => Error.noConfusion h, Or.inl rfl⟩

/-- The research override: with a required research that is not done, the
result left by the gate is never `ERR_OK`; the countdowns are not touched. -/
theorem researchGate_blocks (s : CRobotMain) (hr : s.m_endTakeResearch ≠ 0)
    (hdone : Int.land s.m_endTakeResearch (mapIndex 0 s.m_researchDone).1
      ≠ s.m_endTakeResearch) :
    (CheckEndMission.researchGate s).m_missionResult ≠ ERR_OK
      ∧ (CheckEndMission.researchGate s).m_winDelay = s.m_winDelay := by
  unfold CheckEndMission.researchGate
  by_cases hl : s.m_missionResult ≠ INFO_LOST ∧ s.m_missionResult ≠ INFO_LOSTq
  · rw [if_pos hl, if_pos hr, if_pos (Ne.symm hdone)]
    exact ⟨fun h => Error.noConfusion h, rfl⟩
  · rw [if_neg hl]
    refine ⟨fun hG => hl ?_, rfl⟩
    rw [hG]
    exact ⟨fun h => Error.noConfusion h, fun h => Error.noConfusion h⟩

/-- C6, amended: without a mission controller and with global end-conditions
only (every condition of team 0), when the required end-research mask is
non-zero and not contained in the done-research mask of team 0,
`CheckEndMission` does not report the mission as won: its result is not
`ERR_OK` and it does not arm the win countdown (`m_winDelay` is left as it was
or cleared). -/
theorem CheckEndMission_research_gate (eval : CSceneEndCondition → List CObject → Error)
    (frame : Bool) (s : CRobotMain)
    (hc : s.m_controller = false)
    (hglobal : ∀ e ∈ s.m_endTake, e.winTeam = 0)
    (hr : s.m_endTakeResearch ≠ 0)
    (hdone : Int.land s.m_endTakeResearch (mapIndex 0 s.m_researchDone).1
      ≠ s.m_endTakeResearch) :
    (CheckEndMission eval frame s).1 ≠ ERR_OK
      ∧ ((CheckEndMission eval frame s).2.m_winDelay = s.m_winDelay
          ∨ (CheckEndMission eval frame s).2.m_winDelay = 0) := by
  have hgate := researchGate_blocks
    { s with m_missionResult := (CheckEndMissionForGroup (fun e => eval e s.objects)
        (teamsAt (sortByTeams s.m_endTake) 0)) } hr hdone
  have key : ∀ i, (CheckEndMission.act frame i (CheckEndMission.researchGate
        { s with m_missionResult := (CheckEndMissionForGroup (fun e => eval e s.objects)
          (teamsAt (sortByTeams s.m_endTake) 0)) })).1 ≠ ERR_OK
      ∧ ((CheckEndMission.act frame i (CheckEndMission.researchGate
        { s with m_missionResult := (CheckEndMissionForGroup (fun e => eval e s.objects)
          (teamsAt (sortByTeams s.m_endTake) 0)) })).2.m_winDelay = s.m_winDelay
        ∨ (CheckEndMission.act frame i (CheckEndMission.researchGate
        { s with m_missionResult := (CheckEndMissionForGroup (fun e => eval e s.objects)
          (teamsAt (sortByTeams s.m_endTake) 0)) })).2.m_winDelay = 0) := fun i => by
    have := act_not_won frame i _ hgate.1
    rw [hgate.2] at this
    exact this
  have hev : CheckEndMission.evaluate eval s = (false, CheckEndMission.researchGate
      { s with m_missionResult := (CheckEndMissionForGroup (fun e => eval e s.objects)
        (teamsAt (sortByTeams s.m_endTake) 0)) }) := by
    unfold CheckEndMission.evaluate
    rw [if_neg (by rw [hc]; decide), groups_global eval s hglobal]
    rfl
  unfold CheckEndMission
  rw [hev]
  exact key _

theorem CheckEndMission_research_gate_witness :
    (CheckEndMission (fun _ _ => ERR_OK) true
        { CRobotMain.initial with
          m_endTake := [{ winTeam := 0, lost := -1, immediat := false, tag := 0 }],
          m_endTakeResearch := 1, m_researchDone := [(0, 0)] }).1 ≠ ERR_OK
      ∧ ((CheckEndMission (fun _ _ => ERR_OK) true
        { CRobotMain.initial with
          m_endTake := [{ winTeam := 0, lost := -1, immediat := false, tag := 0 }],
          m_endTakeResearch := 1, m_researchDone := [(0, 0)] }).2.m_winDelay
          = CRobotMain.initial.m_winDelay
        ∨ (CheckEndMission (fun _ _ => ERR_OK) true
        { CRobotMain.initial with
          m_endTake := [{ winTeam := 0, lost := -1, immediat := false, tag := 0 }],
          m_endTakeResearch := 1, m_researchDone := [(0, 0)] }).2.m_winDelay = 0) :=
  CheckEndMission_research_gate (fun _ _ => ERR_OK) true
    { CRobotMain.initial with
      m_endTake := [{ winTeam := 0, lost := -1, immediat := false, tag := 0 }],
      m_endTakeResearch := 1, m_researchDone := [(0, 0)] }
    rfl (by decide) (by decide) (by decide)

/-! #### The team map -/

theorem teamsPush_mem_key (e : CSceneEndCondition) (m : List (Int × List CSceneEndCondition))
    (g : Int × List CSceneEndCondition) (hg : g ∈ teamsPush e m) :
    g.1 = e.winTeam ∨ ∃ g' ∈ m, g'.1 = g.1 := by
  induction m with
  | nil =>
    simp only [teamsPush, List.mem_singleton] at hg
    left; rw [hg]
  | cons h m ih =>
    obtain ⟨team, group⟩ := h
    unfold teamsPush at hg
    by_cases h1 : e.winTeam < team
    · rw [if_pos h1] at hg
      rcases List.mem_cons.1 hg with hg | hg
      · left; rw [hg]
      · exact Or.inr ⟨g, hg, rfl⟩
    · rw [if_neg h1] at hg
      by_cases h2 : e.winTeam = team
      · rw [if_pos h2] at hg
        rcases List.mem_cons.1 hg with hg | hg
        · left; rw [hg, h2]
        · exact Or.inr ⟨g, List.mem_cons_of_mem _ hg, rfl⟩
      · rw [if_neg h2] at hg
        rcases List.mem_cons.1 hg with hg | hg
        · exact Or.inr ⟨(team, group), List.mem_cons_self _ _, by rw [hg]⟩
        · rcases ih hg with h | ⟨g', hg', h⟩
          · exact Or.inl h
          · exact Or.inr ⟨g', List.mem_cons_of_mem _ hg', h⟩

/-- The team map is kept in strictly increasing key order, as a `std::map`. -/
theorem teamsPush_sorted (e : CSceneEndCondition) (m : List (Int × List CSceneEndCondition))
    (hm : m.Pairwise (fun a b => a.1 < b.1)) :
    (teamsPush e m).Pairwise (fun a b => a.1 < b.1) := by
  induction m with
  | nil => simp [teamsPush]
  | cons h m ih =>
    obtain ⟨team, group⟩ := h
    rw [List.pairwise_cons] at hm
    unfold teamsPush
    by_cases h1 : e.winTeam < team
    · rw [if_pos h1]
      refine List.pairwise_cons.2 ⟨?_, List.pairwise_cons.2 hm⟩
      intro g hg
      rcases List.mem_cons.1 hg with hg | hg
      · rw [hg]; exact h1
      · exact lt_trans h1 (hm.1 g hg)
    · rw [if_neg h1]
      by_cases h2 : e.winTeam = team
      · rw [if_pos h2]
        exact List.pairwise_cons.2 ⟨hm.1, hm.2⟩
      · rw [if_neg h2]
        refine List.pairwise_cons.2 ⟨?_, ih hm.2⟩
        intro g hg
        rcases teamsPush_mem_key e m g hg with h | ⟨g', hg', h⟩
        · rw [h]
          exact lt_of_le_of_ne (not_lt.1 h1) (Ne.symm h2)
        · rw [← h]
          exact hm.1 g' hg'

theorem teamsPush_of_lt (e : CSceneEndCondition) (m : List (Int × List CSceneEndCondition))
    (h : ∀ g ∈ m, e.winTeam < g.1) : teamsPush e m = (e.winTeam, [e]) :: m := by
  cases m with
  | nil => rfl
  | cons f m =>
    obtain ⟨ft, fg⟩ := f
    unfold teamsPush
    rw [if_pos (h (ft, fg) (List.mem_cons_self _ _))]

theorem teamsPush_filter_other (d : Int) (e : CSceneEndCondition)
    (m : List (Int × List CSceneEndCondition)) (he : e.winTeam ≠ d)
    (hm : m.Pairwise (fun a b => a.1 < b.1)) :
    teamsPush e (m.filter fun g => g.1 != d) = (teamsPush e m).filter fun g => g.1 != d := by
  induction m with
  | nil => simp [teamsPush, he]
  | cons h m ih =>
    obtain ⟨team, group⟩ := h
    rw [List.pairwise_cons] at hm
    have ih' := ih hm.2
    by_cases h1 : e.winTeam < team
    · have hR : teamsPush e ((team, group) :: m)
          = (e.winTeam, [e]) :: (team, group) :: m := by
        unfold teamsPush
        rw [if_pos h1]
      have hRf : List.filter (fun g => g.1 != d) ((e.winTeam, [e]) :: (team, group) :: m)
          = (e.winTeam, [e]) :: List.filter (fun g => g.1 != d) ((team, group) :: m) :=
        List.filter_cons_of_pos (by simpa using he)
      rw [hR, hRf]
      apply teamsPush_of_lt
      intro g hg
      have hg' := List.mem_of_mem_filter hg
      rcases List.mem_cons.1 hg' with hg' | hg'
      · rw [hg']; exact h1
      · exact lt_trans h1 (hm.1 g hg')
    · by_cases h2 : e.winTeam = team
      · have hR : teamsPush e ((team, group) :: m) = (team, group ++ [e]) :: m := by
          unfold teamsPush
          rw [if_neg h1, if_pos h2]
        have htd : team ≠ d := h2 ▸ he
        have hL : List.filter (fun g => g.1 != d) ((team, group) :: m)
            = (team, group) :: List.filter (fun g => g.1 != d) m :=
          List.filter_cons_of_pos (by simpa using htd)
        have hRf : List.filter (fun g => g.1 != d) ((team, group ++ [e]) :: m)
            = (team, group ++ [e]) :: List.filter (fun g => g.1 != d) m :=
          List.filter_cons_of_pos (by simpa using htd)
        rw [hR, hL, hRf]
        unfold teamsPush
        rw [if_neg h1, if_pos h2]
      · have hR : teamsPush e ((team, group) :: m) = (team, group) :: teamsPush e m := by
          conv_lhs => unfold teamsPush
          rw [if_neg h1, if_neg h2]
        rw [hR]
        by_cases htd : team = d
        · have hL : List.filter (fun g => g.1 != d) ((team, group) :: m)
              = List.filter (fun g => g.1 != d) m :=
            List.filter_cons_of_neg (by simp [htd])
          have hRf : List.filter (fun g => g.1 != d) ((team, group) :: teamsPush e m)
              = List.filter (fun g => g.1 != d) (teamsPush e m) :=
            List.filter_cons_of_neg (by simp [htd])
          rw [hL, hRf]
          exact ih'
        · have hL : List.filter (fun g => g.1 != d) ((team, group) :: m)
              = (team, group) :: List.filter (fun g => g.1 != d) m :=
            List.filter_cons_of_pos (by simpa using htd)
          have hRf : List.filter (fun g => g.1 != d) ((team, group) :: teamsPush e m)
              = (team, group) :: List.filter (fun g => g.1 != d) (teamsPush e m) :=
            List.filter_cons_of_pos (by simpa using htd)
          rw [hL, hRf, ← ih']
          conv_lhs => unfold teamsPush
          rw [if_neg h1, if_neg h2]

theorem teamsPush_filter_same (d : Int) (e : CSceneEndCondition)
    (m : List (Int × List CSceneEndCondition)) (he : e.winTeam = d) :
    (teamsPush e m).filter (fun g => g.1 != d) = m.filter fun g => g.1 != d := by
  induction m with
  | nil => simp [teamsPush, he]
  | cons h m ih =>
    obtain ⟨team, group⟩ := h
    unfold teamsPush
    by_cases h1 : e.winTeam < team
    · rw [if_pos h1, List.filter_cons_of_neg (by simp [he])]
    · rw [if_neg h1]
      by_cases h2 : e.winTeam = team
      · rw [if_pos h2]
        have htd : team = d := h2 ▸ he
        rw [List.filter_cons_of_neg (by simp [htd]), List.filter_cons_of_neg (by simp [htd])]
      · rw [if_neg h2]
        by_cases htd : team = d
        · rw [List.filter_cons_of_neg (by simp [htd]), List.filter_cons_of_neg (by simp [htd])]
          exact ih
        · rw [List.filter_cons_of_pos (by simpa using htd),
            List.filter_cons_of_pos (by simpa using htd), ih]

theorem foldl_teamsPush_filter (d : Int) (l : List CSceneEndCondition)
    (m : List (Int × List CSceneEndCondition)) (hm : m.Pairwise (fun a b => a.1 < b.1)) :
    (l.filter fun e => e.winTeam != d).foldl (fun teams e => teamsPush e teams)
        (m.filter fun g => g.1 != d)
      = (l.foldl (fun teams e => teamsPush e teams) m).filter fun g => g.1 != d := by
  induction l generalizing m with
  | nil => rfl
  | cons e l ih =>
    by_cases he : e.winTeam = d
    · rw [List.filter_cons_of_neg (by simp [he]), List.foldl_cons,
        ← ih _ (teamsPush_sorted e m hm), teamsPush_filter_same d e m he]
    · rw [List.filter_cons_of_pos (by simpa using he), List.foldl_cons, List.foldl_cons,
        teamsPush_filter_other d e m he hm, ih _ (teamsPush_sorted e m hm)]

/-- Dropping the end-conditions of one team drops its entry from the team
map and leaves the other entries as they are. -/
theorem sortByTeams_filter (d : Int) (l : List CSceneEndCondition) :
    sortByTeams (l.filter fun e => e.winTeam != d)
      = (sortByTeams l).filter fun g => g.1 != d := by
  unfold sortByTeams
  exact foldl_teamsPush_filter d l [] List.Pairwise.nil

/-! #### What the evaluation does not read -/

theorem display_withEndTake (x : List CSceneEndCondition) (m : Msg) (s : CRobotMain) :
    display m (withEndTake x s) = withEndTake x (display m s) := by
  simp only [display, withEndTake]
  split <;> rfl

theorem armWin_withEndTake (x : List CSceneEndCondition) (s : CRobotMain) :
    CheckEndMission.armWin (withEndTake x s) = withEndTake x (CheckEndMission.armWin s) := by
  simp only [CheckEndMission.armWin, display, withEndTake]
  repeat' split
  all_goals rfl

theorem teamLost_withEndTake (x : List CSceneEndCondition) (team : Int) (s : CRobotMain) :
    CheckEndMission.teamLost team (withEndTake x s)
      = withEndTake x (CheckEndMission.teamLost team s) := by
  simp only [CheckEndMission.teamLost, display, SetEnable, withEndTake]
  split <;> rfl

theorem teamWon_withEndTake (x : List CSceneEndCondition) (team : Int) (s : CRobotMain) :
    CheckEndMission.teamWon team (withEndTake x s)
      = withEndTake x (CheckEndMission.teamWon team s) := by
  simp only [CheckEndMission.teamWon, CheckEndMission.armWin, display, SetEnable, AddEvent,
    withEndTake]
  repeat' split
  all_goals rfl

theorem teamLoop_withEndTake (eval : CSceneEndCondition → List CObject → Error)
    (x : List CSceneEndCondition) (teams : List (Int × List CSceneEndCondition))
    (s : CRobotMain) :
    CheckEndMission.teamLoop eval teams (withEndTake x s)
      = ((CheckEndMission.teamLoop eval teams s).1,
          withEndTake x (CheckEndMission.teamLoop eval teams s).2) := by
  induction teams generalizing s with
  | nil => rfl
  | cons g teams ih =>
    obtain ⟨team, group⟩ := g
    unfold CheckEndMission.teamLoop
    have ho : (withEndTake x s).objects = s.objects := rfl
    rw [ho]
    by_cases h0 : team = 0
    · rw [if_pos h0, if_pos h0]; exact ih s
    · rw [if_neg h0, if_neg h0]
      by_cases h1 : (!TeamExists team s.objects) = true
      · rw [if_pos h1, if_pos h1]; exact ih s
      · rw [if_neg h1, if_neg h1]
        by_cases h2 : CheckEndMissionForGroup (fun e => eval e s.objects) group = INFO_LOST
            ∨ CheckEndMissionForGroup (fun e => eval e s.objects) group = INFO_LOSTq
        · rw [if_pos h2, if_pos h2, teamLost_withEndTake]; exact ih _
        · rw [if_neg h2, if_neg h2]
          by_cases h3 : CheckEndMissionForGroup (fun e => eval e s.objects) group = ERR_OK
          · rw [if_pos h3, if_pos h3, teamWon_withEndTake]
          · rw [if_neg h3, if_neg h3]; exact ih s

theorem researchGate_withEndTake (x : List CSceneEndCondition) (s : CRobotMain) :
    CheckEndMission.researchGate (withEndTake x s)
      = withEndTake x (CheckEndMission.researchGate s) := by
  simp only [CheckEndMission.researchGate, withEndTake]
  repeat' split
  all_goals rfl

theorem lostNow_withEndTake (x : List CSceneEndCondition) (s : CRobotMain) :
    CheckEndMission.lostNow (withEndTake x s) = withEndTake x (CheckEndMission.lostNow s) := by
  unfold CheckEndMission.lostNow SetEnable AddEvent withEndTake
  by_cases h : s.m_lostDelay = 0 <;> by_cases he : s.m_exitAfterMission = true <;>
    simp only [h, he, if_true, if_false, Bool.false_eq_true]

theorem lost_withEndTake (x : List CSceneEndCondition) (s : CRobotMain) :
    CheckEndMission.lost (withEndTake x s) = withEndTake x (CheckEndMission.lost s) := by
  unfold CheckEndMission.lost SetEnable AddEvent
  by_cases h : s.m_lostDelay = 0
  · have h' : (withEndTake x s).m_lostDelay = 0 := h
    simp only [h, h', if_true, display_withEndTake]
    unfold withEndTake
    split <;> rfl
  · have h' : ¬ (withEndTake x s).m_lostDelay = 0 := h
    simp only [h, h', if_false]
    unfold withEndTake
    split <;> rfl

theorem wonNow_withEndTake (x : List CSceneEndCondition) (s : CRobotMain) :
    CheckEndMission.wonNow (withEndTake x s) = withEndTake x (CheckEndMission.wonNow s) := by
  unfold CheckEndMission.wonNow SetEnable AddEvent withEndTake
  by_cases he : s.m_exitAfterMission = true <;>
    simp only [he, if_true, if_false, Bool.false_eq_true]

theorem won_withEndTake (x : List CSceneEndCondition) (s : CRobotMain) :
    CheckEndMission.won (withEndTake x s) = withEndTake x (CheckEndMission.won s) := by
  unfold CheckEndMission.won SetEnable AddEvent
  by_cases h : s.m_winDelay = 0
  · have h' : (withEndTake x s).m_winDelay = 0 := h
    simp only [h, h', if_true, display_withEndTake, armWin_withEndTake]
    unfold withEndTake
    split <;> rfl
  · have h' : ¬ (withEndTake x s).m_winDelay = 0 := h
    simp only [h, h', if_false]
    unfold withEndTake
    split <;> rfl

theorem act_withEndTake (x : List CSceneEndCondition) (frame isImmediat : Bool)
    (s : CRobotMain) :
    CheckEndMission.act frame isImmediat (withEndTake x s)
      = ((CheckEndMission.act frame isImmediat s).1,
          withEndTake x (CheckEndMission.act frame isImmediat s).2) := by
  unfold CheckEndMission.act
  have h1 : (withEndTake x s).m_missionResult = s.m_missionResult := rfl
  have h2 : (withEndTake x s).m_endTakeWinDelay = s.m_endTakeWinDelay := rfl
  have h3 : (withEndTake x s).baseSelectable = s.baseSelectable := rfl
  rw [h1, h2, h3, lostNow_withEndTake, lost_withEndTake, wonNow_withEndTake, won_withEndTake]
  repeat' split
  all_goals rfl

/-! #### A team without objects -/

theorem TeamExists_DestroyTeam (d team : Int) (objects : List CObject)
    (h : TeamExists d objects = false) : TeamExists d (DestroyTeam team objects) = false := by
  unfold TeamExists DestroyTeam at *
  rw [List.any_eq_false] at h ⊢
  intro o ho
  exact h o (List.mem_of_mem_filter ho)

theorem teamLost_objects (team : Int) (s : CRobotMain) :
    (CheckEndMission.teamLost team s).objects = DestroyTeam team s.objects := by
  unfold CheckEndMission.teamLost display SetEnable
  split <;> rfl

/-- An entry of the team map whose team has no object is skipped by the
per-team loop. -/
theorem teamLoop_filter_absent (eval : CSceneEndCondition → List CObject → Error) (d : Int)
    (teams : List (Int × List CSceneEndCondition)) (s : CRobotMain)
    (hd : TeamExists d s.objects = false) :
    CheckEndMission.teamLoop eval (teams.filter fun g => g.1 != d) s
      = CheckEndMission.teamLoop eval teams s := by
  induction teams generalizing s with
  | nil => rfl
  | cons g teams ih =>
    obtain ⟨team, group⟩ := g
    by_cases htd : team = d
    · have hL : List.filter (fun g => g.1 != d) ((team, group) :: teams)
          = List.filter (fun g => g.1 != d) teams :=
        List.filter_cons_of_neg (by simp [htd])
      rw [hL, ih s hd]
      conv_rhs => unfold CheckEndMission.teamLoop
      by_cases h0 : team = 0
      · rw [if_pos h0]
      · rw [if_neg h0, if_pos (by rw [htd, hd]; rfl)]
    · have hL : List.filter (fun g => g.1 != d) ((team, group) :: teams)
          = (team, group) :: List.filter (fun g => g.1 != d) teams :=
        List.filter_cons_of_pos (by simpa using htd)
      rw [hL]
      unfold CheckEndMission.teamLoop
      by_cases h0 : team = 0
      · rw [if_pos h0, if_pos h0]; exact ih s hd
      · rw [if_neg h0, if_neg h0]
        by_cases h1 : (!TeamExists team s.objects) = true
        · rw [if_pos h1, if_pos h1]; exact ih s hd
        · rw [if_neg h1, if_neg h1]
          by_cases h2 : CheckEndMissionForGroup (fun e => eval e s.objects) group = INFO_LOST
              ∨ CheckEndMissionForGroup (fun e => eval e s.objects) group = INFO_LOSTq
          · rw [if_pos h2, if_pos h2]
            apply ih
            rw [teamLost_objects]
            exact TeamExists_DestroyTeam d team _ hd
          · rw [if_neg h2, if_neg h2]
            by_cases h3 : CheckEndMissionForGroup (fun e => eval e s.objects) group = ERR_OK
            · rw [if_pos h3, if_pos h3]
            · rw [if_neg h3, if_neg h3]; exact ih s hd

theorem teamLost_missionResult (team : Int) (s : CRobotMain) :
    (CheckEndMission.teamLost team s).m_missionResult = s.m_missionResult := by
  unfold CheckEndMission.teamLost display SetEnable
  split <;> rfl

/-- A per-team loop that runs to its end leaves `m_missionResult` alone. -/
theorem teamLoop_missionResult (eval : CSceneEndCondition → List CObject → Error)
    (teams : List (Int × List CSceneEndCondition)) (s : CRobotMain)
    (h : (CheckEndMission.teamLoop eval teams s).1 = false) :
    (CheckEndMission.teamLoop eval teams s).2.m_missionResult = s.m_missionResult := by
  induction teams generalizing s with
  | nil => rfl
  | cons g teams ih =>
    obtain ⟨team, group⟩ := g
    unfold CheckEndMission.teamLoop at h ⊢
    by_cases h0 : team = 0
    · rw [if_pos h0] at h ⊢; exact ih s h
    · rw [if_neg h0] at h ⊢
      by_cases h1 : (!TeamExists team s.objects) = true
      · rw [if_pos h1] at h ⊢; exact ih s h
      · rw [if_neg h1] at h ⊢
        by_cases h2 : CheckEndMissionForGroup (fun e => eval e s.objects) group = INFO_LOST
            ∨ CheckEndMissionForGroup (fun e => eval e s.objects) group = INFO_LOSTq
        · rw [if_pos h2] at h ⊢
          rw [ih _ h, teamLost_missionResult]
        · rw [if_neg h2] at h ⊢
          by_cases h3 : CheckEndMissionForGroup (fun e => eval e s.objects) group = ERR_OK
          · rw [if_pos h3] at h
            exact Bool.noConfusion h
          · rw [if_neg h3] at h ⊢; exact ih s h

/-- With team conditions, an evaluation that does not return from inside the
per-team loop leaves a result other than `ERR_OK`. -/
theorem groups_team_not_won (eval : CSceneEndCondition → List CObject → Error)
    (s : CRobotMain) (huses : (sortByTeams s.m_endTake).any (fun g => g.1 != 0) = true)
    (h : (CheckEndMission.groups eval s).1 = false) :
    (CheckEndMission.groups eval s).2.m_missionResult ≠ ERR_OK := by
  unfold CheckEndMission.groups at h ⊢
  simp only [huses, Bool.not_true, Bool.false_eq_true, if_false] at h ⊢
  by_cases hc : ((sortByTeams s.m_endTake).filter
      fun g => g.1 != 0 && TeamExists g.1 s.objects).length = 0
  · rw [if_pos hc]
    exact fun h => Error.noConfusion h
  · rw [if_neg hc] at h ⊢
    rw [teamLoop_missionResult eval _ _ h]
    exact fun h => Error.noConfusion h

theorem researchGate_not_won (s : CRobotMain) (h : s.m_missionResult ≠ ERR_OK) :
    (CheckEndMission.researchGate s).m_missionResult ≠ ERR_OK := by
  unfold CheckEndMission.researchGate
  by_cases h1 : s.m_missionResult ≠ INFO_LOST ∧ s.m_missionResult ≠ INFO_LOSTq
  · rw [if_pos h1]
    by_cases h2 : s.m_endTakeResearch ≠ 0
    · rw [if_pos h2]
      split
      · exact fun h => Error.noConfusion h
      · exact h
    · rw [if_neg h2]; exact h
  · rw [if_neg h1]; exact h

/-- The immediacy flag is only read when the result is `ERR_OK`. -/
theorem act_isImmediat_irrelevant (frame i j : Bool) (s : CRobotMain)
    (h : s.m_missionResult ≠ ERR_OK) :
    CheckEndMission.act frame i s = CheckEndMission.act frame j s := by
  unfold CheckEndMission.act
  rw [if_neg h, if_neg h]

theorem messagesExtend.unchanged (P : Msg → Prop) (s : CRobotMain) : messagesExtend P s s :=
  ⟨[], by simp, by simp⟩

theorem messagesExtend.of_eq (P : Msg → Prop) (s t : CRobotMain)
    (h : t.messages = s.messages) : messagesExtend P s t :=
  ⟨[], by simp [h], by simp⟩

theorem messagesExtend.append {P : Msg → Prop} {s t u : CRobotMain}
    (h1 : messagesExtend P s t) (h2 : messagesExtend P t u) : messagesExtend P s u := by
  obtain ⟨n1, e1, p1⟩ := h1
  obtain ⟨n2, e2, p2⟩ := h2
  refine ⟨n1 ++ n2, by rw [e2, e1, List.append_assoc], ?_⟩
  intro m hm
  rcases List.mem_append.1 hm with hm | hm
  · exact p1 m hm
  · exact p2 m hm

theorem display_messagesExtend (P : Msg → Prop) (m : Msg) (s : CRobotMain) (hm : P m) :
    messagesExtend P s (display m s) := by
  unfold display
  split
  · exact ⟨[m], rfl, by simpa using hm⟩
  · exact messagesExtend.unchanged P s

theorem armWin_messagesExtend (P : Msg → Prop) (s : CRobotMain) (hP : P Msg.missionTime) :
    messagesExtend P s (CheckEndMission.armWin s) := by
  unfold CheckEndMission.armWin
  split
  · exact (display_messagesExtend P _ s hP).append (messagesExtend.of_eq P _ _ rfl)
  · exact messagesExtend.of_eq P _ _ rfl

theorem teamLost_messagesExtend (P : Msg → Prop) (team : Int) (s : CRobotMain)
    (hP : P (Msg.teamLost team)) :
    messagesExtend P s (CheckEndMission.teamLost team s) :=
  (display_messagesExtend P _ s hP).append (messagesExtend.of_eq P _ _ rfl)

theorem teamWon_messagesExtend (P : Msg → Prop) (team : Int) (s : CRobotMain)
    (hW : P (Msg.teamWon team)) (hT : P Msg.missionTime) :
    messagesExtend P s (CheckEndMission.teamWon team s) := by
  unfold CheckEndMission.teamWon
  by_cases h : s.m_winDelay = 0
  · simp only [h, if_true]
    have h1 : messagesExtend P s (CheckEndMission.armWin (display (Msg.teamWon team) s)) :=
      (display_messagesExtend P _ s hW).append (armWin_messagesExtend P _ hT)
    have h2 : messagesExtend P s
        (if (CheckEndMission.armWin (display (Msg.teamWon team) s)).m_exitAfterMission = true
          then AddEvent EVENT_QUIT (CheckEndMission.armWin (display (Msg.teamWon team) s))
          else CheckEndMission.armWin (display (Msg.teamWon team) s)) := by
      split
      · exact h1.append (messagesExtend.of_eq P _ _ rfl)
      · exact h1
    exact h2.append (messagesExtend.of_eq P _ _ rfl)
  · simp only [h, if_false]
    exact messagesExtend.of_eq P _ _ rfl

/-- The per-team loop announces the loss of teams that have objects only. -/
theorem teamLoop_messagesExtend (eval : CSceneEndCondition → List CObject → Error) (d : Int)
    (teams : List (Int × List CSceneEndCondition)) (s : CRobotMain)
    (hd : TeamExists d s.objects = false) :
    messagesExtend (fun m => m ≠ Msg.teamLost d) s
      (CheckEndMission.teamLoop eval teams s).2 := by
  induction teams generalizing s with
  | nil => exact messagesExtend.unchanged _ s
  | cons g teams ih =>
    obtain ⟨team, group⟩ := g
    unfold CheckEndMission.teamLoop
    by_cases h0 : team = 0
    · rw [if_pos h0]; exact ih s hd
    · rw [if_neg h0]
      by_cases h1 : (!TeamExists team s.objects) = true
      · rw [if_pos h1]; exact ih s hd
      · rw [if_neg h1]
        have htd : team ≠ d := by
          intro h
          rw [h, hd] at h1
          exact h1 rfl
        by_cases h2 : CheckEndMissionForGroup (fun e => eval e s.objects) group = INFO_LOST
            ∨ CheckEndMissionForGroup (fun e => eval e s.objects) group = INFO_LOSTq
        · rw [if_pos h2]
          refine (teamLost_messagesExtend _ team s ?_).append (ih _ ?_)
          · intro h
            exact htd (Msg.teamLost.inj h)
          · rw [teamLost_objects]
            exact TeamExists_DestroyTeam d team _ hd
        · rw [if_neg h2]
          by_cases h3 : CheckEndMissionForGroup (fun e => eval e s.objects) group = ERR_OK
          · rw [if_pos h3]
            exact teamWon_messagesExtend _ team s (fun h => Msg.noConfusion h)
              (fun h => Msg.noConfusion h)
          · rw [if_neg h3]; exact ih s hd

theorem groups_messagesExtend (eval : CSceneEndCondition → List CObject → Error) (d : Int)
    (s : CRobotMain) (hd : TeamExists d s.objects = false) :
    messagesExtend (fun m => m ≠ Msg.teamLost d) s (CheckEndMission.groups eval s).2 := by
  unfold CheckEndMission.groups
  simp only []
  split
  · exact messagesExtend.of_eq _ _ _ rfl
  · split
    · exact messagesExtend.of_eq _ _ _ rfl
    · exact messagesExtend.append (t := { s with m_missionResult := ERR_MISSION_NOTERM })
        (messagesExtend.of_eq _ _ _ rfl) (teamLoop_messagesExtend eval d _ _ hd)

theorem researchGate_messages (s : CRobotMain) :
    (CheckEndMission.researchGate s).messages = s.messages := by
  unfold CheckEndMission.researchGate
  repeat' split
  all_goals rfl

theorem act_messagesExtend (P : Msg → Prop) (frame isImmediat : Bool) (s : CRobotMain)
    (hE : ∀ e, P (Msg.error e)) (hT : P Msg.missionTime) :
    messagesExtend P s (CheckEndMission.act frame isImmediat s).2 := by
  have hq : ∀ t : CRobotMain, messagesExtend P t
      (if t.m_exitAfterMission = true then AddEvent EVENT_QUIT t else t) := fun t => by
    split
    · exact messagesExtend.of_eq P _ _ rfl
    · exact messagesExtend.unchanged P t
  unfold CheckEndMission.act
  split
  · unfold CheckEndMission.lostNow
    refine messagesExtend.append ?_ (hq _)
    simp only [SetEnable]
    split <;> exact messagesExtend.of_eq P _ _ rfl
  · split
    · unfold CheckEndMission.lost
      refine messagesExtend.append ?_ (hq _)
      simp only [SetEnable]
      split
      · exact (display_messagesExtend P _ s (hE _)).append (messagesExtend.of_eq P _ _ rfl)
      · exact messagesExtend.of_eq P _ _ rfl
    · split
      · split
        · unfold CheckEndMission.wonNow
          exact messagesExtend.append (messagesExtend.of_eq P _ _ rfl) (hq _)
        · split
          · exact messagesExtend.unchanged P s
          · unfold CheckEndMission.won
            simp only [SetEnable]
            refine messagesExtend.append (t := (if s.m_winDelay = 0
              then CheckEndMission.armWin (display (Msg.error INFO_WIN) s) else s)) ?_
              ((hq _).append (messagesExtend.of_eq P _ _ rfl))
            split
            · exact (display_messagesExtend P _ s (hE _)).append
                (armWin_messagesExtend P _ hT)
            · exact messagesExtend.unchanged P s
      · exact messagesExtend.of_eq P _ _ rfl

/-- Dropping the conditions of a team without objects does not change the
evaluation of the groups, as long as another team has conditions. -/
theorem groups_filter_absent (eval : CSceneEndCondition → List CObject → Error) (d : Int)
    (s : CRobotMain) (hd : TeamExists d s.objects = false)
    (hother : ∃ e ∈ s.m_endTake, e.winTeam ≠ 0 ∧ e.winTeam ≠ d) :
    CheckEndMission.groups eval (withEndTake (s.m_endTake.filter fun e => e.winTeam != d) s)
      = ((CheckEndMission.groups eval s).1,
          withEndTake (s.m_endTake.filter fun e => e.winTeam != d)
            (CheckEndMission.groups eval s).2) := by
  obtain ⟨e0, he0, h00, h0d⟩ := hother
  have huses : (sortByTeams s.m_endTake).any (fun g => g.1 != 0) = true := by
    rw [sortByTeams_any (fun t => t != 0), List.any_eq_true]
    exact ⟨e0, he0, by simpa using h00⟩
  have huses' : (sortByTeams (s.m_endTake.filter fun e => e.winTeam != d)).any
      (fun g => g.1 != 0) = true := by
    rw [sortByTeams_any (fun t => t != 0), List.any_eq_true]
    exact ⟨e0, List.mem_filter.2 ⟨he0, by simpa using h0d⟩, by simpa using h00⟩
  have hcount : ((sortByTeams (s.m_endTake.filter fun e => e.winTeam != d)).filter
        fun g => g.1 != 0 && TeamExists g.1 s.objects)
      = (sortByTeams s.m_endTake).filter fun g => g.1 != 0 && TeamExists g.1 s.objects := by
    rw [sortByTeams_filter, List.filter_filter]
    apply List.filter_congr
    intro g _
    by_cases hg : g.1 = d
    · simp [hg, hd]
    · simp [hg]
  unfold CheckEndMission.groups
  have ho : (withEndTake (s.m_endTake.filter fun e => e.winTeam != d) s).objects = s.objects :=
    rfl
  have he : (withEndTake (s.m_endTake.filter fun e => e.winTeam != d) s).m_endTake
      = s.m_endTake.filter fun e => e.winTeam != d := rfl
  simp only [ho, he, huses, huses', hcount, Bool.not_true, Bool.false_eq_true, if_false]
  by_cases hc : ((sortByTeams s.m_endTake).filter
      fun g => g.1 != 0 && TeamExists g.1 s.objects).length = 0
  · rw [if_pos hc, if_pos hc]
    rfl
  · rw [if_neg hc, if_neg hc, sortByTeams_filter]
    have h1 := teamLoop_withEndTake eval (s.m_endTake.filter fun e => e.winTeam != d)
      ((sortByTeams s.m_endTake).filter fun g => g.1 != d)
      { s with m_missionResult := ERR_MISSION_NOTERM }
    have h2 := teamLoop_filter_absent eval d (sortByTeams s.m_endTake)
      { s with m_missionResult := ERR_MISSION_NOTERM } hd
    rw [h2] at h1
    exact h1

theorem evaluate_filter_absent (eval : CSceneEndCondition → List CObject → Error) (d : Int)
    (s : CRobotMain) (hd : TeamExists d s.objects = false)
    (hother : ∃ e ∈ s.m_endTake, e.winTeam ≠ 0 ∧ e.winTeam ≠ d) :
    CheckEndMission.evaluate eval (withEndTake (s.m_endTake.filter fun e => e.winTeam != d) s)
      = ((CheckEndMission.evaluate eval s).1,
          withEndTake (s.m_endTake.filter fun e => e.winTeam != d)
            (CheckEndMission.evaluate eval s).2) := by
  unfold CheckEndMission.evaluate
  have hcf : (withEndTake (s.m_endTake.filter fun e => e.winTeam != d) s).m_controller
      = s.m_controller := rfl
  rw [hcf]
  by_cases hc : s.m_controller = true
  · rw [if_pos hc, if_pos hc]
  · rw [if_neg hc, if_neg hc, groups_filter_absent eval d s hd hother]
    simp only []
    by_cases hr : (CheckEndMission.groups eval s).1 = true
    · rw [if_pos hr, if_pos hr]
    · rw [if_neg hr, if_neg hr, researchGate_withEndTake]

/-- With team conditions, either a mission controller is in charge (and the
immediacy flag is off), or an evaluation that did not return from the per-team
loop leaves a result other than `ERR_OK`. -/
theorem evaluate_team_not_won (eval : CSceneEndCondition → List CObject → Error)
    (s : CRobotMain) {d : Int} (hother : ∃ e ∈ s.m_endTake, e.winTeam ≠ 0 ∧ e.winTeam ≠ d) :
    s.m_controller = true
      ∨ ((CheckEndMission.evaluate eval s).1 = false →
          (CheckEndMission.evaluate eval s).2.m_missionResult ≠ ERR_OK) := by
  by_cases hc : s.m_controller = true
  · exact Or.inl hc
  · right
    intro hr
    have huses : (sortByTeams s.m_endTake).any (fun g => g.1 != 0) = true := by
      obtain ⟨e0, he0, h00, -⟩ := hother
      rw [sortByTeams_any (fun t => t != 0), List.any_eq_true]
      exact ⟨e0, he0, by simpa using h00⟩
    unfold CheckEndMission.evaluate at hr ⊢
    rw [if_neg hc] at hr ⊢
    simp only [] at hr ⊢
    by_cases hg : (CheckEndMission.groups eval s).1 = true
    · rw [if_pos hg] at hr
      rw [hg] at hr
      exact Bool.noConfusion hr
    · rw [if_neg hg]
      simp only [Bool.not_eq_true] at hg
      exact researchGate_not_won _ (groups_team_not_won eval s huses hg)

/-- C7, as stated, fails: with end-conditions for teams 1 and 2 and no object of
team 2 in the registry, `CheckEndMission` shows no message at all: the loss of
team 2 is broadcast zero times, not once. -/
theorem CheckEndMission_no_loss_broadcast :
    (CheckEndMission (fun e _ => if e.winTeam = 2 then INFO_LOST else ERR_MISSION_NOTERM) true
        { CRobotMain.initial with
          m_phase := PHASE_SIMUL, worldExists := true,
          m_endTake := [{ winTeam := 1, lost := -1, immediat := false, tag := 0 },
                        { winTeam := 2, lost := 0, immediat := false, tag := 1 }],
          objects := [{ id := 1, type := OBJECT_OTHER 0, team := 1, transported := false,
                        interactive := true }] }).2.messages.count (Msg.teamLost 2) = 0 := by
  decide

/-- C7, amended: in a team-based mission, when a team (team 2 of the claim) has
no object left in the registry and another team has end-conditions,
`CheckEndMission` skips that team: it shows no loss message for it, and its
result and the state it leaves (messages, events, countdowns, registry) are
the same as if that team had no end-conditions. -/
theorem CheckEndMission_absent_team (eval : CSceneEndCondition → List CObject → Error)
    (frame : Bool) (d : Int) (s : CRobotMain)
    (hd : TeamExists d s.objects = false)
    (hother : ∃ e ∈ s.m_endTake, e.winTeam ≠ 0 ∧ e.winTeam ≠ d) :
    CheckEndMission eval frame (withEndTake (s.m_endTake.filter fun e => e.winTeam != d) s)
        = ((CheckEndMission eval frame s).1,
            withEndTake (s.m_endTake.filter fun e => e.winTeam != d)
              (CheckEndMission eval frame s).2)
      ∧ messagesExtend (fun m => m ≠ Msg.teamLost d) s (CheckEndMission eval frame s).2 := by
  constructor
  · have hev := evaluate_filter_absent eval d s hd hother
    have hne := evaluate_team_not_won eval s hother
    unfold CheckEndMission
    simp only []
    rw [hev]
    by_cases hr : (CheckEndMission.evaluate eval s).1 = true
    · rw [if_pos hr, if_pos hr]
    · rw [if_neg hr, if_neg hr, act_withEndTake]
      simp only [Bool.not_eq_true] at hr
      have hcf : (withEndTake (s.m_endTake.filter fun e => e.winTeam != d) s).m_controller
          = s.m_controller := rfl
      rw [hcf]
      rcases hne with hne | hne
      · rw [hne]
        rfl
      · rw [act_isImmediat_irrelevant frame _
          (!s.m_controller && s.m_endTake.any fun e => e.immediat) _ (hne hr)]
  · unfold CheckEndMission CheckEndMission.evaluate
    have hact : ∀ i t, messagesExtend (fun m => m ≠ Msg.teamLost d) t
        (CheckEndMission.act frame i t).2 := fun i t =>
      act_messagesExtend _ frame i t (fun _ h => Msg.noConfusion h) (fun h => Msg.noConfusion h)
    by_cases hc : s.m_controller = true
    · rw [if_pos hc]
      exact hact _ _
    · rw [if_neg hc]
      simp only []
      by_cases hr : (CheckEndMission.groups eval s).1 = true
      · rw [if_pos hr, if_pos hr]
        exact groups_messagesExtend eval d s hd
      · rw [if_neg hr]
        simp only [Bool.false_eq_true, if_false]
        refine (groups_messagesExtend eval d s hd).append ?_
        refine messagesExtend.append (messagesExtend.of_eq _ _ _ (researchGate_messages _)) ?_
        exact hact _ _

theorem CheckEndMission_absent_team_witness :
    CheckEndMission (fun e _ => if e.winTeam = 2 then INFO_LOST else ERR_MISSION_NOTERM) true
        (withEndTake
          (([{ winTeam := 1, lost := -1, immediat := false, tag := 0 },
             { winTeam := 2, lost := 0, immediat := false, tag := 1 }] :
              List CSceneEndCondition).filter fun e => e.winTeam != 2)
          { CRobotMain.initial with
            m_endTake := [{ winTeam := 1, lost := -1, immediat := false, tag := 0 },
                          { winTeam := 2, lost := 0, immediat := false, tag := 1 }],
            objects := [{ id := 1, type := OBJECT_OTHER 0, team := 1, transported := false,
                          interactive := true }] })
        = ((CheckEndMission
              (fun e _ => if e.winTeam = 2 then INFO_LOST else ERR_MISSION_NOTERM) true
              { CRobotMain.initial with
                m_endTake := [{ winTeam := 1, lost := -1, immediat := false, tag := 0 },
                              { winTeam := 2, lost := 0, immediat := false, tag := 1 }],
                objects := [{ id := 1, type := OBJECT_OTHER 0, team := 1, transported := false,
                              interactive := true }] }).1,
            withEndTake
              (([{ winTeam := 1, lost := -1, immediat := false, tag := 0 },
                 { winTeam := 2, lost := 0, immediat := false, tag := 1 }] :
                  List CSceneEndCondition).filter fun e => e.winTeam != 2)
              (CheckEndMission
                (fun e _ => if e.winTeam = 2 then INFO_LOST else ERR_MISSION_NOTERM) true
                { CRobotMain.initial with
                  m_endTake := [{ winTeam := 1, lost := -1, immediat := false, tag := 0 },
                                { winTeam := 2, lost := 0, immediat := false, tag := 1 }],
                  objects := [{ id := 1, type := OBJECT_OTHER 0, team := 1,
                                transported := false, interactive := true }] }).2) :=
  (CheckEndMission_absent_team
    (fun e _ => if e.winTeam = 2 then INFO_LOST else ERR_MISSION_NOTERM) true 2
    { CRobotMain.initial with
      m_endTake := [{ winTeam := 1, lost := -1, immediat := false, tag := 0 },
                    { winTeam := 2, lost := 0, immediat := false, tag := 1 }],
      objects := [{ id := 1, type := OBJECT_OTHER 0, team := 1, transported := false,
                    interactive := true }] }
    (by decide)
    ⟨{ winTeam := 1, lost := -1, immediat := false, tag := 0 }, by decide, by decide,
      by decide⟩).1

/-! #### Calling `CheckEndMission` twice -/

theorem mapIndex_idem (team : Int) (m : List (Int × Int)) :
    mapIndex team (mapIndex team m).2 = ((mapIndex team m).1, (mapIndex team m).2) := by
  induction m with
  | nil => simp [mapIndex]
  | cons kv m ih =>
    obtain ⟨k, v⟩ := kv
    by_cases h1 : team < k
    · simp [mapIndex, h1]
    · by_cases h2 : team = k
      · simp [mapIndex, h2]
      · have h3 : mapIndex team ((k, v) :: m)
            = ((mapIndex team m).1, (k, v) :: (mapIndex team m).2) := by
          conv_lhs => unfold mapIndex
          rw [if_neg h1, if_neg h2]
        rw [h3]
        show mapIndex team ((k, v) :: (mapIndex team m).2) = _
        conv_lhs => unfold mapIndex
        rw [if_neg h1, if_neg h2, ih]

theorem lostNow_idem (t : CRobotMain) :
    CheckEndMission.lostNow (CheckEndMission.lostNow t)
        = requeueQuit t.m_exitAfterMission (CheckEndMission.lostNow t)
      ∧ (t.m_exitAfterMission = true →
          (CheckEndMission.lostNow t).events = t.events ++ [EVENT_QUIT]) := by
  by_cases h : t.m_lostDelay = 0 <;> by_cases he : t.m_exitAfterMission = true <;>
    simp [CheckEndMission.lostNow, SetEnable, AddEvent, requeueQuit, h, he]

theorem lost_idem (t : CRobotMain) :
    CheckEndMission.lost (CheckEndMission.lost t)
        = requeueQuit t.m_exitAfterMission (CheckEndMission.lost t)
      ∧ (t.m_exitAfterMission = true →
          (CheckEndMission.lost t).events = t.events ++ [EVENT_QUIT]) := by
  by_cases h : t.m_lostDelay = 0 <;> by_cases he : t.m_exitAfterMission = true <;>
    by_cases hd : t.displayEnabled = true <;> by_cases h0 : t.m_endTakeLostDelay = 0 <;>
    simp [CheckEndMission.lost, display, SetEnable, AddEvent, requeueQuit, h, he, hd, h0]

theorem wonNow_idem (t : CRobotMain) :
    CheckEndMission.wonNow (CheckEndMission.wonNow t)
        = requeueQuit t.m_exitAfterMission (CheckEndMission.wonNow t)
      ∧ (t.m_exitAfterMission = true →
          (CheckEndMission.wonNow t).events = t.events ++ [EVENT_QUIT]) := by
  by_cases he : t.m_exitAfterMission = true <;>
    simp [CheckEndMission.wonNow, SetEnable, AddEvent, requeueQuit, he]

theorem won_idem (t : CRobotMain) :
    CheckEndMission.won (CheckEndMission.won t)
        = requeueQuit t.m_exitAfterMission (CheckEndMission.won t)
      ∧ (t.m_exitAfterMission = true →
          (CheckEndMission.won t).events = t.events ++ [EVENT_QUIT]) := by
  by_cases h : t.m_winDelay = 0 <;> by_cases he : t.m_exitAfterMission = true <;>
    by_cases hd : t.displayEnabled = true <;> by_cases h0 : t.m_endTakeWinDelay = 0 <;>
    by_cases h1 : t.m_missionTimerEnabled = true <;>
    by_cases h2 : t.m_missionTimerStarted = true <;>
    simp [CheckEndMission.won, CheckEndMission.armWin, display, SetEnable, AddEvent,
      requeueQuit, h, he, hd, h0, h1, h2]

theorem lostNow_sameMission (t : CRobotMain) : sameMission t (CheckEndMission.lostNow t) := by
  unfold CheckEndMission.lostNow SetEnable AddEvent
  simp only []
  repeat' split
  all_goals exact ⟨rfl, rfl, rfl, rfl, rfl, rfl, rfl, rfl⟩

theorem lost_sameMission (t : CRobotMain) : sameMission t (CheckEndMission.lost t) := by
  unfold CheckEndMission.lost SetEnable AddEvent display
  simp only []
  repeat' split
  all_goals exact ⟨rfl, rfl, rfl, rfl, rfl, rfl, rfl, rfl⟩

theorem wonNow_sameMission (t : CRobotMain) : sameMission t (CheckEndMission.wonNow t) := by
  unfold CheckEndMission.wonNow SetEnable AddEvent
  simp only []
  repeat' split
  all_goals exact ⟨rfl, rfl, rfl, rfl, rfl, rfl, rfl, rfl⟩

theorem won_sameMission (t : CRobotMain) : sameMission t (CheckEndMission.won t) := by
  unfold CheckEndMission.won CheckEndMission.armWin SetEnable AddEvent display
  simp only []
  repeat' split
  all_goals exact ⟨rfl, rfl, rfl, rfl, rfl, rfl, rfl, rfl⟩

theorem act_sameMission (frame isImmediat : Bool) (t : CRobotMain) :
    sameMission t (CheckEndMission.act frame isImmediat t).2 := by
  unfold CheckEndMission.act
  split
  · exact lostNow_sameMission t
  · split
    · exact lost_sameMission t
    · split
      · split
        · exact wonNow_sameMission t
        · split
          · exact ⟨rfl, rfl, rfl, rfl, rfl, rfl, rfl, rfl⟩
          · exact won_sameMission t
      · exact ⟨rfl, rfl, rfl, rfl, rfl, rfl, rfl, rfl⟩

/-- Acting twice on the same result: the second action changes nothing, except
that `EVENT_QUIT` is queued again when the mission exits on its end. -/
theorem act_idem (frame isImmediat : Bool) (t : CRobotMain) :
    ∃ k : Bool,
      CheckEndMission.act frame isImmediat (CheckEndMission.act frame isImmediat t).2
          = ((CheckEndMission.act frame isImmediat t).1,
              requeueQuit k (CheckEndMission.act frame isImmediat t).2)
        ∧ (k = true →
            (CheckEndMission.act frame isImmediat t).2.events = t.events ++ [EVENT_QUIT]) := by
  by_cases h1 : t.m_missionResult = INFO_LOSTq
  · have e1 : CheckEndMission.act frame isImmediat t = (INFO_LOSTq, CheckEndMission.lostNow t) := by
      unfold CheckEndMission.act; rw [if_pos h1]
    have e2 : CheckEndMission.act frame isImmediat (CheckEndMission.lostNow t)
        = (INFO_LOSTq, CheckEndMission.lostNow (CheckEndMission.lostNow t)) := by
      unfold CheckEndMission.act; rw [if_pos ((lostNow_sameMission t).1.trans h1)]
    rw [e1, e2, (lostNow_idem t).1]
    refine ⟨t.m_exitAfterMission, rfl, (lostNow_idem t).2⟩
  · by_cases h2 : t.m_missionResult = INFO_LOST
    · have e1 : CheckEndMission.act frame isImmediat t = (INFO_LOST, CheckEndMission.lost t) := by
        unfold CheckEndMission.act; rw [if_neg h1, if_pos h2]
      have e2 : CheckEndMission.act frame isImmediat (CheckEndMission.lost t)
          = (INFO_LOST, CheckEndMission.lost (CheckEndMission.lost t)) := by
        unfold CheckEndMission.act
        rw [if_neg (by rw [(lost_sameMission t).1]; exact h1),
          if_pos ((lost_sameMission t).1.trans h2)]
      rw [e1, e2, (lost_idem t).1]
      refine ⟨t.m_exitAfterMission, rfl, (lost_idem t).2⟩
    · by_cases h3 : t.m_missionResult = ERR_OK
      · by_cases h4 : t.m_endTakeWinDelay = -1
        · have e1 : CheckEndMission.act frame isImmediat t
              = (ERR_OK, CheckEndMission.wonNow t) := by
            unfold CheckEndMission.act; rw [if_neg h1, if_neg h2, if_pos h3, if_pos h4]
          have e2 : CheckEndMission.act frame isImmediat (CheckEndMission.wonNow t)
              = (ERR_OK, CheckEndMission.wonNow (CheckEndMission.wonNow t)) := by
            unfold CheckEndMission.act
            rw [if_neg (by rw [(wonNow_sameMission t).1]; exact h1),
              if_neg (by rw [(wonNow_sameMission t).1]; exact h2),
              if_pos ((wonNow_sameMission t).1.trans h3),
              if_pos ((wonNow_sameMission t).2.1.trans h4)]
          rw [e1, e2, (wonNow_idem t).1]
          refine ⟨t.m_exitAfterMission, rfl, (wonNow_idem t).2⟩
        · by_cases h5 : (frame && t.baseSelectable && !isImmediat) = true
          · have e1 : CheckEndMission.act frame isImmediat t = (ERR_MISSION_NOTERM, t) := by
              unfold CheckEndMission.act
              rw [if_neg h1, if_neg h2, if_pos h3, if_neg h4, if_pos h5]
            rw [e1, e1]
            exact ⟨false, rfl, fun h => Bool.noConfusion h⟩
          · have e1 : CheckEndMission.act frame isImmediat t
                = (ERR_OK, CheckEndMission.won t) := by
              unfold CheckEndMission.act
              rw [if_neg h1, if_neg h2, if_pos h3, if_neg h4, if_neg h5]
            have e2 : CheckEndMission.act frame isImmediat (CheckEndMission.won t)
                = (ERR_OK, CheckEndMission.won (CheckEndMission.won t)) := by
              unfold CheckEndMission.act
              rw [if_neg (by rw [(won_sameMission t).1]; exact h1),
                if_neg (by rw [(won_sameMission t).1]; exact h2),
                if_pos ((won_sameMission t).1.trans h3),
                if_neg (by rw [(won_sameMission t).2.1]; exact h4),
                if_neg (by rw [(won_sameMission t).2.2.1]; exact h5)]
            rw [e1, e2, (won_idem t).1]
            refine ⟨t.m_exitAfterMission, rfl, (won_idem t).2⟩
      · have e1 : CheckEndMission.act frame isImmediat t
            = (ERR_MISSION_NOTERM, SetEnable true t) := by
          unfold CheckEndMission.act; rw [if_neg h1, if_neg h2, if_neg h3]
        have e2 : CheckEndMission.act frame isImmediat (SetEnable true t)
            = (ERR_MISSION_NOTERM, SetEnable true (SetEnable true t)) := by
          unfold CheckEndMission.act
          rw [if_neg (show ¬ (SetEnable true t).m_missionResult = INFO_LOSTq from h1),
            if_neg (show ¬ (SetEnable true t).m_missionResult = INFO_LOST from h2),
            if_neg (show ¬ (SetEnable true t).m_missionResult = ERR_OK from h3)]
        rw [e1, e2]
        exact ⟨false, rfl, fun h => Bool.noConfusion h⟩

theorem teamWon_idem (team : Int) (x : Error) (t : CRobotMain) :
    CheckEndMission.teamWon team { CheckEndMission.teamWon team t with m_missionResult := x }
        = requeueQuit (decide (t.m_winDelay = 0) && decide (t.m_endTakeWinDelay = 0)
            && t.m_exitAfterMission) (CheckEndMission.teamWon team t)
      ∧ ((decide (t.m_winDelay = 0) && decide (t.m_endTakeWinDelay = 0)
            && t.m_exitAfterMission) = true →
          (CheckEndMission.teamWon team t).events = t.events ++ [EVENT_QUIT]) := by
  by_cases h : t.m_winDelay = 0 <;> by_cases he : t.m_exitAfterMission = true <;>
    by_cases hd : t.displayEnabled = true <;> by_cases h0 : t.m_endTakeWinDelay = 0 <;>
    by_cases h1 : t.m_missionTimerEnabled = true <;>
    by_cases h2 : t.m_missionTimerStarted = true <;>
    simp [CheckEndMission.teamWon, CheckEndMission.armWin, display, SetEnable, AddEvent,
      requeueQuit, h, he, hd, h0, h1, h2]

theorem teamWon_sameMission (team : Int) (t : CRobotMain) :
    (CheckEndMission.teamWon team t).m_endTake = t.m_endTake
      ∧ (CheckEndMission.teamWon team t).objects = t.objects
      ∧ (CheckEndMission.teamWon team t).m_controller = t.m_controller := by
  unfold CheckEndMission.teamWon CheckEndMission.armWin SetEnable AddEvent display
  simp only []
  repeat' split
  all_goals exact ⟨rfl, rfl, rfl⟩

/-- When no team present in the registry has a losing group, the per-team loop
changes nothing until a team wins, and which team wins depends on the
registry only. -/
theorem teamLoop_shape (eval : CSceneEndCondition → List CObject → Error)
    (teams : List (Int × List CSceneEndCondition)) (s s' : CRobotMain)
    (ho : s'.objects = s.objects)
    (hlose : ∀ g ∈ teams, g.1 ≠ 0 → TeamExists g.1 s.objects = true →
      CheckEndMissionForGroup (fun e => eval e s.objects) g.2 ≠ INFO_LOST
        ∧ CheckEndMissionForGroup (fun e => eval e s.objects) g.2 ≠ INFO_LOSTq) :
    (CheckEndMission.teamLoop eval teams s = (false, s)
        ∧ CheckEndMission.teamLoop eval teams s' = (false, s'))
      ∨ ∃ w, CheckEndMission.teamLoop eval teams s = (true, CheckEndMission.teamWon w s)
        ∧ CheckEndMission.teamLoop eval teams s' = (true, CheckEndMission.teamWon w s') := by
  induction teams with
  | nil => exact Or.inl ⟨rfl, rfl⟩
  | cons g teams ih =>
    obtain ⟨team, group⟩ := g
    have ih' := ih (fun g hg => hlose g (List.mem_cons_of_mem _ hg))
    unfold CheckEndMission.teamLoop
    rw [ho]
    by_cases h0 : team = 0
    · rw [if_pos h0, if_pos h0]; exact ih'
    · rw [if_neg h0, if_neg h0]
      by_cases h1 : (!TeamExists team s.objects) = true
      · rw [if_pos h1, if_pos h1]; exact ih'
      · rw [if_neg h1, if_neg h1]
        have hl := hlose (team, group) (List.mem_cons_self _ _) h0 (by simpa using h1)
        have h2 : ¬ (CheckEndMissionForGroup (fun e => eval e s.objects) group = INFO_LOST
            ∨ CheckEndMissionForGroup (fun e => eval e s.objects) group = INFO_LOSTq) :=
          fun h => h.elim hl.1 hl.2
        rw [if_neg h2, if_neg h2]
        by_cases h3 : CheckEndMissionForGroup (fun e => eval e s.objects) group = ERR_OK
        · rw [if_pos h3, if_pos h3]
          exact Or.inr ⟨team, rfl, rfl⟩
        · rw [if_neg h3, if_neg h3]; exact ih'

/-- When no team present in the registry has a losing group, the evaluation of
the groups either sets a result that depends on the end-conditions and the
registry only, or announces a winning team that depends on them only. -/
theorem groups_shape (eval : CSceneEndCondition → List CObject → Error) (s s' : CRobotMain)
    (he : s'.m_endTake = s.m_endTake) (ho : s'.objects = s.objects)
    (hlose : ∀ g ∈ sortByTeams s.m_endTake, g.1 ≠ 0 → TeamExists g.1 s.objects = true →
      CheckEndMissionForGroup (fun e => eval e s.objects) g.2 ≠ INFO_LOST
        ∧ CheckEndMissionForGroup (fun e => eval e s.objects) g.2 ≠ INFO_LOSTq) :
    (∃ r, CheckEndMission.groups eval s = (false, { s with m_missionResult := r })
        ∧ CheckEndMission.groups eval s' = (false, { s' with m_missionResult := r }))
      ∨ ∃ w, CheckEndMission.groups eval s
            = (true, CheckEndMission.teamWon w { s with m_missionResult := ERR_MISSION_NOTERM })
        ∧ CheckEndMission.groups eval s'
            = (true, CheckEndMission.teamWon w { s' with m_missionResult := ERR_MISSION_NOTERM })
      := by
  have e1 : CheckEndMission.groups eval s
      = (if (!(sortByTeams s.m_endTake).any fun g => g.1 != 0) = true then
          (false, { s with m_missionResult := (CheckEndMissionForGroup
            (fun e => eval e s.objects) (teamsAt (sortByTeams s.m_endTake) 0)) })
        else if ((sortByTeams s.m_endTake).filter
            fun g => g.1 != 0 && TeamExists g.1 s.objects).length = 0 then
          (false, { s with m_missionResult := INFO_LOST })
        else CheckEndMission.teamLoop eval (sortByTeams s.m_endTake)
          { s with m_missionResult := ERR_MISSION_NOTERM }) := rfl
  have e2 : CheckEndMission.groups eval s'
      = (if (!(sortByTeams s.m_endTake).any fun g => g.1 != 0) = true then
          (false, { s' with m_missionResult := (CheckEndMissionForGroup
            (fun e => eval e s.objects) (teamsAt (sortByTeams s.m_endTake) 0)) })
        else if ((sortByTeams s.m_endTake).filter
            fun g => g.1 != 0 && TeamExists g.1 s.objects).length = 0 then
          (false, { s' with m_missionResult := INFO_LOST })
        else CheckEndMission.teamLoop eval (sortByTeams s.m_endTake)
          { s' with m_missionResult := ERR_MISSION_NOTERM }) := by
    rw [← he, ← ho]
    rfl
  rw [e1, e2]
  by_cases hu : (!(sortByTeams s.m_endTake).any fun g => g.1 != 0) = true
  · rw [if_pos hu, if_pos hu]
    exact Or.inl ⟨_, rfl, rfl⟩
  · rw [if_neg hu, if_neg hu]
    by_cases hc : ((sortByTeams s.m_endTake).filter
        fun g => g.1 != 0 && TeamExists g.1 s.objects).length = 0
    · rw [if_pos hc, if_pos hc]
      exact Or.inl ⟨INFO_LOST, rfl, rfl⟩
    · rw [if_neg hc, if_neg hc]
      rcases teamLoop_shape eval (sortByTeams s.m_endTake)
          { s with m_missionResult := ERR_MISSION_NOTERM }
          { s' with m_missionResult := ERR_MISSION_NOTERM } ho hlose with ⟨h1, h2⟩ | ⟨w, h1, h2⟩
      · rw [h1, h2]
        exact Or.inl ⟨ERR_MISSION_NOTERM, rfl, rfl⟩
      · rw [h1, h2]
        exact Or.inr ⟨w, rfl, rfl⟩

/-- Re-applying the research override to a state that carries the result and
the research table it left gives that state back. -/
theorem researchGate_restore (s s1 : CRobotMain) (r : Error)
    (h1 : s1.m_endTakeResearch = s.m_endTakeResearch)
    (h2 : s1.m_researchDone
      = (CheckEndMission.researchGate { s with m_missionResult := r }).m_researchDone)
    (h3 : s1.m_missionResult
      = (CheckEndMission.researchGate { s with m_missionResult := r }).m_missionResult) :
    CheckEndMission.researchGate { s1 with m_missionResult := r } = s1 := by
  cases s1
  simp only [] at h1 h2 h3
  subst h1 h2 h3
  unfold CheckEndMission.researchGate
  by_cases c1 : r ≠ INFO_LOST ∧ r ≠ INFO_LOSTq
  · by_cases c2 : s.m_endTakeResearch ≠ 0
    · by_cases c3 : s.m_endTakeResearch
          ≠ Int.land s.m_endTakeResearch (mapIndex 0 s.m_researchDone).1
      · simp [c1, c2, c3, mapIndex_idem]
      · simp [c1, c2, c3, mapIndex_idem]
    · simp [c1, c2]
  · simp [c1]

theorem CheckEndMission_of_evaluate_false (eval : CSceneEndCondition → List CObject → Error)
    (frame : Bool) (s t : CRobotMain) (h : CheckEndMission.evaluate eval s = (false, t)) :
    CheckEndMission eval frame s
      = CheckEndMission.act frame (!s.m_controller && s.m_endTake.any fun e => e.immediat) t := by
  unfold CheckEndMission
  rw [h]
  rfl

theorem CheckEndMission_of_evaluate_true (eval : CSceneEndCondition → List CObject → Error)
    (frame : Bool) (s t : CRobotMain) (h : CheckEndMission.evaluate eval s = (true, t)) :
    CheckEndMission eval frame s = (ERR_OK, t) := by
  unfold CheckEndMission
  rw [h]
  rfl

theorem evaluate_controller (eval : CSceneEndCondition → List CObject → Error)
    (s : CRobotMain) (hc : s.m_controller = true) :
    CheckEndMission.evaluate eval s = (false, s) := by
  unfold CheckEndMission.evaluate
  rw [if_pos hc]

theorem evaluate_of_groups_false (eval : CSceneEndCondition → List CObject → Error)
    (s g : CRobotMain) (hc : ¬ s.m_controller = true)
    (h : CheckEndMission.groups eval s = (false, g)) :
    CheckEndMission.evaluate eval s = (false, CheckEndMission.researchGate g) := by
  unfold CheckEndMission.evaluate
  rw [if_neg hc, h]
  rfl

theorem evaluate_of_groups_true (eval : CSceneEndCondition → List CObject → Error)
    (s g : CRobotMain) (hc : ¬ s.m_controller = true)
    (h : CheckEndMission.groups eval s = (true, g)) :
    CheckEndMission.evaluate eval s = (true, g) := by
  unfold CheckEndMission.evaluate
  rw [if_neg hc, h]
  rfl

theorem researchGate_frame (u : CRobotMain) :
    (CheckEndMission.researchGate u).m_endTake = u.m_endTake
      ∧ (CheckEndMission.researchGate u).objects = u.objects
      ∧ (CheckEndMission.researchGate u).m_controller = u.m_controller
      ∧ (CheckEndMission.researchGate u).m_endTakeResearch = u.m_endTakeResearch
      ∧ (CheckEndMission.researchGate u).events = u.events := by
  unfold CheckEndMission.researchGate
  repeat' split
  all_goals exact ⟨rfl, rfl, rfl, rfl, rfl⟩

/-- C3, as stated, fails: when the only team present has a losing group, the
first call announces its loss, destroys it and returns `ERR_MISSION_NOTERM`;
the second call, with nothing changed in between, finds no team left, returns
`INFO_LOST`, shows the lost message and arms the lose countdown.  (Were the
registry still as before the first call, the second call would announce the
loss of the team a second time.) -/
theorem CheckEndMission_second_call_differs :
    (CheckEndMission (fun _ _ => INFO_LOST) true
        { CRobotMain.initial with
          m_phase := PHASE_SIMUL, worldExists := true,
          m_endTake := [{ winTeam := 1, lost := 0, immediat := false, tag := 0 }],
          objects := [{ id := 1, type := OBJECT_OTHER 0, team := 1, transported := false,
                        interactive := true }] }).1 = ERR_MISSION_NOTERM
    ∧ (CheckEndMission (fun _ _ => INFO_LOST) true
        (CheckEndMission (fun _ _ => INFO_LOST) true
          { CRobotMain.initial with
            m_phase := PHASE_SIMUL, worldExists := true,
            m_endTake := [{ winTeam := 1, lost := 0, immediat := false, tag := 0 }],
            objects := [{ id := 1, type := OBJECT_OTHER 0, team := 1, transported := false,
                          interactive := true }] }).2).1 = INFO_LOST
    ∧ (CheckEndMission (fun _ _ => INFO_LOST) true
        { CRobotMain.initial with
          m_phase := PHASE_SIMUL, worldExists := true,
          m_endTake := [{ winTeam := 1, lost := 0, immediat := false, tag := 0 }],
          objects := [{ id := 1, type := OBJECT_OTHER 0, team := 1, transported := false,
                        interactive := true }] }).2.messages = [Msg.teamLost 1]
    ∧ (CheckEndMission (fun _ _ => INFO_LOST) true
        (CheckEndMission (fun _ _ => INFO_LOST) true
          { CRobotMain.initial with
            m_phase := PHASE_SIMUL, worldExists := true,
            m_endTake := [{ winTeam := 1, lost := 0, immediat := false, tag := 0 }],
            objects := [{ id := 1, type := OBJECT_OTHER 0, team := 1, transported := false,
                          interactive := true }] }).2).2.messages
        = [Msg.teamLost 1, Msg.error INFO_LOST]
    ∧ (CheckEndMission (fun _ _ => INFO_LOST) true
        (CheckEndMission (fun _ _ => INFO_LOST) true
          { CRobotMain.initial with
            m_phase := PHASE_SIMUL, worldExists := true,
            m_endTake := [{ winTeam := 1, lost := 0, immediat := false, tag := 0 }],
            objects := [{ id := 1, type := OBJECT_OTHER 0, team := 1, transported := false,
                          interactive := true }] }).2).2.m_lostDelay = 2
    ∧ (CheckEndMission (fun _ _ => INFO_LOST) true
        { (CheckEndMission (fun _ _ => INFO_LOST) true
            { CRobotMain.initial with
              m_phase := PHASE_SIMUL, worldExists := true,
              m_endTake := [{ winTeam := 1, lost := 0, immediat := false, tag := 0 }],
              objects := [{ id := 1, type := OBJECT_OTHER 0, team := 1, transported := false,
                            interactive := true }] }).2 with
          objects := [{ id := 1, type := OBJECT_OTHER 0, team := 1, transported := false,
                        interactive := true }] }).2.messages
        = [Msg.teamLost 1, Msg.teamLost 1] := by
  decide

/-- When no team present in the registry has a losing group, `CheckEndMission`
leaves the end-conditions, the registry and the controller as they were. -/
theorem CheckEndMission_sameRegistry (eval : CSceneEndCondition → List CObject → Error)
    (frame : Bool) (s : CRobotMain)
    (hlose : ∀ g ∈ sortByTeams s.m_endTake, g.1 ≠ 0 → TeamExists g.1 s.objects = true →
      CheckEndMissionForGroup (fun e => eval e s.objects) g.2 ≠ INFO_LOST
        ∧ CheckEndMissionForGroup (fun e => eval e s.objects) g.2 ≠ INFO_LOSTq) :
    (CheckEndMission eval frame s).2.m_endTake = s.m_endTake
      ∧ (CheckEndMission eval frame s).2.objects = s.objects
      ∧ (CheckEndMission eval frame s).2.m_controller = s.m_controller := by
  by_cases hc : s.m_controller = true
  · rw [CheckEndMission_of_evaluate_false eval frame s s (evaluate_controller eval s hc)]
    have h := act_sameMission frame (!s.m_controller && s.m_endTake.any fun e => e.immediat) s
    exact ⟨h.2.2.2.2.2.1, h.2.2.2.2.2.2.1, h.2.2.2.2.2.2.2⟩
  · rcases groups_shape eval s s rfl rfl hlose with ⟨r, hr, -⟩ | ⟨w, hw, -⟩
    · rw [CheckEndMission_of_evaluate_false eval frame s _
        (evaluate_of_groups_false eval s _ hc hr)]
      have h := act_sameMission frame (!s.m_controller && s.m_endTake.any fun e => e.immediat)
        (CheckEndMission.researchGate { s with m_missionResult := r })
      have g := researchGate_frame { s with m_missionResult := r }
      exact ⟨h.2.2.2.2.2.1.trans g.1, h.2.2.2.2.2.2.1.trans g.2.1,
        h.2.2.2.2.2.2.2.trans g.2.2.1⟩
    · rw [CheckEndMission_of_evaluate_true eval frame s _
        (evaluate_of_groups_true eval s _ hc hw)]
      exact teamWon_sameMission w { s with m_missionResult := ERR_MISSION_NOTERM }

/-- C3, amended: in every state where no team present in the registry has a
group of end-conditions that evaluates to a lose result (so that the first
call destroys no team), calling `CheckEndMission` twice in a row returns the
same result both times, and the second call leaves the state exactly as the
first call left it (no message shown, countdowns untouched), except that
`EVENT_QUIT` is queued once more when the first call had queued it. -/
theorem CheckEndMission_twice (eval : CSceneEndCondition → List CObject → Error)
    (frame : Bool) (s : CRobotMain)
    (hlose : ∀ g ∈ sortByTeams s.m_endTake, g.1 ≠ 0 → TeamExists g.1 s.objects = true →
      CheckEndMissionForGroup (fun e => eval e s.objects) g.2 ≠ INFO_LOST
        ∧ CheckEndMissionForGroup (fun e => eval e s.objects) g.2 ≠ INFO_LOSTq) :
    ∃ again : Bool,
      CheckEndMission eval frame (CheckEndMission eval frame s).2
          = ((CheckEndMission eval frame s).1,
              requeueQuit again (CheckEndMission eval frame s).2)
        ∧ (again = true → (CheckEndMission eval frame s).2.events = s.events ++ [EVENT_QUIT])
    := by
  obtain ⟨he, ho, hcs⟩ := CheckEndMission_sameRegistry eval frame s hlose
  by_cases hc : s.m_controller = true
  · have e1 := CheckEndMission_of_evaluate_false eval frame s s (evaluate_controller eval s hc)
    have e2 := CheckEndMission_of_evaluate_false eval frame _ _
      (evaluate_controller eval (CheckEndMission eval frame s).2 (hcs.trans hc))
    rw [e2, hcs, he, e1]
    exact act_idem frame _ s
  · have hc1 : ¬ (CheckEndMission eval frame s).2.m_controller = true := by rw [hcs]; exact hc
    rcases groups_shape eval s (CheckEndMission eval frame s).2 he ho hlose with
      ⟨r, hr, hr1⟩ | ⟨w, hw, hw1⟩
    · have e1 := CheckEndMission_of_evaluate_false eval frame s _
        (evaluate_of_groups_false eval s _ hc hr)
      have hm := act_sameMission frame (!s.m_controller && s.m_endTake.any fun e => e.immediat)
        (CheckEndMission.researchGate { s with m_missionResult := r })
      rw [← e1] at hm
      have hg := researchGate_frame { s with m_missionResult := r }
      have hrest : CheckEndMission.researchGate
          { (CheckEndMission eval frame s).2 with m_missionResult := r }
          = (CheckEndMission eval frame s).2 :=
        researchGate_restore s _ r (hm.2.2.2.2.1.trans hg.2.2.2.1) hm.2.2.2.1 hm.1
      have e2 := CheckEndMission_of_evaluate_false eval frame _ _
        (evaluate_of_groups_false eval _ _ hc1 hr1)
      rw [hrest, hcs, he] at e2
      rw [e2, e1]
      obtain ⟨k, hk1, hk2⟩ := act_idem frame
        (!s.m_controller && s.m_endTake.any fun e => e.immediat)
        (CheckEndMission.researchGate { s with m_missionResult := r })
      exact ⟨k, hk1, fun h => (hk2 h).trans (by rw [hg.2.2.2.2])⟩
    · have e1 := CheckEndMission_of_evaluate_true eval frame s _
        (evaluate_of_groups_true eval s _ hc hw)
      have e2 := CheckEndMission_of_evaluate_true eval frame _ _
        (evaluate_of_groups_true eval _ _ hc1 hw1)
      rw [e2, e1]
      have hi := teamWon_idem w ERR_MISSION_NOTERM
        { s with m_missionResult := ERR_MISSION_NOTERM }
      exact ⟨_, by rw [hi.1], hi.2⟩

theorem CheckEndMission_twice_witness :
    ∃ again : Bool,
      CheckEndMission (fun _ _ => ERR_OK) true
          (CheckEndMission (fun _ _ => ERR_OK) true
            { CRobotMain.initial with
              m_endTake := [{ winTeam := 1, lost := -1, immediat := false, tag := 0 }],
              objects := [{ id := 1, type := OBJECT_OTHER 0, team := 1, transported := false,
                            interactive := true }],
              m_exitAfterMission := true }).2
        = ((CheckEndMission (fun _ _ => ERR_OK) true
            { CRobotMain.initial with
              m_endTake := [{ winTeam := 1, lost := -1, immediat := false, tag := 0 }],
              objects := [{ id := 1, type := OBJECT_OTHER 0, team := 1, transported := false,
                            interactive := true }],
              m_exitAfterMission := true }).1,
            requeueQuit again (CheckEndMission (fun _ _ => ERR_OK) true
              { CRobotMain.initial with
                m_endTake := [{ winTeam := 1, lost := -1, immediat := false, tag := 0 }],
                objects := [{ id := 1, type := OBJECT_OTHER 0, team := 1, transported := false,
                              interactive := true }],
                m_exitAfterMission := true }).2)
        ∧ (again = true → (CheckEndMission (fun _ _ => ERR_OK) true
            { CRobotMain.initial with
              m_endTake := [{ winTeam := 1, lost := -1, immediat := false, tag := 0 }],
              objects := [{ id := 1, type := OBJECT_OTHER 0, team := 1, transported := false,
                            interactive := true }],
              m_exitAfterMission := true }).2.events
            = CRobotMain.initial.events ++ [EVENT_QUIT]) :=
  CheckEndMission_twice (fun _ _ => ERR_OK) true
    { CRobotMain.initial with
      m_endTake := [{ winTeam := 1, lost := -1, immediat := false, tag := 0 }],
      objects := [{ id := 1, type := OBJECT_OTHER 0, team := 1, transported := false,
                    interactive := true }],
      m_exitAfterMission := true }
    (by decide)

/-! ### Autosave rotation -/

theorem lookup_cons_ite {β : Type} (i k : Int) (v : β) (es : List (Int × β)) :
    List.lookup i ((k, v) :: es) = if i = k then some v else List.lookup i es := by
  by_cases h : i = k
  · subst h; simp [List.lookup]
  · have hb : (i == k) = false := by simpa using h
    simp [List.lookup, hb, h]

theorem lookup_mapSet {β : Type} (key i : Int) (value : β) (m : List (Int × β)) :
    (mapSet key value m).lookup i = if i = key then some value else m.lookup i := by
  induction m with
  | nil => simp [mapSet, lookup_cons_ite]
  | cons e rest ih =>
    obtain ⟨k, v⟩ := e
    unfold mapSet
    by_cases h1 : key < k
    · rw [if_pos h1]; simp only [lookup_cons_ite]
    · rw [if_neg h1]
      by_cases h2 : key = k
      · rw [if_pos h2]; subst h2; simp only [lookup_cons_ite]
        by_cases h : i = key <;> simp [h]
      · rw [if_neg h2]; simp only [lookup_cons_ite, ih]
        by_cases hik : i = k
        · subst hik
          have hne : ¬ i = key := fun h => h2 h.symm
          simp [hne]
        · simp [hik]

theorem mapSet_of_lt {β : Type} (key : Int) (value : β) (m : List (Int × β))
    (h : ∀ e ∈ m, key < e.1) : mapSet key value m = (key, value) :: m := by
  cases m with
  | nil => rfl
  | cons e rest =>
    obtain ⟨k, v⟩ := e
    have hk : key < k := h (k, v) (List.mem_cons_self _ _)
    simp [mapSet, hk]

theorem mem_of_mem_mapSet {β : Type} (key : Int) (value : β) (m : List (Int × β))
    (e : Int × β) (h : e ∈ mapSet key value m) : e = (key, value) ∨ e ∈ m := by
  induction m with
  | nil => simpa [mapSet] using h
  | cons a rest ih =>
    obtain ⟨k, v⟩ := a
    unfold mapSet at h
    by_cases h1 : key < k
    · rw [if_pos h1] at h
      rcases List.mem_cons.1 h with h | h
      · exact Or.inl h
      · exact Or.inr h
    · rw [if_neg h1] at h
      by_cases h2 : key = k
      · rw [if_pos h2] at h
        rcases List.mem_cons.1 h with h | h
        · exact Or.inl h
        · exact Or.inr (List.mem_cons_of_mem _ h)
      · rw [if_neg h2] at h
        rcases List.mem_cons.1 h with h | h
        · exact Or.inr (h ▸ List.mem_cons_self _ _)
        · rcases ih h with h | h
          · exact Or.inl h
          · exact Or.inr (List.mem_cons_of_mem _ h)

theorem mapSet_pairwise {β : Type} (key : Int) (value : β) (m : List (Int × β))
    (h : m.Pairwise fun a b => a.1 < b.1) :
    (mapSet key value m).Pairwise fun a b => a.1 < b.1 := by
  induction m with
  | nil => simp [mapSet]
  | cons a rest ih =>
    obtain ⟨k, v⟩ := a
    rw [List.pairwise_cons] at h
    unfold mapSet
    by_cases h1 : key < k
    · rw [if_pos h1]
      refine List.pairwise_cons.2 ⟨?_, List.pairwise_cons.2 h⟩
      intro b hb
      rcases List.mem_cons.1 hb with hb | hb
      · rw [hb]; exact h1
      · exact lt_trans h1 (h.1 b hb)
    · rw [if_neg h1]
      by_cases h2 : key = k
      · rw [if_pos h2]
        refine List.pairwise_cons.2 ⟨?_, h.2⟩
        intro b hb
        rw [h2]; exact h.1 b hb
      · rw [if_neg h2]
        refine List.pairwise_cons.2 ⟨?_, ih h.2⟩
        intro b hb
        rcases mem_of_mem_mapSet key value rest b hb with hb | hb
        · rw [hb]; exact lt_of_le_of_ne (not_lt.1 h1) (fun h => h2 h.symm)
        · exact h.1 b hb

theorem length_mapSet {β : Type} (key : Int) (value : β) (m : List (Int × β))
    (h : m.lookup key = none) : (mapSet key value m).length = m.length + 1 := by
  induction m with
  | nil => rfl
  | cons a rest ih =>
    obtain ⟨k, v⟩ := a
    rw [lookup_cons_ite] at h
    by_cases h2 : key = k
    · rw [if_pos h2] at h; exact absurd h (by simp)
    · rw [if_neg h2] at h
      unfold mapSet
      by_cases h1 : key < k
      · rw [if_pos h1]; rfl
      · rw [if_neg h1, if_neg h2]; simp [ih h]

theorem mem_of_lookup {β : Type} (i : Int) (v : β) (m : List (Int × β))
    (h : m.lookup i = some v) : (i, v) ∈ m := by
  induction m with
  | nil => simp at h
  | cons a rest ih =>
    obtain ⟨k, w⟩ := a
    rw [lookup_cons_ite] at h
    by_cases hik : i = k
    · rw [if_pos hik] at h
      rw [hik, Option.some.inj h]; exact List.mem_cons_self _ _
    · rw [if_neg hik] at h
      exact List.mem_cons_of_mem _ (ih h)

theorem le_getLast_of_pairwise {β : Type} (m : List (Int × β)) (last : Int × β)
    (h : m.Pairwise fun a b => a.1 < b.1) (hl : m.getLast? = some last) :
    ∀ e ∈ m, e.1 ≤ last.1 := by
  induction m with
  | nil => simp
  | cons a rest ih =>
    rw [List.pairwise_cons] at h
    intro e he
    cases rest with
    | nil =>
      simp at hl he
      rw [he, hl]
    | cons b rest2 =>
      have hl2 : (b :: rest2).getLast? = some last := by
        simpa [List.getLast?_cons_cons] using hl
      rcases List.mem_cons.1 he with he | he
      · rw [he]
        exact le_trans (le_of_lt (h.1 b (List.mem_cons_self _ _)))
          (ih h.2 hl2 b (List.mem_cons_self _ _))
      · exact ih h.2 hl2 e he

theorem scan_foldl_lookup {α : Type} (i : Int) (fs : List (Int × α)) (acc : List (Int × Int)) :
    (fs.foldl (fun autosaveDirs dir => mapSet dir.1 dir.1 autosaveDirs) acc).lookup i
      = if i ∈ fs.map Prod.fst then some i else acc.lookup i := by
  induction fs generalizing acc with
  | nil => simp
  | cons d rest ih =>
    rw [List.foldl_cons, ih, lookup_mapSet]
    by_cases h1 : i ∈ rest.map Prod.fst
    · have : i ∈ (d :: rest).map Prod.fst := by
        rw [List.map_cons]; exact List.mem_cons_of_mem _ h1
      rw [if_pos h1, if_pos this]
    · rw [if_neg h1]
      by_cases h2 : i = d.1
      · have : i ∈ (d :: rest).map Prod.fst := by
          rw [List.map_cons, h2]; exact List.mem_cons_self _ _
        rw [if_pos h2, if_pos this, h2]
      · have : ¬ i ∈ (d :: rest).map Prod.fst := by
          rw [List.map_cons, List.mem_cons]
          exact fun h => h.elim h2 h1
        rw [if_neg h2, if_neg this]

theorem scan_lookup {α : Type} (i : Int) (fs : List (Int × α)) :
    (AutosaveRotate.scan fs).lookup i = if i ∈ fs.map Prod.fst then some i else none := by
  unfold AutosaveRotate.scan
  rw [scan_foldl_lookup]; rfl

theorem scan_foldl_pairwise {α : Type} (fs : List (Int × α)) (acc : List (Int × Int))
    (h : acc.Pairwise fun a b => a.1 < b.1) :
    (fs.foldl (fun autosaveDirs dir => mapSet dir.1 dir.1 autosaveDirs) acc).Pairwise
      fun a b => a.1 < b.1 := by
  induction fs generalizing acc with
  | nil => simpa using h
  | cons d rest ih =>
    rw [List.foldl_cons]
    exact ih _ (mapSet_pairwise _ _ _ h)

theorem scan_pairwise {α : Type} (fs : List (Int × α)) :
    (AutosaveRotate.scan fs).Pairwise fun a b => a.1 < b.1 :=
  scan_foldl_pairwise fs [] List.Pairwise.nil

theorem scan_foldl_length {α : Type} (fs : List (Int × α)) (acc : List (Int × Int))
    (hnd : (fs.map Prod.fst).Nodup) (hacc : ∀ d ∈ fs, acc.lookup d.1 = none) :
    (fs.foldl (fun autosaveDirs dir => mapSet dir.1 dir.1 autosaveDirs) acc).length
      = acc.length + fs.length := by
  induction fs generalizing acc with
  | nil => simp
  | cons d rest ih =>
    rw [List.map_cons, List.nodup_cons] at hnd
    rw [List.foldl_cons, ih _ hnd.2, length_mapSet _ _ _ (hacc d (List.mem_cons_self _ _))]
    · simp; omega
    · intro e he
      rw [lookup_mapSet]
      have hne : e.1 ≠ d.1 := by
        intro h
        exact hnd.1 (h ▸ List.mem_map_of_mem _ he)
      rw [if_neg hne]
      exact hacc e (List.mem_cons_of_mem _ he)

theorem scan_length {α : Type} (fs : List (Int × α)) (hnd : (fs.map Prod.fst).Nodup) :
    (AutosaveRotate.scan fs).length = fs.length := by
  unfold AutosaveRotate.scan
  rw [scan_foldl_length fs [] hnd (fun _ _ => rfl)]; simp

theorem scan_le_last {α : Type} (fs : List (Int × α)) (last : Int × Int)
    (hl : (AutosaveRotate.scan fs).getLast? = some last) : ∀ e ∈ fs, e.1 ≤ last.1 := by
  intro e he
  have h1 : (AutosaveRotate.scan fs).lookup e.1 = some e.1 := by
    rw [scan_lookup, if_pos (List.mem_map_of_mem _ he)]
  exact le_getLast_of_pairwise _ last (scan_pairwise fs) hl _ (mem_of_lookup _ _ _ h1)

theorem scan_getLast_none {α : Type} (fs : List (Int × α))
    (hl : (AutosaveRotate.scan fs).getLast? = none) : fs = [] := by
  cases fs with
  | nil => rfl
  | cons d rest =>
    have h1 : (AutosaveRotate.scan (d :: rest)).lookup d.1 = some d.1 := by
      rw [scan_lookup, if_pos (List.mem_map_of_mem _ (List.mem_cons_self _ _))]
    rw [List.getLast?_eq_none_iff] at hl
    rw [hl] at h1
    simp at h1

/-! #### Counting the more recent saves -/

theorem newer_succ_of_not_mem {α : Type} (fs : List (Int × α)) (j : Int)
    (h : ¬ j + 1 ∈ fs.map Prod.fst) :
    AutosaveRotate.newer fs j = AutosaveRotate.newer fs (j + 1) := by
  unfold AutosaveRotate.newer
  apply List.countP_congr
  intro e he
  have hne : e.1 ≠ j + 1 := fun hh => h (hh ▸ List.mem_map_of_mem _ he)
  simp only [decide_eq_true_eq]
  constructor
  · intro h1; omega
  · intro h1; omega

theorem newer_succ_of_mem {α : Type} (fs : List (Int × α)) (j : Int)
    (hnd : (fs.map Prod.fst).Nodup) (h : j + 1 ∈ fs.map Prod.fst) :
    AutosaveRotate.newer fs j = AutosaveRotate.newer fs (j + 1) + 1 := by
  induction fs with
  | nil => simp at h
  | cons d rest ih =>
    rw [List.map_cons, List.nodup_cons] at hnd
    rw [List.map_cons, List.mem_cons] at h
    unfold AutosaveRotate.newer at ih ⊢
    rw [List.countP_cons, List.countP_cons]
    by_cases hd : d.1 = j + 1
    · have hnot : ¬ j + 1 ∈ rest.map Prod.fst := hd ▸ hnd.1
      have := newer_succ_of_not_mem rest j hnot
      unfold AutosaveRotate.newer at this
      have h1 : decide (j < d.1) = true := by simp; omega
      have h2 : decide (j + 1 < d.1) = false := by simp; omega
      rw [this, h1, h2]; simp
    · have hin : j + 1 ∈ rest.map Prod.fst := h.resolve_left (fun hh => hd hh.symm)
      rw [ih hnd.2 hin]
      have h1 : decide (j < d.1) = decide (j + 1 < d.1) := by
        apply decide_eq_decide.2
        constructor
        · intro h1; omega
        · intro h1; omega
      rw [h1]; omega

theorem newer_lt_of_lt {α : Type} (fs : List (Int × α)) (d1 d2 : Int) (h : d1 < d2)
    (hm : d2 ∈ fs.map Prod.fst) :
    AutosaveRotate.newer fs d2 + 1 ≤ AutosaveRotate.newer fs d1 := by
  induction fs with
  | nil => simp at hm
  | cons d rest ih =>
    rw [List.map_cons, List.mem_cons] at hm
    unfold AutosaveRotate.newer at ih ⊢
    rw [List.countP_cons, List.countP_cons]
    by_cases hd : d2 = d.1
    · have hmono : List.countP (fun e : Int × α => decide (d2 < e.1)) rest
          ≤ List.countP (fun e : Int × α => decide (d1 < e.1)) rest := by
        apply List.countP_mono_left
        intro e _ he
        simp only [decide_eq_true_eq] at he ⊢
        omega
      have h1 : decide (d1 < d.1) = true := by simp; omega
      have h2 : decide (d2 < d.1) = false := by simp; omega
      rw [h1, h2]; simp; omega
    · have := ih (hm.resolve_left hd)
      by_cases h2 : d2 < d.1
      · have h1 : d1 < d.1 := by omega
        simp [h1, h2]; omega
      · simp [h2]
        split <;> omega

theorem newer_eq_zero {α : Type} (fs : List (Int × α)) (j : Int) (h : ∀ e ∈ fs, e.1 ≤ j) :
    AutosaveRotate.newer fs j = 0 := by
  unfold AutosaveRotate.newer
  rw [List.countP_eq_zero]
  intro e he
  simp only [decide_eq_true_eq, not_lt]
  exact h e he

/-! #### The main loop -/

theorem body_inv {α : Type} (S : Int) (a f : Bool) (fs : List (Int × α)) (L : Int)
    (hnd : (fs.map Prod.fst).Nodup) (j : Int) (st : AutosaveRotate.State α)
    (h : AutosaveRotate.Inv S a f fs L (j + 1) st) :
    AutosaveRotate.Inv S a f fs L j
      (AutosaveRotate.body S a f (AutosaveRotate.scan fs) L (j + 1) st) := by
  obtain ⟨hc, hfs, hrot, hpw, hmem⟩ := h
  unfold AutosaveRotate.body
  rw [scan_lookup]
  by_cases hin : j + 1 ∈ fs.map Prod.fst
  · rw [if_pos hin]
    simp only []
    have hnew := newer_succ_of_mem fs j hnd hin
    have hcond : (st.count + 1 > S - (if f = true then 1 else 0) ∨ a = false)
        ↔ AutosaveRotate.kept S a f fs (j + 1) = false := by
      unfold AutosaveRotate.kept
      rw [hc]
      cases a <;> simp
    by_cases hk : AutosaveRotate.kept S a f fs (j + 1) = false
    · rw [if_pos (hcond.2 hk)]
      refine ⟨?_, ?_, ?_, hpw, ?_⟩
      · show st.count + 1 = _
        rw [hc, hnew]; push_cast; ring
      · show CResourceManager.RemoveDirectory (j + 1) st.fs = _
        unfold CResourceManager.RemoveDirectory
        rw [hfs, List.filter_filter]
        apply List.filter_congr
        intro e he
        by_cases he1 : e.1 = j + 1
        · rw [he1, hk]; simp
        · have : decide (e.1 ≤ j) = decide (e.1 ≤ j + 1) := by
            apply decide_eq_decide.2; constructor <;> intro hh <;> omega
          simp [he1, this]
      · show true = true ↔ _
        simp only [true_iff]
        obtain ⟨e, he, he1⟩ := List.mem_map.1 hin
        exact ⟨e, he, by omega, he1 ▸ hk⟩
      · intro p
        show p ∈ st.autosavesToKeep ↔ _
        rw [hmem p]
        constructor
        · rintro ⟨h1, h2, h3, h4⟩
          exact ⟨h1, by omega, h3, h4⟩
        · rintro ⟨h1, h2, h3, h4⟩
          refine ⟨h1, ?_, h3, h4⟩
          rcases lt_or_eq_of_le (Int.add_one_le_of_lt h2) with h5 | h5
          · exact h5
          · rw [← h5, hk] at h3; exact absurd h3 (by simp)
    · have hk1 : AutosaveRotate.kept S a f fs (j + 1) = true := by
        cases hh : AutosaveRotate.kept S a f fs (j + 1)
        · exact absurd hh hk
        · rfl
      rw [if_neg (fun hh => hk (hcond.1 hh))]
      have hlt : ∀ e ∈ st.autosavesToKeep, L - (st.count + 1) + 1 < e.1 ∧ j + 1 < e.2 := by
        intro e he
        obtain ⟨h1, h2, h3, h4⟩ := (hmem e).1 he
        have := newer_lt_of_lt fs (j + 1) e.2 h2 h1
        rw [h4, hc]
        constructor
        · omega
        · exact h2
      rw [mapSet_of_lt _ _ _ (fun e he => (hlt e he).1)]
      refine ⟨?_, ?_, ?_, ?_, ?_⟩
      · show st.count + 1 = _
        rw [hc, hnew]; push_cast; ring
      · show st.fs = _
        rw [hfs]
        apply List.filter_congr
        intro e he
        by_cases he1 : e.1 = j + 1
        · rw [he1, hk1]; simp
        · have : decide (e.1 ≤ j) = decide (e.1 ≤ j + 1) := by
            apply decide_eq_decide.2; constructor <;> intro hh <;> omega
          rw [this]
      · show st.rotate = true ↔ _
        rw [hrot]
        constructor
        · rintro ⟨e, he, h1, h2⟩
          exact ⟨e, he, by omega, h2⟩
        · rintro ⟨e, he, h1, h2⟩
          refine ⟨e, he, ?_, h2⟩
          rcases lt_or_eq_of_le (Int.add_one_le_of_lt h1) with h5 | h5
          · exact h5
          · rw [← h5, hk1] at h2; exact absurd h2 (by simp)
      · exact List.pairwise_cons.2 ⟨fun e he => hlt e he, hpw⟩
      · intro p
        rw [List.mem_cons, hmem p]
        constructor
        · rintro (h1 | ⟨h1, h2, h3, h4⟩)
          · rw [h1]
            refine ⟨hin, by omega, hk1, ?_⟩
            show L - (st.count + 1) + 1 = _
            rw [hc]; ring
          · exact ⟨h1, by omega, h3, h4⟩
        · rintro ⟨h1, h2, h3, h4⟩
          rcases lt_or_eq_of_le (Int.add_one_le_of_lt h2) with h5 | h5
          · exact Or.inr ⟨h1, h5, h3, h4⟩
          · left
            apply Prod.ext
            · show p.1 = L - (st.count + 1) + 1
              rw [h4, ← h5, hc]; ring
            · exact h5.symm
  · rw [if_neg hin]
    simp only []
    have hnew := newer_succ_of_not_mem fs j hin
    refine ⟨by rw [hc, hnew], ?_, ?_, hpw, ?_⟩
    · rw [hfs]
      apply List.filter_congr
      intro e he
      have hne : e.1 ≠ j + 1 := fun hh => hin (hh ▸ List.mem_map_of_mem _ he)
      have : decide (e.1 ≤ j) = decide (e.1 ≤ j + 1) := by
        apply decide_eq_decide.2; constructor <;> intro hh <;> omega
      rw [this]
    · rw [hrot]
      constructor
      · rintro ⟨e, he, h1, h2⟩
        exact ⟨e, he, by omega, h2⟩
      · rintro ⟨e, he, h1, h2⟩
        have hne : e.1 ≠ j + 1 := fun hh => hin (hh ▸ List.mem_map_of_mem _ he)
        exact ⟨e, he, by omega, h2⟩
    · intro p
      rw [hmem p]
      constructor
      · rintro ⟨h1, h2, h3, h4⟩
        exact ⟨h1, by omega, h3, h4⟩
      · rintro ⟨h1, h2, h3, h4⟩
        have hne : p.2 ≠ j + 1 := fun hh => hin (hh ▸ h1)
        exact ⟨h1, by omega, h3, h4⟩

theorem loop_inv {α : Type} (S : Int) (a f : Bool) (fs : List (Int × α)) (L : Int)
    (hnd : (fs.map Prod.fst).Nodup) (n : Nat) (st : AutosaveRotate.State α)
    (h : AutosaveRotate.Inv S a f fs L n st) :
    AutosaveRotate.Inv S a f fs L 0
      (AutosaveRotate.loop S a f (AutosaveRotate.scan fs) L n st) := by
  induction n generalizing st with
  | zero => exact h
  | succ n ih =>
    unfold AutosaveRotate.loop
    apply ih
    apply body_inv S a f fs L hnd
    simpa using h

/-! #### The renaming loop -/

theorem Move_eq_map {α : Type} (src dst : Int) (g : List (Int × α))
    (h : ∀ e ∈ g, e.1 = dst → src = dst) :
    CResourceManager.Move src dst g = g.map fun e => if e.1 = src then (dst, e.2) else e := by
  unfold CResourceManager.Move
  rw [if_neg]
  rintro ⟨h1, h2⟩
  rw [List.any_eq_true] at h2
  obtain ⟨e, he, he1⟩ := h2
  exact h1 (h e he (by simpa using he1))

theorem renamed_nil {α : Type} (e : Int × α) : AutosaveRotate.renamed [] e = e := rfl

theorem renamed_cons {α : Type} (r : Int × Int) (rs : List (Int × Int)) (e : Int × α) :
    AutosaveRotate.renamed (r :: rs) e
      = if r.2 = e.1 then (r.1, e.2) else AutosaveRotate.renamed rs e := by
  unfold AutosaveRotate.renamed
  rw [List.find?_cons]
  by_cases h : r.2 = e.1
  · have hb : (r.2 == e.1) = true := by simpa using h
    simp [hb, h]
  · have hb : (r.2 == e.1) = false := by simpa using h
    simp [hb, h]

theorem renamed_of_not_mem {α : Type} (rs : List (Int × Int)) (e : Int × α)
    (h : ∀ r ∈ rs, r.2 ≠ e.1) : AutosaveRotate.renamed rs e = e := by
  induction rs with
  | nil => rfl
  | cons r rs ih =>
    rw [renamed_cons, if_neg (h r (List.mem_cons_self _ _))]
    exact ih fun x hx => h x (List.mem_cons_of_mem _ hx)

theorem rename_eq {α : Type} (rs : List (Int × Int)) (g : List (Int × α))
    (hpw : rs.Pairwise fun x y => x.1 < y.1 ∧ x.2 < y.2)
    (hle : ∀ r ∈ rs, r.1 ≤ r.2)
    (hg : ∀ e ∈ g, (∃ r ∈ rs, r.2 = e.1) ∨ (∀ r ∈ rs, e.1 < r.1)) :
    AutosaveRotate.rename rs g = g.map (AutosaveRotate.renamed rs) := by
  induction rs generalizing g with
  | nil =>
    unfold AutosaveRotate.rename
    rw [List.foldl_nil]
    exact (List.map_id'' (fun e => renamed_nil e) g).symm
  | cons r rs ih =>
    rw [List.pairwise_cons] at hpw
    have hr : r.1 ≤ r.2 := hle r (List.mem_cons_self _ _)
    have hfree : ∀ e ∈ g, e.1 = r.1 → r.2 = r.1 := by
      intro e he he1
      rcases hg e he with ⟨r', hr', h1⟩ | h1
      · rcases List.mem_cons.1 hr' with h2 | h2
        · rw [h2] at h1; rw [h1, he1]
        · have := (hpw.1 r' h2).2
          omega
      · have := h1 r (List.mem_cons_self _ _)
        omega
    have hstep : AutosaveRotate.rename (r :: rs) g
        = AutosaveRotate.rename rs (CResourceManager.Move r.2 r.1 g) := by
      unfold AutosaveRotate.rename
      rw [List.foldl_cons]
    rw [hstep, Move_eq_map _ _ _ hfree, ih _ hpw.2 (fun x hx => hle x (List.mem_cons_of_mem _ hx))]
    · rw [List.map_map]
      apply List.map_congr_left
      intro e he
      simp only [Function.comp]
      rw [renamed_cons]
      by_cases he1 : e.1 = r.2
      · rw [if_pos he1, if_pos he1.symm]
        apply renamed_of_not_mem
        intro x hx
        have := (hpw.1 x hx).2
        show x.2 ≠ r.1
        omega
      · rw [if_neg he1, if_neg (fun hh => he1 hh.symm)]
    · intro e' he'
      obtain ⟨e, he, rfl⟩ := List.mem_map.1 he'
      by_cases he1 : e.1 = r.2
      · rw [if_pos he1]
        right
        intro x hx
        exact (hpw.1 x hx).1
      · rw [if_neg he1]
        rcases hg e he with ⟨r', hr', h1⟩ | h1
        · rcases List.mem_cons.1 hr' with h2 | h2
          · rw [h2] at h1; exact absurd h1.symm he1
          · exact Or.inl ⟨r', h2, h1⟩
        · exact Or.inr fun x hx => h1 x (List.mem_cons_of_mem _ hx)

theorem renamed_of_mem {α : Type} (rs : List (Int × Int)) (e : Int × α) (v : Int)
    (hpw : rs.Pairwise fun x y => x.1 < y.1 ∧ x.2 < y.2) (h : (v, e.1) ∈ rs) :
    AutosaveRotate.renamed rs e = (v, e.2) := by
  induction rs with
  | nil => simp at h
  | cons r rs ih =>
    rw [List.pairwise_cons] at hpw
    rw [renamed_cons]
    rcases List.mem_cons.1 h with h1 | h1
    · rw [← h1]; simp
    · have := (hpw.1 _ h1).2
      have hne : ¬ r.2 = e.1 := by
        intro hh
        simp only at this
        omega
      rw [if_neg hne]
      exact ih hpw.2 h1

/-! #### What `AutosaveRotate` computes -/

theorem length_le_of_nodup_of_pos (l : List Int) (d : Int) (hnd : l.Nodup)
    (h : ∀ x ∈ l, 0 < x ∧ x ≤ d) : (l.length : Int) ≤ max d 0 := by
  have hsub : l.toFinset ⊆ Finset.Icc 1 d := by
    intro x hx
    rw [List.mem_toFinset] at hx
    rw [Finset.mem_Icc]
    have := h x hx
    omega
  have hcard := Finset.card_le_card hsub
  rw [List.toFinset_card_of_nodup hnd, Int.card_Icc] at hcard
  omega

theorem length_sub_newer_le {α : Type} (fs : List (Int × α)) (d : Int)
    (hnd : (fs.map Prod.fst).Nodup) (hpos : ∀ e ∈ fs, 0 < e.1) :
    (fs.length : Int) - AutosaveRotate.newer fs d ≤ max d 0 := by
  have h1 : fs.length = AutosaveRotate.newer fs d
      + (fs.filter fun e => !decide (d < e.1)).length := by
    unfold AutosaveRotate.newer
    rw [List.countP_eq_length_filter]
    have := List.length_eq_length_filter_add (l := fs) (fun e => decide (d < e.1))
    simpa using this
  have h2 : (((fs.filter fun e => !decide (d < e.1)).map Prod.fst).length : Int) ≤ max d 0 := by
    apply length_le_of_nodup_of_pos
    · exact List.Nodup.sublist (List.Sublist.map _ (List.filter_sublist _)) hnd
    · intro x hx
      obtain ⟨e, he, rfl⟩ := List.mem_map.1 hx
      rw [List.mem_filter] at he
      have := hpos e he.1
      have h3 := he.2
      simp only [Bool.not_eq_true', decide_eq_false_iff_not, not_lt] at h3
      exact ⟨this, h3⟩
  rw [List.length_map] at h2
  omega

theorem newer_zero {α : Type} (fs : List (Int × α)) (hpos : ∀ e ∈ fs, 0 < e.1) :
    AutosaveRotate.newer fs 0 = fs.length := by
  unfold AutosaveRotate.newer
  rw [List.countP_eq_length]
  intro e he
  simpa using hpos e he

theorem AutosaveRotate_nil {α : Type} (S : Int) (a f : Bool) :
    AutosaveRotate S a f ([] : List (Int × α)) = (1, []) := rfl

theorem Inv_initial {α : Type} (S : Int) (a f : Bool) (fs : List (Int × α)) (L : Int)
    (last : Int × Int) (hl : (AutosaveRotate.scan fs).getLast? = some last) :
    AutosaveRotate.Inv S a f fs L (last.1.toNat : Int)
      { fs := fs, count := 0, rotate := false, autosavesToKeep := [] } := by
  have hle : ∀ e ∈ fs, e.1 ≤ (last.1.toNat : Int) := by
    intro e he
    have := scan_le_last fs last hl e he
    have := Int.self_le_toNat last.1
    omega
  refine ⟨?_, ?_, ?_, List.Pairwise.nil, ?_⟩
  · show (0 : Int) = _
    rw [newer_eq_zero fs _ hle]; rfl
  · show fs = _
    symm
    rw [List.filter_eq_self]
    intro e he
    simp only [Bool.or_eq_true, decide_eq_true_eq]
    exact Or.inl (hle e he)
  · show false = true ↔ _
    simp only [Bool.false_eq_true, false_iff, not_exists, not_and]
    intro e he h1
    have := hle e he
    omega
  · intro p
    show p ∈ [] ↔ _
    simp only [List.not_mem_nil, false_iff, not_and]
    intro h1 h2
    obtain ⟨e, he, he1⟩ := List.mem_map.1 h1
    have := hle e he
    omega

theorem AutosaveRotate_loop {α : Type} (S : Int) (a f : Bool) (fs : List (Int × α))
    (hnd : (fs.map Prod.fst).Nodup) (hne : fs ≠ []) :
    ∃ st : AutosaveRotate.State α,
      AutosaveRotate.Inv S a f fs
          (min (fs.length : Int) (S - (if f then 1 else 0))) 0 st
        ∧ AutosaveRotate S a f fs
          = if st.rotate then (st.count, AutosaveRotate.rename st.autosavesToKeep st.fs)
            else (st.count + 1, st.fs) := by
  cases hl : (AutosaveRotate.scan fs).getLast? with
  | none => exact absurd (scan_getLast_none fs hl) hne
  | some last =>
    simp only [AutosaveRotate, hl]
    rw [scan_length fs hnd]
    exact ⟨_, loop_inv S a f fs _ hnd _ _ (Inv_initial S a f fs _ last hl), rfl⟩

theorem AutosaveRotate_of_all_kept {α : Type} (S : Int) (a f : Bool) (fs : List (Int × α))
    (hnd : (fs.map Prod.fst).Nodup) (hpos : ∀ e ∈ fs, 0 < e.1) (hne : fs ≠ [])
    (hall : ∀ e ∈ fs, AutosaveRotate.kept S a f fs e.1 = true) :
    AutosaveRotate S a f fs = ((fs.length : Int) + 1, fs) := by
  obtain ⟨st, ⟨hc, hfs, hrot, -, -⟩, heq⟩ := AutosaveRotate_loop S a f fs hnd hne
  have hr : st.rotate = false := by
    cases hh : st.rotate
    · rfl
    · obtain ⟨e, he, -, h2⟩ := hrot.1 hh
      rw [hall e he] at h2; exact absurd h2 (by simp)
  rw [heq, hr, hc, newer_zero fs hpos, hfs]
  simp only [Bool.false_eq_true, if_false]
  congr 1
  rw [List.filter_eq_self]
  intro e he
  simp [hall e he]

theorem AutosaveRotate_of_removed {α : Type} (S : Int) (a f : Bool) (fs : List (Int × α))
    (hnd : (fs.map Prod.fst).Nodup) (hpos : ∀ e ∈ fs, 0 < e.1)
    (hex : ∃ e ∈ fs, AutosaveRotate.kept S a f fs e.1 = false) :
    AutosaveRotate S a f fs
      = ((fs.length : Int),
          (fs.filter fun e => AutosaveRotate.kept S a f fs e.1).map fun e =>
            (min (fs.length : Int) (S - (if f then 1 else 0)) - AutosaveRotate.newer fs e.1,
              e.2)) := by
  have hne : fs ≠ [] := by
    obtain ⟨e, he, -⟩ := hex
    exact List.ne_nil_of_mem he
  obtain ⟨st, ⟨hc, hfs, hrot, hpw, hmem⟩, heq⟩ := AutosaveRotate_loop S a f fs hnd hne
  have hr : st.rotate = true := by
    obtain ⟨e, he, h2⟩ := hex
    exact hrot.2 ⟨e, he, hpos e he, h2⟩
  have hfs2 : st.fs = fs.filter fun e => AutosaveRotate.kept S a f fs e.1 := by
    rw [hfs]
    apply List.filter_congr
    intro e he
    have := hpos e he
    have : decide (e.1 ≤ 0) = false := by simp; omega
    rw [this]; simp
  rw [heq, hr, hc, newer_zero fs hpos, hfs2]
  simp only [if_true]
  congr 1
  rw [rename_eq _ _ hpw]
  · apply List.map_congr_left
    intro e he
    rw [List.mem_filter] at he
    apply renamed_of_mem _ _ _ hpw
    rw [hmem]
    exact ⟨List.mem_map_of_mem _ he.1, hpos e he.1, he.2, rfl⟩
  · intro r hr0
    obtain ⟨h1, h2, h3, h4⟩ := (hmem r).1 hr0
    have := length_sub_newer_le fs r.2 hnd hpos
    rw [h4]
    omega
  · intro e he
    rw [List.mem_filter] at he
    left
    refine ⟨(min (fs.length : Int) (S - (if f then 1 else 0)) - AutosaveRotate.newer fs e.1, e.1),
      ?_, rfl⟩
    rw [hmem]
    exact ⟨List.mem_map_of_mem _ he.1, hpos e he.1, he.2, rfl⟩

/-! #### Ranks of the saves -/

theorem newer_lt_length {α : Type} (fs : List (Int × α)) (e : Int × α) (he : e ∈ fs) :
    AutosaveRotate.newer fs e.1 < fs.length := by
  unfold AutosaveRotate.newer
  rw [List.countP_eq_length_filter]
  apply lt_of_le_of_ne (List.length_filter_le _ _)
  intro h
  have h2 := List.filter_length_eq_length.1 h e he
  simp at h2

theorem newer_inj {α : Type} (fs : List (Int × α)) (x y : Int)
    (hx : x ∈ fs.map Prod.fst) (hy : y ∈ fs.map Prod.fst)
    (h : AutosaveRotate.newer fs x = AutosaveRotate.newer fs y) : x = y := by
  rcases lt_trichotomy x y with h1 | h1 | h1
  · have := newer_lt_of_lt fs x y h1 hy; omega
  · exact h1
  · have := newer_lt_of_lt fs y x h1 hx; omega

theorem newer_perm {α : Type} (fs : List (Int × α)) (hnd : (fs.map Prod.fst).Nodup) :
    ((fs.map Prod.fst).map (AutosaveRotate.newer fs)).Perm (List.range fs.length) := by
  have hnd2 : ((fs.map Prod.fst).map (AutosaveRotate.newer fs)).Nodup :=
    List.Nodup.map_on (fun x hx y hy h => newer_inj fs x y hx hy h) hnd
  have hsub : (fs.map Prod.fst).map (AutosaveRotate.newer fs) ⊆ List.range fs.length := by
    intro c hc
    obtain ⟨x, hx, rfl⟩ := List.mem_map.1 hc
    obtain ⟨e, he, rfl⟩ := List.mem_map.1 hx
    exact List.mem_range.2 (newer_lt_length fs e he)
  apply List.Subperm.perm_of_length_le (List.subperm_of_subset hnd2 hsub)
  simp

theorem countP_range_lt (n t : Nat) :
    (List.range n).countP (fun c => decide (c < t)) = min n t := by
  induction n with
  | zero => simp
  | succ n ih =>
    rw [List.range_succ, List.countP_append, ih]
    by_cases h : n < t
    · simp [h]; omega
    · simp [h]; omega

theorem kept_length {α : Type} (S : Int) (f : Bool) (fs : List (Int × α))
    (hnd : (fs.map Prod.fst).Nodup) :
    (fs.filter fun e => AutosaveRotate.kept S true f fs e.1).length
      = min fs.length (S - (if f then 1 else 0)).toNat := by
  rw [← List.countP_eq_length_filter, ← countP_range_lt,
    ← (newer_perm fs hnd).countP_eq, List.map_map, List.countP_map]
  apply List.countP_congr
  intro e _
  unfold AutosaveRotate.kept
  simp only [Bool.true_and, Function.comp, decide_eq_true_eq]
  omega

theorem kept_false {α : Type} (S : Int) (f : Bool) (fs : List (Int × α)) (i : Int) :
    AutosaveRotate.kept S false f fs i = false := rfl

theorem removed_facts {α : Type} (S : Int) (a f : Bool) (fs : List (Int × α))
    (hnd : (fs.map Prod.fst).Nodup)
    (hex : ∃ e ∈ fs, AutosaveRotate.kept S a f fs e.1 = false) :
    (fs.filter fun e => AutosaveRotate.kept S a f fs e.1).length < fs.length
      ∧ (a = true → S - (if f then 1 else 0) < fs.length
          ∧ (fs.filter fun e => AutosaveRotate.kept S a f fs e.1).length
              = (S - (if f then 1 else 0)).toNat)
      ∧ (a = false → (fs.filter fun e => AutosaveRotate.kept S a f fs e.1) = []) := by
  obtain ⟨e, he, hk⟩ := hex
  refine ⟨?_, ?_, ?_⟩
  · apply lt_of_le_of_ne (List.length_filter_le _ _)
    intro h
    have := List.filter_length_eq_length.1 h e he
    rw [hk] at this; exact absurd this (by simp)
  · intro ha
    subst ha
    have hlt := newer_lt_length fs e he
    have h1 : S - (if f then 1 else 0) < fs.length := by
      unfold AutosaveRotate.kept at hk
      simp only [Bool.true_and, decide_eq_false_iff_not, not_le] at hk
      omega
    refine ⟨h1, ?_⟩
    rw [kept_length S f fs hnd]
    omega
  · intro ha
    subst ha
    rw [List.filter_eq_nil_iff]
    intro x _
    simp [kept_false]

theorem all_kept_facts {α : Type} (S : Int) (a f : Bool) (fs : List (Int × α))
    (hnd : (fs.map Prod.fst).Nodup) (hne : fs ≠ [])
    (hall : ∀ e ∈ fs, AutosaveRotate.kept S a f fs e.1 = true) :
    a = true ∧ (fs.length : Int) ≤ S - (if f then 1 else 0) := by
  obtain ⟨e, he⟩ := List.exists_mem_of_ne_nil fs hne
  have ha : a = true := by
    have := hall e he
    unfold AutosaveRotate.kept at this
    cases a
    · simp at this
    · rfl
  subst ha
  refine ⟨rfl, ?_⟩
  have h1 := kept_length S f fs hnd
  rw [List.filter_eq_self.2 hall] at h1
  have h2 : fs.length ≤ (S - (if f = true then 1 else 0)).toNat :=
    le_trans (le_of_eq h1) (Nat.min_le_right _ _)
  have hn : 0 < fs.length := List.length_pos.2 hne
  clear h1
  generalize S - (if f = true then 1 else 0) = t at h2 ⊢
  omega

/-- C18 (amended): for autosave directories with distinct positive numbers and a
slot cap `m_autosaveSlots`, after `AutosaveRotate` returns at most
`m_autosaveSlots` of them survive (none when the cap is not positive); when the
rotation deleted a directory the surviving slot numbers are exactly
`{1..count}`, and when it deleted none the directories are left as they
were, whatever their numbers. -/
theorem AutosaveRotate_slots {α : Type} (m_autosaveSlots : Int) (m_autosave freeOne : Bool)
    (saveDirs : List (Int × α)) (hnd : (saveDirs.map Prod.fst).Nodup)
    (hpos : ∀ e ∈ saveDirs, 0 < e.1) :
    (((AutosaveRotate m_autosaveSlots m_autosave freeOne saveDirs).2.length : Int)
        ≤ max m_autosaveSlots 0)
      ∧ ((AutosaveRotate m_autosaveSlots m_autosave freeOne saveDirs).2.length < saveDirs.length →
          ∀ k : Int,
            k ∈ (AutosaveRotate m_autosaveSlots m_autosave freeOne saveDirs).2.map Prod.fst
              ↔ 1 ≤ k
                ∧ k ≤ (AutosaveRotate m_autosaveSlots m_autosave freeOne saveDirs).2.length)
      ∧ ((AutosaveRotate m_autosaveSlots m_autosave freeOne saveDirs).2.length = saveDirs.length →
          (AutosaveRotate m_autosaveSlots m_autosave freeOne saveDirs).2 = saveDirs) := by
  by_cases hne : saveDirs = []
  · subst hne
    rw [AutosaveRotate_nil]
    simp
  by_cases hex : ∃ e ∈ saveDirs,
      AutosaveRotate.kept m_autosaveSlots m_autosave freeOne saveDirs e.1 = false
  · rw [AutosaveRotate_of_removed _ _ _ _ hnd hpos hex]
    obtain ⟨hlt, htrue, hfalse⟩ := removed_facts _ _ _ _ hnd hex
    simp only [List.length_map, List.map_map]
    cases m_autosave with
    | false =>
      rw [hfalse rfl]
      refine ⟨by simp, ?_, ?_⟩
      · intro _ k
        simp only [List.map_nil, List.not_mem_nil, List.length_nil, false_iff, not_and]
        intro h
        simp only [Nat.cast_zero]
        omega
      · intro h
        exact absurd (List.length_eq_zero.1 h.symm) hne
    | true =>
      obtain ⟨h1, h2⟩ := htrue rfl
      rw [h2]
      have hts : m_autosaveSlots - (if freeOne = true then 1 else 0) ≤ m_autosaveSlots := by
        split <;> omega
      rw [min_eq_right (le_of_lt h1)]
      refine ⟨by omega, ?_, ?_⟩
      · intro _ k
        rw [List.mem_map]
        constructor
        · rintro ⟨e, he, rfl⟩
          rw [List.mem_filter] at he
          have hk := he.2
          unfold AutosaveRotate.kept at hk
          simp only [Bool.true_and, decide_eq_true_eq] at hk
          simp only [Function.comp]
          constructor <;> omega
        · rintro ⟨hk1, hk2⟩
          have hc : (m_autosaveSlots - (if freeOne = true then 1 else 0) - k).toNat
              ∈ List.range saveDirs.length := by
            rw [List.mem_range]; omega
          rw [← (newer_perm saveDirs hnd).mem_iff, List.map_map] at hc
          obtain ⟨e, he, hec⟩ := List.mem_map.1 hc
          simp only [Function.comp] at hec
          refine ⟨e, ?_, ?_⟩
          · rw [List.mem_filter]
            refine ⟨he, ?_⟩
            unfold AutosaveRotate.kept
            simp only [Bool.true_and, decide_eq_true_eq]
            omega
          · simp only [Function.comp]
            omega
      · intro h
        omega
  · have hall : ∀ e ∈ saveDirs,
        AutosaveRotate.kept m_autosaveSlots m_autosave freeOne saveDirs e.1 = true := by
      intro e he
      cases hk : AutosaveRotate.kept m_autosaveSlots m_autosave freeOne saveDirs e.1
      · exact absurd ⟨e, he, hk⟩ hex
      · rfl
    rw [AutosaveRotate_of_all_kept _ _ _ _ hnd hpos hne hall]
    obtain ⟨-, h2⟩ := all_kept_facts _ _ _ _ hnd hne hall
    refine ⟨?_, ?_, fun _ => rfl⟩
    · show (saveDirs.length : Int) ≤ _
      have hts : m_autosaveSlots - (if freeOne = true then 1 else 0) ≤ m_autosaveSlots := by
        split <;> omega
      omega
    · intro h
      exact absurd h (lt_irrefl _)

/-- Witness of `AutosaveRotate_slots`: three autosaves and a cap of two. -/
theorem AutosaveRotate_slots_witness :
    (((AutosaveRotate 2 true false [((1 : Int), "a"), (2, "b"), (3, "c")]).2.length : Int)
        ≤ max 2 0)
      ∧ ((AutosaveRotate 2 true false [((1 : Int), "a"), (2, "b"), (3, "c")]).2.length
            < [((1 : Int), "a"), (2, "b"), (3, "c")].length →
          ∀ k : Int,
            k ∈ (AutosaveRotate 2 true false [((1 : Int), "a"), (2, "b"), (3, "c")]).2.map Prod.fst
              ↔ 1 ≤ k
                ∧ k ≤ (AutosaveRotate 2 true false [((1 : Int), "a"), (2, "b"), (3, "c")]).2.length)
      ∧ ((AutosaveRotate 2 true false [((1 : Int), "a"), (2, "b"), (3, "c")]).2.length
            = [((1 : Int), "a"), (2, "b"), (3, "c")].length →
          (AutosaveRotate 2 true false [((1 : Int), "a"), (2, "b"), (3, "c")]).2
            = [((1 : Int), "a"), (2, "b"), (3, "c")]) :=
  AutosaveRotate_slots 2 true false [((1 : Int), "a"), (2, "b"), (3, "c")] (by decide) (by decide)

/-- C18 as stated fails: with a cap of three and the two autosaves numbered 2
and 5, nothing is deleted, so nothing is renumbered: the surviving slot
numbers are `{2, 5}`, not `{1, 2}`. -/
theorem AutosaveRotate_gap_counterexample :
    AutosaveRotate 3 true false [((2 : Int), "a"), (5, "b")] = (3, [(2, "a"), (5, "b")]) := by
  decide

theorem AutosaveRotate_snd {α : Type} (S : Int) (a f : Bool) (fs : List (Int × α))
    (hnd : (fs.map Prod.fst).Nodup) (hpos : ∀ e ∈ fs, 0 < e.1) :
    (AutosaveRotate S a f fs).2
      = if (fs.filter fun e => AutosaveRotate.kept S a f fs e.1).length < fs.length then
          (fs.filter fun e => AutosaveRotate.kept S a f fs e.1).map fun e =>
            (min (fs.length : Int) (S - (if f then 1 else 0)) - AutosaveRotate.newer fs e.1, e.2)
        else fs := by
  by_cases hne : fs = []
  · subst hne; rfl
  by_cases hex : ∃ e ∈ fs, AutosaveRotate.kept S a f fs e.1 = false
  · rw [AutosaveRotate_of_removed _ _ _ _ hnd hpos hex, if_pos (removed_facts _ _ _ _ hnd hex).1]
  · have hall : ∀ e ∈ fs, AutosaveRotate.kept S a f fs e.1 = true := by
      intro e he
      cases hk : AutosaveRotate.kept S a f fs e.1
      · exact absurd ⟨e, he, hk⟩ hex
      · rfl
    rw [AutosaveRotate_of_all_kept _ _ _ _ hnd hpos hne hall, List.filter_eq_self.2 hall,
      if_neg (lt_irrefl _)]

/-- C19 (amended): for autosave directories with distinct positive numbers,
`AutosaveRotate` with autosave enabled keeps exactly the saved games of the
directories that have fewer than `N - 1` (a slot is reserved, `freeOne`) or `N`
(no slot reserved) directories numbered higher, which are the
`min(count, N - 1)` or `min(count, N)` most recent ones, keeps every
directory as it is when no more than that exist, and deletes every other one;
with autosave disabled it deletes all of them. -/
theorem AutosaveRotate_keeps {α : Type} (m_autosaveSlots : Int) (m_autosave freeOne : Bool)
    (saveDirs : List (Int × α)) (hnd : (saveDirs.map Prod.fst).Nodup)
    (hpos : ∀ e ∈ saveDirs, 0 < e.1) :
    (AutosaveRotate m_autosaveSlots m_autosave freeOne saveDirs).2.map Prod.snd
        = (saveDirs.filter fun e =>
            m_autosave && decide ((AutosaveRotate.newer saveDirs e.1 : Int)
              < m_autosaveSlots - (if freeOne then 1 else 0))).map Prod.snd
      ∧ (m_autosave = true →
          (AutosaveRotate m_autosaveSlots m_autosave freeOne saveDirs).2.length
            = min saveDirs.length (m_autosaveSlots - (if freeOne then 1 else 0)).toNat)
      ∧ (m_autosave = true →
          (saveDirs.length : Int) ≤ m_autosaveSlots - (if freeOne then 1 else 0) →
          (AutosaveRotate m_autosaveSlots m_autosave freeOne saveDirs).2 = saveDirs) := by
  have hfilter : (saveDirs.filter fun e =>
        m_autosave && decide ((AutosaveRotate.newer saveDirs e.1 : Int)
          < m_autosaveSlots - (if freeOne then 1 else 0)))
      = saveDirs.filter fun e =>
          AutosaveRotate.kept m_autosaveSlots m_autosave freeOne saveDirs e.1 := by
    apply List.filter_congr
    intro e _
    unfold AutosaveRotate.kept
    congr 1
  rw [hfilter, AutosaveRotate_snd _ _ _ _ hnd hpos]
  refine ⟨?_, ?_, ?_⟩
  · split
    · rw [List.map_map]; rfl
    · rename_i h
      have := List.length_filter_le
        (fun e => AutosaveRotate.kept m_autosaveSlots m_autosave freeOne saveDirs e.1) saveDirs
      have heq := List.filter_length_eq_length.1 (le_antisymm this (not_lt.1 h))
      rw [List.filter_eq_self.2 heq]
  · intro ha
    subst ha
    have hlen := kept_length m_autosaveSlots freeOne saveDirs hnd
    split
    · rw [List.length_map, hlen]
    · rename_i h
      rw [hlen] at h
      omega
  · intro ha hle
    subst ha
    have hlen := kept_length m_autosaveSlots freeOne saveDirs hnd
    rw [if_neg (by rw [hlen]; omega)]

/-- Witness of `AutosaveRotate_keeps`: three autosaves, a cap of three and a
slot reserved for the coming save. -/
theorem AutosaveRotate_keeps_witness :
    (AutosaveRotate 3 true true [((1 : Int), "a"), (2, "b"), (3, "c")]).2.map Prod.snd
        = ([((1 : Int), "a"), (2, "b"), (3, "c")].filter fun e =>
            true && decide ((AutosaveRotate.newer [((1 : Int), "a"), (2, "b"), (3, "c")] e.1 : Int)
              < 3 - (if true then 1 else 0))).map Prod.snd
      ∧ (true = true →
          (AutosaveRotate 3 true true [((1 : Int), "a"), (2, "b"), (3, "c")]).2.length
            = min [((1 : Int), "a"), (2, "b"), (3, "c")].length
                ((3 : Int) - (if true then 1 else 0)).toNat)
      ∧ (true = true →
          ([((1 : Int), "a"), (2, "b"), (3, "c")].length : Int)
            ≤ 3 - (if true then 1 else 0) →
          (AutosaveRotate 3 true true [((1 : Int), "a"), (2, "b"), (3, "c")]).2
            = [((1 : Int), "a"), (2, "b"), (3, "c")]) :=
  AutosaveRotate_keeps 3 true true [((1 : Int), "a"), (2, "b"), (3, "c")] (by decide) (by decide)

/-- C19 as stated fails: with autosave disabled and a cap of three, the two
existing autosaves are both deleted, although fewer than three exist. -/
theorem AutosaveRotate_disabled_counterexample :
    AutosaveRotate 3 false false [((1 : Int), "a"), (2, "b")] = (2, []) := by
  decide

/-- C20 (amended): for autosave directories with distinct positive numbers,
whenever `AutosaveRotate` renumbers (a directory was deleted), a surviving save
that had `c` saves numbered higher ends in slot `count - c`, where `count` is
the number of survivors: the order of the slot numbers is kept, the survivor
saved last (highest number before the rotation) ends in the highest slot
`count`, older survivors get smaller numbers and the oldest survivor ends in
slot 1. -/
theorem AutosaveRotate_order {α : Type} (m_autosaveSlots : Int) (m_autosave freeOne : Bool)
    (saveDirs : List (Int × α)) (hnd : (saveDirs.map Prod.fst).Nodup)
    (hpos : ∀ e ∈ saveDirs, 0 < e.1)
    (hren : (AutosaveRotate m_autosaveSlots m_autosave freeOne saveDirs).2.length
      < saveDirs.length) :
    (AutosaveRotate m_autosaveSlots m_autosave freeOne saveDirs).2
        = (saveDirs.filter fun e =>
            AutosaveRotate.kept m_autosaveSlots m_autosave freeOne saveDirs e.1).map (fun e =>
              (((AutosaveRotate m_autosaveSlots m_autosave freeOne saveDirs).2.length : Int)
                - AutosaveRotate.newer saveDirs e.1, e.2))
      ∧ ∀ x ∈ saveDirs, ∀ y ∈ saveDirs, x.1 < y.1 →
          ((AutosaveRotate m_autosaveSlots m_autosave freeOne saveDirs).2.length : Int)
              - AutosaveRotate.newer saveDirs x.1
            < ((AutosaveRotate m_autosaveSlots m_autosave freeOne saveDirs).2.length : Int)
              - AutosaveRotate.newer saveDirs y.1 := by
  refine ⟨?_, ?_⟩
  · rw [AutosaveRotate_snd _ _ _ _ hnd hpos] at hren ⊢
    by_cases hlt : (saveDirs.filter fun e =>
        AutosaveRotate.kept m_autosaveSlots m_autosave freeOne saveDirs e.1).length
          < saveDirs.length
    · rw [if_pos hlt]
      rw [List.length_map]
      apply List.map_congr_left
      intro e he
      rw [List.mem_filter] at he
      have hk := he.2
      have ha : m_autosave = true := by
        unfold AutosaveRotate.kept at hk
        cases m_autosave
        · simp at hk
        · rfl
      subst ha
      have hlen := kept_length m_autosaveSlots freeOne saveDirs hnd
      rw [hlen] at hlt ⊢
      unfold AutosaveRotate.kept at hk
      simp only [Bool.true_and, decide_eq_true_eq] at hk
      clear hren hlen
      generalize m_autosaveSlots - (if freeOne = true then 1 else 0) = t at hlt hk ⊢
      have h1 : t < saveDirs.length := by omega
      rw [min_eq_right (le_of_lt h1)]
      have h2 : ((min saveDirs.length t.toNat : Nat) : Int) = t := by
        rw [Nat.min_def]
        split <;> omega
      rw [h2]
    · rw [if_neg hlt] at hren
      exact absurd hren (lt_irrefl _)
  · intro x _ y hy hxy
    have := newer_lt_of_lt saveDirs x.1 y.1 hxy (List.mem_map_of_mem _ hy)
    omega

/-- Witness of `AutosaveRotate_order`: three autosaves and a cap of two. -/
theorem AutosaveRotate_order_witness :
    (AutosaveRotate 2 true false [((1 : Int), "a"), (2, "b"), (3, "c")]).2
        = ([((1 : Int), "a"), (2, "b"), (3, "c")].filter fun e =>
            AutosaveRotate.kept 2 true false [((1 : Int), "a"), (2, "b"), (3, "c")] e.1).map
              (fun e =>
              (((AutosaveRotate 2 true false
                    [((1 : Int), "a"), (2, "b"), (3, "c")]).2.length : Int)
                - AutosaveRotate.newer [((1 : Int), "a"), (2, "b"), (3, "c")] e.1, e.2))
      ∧ ∀ x ∈ [((1 : Int), "a"), (2, "b"), (3, "c")],
          ∀ y ∈ [((1 : Int), "a"), (2, "b"), (3, "c")], x.1 < y.1 →
          ((AutosaveRotate 2 true false [((1 : Int), "a"), (2, "b"), (3, "c")]).2.length : Int)
              - AutosaveRotate.newer [((1 : Int), "a"), (2, "b"), (3, "c")] x.1
            < ((AutosaveRotate 2 true false
                  [((1 : Int), "a"), (2, "b"), (3, "c")]).2.length : Int)
              - AutosaveRotate.newer [((1 : Int), "a"), (2, "b"), (3, "c")] y.1 :=
  AutosaveRotate_order 2 true false [((1 : Int), "a"), (2, "b"), (3, "c")] (by decide)
    (by decide) (by decide)

/-- C20 as stated fails: with a cap of two, the autosaves `a`, `b`, `c` in slots
1, 2, 3 (`c` saved last) are rotated to `b` in slot 1 and `c` in slot 2: slot 1
holds the older survivor, not the most recent one. -/
theorem AutosaveRotate_recency_counterexample :
    AutosaveRotate 2 true false [((1 : Int), "a"), (2, "b"), (3, "c")]
      = (3, [(1, "b"), (2, "c")]) := by
  decide

/-! #### The renames, one by one -/

theorem AutosaveRotate_eq_rotation {α : Type} (S : Int) (a f : Bool) (fs : List (Int × α)) :
    AutosaveRotate S a f fs
      = if (AutosaveRotate.rotation S a f fs).rotate then
          ((AutosaveRotate.rotation S a f fs).count,
            AutosaveRotate.rename (AutosaveRotate.rotation S a f fs).autosavesToKeep
              (AutosaveRotate.rotation S a f fs).fs)
        else ((AutosaveRotate.rotation S a f fs).count + 1,
          (AutosaveRotate.rotation S a f fs).fs) := by
  cases hl : (AutosaveRotate.scan fs).getLast? with
  | none =>
    simp only [AutosaveRotate, AutosaveRotate.rotation, hl]
    rfl
  | some last =>
    simp only [AutosaveRotate, AutosaveRotate.rotation, hl]

theorem rotation_inv {α : Type} (S : Int) (a f : Bool) (fs : List (Int × α))
    (hnd : (fs.map Prod.fst).Nodup) (hne : fs ≠ []) :
    AutosaveRotate.Inv S a f fs (min (fs.length : Int) (S - (if f then 1 else 0))) 0
      (AutosaveRotate.rotation S a f fs) := by
  unfold AutosaveRotate.rotation
  cases hl : (AutosaveRotate.scan fs).getLast? with
  | none => exact absurd (scan_getLast_none fs hl) hne
  | some last =>
    simp only []
    rw [scan_length fs hnd]
    exact loop_inv S a f fs _ hnd _ _ (Inv_initial S a f fs _ last hl)

theorem rotation_nil {α : Type} (S : Int) (a f : Bool) :
    (AutosaveRotate.rotation S a f ([] : List (Int × α))).rotate = false := rfl

theorem newer_le_succ {α : Type} (fs : List (Int × α)) (j : Int)
    (hnd : (fs.map Prod.fst).Nodup) :
    AutosaveRotate.newer fs j ≤ AutosaveRotate.newer fs (j + 1) + 1 := by
  by_cases h : j + 1 ∈ fs.map Prod.fst
  · rw [newer_succ_of_mem fs j hnd h]
  · rw [newer_succ_of_not_mem fs j h]
    omega

theorem newer_le_add {α : Type} (fs : List (Int × α)) (j : Int)
    (hnd : (fs.map Prod.fst).Nodup) (n : Nat) :
    AutosaveRotate.newer fs j ≤ AutosaveRotate.newer fs (j + n) + n := by
  induction n with
  | zero => simp
  | succ n ih =>
    have := newer_le_succ fs (j + n) hnd
    have h2 : j + ((n + 1 : Nat) : Int) = j + n + 1 := by push_cast; ring
    rw [h2]
    omega

theorem newer_antitone {α : Type} (fs : List (Int × α)) (d1 d2 : Int) (h : d1 ≤ d2) :
    AutosaveRotate.newer fs d2 ≤ AutosaveRotate.newer fs d1 := by
  unfold AutosaveRotate.newer
  apply List.countP_mono_left
  intro e _ he
  simp only [decide_eq_true_eq] at he ⊢
  omega

/-- What the map `autosavesToKeep` holds when `AutosaveRotate` rotates: new
numbers from 1 on, each below the old number of its directory. -/
theorem rotation_keep_facts {α : Type} (S : Int) (a f : Bool) (fs : List (Int × α))
    (hnd : (fs.map Prod.fst).Nodup)
    (hrot : (AutosaveRotate.rotation S a f fs).rotate = true) :
    ∀ r ∈ (AutosaveRotate.rotation S a f fs).autosavesToKeep, 1 ≤ r.1 ∧ r.1 < r.2 := by
  have hne : fs ≠ [] := by
    intro h0
    rw [h0, rotation_nil] at hrot
    exact Bool.noConfusion hrot
  obtain ⟨-, -, hr, -, hmem⟩ := rotation_inv S a f fs hnd hne
  obtain ⟨e, he, hepos, hek⟩ := hr.1 hrot
  intro r hr0
  obtain ⟨h1, h2, h3, h4⟩ := (hmem r).1 hr0
  have ha : a = true := by
    cases a
    · simp [kept_false] at h3
    · rfl
  subst ha
  unfold AutosaveRotate.kept at hek h3
  simp only [Bool.true_and, decide_eq_false_iff_not, not_le, decide_eq_true_eq] at hek h3
  have hlen := newer_lt_length fs e he
  have hlt : e.1 < r.2 := by
    by_contra hcon
    have := newer_antitone fs r.2 e.1 (by omega)
    omega
  have hadd := newer_le_add fs e.1 hnd (r.2 - e.1).toNat
  have hcast : e.1 + ((r.2 - e.1).toNat : Int) = r.2 := by
    have := Int.toNat_of_nonneg (show 0 ≤ r.2 - e.1 by omega)
    omega
  rw [hcast] at hadd
  have hto : ((r.2 - e.1).toNat : Int) = r.2 - e.1 :=
    Int.toNat_of_nonneg (by omega)
  have hmin : min (fs.length : Int) (S - (if f = true then 1 else 0))
      = S - (if f = true then 1 else 0) := by
    apply min_eq_right
    omega
  rw [hmin] at h4
  constructor <;> omega

theorem rename_nil {α : Type} (g : List (Int × α)) : AutosaveRotate.rename [] g = g := rfl

theorem rename_cons {α : Type} (r : Int × Int) (rs : List (Int × Int)) (g : List (Int × α)) :
    AutosaveRotate.rename (r :: rs) g
      = AutosaveRotate.rename rs (CResourceManager.Move r.2 r.1 g) := by
  unfold AutosaveRotate.rename
  rw [List.foldl_cons]

theorem rename_eq_of_ne {α : Type} (rs : List (Int × Int)) (g : List (Int × α))
    (hpw : rs.Pairwise fun x y => x.1 < y.1 ∧ x.2 < y.2)
    (hle : ∀ r ∈ rs, r.1 ≤ r.2)
    (hg : ∀ e ∈ g, (∃ r ∈ rs, r.2 = e.1) ∨ (∀ r ∈ rs, e.1 ≠ r.1)) :
    AutosaveRotate.rename rs g = g.map (AutosaveRotate.renamed rs) := by
  induction rs generalizing g with
  | nil =>
    rw [rename_nil]
    exact (List.map_id'' (fun e => renamed_nil e) g).symm
  | cons r rs ih =>
    rw [List.pairwise_cons] at hpw
    have hr : r.1 ≤ r.2 := hle r (List.mem_cons_self _ _)
    have hfree : ∀ e ∈ g, e.1 = r.1 → r.2 = r.1 := by
      intro e he he1
      rcases hg e he with ⟨r0, hr0, h1⟩ | h1
      · rcases List.mem_cons.1 hr0 with h2 | h2
        · rw [h2] at h1
          rw [h1, he1]
        · have := (hpw.1 r0 h2).2
          omega
      · exact absurd he1 (h1 r (List.mem_cons_self _ _))
    rw [rename_cons, Move_eq_map _ _ _ hfree,
      ih _ hpw.2 (fun x hx => hle x (List.mem_cons_of_mem _ hx))]
    · rw [List.map_map]
      apply List.map_congr_left
      intro e _
      simp only [Function.comp]
      rw [renamed_cons]
      by_cases he1 : e.1 = r.2
      · rw [if_pos he1, if_pos he1.symm]
        apply renamed_of_not_mem
        intro x hx
        have := (hpw.1 x hx).2
        show x.2 ≠ r.1
        omega
      · rw [if_neg he1, if_neg (fun hh => he1 hh.symm)]
    · intro e1 he1
      obtain ⟨e, he, rfl⟩ := List.mem_map.1 he1
      by_cases h1 : e.1 = r.2
      · rw [if_pos h1]
        right
        intro x hx
        have := (hpw.1 x hx).1
        show r.1 ≠ x.1
        omega
      · rw [if_neg h1]
        rcases hg e he with ⟨r0, hr0, h2⟩ | h2
        · rcases List.mem_cons.1 hr0 with h3 | h3
          · rw [h3] at h2
            exact absurd h2.symm h1
          · exact Or.inl ⟨r0, h3, h2⟩
        · exact Or.inr fun x hx => h2 x (List.mem_cons_of_mem _ hx)

/-- The directories left by the removals of a rotation: those with a number
that is not positive, which no rename touches, and those of the map
`autosavesToKeep`. -/
theorem rotation_fs_cases {α : Type} (S : Int) (a f : Bool) (fs : List (Int × α))
    (hnd : (fs.map Prod.fst).Nodup) (hne : fs ≠ []) :
    ∀ e ∈ (AutosaveRotate.rotation S a f fs).fs,
      (e.1 ≤ 0 ∧ ∀ r ∈ (AutosaveRotate.rotation S a f fs).autosavesToKeep, r.2 ≠ e.1)
        ∨ (0 < e.1 ∧ ∃ r ∈ (AutosaveRotate.rotation S a f fs).autosavesToKeep, r.2 = e.1) := by
  obtain ⟨-, hfs, -, -, hmem⟩ := rotation_inv S a f fs hnd hne
  intro e he
  rw [hfs, List.mem_filter] at he
  by_cases hpos : e.1 ≤ 0
  · left
    refine ⟨hpos, fun r hr => ?_⟩
    have := ((hmem r).1 hr).2.1
    omega
  · right
    have hk : AutosaveRotate.kept S a f fs e.1 = true := by
      have := he.2
      simp only [Bool.or_eq_true, decide_eq_true_eq] at this
      exact this.resolve_left hpos
    refine ⟨by omega, (min (fs.length : Int) (S - (if f then 1 else 0))
      - AutosaveRotate.newer fs e.1, e.1), ?_, rfl⟩
    rw [hmem]
    exact ⟨List.mem_map_of_mem _ he.1, by omega, hk, rfl⟩

theorem rotation_fs_nodup {α : Type} (S : Int) (a f : Bool) (fs : List (Int × α))
    (hnd : (fs.map Prod.fst).Nodup) (hne : fs ≠ []) :
    ((AutosaveRotate.rotation S a f fs).fs.map Prod.fst).Nodup := by
  obtain ⟨-, hfs, -, -, -⟩ := rotation_inv S a f fs hnd hne
  rw [hfs]
  exact List.Nodup.sublist (List.Sublist.map _ (List.filter_sublist _)) hnd

theorem rotation_keep_source {α : Type} (S : Int) (a f : Bool) (fs : List (Int × α))
    (hnd : (fs.map Prod.fst).Nodup) (hne : fs ≠ []) :
    ∀ r ∈ (AutosaveRotate.rotation S a f fs).autosavesToKeep,
      r.2 ∈ (AutosaveRotate.rotation S a f fs).fs.map Prod.fst := by
  obtain ⟨-, hfs, -, -, hmem⟩ := rotation_inv S a f fs hnd hne
  intro r hr
  obtain ⟨h1, -, h3, -⟩ := (hmem r).1 hr
  obtain ⟨e, he, he1⟩ := List.mem_map.1 h1
  rw [hfs]
  refine List.mem_map.2 ⟨e, List.mem_filter.2 ⟨he, ?_⟩, he1⟩
  rw [he1, h3]
  simp

theorem rotation_prefix_renamed {α : Type} (S : Int) (a f : Bool) (fs : List (Int × α))
    (hnd : (fs.map Prod.fst).Nodup)
    (hrot : (AutosaveRotate.rotation S a f fs).rotate = true)
    (pre post : List (Int × Int)) (r : Int × Int)
    (hsplit : (AutosaveRotate.rotation S a f fs).autosavesToKeep = pre ++ r :: post) :
    ∀ e ∈ AutosaveRotate.rename pre (AutosaveRotate.rotation S a f fs).fs, e.1 ≠ r.1 := by
  have hne : fs ≠ [] := by
    intro h0
    rw [h0, rotation_nil] at hrot
    exact Bool.noConfusion hrot
  obtain ⟨-, -, -, hpw, -⟩ := rotation_inv S a f fs hnd hne
  have hfacts := rotation_keep_facts S a f fs hnd hrot
  have hcases := rotation_fs_cases S a f fs hnd hne
  rw [hsplit] at hpw hfacts hcases
  rw [List.pairwise_append, List.pairwise_cons] at hpw
  obtain ⟨hpre, ⟨hrpost, -⟩, hcross⟩ := hpw
  have hr := hfacts r (by simp)
  have hprer : ∀ x ∈ pre, x.1 < r.1 ∧ x.2 < r.2 :=
    fun x hx => hcross x hx r (List.mem_cons_self _ _)
  have hprefacts : ∀ x ∈ pre, 1 ≤ x.1 ∧ x.1 < x.2 := fun x hx => hfacts x (by simp [hx])
  -- where a directory left by the removals is when the renames of `pre` are done
  have hwhere : ∀ e ∈ (AutosaveRotate.rotation S a f fs).fs,
      (AutosaveRotate.renamed pre e).1 ≠ r.1
        ∧ ((∃ x ∈ pre, x.2 = e.1) ∨ ∀ x ∈ pre, e.1 ≠ x.1) := by
    intro e he
    rcases hcases e he with ⟨hle, hnot⟩ | ⟨hpos, r0, hr0, hr0e⟩
    · constructor
      · rw [renamed_of_not_mem pre e (fun x hx => hnot x (by simp [hx]))]
        omega
      · right
        intro x hx
        have := (hprefacts x hx).1
        omega
    · rw [List.mem_append, List.mem_cons] at hr0
      rcases hr0 with h1 | h1 | h1
      · constructor
        · have hmem : (r0.1, e.1) ∈ pre := by
            rw [← hr0e]
            exact h1
          rw [renamed_of_mem pre e r0.1 hpre hmem]
          have := (hprer r0 h1).1
          show r0.1 ≠ r.1
          omega
        · exact Or.inl ⟨r0, h1, hr0e⟩
      · subst h1
        have hnot : ∀ x ∈ pre, x.2 ≠ e.1 := by
          intro x hx
          have := (hprer x hx).2
          omega
        constructor
        · rw [renamed_of_not_mem pre e hnot]
          omega
        · right
          intro x hx
          have h2 := hprer x hx
          have h3 := hprefacts x hx
          omega
      · have h4 := hrpost r0 h1
        have hnot : ∀ x ∈ pre, x.2 ≠ e.1 := by
          intro x hx
          have := (hprer x hx).2
          omega
        constructor
        · rw [renamed_of_not_mem pre e hnot]
          omega
        · right
          intro x hx
          have h2 := hprer x hx
          have h3 := hprefacts x hx
          omega
  rw [rename_eq_of_ne pre _ hpre (fun x hx => le_of_lt (hprefacts x hx).2)
    (fun e he => (hwhere e he).2)]
  intro e1 he1
  obtain ⟨e, he, rfl⟩ := List.mem_map.1 he1
  exact (hwhere e he).1

theorem renamed_snd {α : Type} (rs : List (Int × Int)) (e : Int × α) :
    (AutosaveRotate.renamed rs e).2 = e.2 := by
  unfold AutosaveRotate.renamed
  split <;> rfl

/-- C30: for autosave directories with distinct numbers, whenever
`AutosaveRotate` rotates, the map `autosavesToKeep`, which the renaming loop
goes through in ascending order of new number, is also in ascending order of
old number, so no two survivors receive the same new number; its entries are
the surviving directories with a positive number; every new number is at least
1 and below the old number; when a rename is made, no directory has the target
number, so no rename fails or lands on another save; the directory left is the
surviving directories, each with its saved game, under distinct numbers. -/
theorem AutosaveRotate_renames {α : Type} (m_autosaveSlots : Int)
    (m_autosave freeOne : Bool) (saveDirs : List (Int × α))
    (hnd : (saveDirs.map Prod.fst).Nodup)
    (hrot : (AutosaveRotate.rotation m_autosaveSlots m_autosave freeOne saveDirs).rotate
      = true) :
    (AutosaveRotate.rotation m_autosaveSlots m_autosave freeOne saveDirs).autosavesToKeep.Pairwise
        (fun x y => x.1 < y.1 ∧ x.2 < y.2)
      ∧ (∀ e ∈ (AutosaveRotate.rotation m_autosaveSlots m_autosave freeOne saveDirs).fs,
          0 < e.1 →
          ∃ r ∈ (AutosaveRotate.rotation m_autosaveSlots m_autosave freeOne
              saveDirs).autosavesToKeep, r.2 = e.1)
      ∧ (∀ r ∈ (AutosaveRotate.rotation m_autosaveSlots m_autosave freeOne
            saveDirs).autosavesToKeep,
          r.2 ∈ (AutosaveRotate.rotation m_autosaveSlots m_autosave freeOne
              saveDirs).fs.map Prod.fst
            ∧ 1 ≤ r.1 ∧ r.1 < r.2)
      ∧ (∀ pre r post,
          (AutosaveRotate.rotation m_autosaveSlots m_autosave freeOne saveDirs).autosavesToKeep
            = pre ++ r :: post →
          ∀ e ∈ AutosaveRotate.rename pre
              (AutosaveRotate.rotation m_autosaveSlots m_autosave freeOne saveDirs).fs,
            e.1 ≠ r.1)
      ∧ (AutosaveRotate m_autosaveSlots m_autosave freeOne saveDirs).2.map Prod.snd
          = (AutosaveRotate.rotation m_autosaveSlots m_autosave freeOne saveDirs).fs.map
              Prod.snd
      ∧ ((AutosaveRotate m_autosaveSlots m_autosave freeOne saveDirs).2.map Prod.fst).Nodup := by
  have hne : saveDirs ≠ [] := by
    intro h0
    rw [h0, rotation_nil] at hrot
    exact Bool.noConfusion hrot
  obtain ⟨-, -, -, hpw, -⟩ := rotation_inv m_autosaveSlots m_autosave freeOne saveDirs hnd hne
  have hfacts := rotation_keep_facts m_autosaveSlots m_autosave freeOne saveDirs hnd hrot
  have hcases := rotation_fs_cases m_autosaveSlots m_autosave freeOne saveDirs hnd hne
  have hsrc := rotation_keep_source m_autosaveSlots m_autosave freeOne saveDirs hnd hne
  have hfsnd := rotation_fs_nodup m_autosaveSlots m_autosave freeOne saveDirs hnd hne
  have hres : (AutosaveRotate m_autosaveSlots m_autosave freeOne saveDirs).2
      = (AutosaveRotate.rotation m_autosaveSlots m_autosave freeOne saveDirs).fs.map
          (AutosaveRotate.renamed
            (AutosaveRotate.rotation m_autosaveSlots m_autosave freeOne
              saveDirs).autosavesToKeep) := by
    rw [AutosaveRotate_eq_rotation, if_pos hrot]
    apply rename_eq_of_ne _ _ hpw (fun r hr => le_of_lt (hfacts r hr).2)
    intro e he
    rcases hcases e he with ⟨hle, -⟩ | ⟨-, hex⟩
    · right
      intro r hr
      have := (hfacts r hr).1
      omega
    · exact Or.inl hex
  refine ⟨hpw, ?_, fun r hr => ⟨hsrc r hr, hfacts r hr⟩,
    fun pre r post hsplit =>
      rotation_prefix_renamed m_autosaveSlots m_autosave freeOne saveDirs hnd hrot pre post r
        hsplit, ?_, ?_⟩
  · intro e he hpos
    rcases hcases e he with ⟨hle, -⟩ | ⟨-, hex⟩
    · omega
    · exact hex
  · rw [hres, List.map_map]
    apply List.map_congr_left
    intro e _
    exact renamed_snd _ e
  · rw [hres, List.map_map]
    apply List.Nodup.map_on _ (List.Nodup.of_map _ hfsnd)
    intro x hx y hy hxy
    apply List.inj_on_of_nodup_map hfsnd hx hy
    simp only [Function.comp] at hxy
    rcases hcases x hx with ⟨hxle, hxnot⟩ | ⟨hxpos, rx, hrx, hrxe⟩
    · rw [renamed_of_not_mem _ x hxnot] at hxy
      rcases hcases y hy with ⟨hyle, hynot⟩ | ⟨hypos, ry, hry, hrye⟩
      · rw [renamed_of_not_mem _ y hynot] at hxy
        exact hxy
      · have hmem : (ry.1, y.1) ∈ (AutosaveRotate.rotation m_autosaveSlots m_autosave freeOne
            saveDirs).autosavesToKeep := by
          rw [← hrye]
          exact hry
        rw [renamed_of_mem _ y ry.1 hpw hmem] at hxy
        have := (hfacts ry hry).1
        simp only at hxy
        omega
    · have hmemx : (rx.1, x.1) ∈ (AutosaveRotate.rotation m_autosaveSlots m_autosave freeOne
          saveDirs).autosavesToKeep := by
        rw [← hrxe]
        exact hrx
      rw [renamed_of_mem _ x rx.1 hpw hmemx] at hxy
      rcases hcases y hy with ⟨hyle, hynot⟩ | ⟨hypos, ry, hry, hrye⟩
      · rw [renamed_of_not_mem _ y hynot] at hxy
        have := (hfacts rx hrx).1
        simp only at hxy
        omega
      · have hmemy : (ry.1, y.1) ∈ (AutosaveRotate.rotation m_autosaveSlots m_autosave
            freeOne saveDirs).autosavesToKeep := by
          rw [← hrye]
          exact hry
        rw [renamed_of_mem _ y ry.1 hpw hmemy] at hxy
        simp only at hxy
        have hkeepnd : ((AutosaveRotate.rotation m_autosaveSlots m_autosave freeOne
            saveDirs).autosavesToKeep.map Prod.fst).Nodup :=
          List.pairwise_map.2 (hpw.imp fun h => ne_of_lt h.1)
        have heq : rx = ry := List.inj_on_of_nodup_map hkeepnd hrx hry hxy
        rw [← hrxe, ← hrye, heq]

/-- Witness of `AutosaveRotate_renames`: a cap of two and the autosaves 1, 2
and 3 beside a directory numbered 0. -/
theorem AutosaveRotate_renames_witness :
    (AutosaveRotate.rotation 2 true false
        [((0 : Int), "z"), (1, "a"), (2, "b"), (3, "c")]).autosavesToKeep.Pairwise
        (fun x y => x.1 < y.1 ∧ x.2 < y.2)
      ∧ (AutosaveRotate 2 true false
          [((0 : Int), "z"), (1, "a"), (2, "b"), (3, "c")]).2.map Prod.snd
        = (AutosaveRotate.rotation 2 true false
            [((0 : Int), "z"), (1, "a"), (2, "b"), (3, "c")]).fs.map Prod.snd
      ∧ ((AutosaveRotate 2 true false
          [((0 : Int), "z"), (1, "a"), (2, "b"), (3, "c")]).2.map Prod.fst).Nodup :=
  ⟨(AutosaveRotate_renames 2 true false [((0 : Int), "z"), (1, "a"), (2, "b"), (3, "c")]
      (by decide) (by decide)).1,
    (AutosaveRotate_renames 2 true false [((0 : Int), "z"), (1, "a"), (2, "b"), (3, "c")]
      (by decide) (by decide)).2.2.2.2⟩

/-! #### The slot of the next save -/

theorem mem_of_nodup_dense (l : List Int) (hnd : l.Nodup)
    (h : ∀ x ∈ l, 1 ≤ x ∧ x ≤ l.length) (k : Int) (hk1 : 1 ≤ k) (hk2 : k ≤ l.length) :
    k ∈ l := by
  have hsub : l.toFinset ⊆ Finset.Icc 1 (l.length : Int) := by
    intro x hx
    rw [List.mem_toFinset] at hx
    rw [Finset.mem_Icc]
    exact h x hx
  have hcard : (Finset.Icc 1 (l.length : Int)).card ≤ l.toFinset.card := by
    rw [List.toFinset_card_of_nodup hnd, Int.card_Icc]
    simp
  have heq := Finset.eq_of_subset_of_card_le hsub hcard
  have : k ∈ l.toFinset := by
    rw [heq, Finset.mem_Icc]
    exact ⟨hk1, hk2⟩
  exact List.mem_toFinset.1 this

/-- The numbers that the survivors of a rotation with autosave enabled end
with: those from 1 to the number of directories kept. -/
theorem removed_numbers {α : Type} (S : Int) (f : Bool) (fs : List (Int × α))
    (hnd : (fs.map Prod.fst).Nodup)
    (hlt : S - (if f then 1 else 0) < fs.length) (k : Int) :
    k ∈ ((fs.filter fun e => AutosaveRotate.kept S true f fs e.1).map fun e =>
          (S - (if f then 1 else 0) - AutosaveRotate.newer fs e.1, e.2)).map Prod.fst
      ↔ 1 ≤ k ∧ k ≤ S - (if f then 1 else 0) := by
  rw [List.map_map, List.mem_map]
  constructor
  · rintro ⟨e, he, rfl⟩
    rw [List.mem_filter] at he
    have hk := he.2
    unfold AutosaveRotate.kept at hk
    simp only [Bool.true_and, decide_eq_true_eq] at hk
    simp only [Function.comp]
    constructor <;> omega
  · rintro ⟨hk1, hk2⟩
    have hc : (S - (if f = true then 1 else 0) - k).toNat ∈ List.range fs.length := by
      rw [List.mem_range]
      omega
    rw [← (newer_perm fs hnd).mem_iff, List.map_map] at hc
    obtain ⟨e, he, hec⟩ := List.mem_map.1 hc
    simp only [Function.comp] at hec
    refine ⟨e, ?_, ?_⟩
    · rw [List.mem_filter]
      refine ⟨he, ?_⟩
      unfold AutosaveRotate.kept
      simp only [Bool.true_and, decide_eq_true_eq]
      omega
    · simp only [Function.comp]
      omega

theorem SaveScene_new {α : Type} (id : Int) (save : α) (fs : List (Int × α))
    (h : id ∉ fs.map Prod.fst) : CPlayerProfile.SaveScene id save fs = fs ++ [(id, save)] := by
  unfold CPlayerProfile.SaveScene
  rw [if_neg]
  intro hany
  rw [List.any_eq_true] at hany
  obtain ⟨e, he, he1⟩ := hany
  apply h
  rw [List.mem_map]
  exact ⟨e, he, by simpa using he1⟩

/-- C21 as stated fails: with a cap of five and the autosaves 1 and 3 nothing
is removed and `AutosaveRotate(true)` returns 3, the number of an autosave that
is there, so that `Autosave` writes over it; with a cap of two and the
autosaves 1, 2 and 3 the survivor ends in slot 1 and the value returned is 3,
so that the slots after the save are 1 and 3. -/
theorem Autosave_slot_counterexample :
    AutosaveRotate 5 true true [((1 : Int), "a"), (3, "b")] = (3, [(1, "a"), (3, "b")])
      ∧ Autosave 5 true "c" [((1 : Int), "a"), (3, "b")] = [(1, "a"), (3, "c")]
      ∧ AutosaveRotate 2 true true [((1 : Int), "a"), (2, "b"), (3, "c")] = (3, [(1, "c")])
      ∧ Autosave 2 true "d" [((1 : Int), "a"), (2, "b"), (3, "c")] = [(1, "c"), (3, "d")] := by
  decide

/-- C21 (amended): with autosave enabled, a cap of at least one, and autosave
directories with distinct positive numbers that are no more than the cap and,
when fewer than the cap, numbered without a gap from 1: the value returned by
`AutosaveRotate(true)` is not the number of a surviving autosave directory, and
after `Autosave` has written the new save into that slot the slot numbers are
exactly `1..count`, `count` being one more than before up to the cap. -/
theorem Autosave_slot {α : Type} (m_autosaveSlots : Int) (save : α)
    (saveDirs : List (Int × α)) (hnd : (saveDirs.map Prod.fst).Nodup)
    (hpos : ∀ e ∈ saveDirs, 0 < e.1) (hcap : 1 ≤ m_autosaveSlots)
    (hlen : (saveDirs.length : Int) ≤ m_autosaveSlots)
    (hdense : (saveDirs.length : Int) < m_autosaveSlots →
      ∀ e ∈ saveDirs, e.1 ≤ saveDirs.length) :
    (AutosaveRotate m_autosaveSlots true true saveDirs).1
        ∉ (AutosaveRotate m_autosaveSlots true true saveDirs).2.map Prod.fst
      ∧ (∀ k : Int, k ∈ (Autosave m_autosaveSlots true save saveDirs).map Prod.fst
          ↔ 1 ≤ k ∧ k ≤ (Autosave m_autosaveSlots true save saveDirs).length)
      ∧ ((Autosave m_autosaveSlots true save saveDirs).length : Int)
          = min ((saveDirs.length : Int) + 1) m_autosaveSlots := by
  by_cases hne : saveDirs = []
  · subst hne
    unfold Autosave
    rw [AutosaveRotate_nil]
    refine ⟨by simp, ?_, ?_⟩
    · intro k
      simp [CPlayerProfile.SaveScene]
      omega
    · simp [CPlayerProfile.SaveScene]
      omega
  by_cases hfull : (saveDirs.length : Int) < m_autosaveSlots
  · -- a slot is free: nothing is removed
    have hall : ∀ e ∈ saveDirs,
        AutosaveRotate.kept m_autosaveSlots true true saveDirs e.1 = true := by
      intro e he
      have := newer_lt_length saveDirs e he
      unfold AutosaveRotate.kept
      simp only [Bool.true_and, if_true, decide_eq_true_eq]
      omega
    have hret := AutosaveRotate_of_all_kept m_autosaveSlots true true saveDirs hnd hpos hne hall
    have hfree : (saveDirs.length : Int) + 1 ∉ saveDirs.map Prod.fst := by
      intro h
      obtain ⟨e, he, he1⟩ := List.mem_map.1 h
      have := hdense hfull e he
      omega
    unfold Autosave
    rw [hret]
    simp only []
    refine ⟨hfree, ?_, ?_⟩
    · intro k
      rw [SaveScene_new _ _ _ hfree, List.map_append, List.mem_append, List.length_append]
      simp only [List.map_cons, List.map_nil, List.mem_singleton, List.length_singleton]
      constructor
      · rintro (h | h)
        · obtain ⟨e, he, rfl⟩ := List.mem_map.1 h
          have h1 := hpos e he
          have h2 := hdense hfull e he
          constructor
          · omega
          · push_cast
            omega
        · subst h
          constructor
          · omega
          · push_cast
            omega
      · rintro ⟨h1, h2⟩
        push_cast at h2
        by_cases hk : k = (saveDirs.length : Int) + 1
        · exact Or.inr hk
        · left
          apply mem_of_nodup_dense _ hnd
          · intro x hx
            obtain ⟨e, he, rfl⟩ := List.mem_map.1 hx
            rw [List.length_map]
            exact ⟨hpos e he, hdense hfull e he⟩
          · exact h1
          · rw [List.length_map]
            omega
    · rw [SaveScene_new _ _ _ hfree, List.length_append, List.length_singleton]
      push_cast
      omega
  · -- as many autosaves as the cap: the oldest is removed
    have heq : (saveDirs.length : Int) = m_autosaveSlots := by omega
    have hkl := kept_length m_autosaveSlots true saveDirs hnd
    have hex : ∃ e ∈ saveDirs,
        AutosaveRotate.kept m_autosaveSlots true true saveDirs e.1 = false := by
      by_contra hcon
      have hall : ∀ e ∈ saveDirs,
          AutosaveRotate.kept m_autosaveSlots true true saveDirs e.1 = true := by
        intro e he
        cases hk : AutosaveRotate.kept m_autosaveSlots true true saveDirs e.1
        · exact absurd ⟨e, he, hk⟩ hcon
        · rfl
      rw [List.filter_eq_self.2 hall] at hkl
      simp only [if_true] at hkl
      omega
    have hret := AutosaveRotate_of_removed m_autosaveSlots true true saveDirs hnd hpos hex
    have hmin : min (saveDirs.length : Int) (m_autosaveSlots - (if true = true then 1 else 0))
        = m_autosaveSlots - (if true = true then 1 else 0) := by
      apply min_eq_right
      simp only [if_true]
      omega
    rw [hmin] at hret
    have hnum := removed_numbers m_autosaveSlots true saveDirs hnd
      (by simp only [if_true]; omega)
    simp only [eq_self_iff_true, if_true] at hret hnum hkl
    have hfree : (saveDirs.length : Int) ∉
        ((saveDirs.filter fun e =>
            AutosaveRotate.kept m_autosaveSlots true true saveDirs e.1).map fun e =>
          (m_autosaveSlots - 1 - AutosaveRotate.newer saveDirs e.1, e.2)).map Prod.fst := by
      rw [hnum]
      omega
    have hmin2 : min saveDirs.length (m_autosaveSlots - 1).toNat
        = (m_autosaveSlots - 1).toNat := by
      apply Nat.min_eq_right
      omega
    have hc : (((m_autosaveSlots - 1).toNat + 1 : Nat) : Int) = m_autosaveSlots := by
      push_cast
      omega
    have hsave := SaveScene_new (saveDirs.length : Int) save _ hfree
    unfold Autosave
    rw [hret]
    refine ⟨hfree, ?_, ?_⟩
    · intro k
      show k ∈ (CPlayerProfile.SaveScene (saveDirs.length : Int) save _).map Prod.fst
        ↔ 1 ≤ k ∧ k ≤ (CPlayerProfile.SaveScene (saveDirs.length : Int) save _).length
      rw [hsave, List.map_append, List.mem_append, hnum, List.length_append,
        List.length_map, hkl, hmin2]
      simp only [List.map_cons, List.map_nil, List.mem_singleton, List.length_singleton]
      rw [hc]
      constructor
      · rintro (h | h) <;> omega
      · rintro ⟨h1, h2⟩
        by_cases hk : k = (saveDirs.length : Int)
        · exact Or.inr hk
        · left
          omega
    · show ((CPlayerProfile.SaveScene (saveDirs.length : Int) save _).length : Int) = _
      rw [hsave, List.length_append, List.length_map, hkl, hmin2, List.length_singleton, hc]
      omega

/-- Witness of `Autosave_slot`: a cap of three and the autosaves 1, 2 and 3. -/
theorem Autosave_slot_witness :
    (AutosaveRotate 3 true true [((1 : Int), "a"), (2, "b"), (3, "c")]).1
        ∉ (AutosaveRotate 3 true true [((1 : Int), "a"), (2, "b"), (3, "c")]).2.map Prod.fst
      ∧ (∀ k : Int,
          k ∈ (Autosave 3 true "d" [((1 : Int), "a"), (2, "b"), (3, "c")]).map Prod.fst
          ↔ 1 ≤ k ∧ k ≤ (Autosave 3 true "d" [((1 : Int), "a"), (2, "b"), (3, "c")]).length)
      ∧ ((Autosave 3 true "d" [((1 : Int), "a"), (2, "b"), (3, "c")]).length : Int)
          = min (([((1 : Int), "a"), (2, "b"), (3, "c")].length : Int) + 1) 3 :=
  Autosave_slot 3 "d" [((1 : Int), "a"), (2, "b"), (3, "c")] (by decide) (by decide)
    (by decide) (by decide) (by decide)

/-! ### Scene construction -/

/-! ### Exceptions -/

theorem bind_eq_ok {ε α β : Type} (x : Except ε α) (f : α → Except ε β) (r : β)
    (h : x >>= f = .ok r) : ∃ a, x = .ok a ∧ f a = .ok r := by
  cases x with
  | error e => exact absurd h (by simp [bind, Except.bind])
  | ok a => exact ⟨a, rfl, h⟩

/-! ### The path of the saved game is left alone -/

theorem update_path (s : Scene) (id : Nat) (f : COldObject → COldObject) :
    (s.update id f).m_sceneReadPath = s.m_sceneReadPath := rfl

theorem CreateObject_path (env : Env) (pos : Math.Vector) (angle : ℚ) (type : ObjectType)
    (trainer toy : Bool) (option team : Int) (id : Option Nat) (s : Scene)
    (r : COldObject × Scene)
    (h : CObjectManager.CreateObject env pos angle type trainer toy option team id s = .ok r) :
    r.2.m_sceneReadPath = s.m_sceneReadPath := by
  unfold CObjectManager.CreateObject at h
  split at h
  · simp at h
  · cases h; rfl

theorem register_path (obj : COldObject) (programs : List Program) (s : Scene) :
    (IOReadObject.register obj programs s).2.m_sceneReadPath = s.m_sceneReadPath := by
  unfold IOReadObject.register
  split <;> rfl

theorem IOReadObject_path (env : Env) (line : CLevelParserLine) (objRank : Int) (s : Scene)
    (r : Nat × Scene) (h : IOReadObject env line objRank s = .ok r) :
    r.2.m_sceneReadPath = s.m_sceneReadPath := by
  unfold IOReadObject at h
  iterate 9 obtain ⟨_, -, h⟩ := bind_eq_ok _ _ _ h
  obtain ⟨created, hc, h⟩ := bind_eq_ok _ _ _ h
  obtain ⟨run, -, h⟩ := bind_eq_ok _ _ _ h
  obtain ⟨programs, -, h⟩ := bind_eq_ok _ _ _ h
  cases h
  rw [register_path]
  exact CreateObject_path _ _ _ _ _ _ _ _ _ _ _ hc

theorem attachCargo_path (cargo : Option Nat) (obj : Nat) (s s' : Scene)
    (h : IOReadScene.attachCargo cargo obj s = .ok s') :
    s'.m_sceneReadPath = s.m_sceneReadPath := by
  unfold IOReadScene.attachCargo at h
  split at h
  · cases h; rfl
  · split at h
    · cases h; rfl
    · simp at h

theorem attachPower_path (power : Option Nat) (obj : Nat) (s s' : Scene)
    (h : IOReadScene.attachPower power obj s = .ok s') :
    s'.m_sceneReadPath = s.m_sceneReadPath := by
  unfold IOReadScene.attachPower at h
  split at h
  · cases h; rfl
  · split at h
    · cases h; rfl
    · simp at h

theorem IOReadScene_line_path (env : Env) (line : CLevelParserLine)
    (st st' : IOReadScene.State) (h : IOReadScene.line env line st = .ok st') :
    st'.s.m_sceneReadPath = st.s.m_sceneReadPath := by
  unfold IOReadScene.line at h
  split at h
  · unfold IOReadScene.Map at h
    obtain ⟨_, -, h⟩ := bind_eq_ok _ _ _ h
    cases h; rfl
  split at h
  · unfold IOReadScene.DoneResearch at h
    obtain ⟨_, -, h⟩ := bind_eq_ok _ _ _ h
    cases h; rfl
  split at h
  · unfold IOReadScene.BlitzMode at h
    iterate 4 obtain ⟨_, -, h⟩ := bind_eq_ok _ _ _ h
    cases h; rfl
  split at h
  · unfold IOReadScene.CreateFret at h
    obtain ⟨r, hr, h⟩ := bind_eq_ok _ _ _ h
    cases h
    exact IOReadObject_path _ _ _ _ _ hr
  split at h
  · unfold IOReadScene.CreatePower at h
    obtain ⟨r, hr, h⟩ := bind_eq_ok _ _ _ h
    cases h
    exact IOReadObject_path _ _ _ _ _ hr
  split at h
  · unfold IOReadScene.CreateObject at h
    obtain ⟨r, hr, h⟩ := bind_eq_ok _ _ _ h
    obtain ⟨_, -, h⟩ := bind_eq_ok _ _ _ h
    obtain ⟨s1, h1, h⟩ := bind_eq_ok _ _ _ h
    obtain ⟨s2, h2, h⟩ := bind_eq_ok _ _ _ h
    cases h
    show s2.m_sceneReadPath = _
    rw [attachPower_path _ _ _ _ h2, attachCargo_path _ _ _ _ h1]
    exact IOReadObject_path _ _ _ _ _ hr
  · cases h; rfl

theorem IOReadScene_lines_path (env : Env) (lines : List CLevelParserLine)
    (st st' : IOReadScene.State) (h : IOReadScene.lines env lines st = .ok st') :
    st'.s.m_sceneReadPath = st.s.m_sceneReadPath := by
  induction lines generalizing st with
  | nil =>
    unfold IOReadScene.lines at h
    cases h; rfl
  | cons line rest ih =>
    unfold IOReadScene.lines at h
    split at h
    · simp at h
    · rename_i st1 h1
      rw [ih _ h, IOReadScene_line_path _ _ _ _ h1]

theorem readStackFile_path (env : Env) (stack : Option (List StackItem)) (s : Scene) :
    (IOReadScene.readStackFile env stack s).m_sceneReadPath = s.m_sceneReadPath := by
  unfold IOReadScene.readStackFile
  split <;> rfl

theorem IOReadScene_path (env : Env) (file : SaveFile) (s : Scene) (r : Option Nat × Scene)
    (h : IOReadScene env file s = .ok r) : r.2.m_sceneReadPath = s.m_sceneReadPath := by
  unfold IOReadScene at h
  split at h
  · simp at h
  · rename_i st hst
    cases h
    rw [readStackFile_path]
    exact IOReadScene_lines_path _ _ _ _ hst

theorem lift_ok (st st' : CRobotMain.CreateScene.State) (r : Except String Scene)
    (h : st.lift r = .ok st') : ∃ s, r = .ok s ∧ st' = { st with s := s } := by
  unfold CRobotMain.CreateScene.State.lift at h
  split at h
  · simp at h
  · rename_i s
    cases h
    exact ⟨s, rfl, rfl⟩

theorem setup_path (env : Env) (line : CLevelParserLine) (s s' : Scene)
    (h : CRobotMain.CreateScene.setup env line s = .ok s') :
    s'.m_sceneReadPath = s.m_sceneReadPath := by
  unfold CRobotMain.CreateScene.setup at h
  split at h
  · simp at h
  · cases h; rfl

theorem MissionTimer_path (line : CLevelParserLine) (s s' : Scene)
    (h : CRobotMain.CreateScene.MissionTimer line s = .ok s') :
    s'.m_sceneReadPath = s.m_sceneReadPath := by
  unfold CRobotMain.CreateScene.MissionTimer at h
  iterate 2 obtain ⟨_, -, h⟩ := bind_eq_ok _ _ _ h
  cases h; rfl

theorem TeamName_path (line : CLevelParserLine) (s s' : Scene)
    (h : CRobotMain.CreateScene.TeamName line s = .ok s') :
    s'.m_sceneReadPath = s.m_sceneReadPath := by
  unfold CRobotMain.CreateScene.TeamName at h
  iterate 2 obtain ⟨_, -, h⟩ := bind_eq_ok _ _ _ h
  cases h; rfl

theorem AudioChange_path (env : Env) (line : CLevelParserLine) (s s' : Scene)
    (h : CRobotMain.CreateScene.AudioChange env line s = .ok s') :
    s'.m_sceneReadPath = s.m_sceneReadPath := by
  unfold CRobotMain.CreateScene.AudioChange at h
  split at h
  · simp at h
  · cases h; rfl

theorem Audio_path (env : Env) (line : CLevelParserLine) (s s' : Scene)
    (h : CRobotMain.CreateScene.Audio env line s = .ok s') :
    s'.m_sceneReadPath = s.m_sceneReadPath := by
  unfold CRobotMain.CreateScene.Audio at h
  split at h
  · simp at h
  · exact setup_path _ _ _ _ h

theorem Level_path (env : Env) (line : CLevelParserLine) (s s' : Scene)
    (h : CRobotMain.CreateScene.Level env line s = .ok s') :
    s'.m_sceneReadPath = s.m_sceneReadPath := by
  unfold CRobotMain.CreateScene.Level at h
  obtain ⟨_, -, h⟩ := bind_eq_ok _ _ _ h
  have := setup_path env line _ s' h
  exact this

theorem BeginObject_path (env : Env) (st st' : CRobotMain.CreateScene.State)
    (h : CRobotMain.CreateScene.BeginObject env st = .ok st') :
    st'.s.m_sceneReadPath = st.s.m_sceneReadPath := by
  unfold CRobotMain.CreateScene.BeginObject at h
  simp only [] at h
  split at h
  · split at h
    · simp at h
    · rename_i r hr
      cases h
      have := IOReadScene_path env env.saved _ r hr
      exact this
  · cases h; rfl

theorem LevelController_path (env : Env) (line : CLevelParserLine) (s s' : Scene)
    (h : CRobotMain.CreateScene.LevelController env line s = .ok s') :
    s'.m_sceneReadPath = s.m_sceneReadPath := by
  unfold CRobotMain.CreateScene.LevelController at h
  obtain ⟨created, hc, h⟩ := bind_eq_ok _ _ _ h
  obtain ⟨obj, -, h⟩ := bind_eq_ok _ _ _ h
  cases h
  exact CreateObject_path _ _ _ _ _ _ _ _ _ _ _ hc

theorem register_state_path (line : CLevelParserLine) (type : ObjectType)
    (st st' : CRobotMain.CreateScene.State) (created : COldObject × Scene)
    (h : CRobotMain.CreateScene.register line type st created = .ok st') :
    st'.s.m_sceneReadPath = created.2.m_sceneReadPath := by
  unfold CRobotMain.CreateScene.register at h
  iterate 2 obtain ⟨_, -, h⟩ := bind_eq_ok _ _ _ h
  cases h
  show (if _ then _ else _ : Scene).m_sceneReadPath = _
  split <;> rfl

theorem created_path (line : CLevelParserLine) (type : ObjectType) (gadget : Int)
    (st st' : CRobotMain.CreateScene.State) (r : Except String (COldObject × Scene))
    (hr : ∀ c, r = .ok c → c.2.m_sceneReadPath = st.s.m_sceneReadPath)
    (h : CRobotMain.CreateScene.created line type gadget st r = .ok st') :
    st'.s.m_sceneReadPath = st.s.m_sceneReadPath := by
  unfold CRobotMain.CreateScene.created at h
  split at h
  · split at h
    · cases h; rfl
    · simp at h
  · rename_i c
    split at h
    · rw [register_state_path _ _ _ _ _ h]
      exact hr c rfl
    · cases h
      exact hr c rfl

theorem place_path (env : Env) (line : CLevelParserLine) (type : ObjectType) (gadget : Int)
    (st st' : CRobotMain.CreateScene.State)
    (h : CRobotMain.CreateScene.place env line type gadget st = .ok st') :
    st'.s.m_sceneReadPath = st.s.m_sceneReadPath := by
  unfold CRobotMain.CreateScene.place at h
  iterate 6 obtain ⟨_, -, h⟩ := bind_eq_ok _ _ _ h
  exact created_path _ _ _ _ _ _ (fun c hc => CreateObject_path _ _ _ _ _ _ _ _ _ _ _ hc) h

theorem CreateScene_CreateObject_path (env : Env) (line : CLevelParserLine)
    (st st' : CRobotMain.CreateScene.State)
    (h : CRobotMain.CreateScene.CreateObject env line st = .ok st') :
    st'.s.m_sceneReadPath = st.s.m_sceneReadPath := by
  unfold CRobotMain.CreateScene.CreateObject at h
  iterate 2 obtain ⟨_, -, h⟩ := bind_eq_ok _ _ _ h
  split at h
  · cases h; rfl
  · rw [place_path _ _ _ _ _ _ h]
    split <;> rfl

theorem Camera_path (resetObject : Bool) (line : CLevelParserLine) (s s' : Scene)
    (h : CRobotMain.CreateScene.Camera resetObject line s = .ok s') :
    s'.m_sceneReadPath = s.m_sceneReadPath := by
  unfold CRobotMain.CreateScene.Camera at h
  iterate 3 obtain ⟨_, -, h⟩ := bind_eq_ok _ _ _ h
  cases h; rfl

theorem EndMissionTake_path (env : Env) (line : CLevelParserLine) (s s' : Scene)
    (h : CRobotMain.CreateScene.EndMissionTake env line s = .ok s') :
    s'.m_sceneReadPath = s.m_sceneReadPath := by
  unfold CRobotMain.CreateScene.EndMissionTake at h
  split at h
  · simp at h
  · cases h; rfl

theorem EndMissionDelay_path (line : CLevelParserLine) (s s' : Scene)
    (h : CRobotMain.CreateScene.EndMissionDelay line s = .ok s') :
    s'.m_sceneReadPath = s.m_sceneReadPath := by
  unfold CRobotMain.CreateScene.EndMissionDelay at h
  iterate 2 obtain ⟨_, -, h⟩ := bind_eq_ok _ _ _ h
  cases h; rfl

theorem EndMissionResearch_path (line : CLevelParserLine) (s s' : Scene)
    (h : CRobotMain.CreateScene.EndMissionResearch line s = .ok s') :
    s'.m_sceneReadPath = s.m_sceneReadPath := by
  unfold CRobotMain.CreateScene.EndMissionResearch at h
  obtain ⟨_, -, h⟩ := bind_eq_ok _ _ _ h
  cases h; rfl

theorem DoneResearch_path (line : CLevelParserLine) (s s' : Scene)
    (h : CRobotMain.CreateScene.DoneResearch line s = .ok s') :
    s'.m_sceneReadPath = s.m_sceneReadPath := by
  unfold CRobotMain.CreateScene.DoneResearch at h
  obtain ⟨_, -, h⟩ := bind_eq_ok _ _ _ h
  cases h; rfl

theorem lift_path (st st' : CRobotMain.CreateScene.State) (r : Except String Scene)
    (hr : ∀ s, r = .ok s → s.m_sceneReadPath = st.s.m_sceneReadPath)
    (h : st.lift r = .ok st') : st'.s.m_sceneReadPath = st.s.m_sceneReadPath := by
  obtain ⟨s, hs, rfl⟩ := lift_ok _ _ _ h
  exact hr s hs

theorem ite_ok_elim {α : Type} {c : Prop} [Decidable c] {a b : Except String α} {r : α}
    {P : Prop} (h : (if c then a else b) = .ok r) (ha : c → a = .ok r → P)
    (hb : ¬ c → b = .ok r → P) : P := by
  by_cases hc : c
  · rw [if_pos hc] at h
    exact ha hc h
  · rw [if_neg hc] at h
    exact hb hc h

theorem command_path (env : Env) (resetObject : Bool) (line : CLevelParserLine)
    (st st' : CRobotMain.CreateScene.State)
    (h : CRobotMain.CreateScene.command env resetObject line st = .ok st') :
    st'.s.m_sceneReadPath = st.s.m_sceneReadPath := by
  unfold CRobotMain.CreateScene.command at h
  refine ite_ok_elim h (fun _ h => ?_) (fun _ h => ?_)
  · exact lift_path _ _ _ (fun s hs => setup_path _ _ _ _ hs) h
  refine ite_ok_elim h (fun _ h => ?_) (fun _ h => ?_)
  · exact lift_path _ _ _ (fun s hs => MissionTimer_path _ _ _ hs) h
  refine ite_ok_elim h (fun _ h => ?_) (fun _ h => ?_)
  · exact lift_path _ _ _ (fun s hs => TeamName_path _ _ _ hs) h
  refine ite_ok_elim h (fun _ h => ?_) (fun _ h => ?_)
  · exact lift_path _ _ _ (fun s hs => AudioChange_path _ _ _ _ hs) h
  refine ite_ok_elim h (fun _ h => ?_) (fun _ h => ?_)
  · exact lift_path _ _ _ (fun s hs => Audio_path _ _ _ _ hs) h
  refine ite_ok_elim h (fun _ h => ?_) (fun _ h => ?_)
  · exact lift_path _ _ _ (fun s hs => Level_path _ _ _ _ hs) h
  refine ite_ok_elim h (fun _ h => ?_) (fun _ h => ?_)
  · exact BeginObject_path _ _ _ h
  refine ite_ok_elim h (fun _ h => ?_) (fun _ h => ?_)
  · exact lift_path _ _ _ (fun s hs => LevelController_path _ _ _ _ hs) h
  refine ite_ok_elim h (fun _ h => ?_) (fun _ h => ?_)
  · exact CreateScene_CreateObject_path _ _ _ _ h
  refine ite_ok_elim h (fun _ h => ?_) (fun _ h => ?_)
  · exact lift_path _ _ _ (fun s hs => Camera_path _ _ _ _ hs) h
  refine ite_ok_elim h (fun _ h => ?_) (fun _ h => ?_)
  · exact lift_path _ _ _ (fun s hs => EndMissionTake_path _ _ _ _ hs) h
  refine ite_ok_elim h (fun _ h => ?_) (fun _ h => ?_)
  · exact lift_path _ _ _ (fun s hs => EndMissionDelay_path _ _ _ hs) h
  refine ite_ok_elim h (fun _ h => ?_) (fun _ h => ?_)
  · exact lift_path _ _ _ (fun s hs => EndMissionResearch_path _ _ _ hs) h
  refine ite_ok_elim h (fun _ h => ?_) (fun _ h => ?_)
  · exact lift_path _ _ _ (fun s hs => DoneResearch_path _ _ _ hs) h
  refine ite_ok_elim h (fun _ h => ?_) (fun _ h => ?_)
  · cases h; rfl
  refine ite_ok_elim h (fun _ h => ?_) (fun _ h => ?_)
  · cases h; rfl
  · exact Except.noConfusion h

theorem lines_nil (env : Env) (resetObject : Bool) (st : CRobotMain.CreateScene.State) :
    CRobotMain.CreateScene.lines env resetObject [] st = .ok st := rfl

theorem lines_cons (env : Env) (resetObject : Bool) (line : CLevelParserLine)
    (rest : List CLevelParserLine) (st : CRobotMain.CreateScene.State) :
    CRobotMain.CreateScene.lines env resetObject (line :: rest) st
      = match CRobotMain.CreateScene.command env resetObject line st with
        | .error e => .error e
        | .ok st => CRobotMain.CreateScene.lines env resetObject rest st := rfl

theorem lines_path (env : Env) (resetObject : Bool) (lines : List CLevelParserLine)
    (st st' : CRobotMain.CreateScene.State)
    (h : CRobotMain.CreateScene.lines env resetObject lines st = .ok st') :
    st'.s.m_sceneReadPath = st.s.m_sceneReadPath := by
  induction lines generalizing st with
  | nil =>
    rw [lines_nil] at h
    cases h; rfl
  | cons line rest ih =>
    rw [lines_cons] at h
    split at h
    · exact Except.noConfusion h
    · rename_i st1 h1
      rw [ih _ h, command_path _ _ _ _ _ h1]

theorem begin_path (fixScene resetObject : Bool) (s : Scene) :
    (CRobotMain.CreateScene.begin fixScene resetObject s).m_sceneReadPath
      = s.m_sceneReadPath := by
  unfold CRobotMain.CreateScene.begin
  simp only []
  split <;> rfl

theorem lines_append (env : Env) (resetObject : Bool) (l1 l2 : List CLevelParserLine)
    (st : CRobotMain.CreateScene.State) :
    CRobotMain.CreateScene.lines env resetObject (l1 ++ l2) st
      = match CRobotMain.CreateScene.lines env resetObject l1 st with
        | .error e => .error e
        | .ok st1 => CRobotMain.CreateScene.lines env resetObject l2 st1 := by
  induction l1 generalizing st with
  | nil =>
    rw [List.nil_append, lines_nil]
  | cons line rest ih =>
    rw [List.cons_append, lines_cons, lines_cons]
    cases CRobotMain.CreateScene.command env resetObject line st with
    | error e => rfl
    | ok st1 => exact ih st1

/-! ### Commands without a branch -/

theorem command_unknown (env : Env) (resetObject : Bool) (line : CLevelParserLine)
    (st : CRobotMain.CreateScene.State)
    (hcmd : line.command ∉ CRobotMain.CreateScene.oneTime ++ CRobotMain.CreateScene.guarded) :
    CRobotMain.CreateScene.command env resetObject line st
      = if st.s.m_sceneReadPath ≠ "" then .ok st
        else if resetObject then .ok st
        else .error (CRobotMain.CreateScene.unknown line) := by
  have h1 : line.command ∉ CRobotMain.CreateScene.oneTime :=
    fun h => hcmd (List.mem_append_left _ h)
  have h2 : ∀ c ∈ CRobotMain.CreateScene.guarded, line.command ≠ c :=
    fun c hc h => hcmd (List.mem_append_right _ (h ▸ hc))
  unfold CRobotMain.CreateScene.command
  rw [if_neg (fun h => h1 h.1),
    if_neg (h2 "MissionTimer" (by simp [CRobotMain.CreateScene.guarded])),
    if_neg (h2 "TeamName" (by simp [CRobotMain.CreateScene.guarded])),
    if_neg (fun h => h2 "AudioChange" (by simp [CRobotMain.CreateScene.guarded]) h.1),
    if_neg (fun h => h2 "Audio" (by simp [CRobotMain.CreateScene.guarded]) h.1),
    if_neg (fun h => h2 "Level" (by simp [CRobotMain.CreateScene.guarded]) h.1),
    if_neg (h2 "BeginObject" (by simp [CRobotMain.CreateScene.guarded])),
    if_neg (fun h => h2 "LevelController" (by simp [CRobotMain.CreateScene.guarded]) h.1),
    if_neg (fun h => h2 "CreateObject" (by simp [CRobotMain.CreateScene.guarded]) h.1),
    if_neg (h2 "Camera" (by simp [CRobotMain.CreateScene.guarded])),
    if_neg (fun h => h2 "EndMissionTake" (by simp [CRobotMain.CreateScene.guarded]) h.1),
    if_neg (fun h => h2 "EndMissionDelay" (by simp [CRobotMain.CreateScene.guarded]) h.1),
    if_neg (fun h => h2 "EndMissionResearch" (by simp [CRobotMain.CreateScene.guarded]) h.1),
    if_neg (fun h => h2 "DoneResearch" (by simp [CRobotMain.CreateScene.guarded]) h.1)]

theorem CreateScene_eq_lines (env : Env) (fixScene resetObject : Bool)
    (lines : List CLevelParserLine) (s : Scene) :
    CRobotMain.CreateScene env fixScene resetObject lines s
      = match CRobotMain.CreateScene.lines env resetObject lines
            { s := CRobotMain.CreateScene.begin fixScene resetObject s, rankObj := 0,
              rankGadget := 0, sel := none } with
        | .error e => .error e
        | .ok st => .ok (CRobotMain.CreateScene.finish env st) := rfl

theorem lines_of_isOk (env : Env) (fixScene resetObject : Bool)
    (lines : List CLevelParserLine) (s : Scene)
    (h : (CRobotMain.CreateScene env fixScene resetObject lines s).isOk = true) :
    ∃ st, CRobotMain.CreateScene.lines env resetObject lines
        { s := CRobotMain.CreateScene.begin fixScene resetObject s, rankObj := 0,
          rankGadget := 0, sel := none } = .ok st
      ∧ st.s.m_sceneReadPath = s.m_sceneReadPath := by
  rw [CreateScene_eq_lines] at h
  cases hl : CRobotMain.CreateScene.lines env resetObject lines
      { s := CRobotMain.CreateScene.begin fixScene resetObject s, rankObj := 0,
        rankGadget := 0, sel := none } with
  | error e =>
    rw [hl] at h
    exact absurd h (by simp [Except.isOk, Except.toBool])
  | ok st =>
    refine ⟨st, rfl, ?_⟩
    rw [lines_path _ _ _ _ _ hl]
    exact begin_path fixScene resetObject s

/-- C11. When the commands before it load without error, a command that no
branch of the loop of `CreateScene` is written for makes `CreateScene` raise
the `Unknown command` exception if the loader is neither loading a saved game
(`m_sceneReadPath` empty) nor in reset-only mode; in either of those modes the
command is skipped: the call does what it does on the level without that
line. -/
theorem CreateScene_unknown_command (env : Env) (fixScene resetObject : Bool)
    (pre post : List CLevelParserLine) (line : CLevelParserLine) (s : Scene)
    (hcmd : line.command ∉ CRobotMain.CreateScene.oneTime ++ CRobotMain.CreateScene.guarded)
    (hpre : (CRobotMain.CreateScene env fixScene resetObject pre s).isOk = true) :
    (s.m_sceneReadPath = "" ∧ resetObject = false →
      CRobotMain.CreateScene env fixScene resetObject (pre ++ line :: post) s
        = .error ("Unknown command: '" ++ line.command ++ "' in " ++ line.levelFilename
            ++ ":" ++ toString line.lineNumber))
    ∧ (s.m_sceneReadPath ≠ "" ∨ resetObject = true →
      CRobotMain.CreateScene env fixScene resetObject (pre ++ line :: post) s
        = CRobotMain.CreateScene env fixScene resetObject (pre ++ post) s) := by
  obtain ⟨st, hst, hpath⟩ := lines_of_isOk env fixScene resetObject pre s hpre
  have hc := command_unknown env resetObject line st hcmd
  rw [hpath] at hc
  constructor
  · rintro ⟨hp, hr⟩
    subst hr
    rw [if_neg (not_not.mpr hp)] at hc
    simp only [CreateScene_eq_lines, lines_append, hst, lines_cons, hc]
    rfl
  · intro h
    have hc' : CRobotMain.CreateScene.command env resetObject line st = .ok st := by
      rw [hc]
      rcases h with hp | hr
      · rw [if_pos hp]
      · rw [hr]
        split <;> rfl
    simp only [CreateScene_eq_lines, lines_append, hst, lines_cons, hc']

theorem CreateScene_unknown_command_witness :
    CRobotMain.CreateScene Env.sample false false
        ([{ command := "MissionTimer", params := [("enabled", .bool true)],
            levelFilename := "level.txt", lineNumber := 1 }]
          ++ { command := "Teleport", params := [], levelFilename := "level.txt",
               lineNumber := 2 } :: []) Scene.initial
      = .error "Unknown command: 'Teleport' in level.txt:2" :=
  (CreateScene_unknown_command Env.sample false false
    [{ command := "MissionTimer", params := [("enabled", .bool true)],
       levelFilename := "level.txt", lineNumber := 1 }] []
    { command := "Teleport", params := [], levelFilename := "level.txt", lineNumber := 2 }
    Scene.initial (by decide) (by decide)).1 ⟨rfl, rfl⟩

/-! ### Reset-only mode -/

theorem command_reset_skip (env : Env) (line : CLevelParserLine)
    (st : CRobotMain.CreateScene.State)
    (hcmd : line.command ∉ ["MissionTimer", "TeamName", "BeginObject", "LevelController",
      "CreateObject", "Camera"]) :
    CRobotMain.CreateScene.command env true line st = .ok st := by
  have h2 : ∀ c ∈ ["MissionTimer", "TeamName", "BeginObject", "LevelController",
      "CreateObject", "Camera"], line.command ≠ c := fun c hc h => hcmd (h ▸ hc)
  unfold CRobotMain.CreateScene.command
  rw [if_neg (fun h => Bool.noConfusion h.2),
    if_neg (h2 "MissionTimer" (by simp)),
    if_neg (h2 "TeamName" (by simp)),
    if_neg (fun h => Bool.noConfusion h.2.1),
    if_neg (fun h => Bool.noConfusion h.2.1),
    if_neg (fun h => Bool.noConfusion h.2),
    if_neg (h2 "BeginObject" (by simp)),
    if_neg (fun h => h2 "LevelController" (by simp) h.1),
    if_neg (fun h => h2 "CreateObject" (by simp) h.1),
    if_neg (h2 "Camera" (by simp)),
    if_neg (fun h => Bool.noConfusion h.2.1),
    if_neg (fun h => Bool.noConfusion h.2.1),
    if_neg (fun h => Bool.noConfusion h.2.1),
    if_neg (fun h => Bool.noConfusion h.2.2)]
  split
  · rfl
  · rfl

theorem lines_reset_filter (env : Env) (lines : List CLevelParserLine)
    (st : CRobotMain.CreateScene.State) :
    CRobotMain.CreateScene.lines env true lines st
      = CRobotMain.CreateScene.lines env true
          (lines.filter fun line => decide (line.command ∈ ["MissionTimer", "TeamName",
            "BeginObject", "LevelController", "CreateObject", "Camera"])) st := by
  induction lines generalizing st with
  | nil => rfl
  | cons line rest ih =>
    by_cases hc : line.command ∈ ["MissionTimer", "TeamName", "BeginObject",
        "LevelController", "CreateObject", "Camera"]
    · rw [List.filter_cons_of_pos (by simpa using hc), lines_cons, lines_cons]
      cases CRobotMain.CreateScene.command env true line st with
      | error e => rfl
      | ok st1 => exact ih st1
    · rw [List.filter_cons_of_neg (by simpa using hc), lines_cons,
        command_reset_skip env line st hc]
      exact ih st

theorem command_reset_same (env : Env) (line : CLevelParserLine)
    (st : CRobotMain.CreateScene.State)
    (hcmd : line.command ∈ ["MissionTimer", "TeamName", "BeginObject", "LevelController",
      "CreateObject"]) :
    CRobotMain.CreateScene.command env true line st
      = CRobotMain.CreateScene.command env false line st := by
  simp only [List.mem_cons, List.mem_singleton, List.not_mem_nil, or_false] at hcmd
  rcases hcmd with hc | hc | hc | hc | hc <;>
    simp [CRobotMain.CreateScene.command, hc, CRobotMain.CreateScene.oneTime] <;>
    split <;> simp_all

theorem command_reset_Camera (env : Env) (line : CLevelParserLine)
    (st : CRobotMain.CreateScene.State) (hcmd : line.command = "Camera") :
    CRobotMain.CreateScene.command env true line st
      = st.lift (CRobotMain.CreateScene.Camera true line st.s) := by
  simp [CRobotMain.CreateScene.command, hcmd]

/-- C12 (counterexample). In reset-only mode the `MissionTimer` command of the
level is executed: from the state the constructor leaves, the level made of
`MissionTimer enabled=true` ends with the mission timer enabled and started,
the empty level with the timer disabled. -/
theorem CreateScene_reset_runs_MissionTimer :
    ((CRobotMain.CreateScene Env.sample false true
        [{ command := "MissionTimer", params := [("enabled", .bool true)],
           levelFilename := "level.txt", lineNumber := 1 }] Scene.initial).toOption.map
      fun s => (s.m_missionTimerEnabled, s.m_missionTimerStarted)) = some (true, true)
    ∧ ((CRobotMain.CreateScene Env.sample false true [] Scene.initial).toOption.map
      fun s => (s.m_missionTimerEnabled, s.m_missionTimerStarted)) = some (false, false)
    ∧ (Scene.initial.m_missionTimerEnabled, Scene.initial.m_missionTimerStarted)
      = (false, false) := by
  decide

/-- C12 (amended). In reset-only mode (`resetObject = true`) the commands
`MissionTimer`, `TeamName`, `BeginObject`, `LevelController`, `CreateObject`
and `Camera` are executed and every other command of the level is skipped:
`CreateScene` does what it does on the level with only those commands kept.
The first five do what they do in a full load; `Camera` moves the camera
without reading the delay. -/
theorem CreateScene_reset_only (env : Env) (fixScene : Bool) (lines : List CLevelParserLine)
    (s : Scene) :
    CRobotMain.CreateScene env fixScene true lines s
        = CRobotMain.CreateScene env fixScene true
            (lines.filter fun line => decide (line.command ∈ ["MissionTimer", "TeamName",
              "BeginObject", "LevelController", "CreateObject", "Camera"])) s
      ∧ (∀ line ∈ lines, ∀ st : CRobotMain.CreateScene.State,
          (line.command ∉ ["MissionTimer", "TeamName", "BeginObject", "LevelController",
              "CreateObject", "Camera"] →
            CRobotMain.CreateScene.command env true line st = .ok st)
          ∧ (line.command ∈ ["MissionTimer", "TeamName", "BeginObject", "LevelController",
              "CreateObject"] →
            CRobotMain.CreateScene.command env true line st
              = CRobotMain.CreateScene.command env false line st)
          ∧ (line.command = "Camera" →
            CRobotMain.CreateScene.command env true line st
              = st.lift (CRobotMain.CreateScene.Camera true line st.s))) := by
  refine ⟨?_, fun line _ st => ⟨command_reset_skip env line st, command_reset_same env line st,
    command_reset_Camera env line st⟩⟩
  rw [CreateScene_eq_lines, CreateScene_eq_lines, ← lines_reset_filter]

theorem CreateScene_reset_only_witness :
    CRobotMain.CreateScene Env.sample false true
        [{ command := "Title", params := [], levelFilename := "level.txt", lineNumber := 1 },
         { command := "TeamName", params := [("team", .int 1), ("name", .string "Red")],
           levelFilename := "level.txt", lineNumber := 2 },
         { command := "EndMissionDelay", params := [("win", .float 5)],
           levelFilename := "level.txt", lineNumber := 3 }] Scene.initial
      = CRobotMain.CreateScene Env.sample false true
          [{ command := "TeamName", params := [("team", .int 1), ("name", .string "Red")],
             levelFilename := "level.txt", lineNumber := 2 }] Scene.initial :=
  (CreateScene_reset_only Env.sample false
    [{ command := "Title", params := [], levelFilename := "level.txt", lineNumber := 1 },
     { command := "TeamName", params := [("team", .int 1), ("name", .string "Red")],
       levelFilename := "level.txt", lineNumber := 2 },
     { command := "EndMissionDelay", params := [("win", .float 5)],
       levelFilename := "level.txt", lineNumber := 3 }] Scene.initial).1

/-! ### Objects that cannot be created -/

theorem ok_bind {ε α β : Type} (a : α) (f : α → Except ε β) :
    (Except.ok a >>= f) = f a := rfl

theorem command_CreateObject (env : Env) (resetObject : Bool) (line : CLevelParserLine)
    (st : CRobotMain.CreateScene.State) (hcmd : line.command = "CreateObject")
    (hpath : st.s.m_sceneReadPath = "") :
    CRobotMain.CreateScene.command env resetObject line st
      = CRobotMain.CreateScene.CreateObject env line st := by
  simp [CRobotMain.CreateScene.command, hcmd, hpath, CRobotMain.CreateScene.oneTime]

theorem map_ite_fresh (objects : List COldObject) (id : Nat) (obj : COldObject)
    (hfresh : ∀ o ∈ objects, o.id ≠ id) :
    objects.map (fun o => if o.id = id then obj else o) = objects := by
  conv_rhs => rw [← List.map_id objects]
  apply List.map_congr_left
  intro o ho
  rw [if_neg (hfresh o ho)]
  rfl

theorem AsIntOr_none (name : String) (d : Int) : AsIntOr name d none = .ok d := rfl

theorem AsFloatOr_none (name : String) (d : ℚ) : AsFloatOr name d none = .ok d := rfl

theorem AsBoolOr_none (name : String) (d : Bool) : AsBoolOr name d none = .ok d := rfl

theorem AsPoint_point (name : String) (p : Math.Vector) :
    AsPoint name (some (.point p)) = .ok p := rfl

theorem AsObjectType_objectType (name : String) (t : ObjectType) :
    AsObjectType name (some (.objectType t)) = .ok t := rfl

theorem CreateObject_plain (env : Env) (line : CLevelParserLine)
    (st : CRobotMain.CreateScene.State) (X : ObjectType) (caps : Capabilities)
    (p : Math.Vector) (sel : Bool)
    (htype : line.GetParam "type" = some (.objectType X))
    (hgadget : line.GetParam "gadget" = none)
    (hpos : line.GetParam "pos" = some (.point p))
    (hdir : line.GetParam "dir" = none)
    (htrainer : line.GetParam "trainer" = none)
    (htoy : line.GetParam "toy" = none)
    (hoption : line.GetParam "option" = none)
    (hteam : line.GetParam "team" = none)
    (hselect : AsBoolOr "select" false (line.GetParam "select") = .ok sel)
    (hselectable : line.GetParam "selectable" = none)
    (hreset : line.GetParam "reset" = none)
    (hrun : line.GetParam "run" = none)
    (hscripts : CRobotMain.CreateScene.scripts line (line.params.length + 11) 0 true = .ok [])
    (hfactory : env.factory X = some caps)
    (hbase : X ≠ OBJECT_BASE)
    (hq : CRobotMain.CreateScene.decorative X = true →
      TestGadgetQuantity env st.rankGadget = true)
    (hfresh : ∀ o ∈ st.s.objects, o.id ≠ st.s.nextId) :
    ∃ obj : COldObject,
      CRobotMain.CreateScene.CreateObject env line st
        = .ok { s := { st.s with objects := st.s.objects ++ [obj],
                                 nextId := st.s.nextId + 1 },
                rankObj := st.rankObj + 1,
                rankGadget := if CRobotMain.CreateScene.decorative X then st.rankGadget + 1
                  else st.rankGadget,
                sel := if caps.old ∧ sel then some st.s.nextId else st.sel }
      ∧ obj.id = st.s.nextId ∧ obj.type = X ∧ obj.select = false ∧ obj.selectable = true
      ∧ obj.caps = caps := by
  cases hd : CRobotMain.CreateScene.decorative X <;> cases ho : caps.old <;>
    cases hp : caps.programmable <;>
    simp [CRobotMain.CreateScene.CreateObject, htype, hgadget, hpos, hdir, htrainer, htoy,
      hoption, hteam, hselect, hselectable, hreset, hrun, hscripts, hfactory, hbase, hd, ho, hp,
      AsObjectType_objectType, AsIntOr_none, AsPoint_point, AsFloatOr_none, AsBoolOr_none,
      ok_bind, map_ite_fresh _ _ _ hfresh, hq,
      CRobotMain.CreateScene.gadget, CRobotMain.CreateScene.place, CObjectManager.CreateObject,
      CRobotMain.CreateScene.created, CRobotMain.CreateScene.register,
      CRobotMain.CreateScene.configure, CRobotMain.CreateScene.brain, Scene.update]

theorem setup_kept (env : Env) (line : CLevelParserLine) (s s' : Scene)
    (h : CRobotMain.CreateScene.setup env line s = .ok s') :
    (s'.objects, s'.nextId, s'.m_base, s'.m_fixScene, s'.m_editLock, s'.movieExists,
        s'.m_sceneReadPath, s'.m_controller, s'.m_selectInsect, s'.m_movieLock)
      = (s.objects, s.nextId, s.m_base, s.m_fixScene, s.m_editLock, s.movieExists,
        s.m_sceneReadPath, s.m_controller, s.m_selectInsect, s.m_movieLock) := by
  unfold CRobotMain.CreateScene.setup at h
  split at h
  · simp at h
  · cases h; rfl

theorem MissionTimer_kept (line : CLevelParserLine) (s s' : Scene)
    (h : CRobotMain.CreateScene.MissionTimer line s = .ok s') :
    (s'.objects, s'.nextId, s'.m_base, s'.m_fixScene, s'.m_editLock, s'.movieExists,
        s'.m_sceneReadPath, s'.m_controller, s'.m_selectInsect, s'.m_movieLock)
      = (s.objects, s.nextId, s.m_base, s.m_fixScene, s.m_editLock, s.movieExists,
        s.m_sceneReadPath, s.m_controller, s.m_selectInsect, s.m_movieLock) := by
  unfold CRobotMain.CreateScene.MissionTimer at h
  iterate 2 obtain ⟨_, -, h⟩ := bind_eq_ok _ _ _ h
  cases h; rfl

theorem TeamName_kept (line : CLevelParserLine) (s s' : Scene)
    (h : CRobotMain.CreateScene.TeamName line s = .ok s') :
    (s'.objects, s'.nextId, s'.m_base, s'.m_fixScene, s'.m_editLock, s'.movieExists,
        s'.m_sceneReadPath, s'.m_controller, s'.m_selectInsect, s'.m_movieLock)
      = (s.objects, s.nextId, s.m_base, s.m_fixScene, s.m_editLock, s.movieExists,
        s.m_sceneReadPath, s.m_controller, s.m_selectInsect, s.m_movieLock) := by
  unfold CRobotMain.CreateScene.TeamName at h
  iterate 2 obtain ⟨_, -, h⟩ := bind_eq_ok _ _ _ h
  cases h; rfl

theorem AudioChange_kept (env : Env) (line : CLevelParserLine) (s s' : Scene)
    (h : CRobotMain.CreateScene.AudioChange env line s = .ok s') :
    (s'.objects, s'.nextId, s'.m_base, s'.m_fixScene, s'.m_editLock, s'.movieExists,
        s'.m_sceneReadPath, s'.m_controller, s'.m_selectInsect, s'.m_movieLock)
      = (s.objects, s.nextId, s.m_base, s.m_fixScene, s.m_editLock, s.movieExists,
        s.m_sceneReadPath, s.m_controller, s.m_selectInsect, s.m_movieLock) := by
  unfold CRobotMain.CreateScene.AudioChange at h
  split at h
  · simp at h
  · cases h; rfl

theorem Camera_kept (resetObject : Bool) (line : CLevelParserLine) (s s' : Scene)
    (h : CRobotMain.CreateScene.Camera resetObject line s = .ok s') :
    (s'.objects, s'.nextId, s'.m_base, s'.m_fixScene, s'.m_editLock, s'.movieExists,
        s'.m_sceneReadPath, s'.m_controller, s'.m_selectInsect, s'.m_movieLock)
      = (s.objects, s.nextId, s.m_base, s.m_fixScene, s.m_editLock, s.movieExists,
        s.m_sceneReadPath, s.m_controller, s.m_selectInsect, s.m_movieLock) := by
  unfold CRobotMain.CreateScene.Camera at h
  iterate 3 obtain ⟨_, -, h⟩ := bind_eq_ok _ _ _ h
  cases h; rfl

theorem EndMissionTake_kept (env : Env) (line : CLevelParserLine) (s s' : Scene)
    (h : CRobotMain.CreateScene.EndMissionTake env line s = .ok s') :
    (s'.objects, s'.nextId, s'.m_base, s'.m_fixScene, s'.m_editLock, s'.movieExists,
        s'.m_sceneReadPath, s'.m_controller, s'.m_selectInsect, s'.m_movieLock)
      = (s.objects, s.nextId, s.m_base, s.m_fixScene, s.m_editLock, s.movieExists,
        s.m_sceneReadPath, s.m_controller, s.m_selectInsect, s.m_movieLock) := by
  unfold CRobotMain.CreateScene.EndMissionTake at h
  split at h
  · simp at h
  · cases h; rfl

theorem EndMissionDelay_kept (line : CLevelParserLine) (s s' : Scene)
    (h : CRobotMain.CreateScene.EndMissionDelay line s = .ok s') :
    (s'.objects, s'.nextId, s'.m_base, s'.m_fixScene, s'.m_editLock, s'.movieExists,
        s'.m_sceneReadPath, s'.m_controller, s'.m_selectInsect, s'.m_movieLock)
      = (s.objects, s.nextId, s.m_base, s.m_fixScene, s.m_editLock, s.movieExists,
        s.m_sceneReadPath, s.m_controller, s.m_selectInsect, s.m_movieLock) := by
  unfold CRobotMain.CreateScene.EndMissionDelay at h
  iterate 2 obtain ⟨_, -, h⟩ := bind_eq_ok _ _ _ h
  cases h; rfl

theorem EndMissionResearch_kept (line : CLevelParserLine) (s s' : Scene)
    (h : CRobotMain.CreateScene.EndMissionResearch line s = .ok s') :
    (s'.objects, s'.nextId, s'.m_base, s'.m_fixScene, s'.m_editLock, s'.movieExists,
        s'.m_sceneReadPath, s'.m_controller, s'.m_selectInsect, s'.m_movieLock)
      = (s.objects, s.nextId, s.m_base, s.m_fixScene, s.m_editLock, s.movieExists,
        s.m_sceneReadPath, s.m_controller, s.m_selectInsect, s.m_movieLock) := by
  unfold CRobotMain.CreateScene.EndMissionResearch at h
  iterate 1 obtain ⟨_, -, h⟩ := bind_eq_ok _ _ _ h
  cases h; rfl

theorem DoneResearch_kept (line : CLevelParserLine) (s s' : Scene)
    (h : CRobotMain.CreateScene.DoneResearch line s = .ok s') :
    (s'.objects, s'.nextId, s'.m_base, s'.m_fixScene, s'.m_editLock, s'.movieExists,
        s'.m_sceneReadPath, s'.m_controller, s'.m_selectInsect, s'.m_movieLock)
      = (s.objects, s.nextId, s.m_base, s.m_fixScene, s.m_editLock, s.movieExists,
        s.m_sceneReadPath, s.m_controller, s.m_selectInsect, s.m_movieLock) := by
  unfold CRobotMain.CreateScene.DoneResearch at h
  iterate 1 obtain ⟨_, -, h⟩ := bind_eq_ok _ _ _ h
  cases h; rfl

theorem Audio_kept (env : Env) (line : CLevelParserLine) (s s' : Scene)
    (h : CRobotMain.CreateScene.Audio env line s = .ok s') :
    (s'.objects, s'.nextId, s'.m_base, s'.m_fixScene, s'.m_editLock, s'.movieExists,
        s'.m_sceneReadPath, s'.m_controller, s'.m_selectInsect, s'.m_movieLock)
      = (s.objects, s.nextId, s.m_base, s.m_fixScene, s.m_editLock, s.movieExists,
        s.m_sceneReadPath, s.m_controller, s.m_selectInsect, s.m_movieLock) := by
  unfold CRobotMain.CreateScene.Audio at h
  split at h
  · simp at h
  · exact setup_kept _ _ _ _ h

theorem Level_kept (env : Env) (line : CLevelParserLine) (s s' : Scene)
    (h : CRobotMain.CreateScene.Level env line s = .ok s') :
    (s'.objects, s'.nextId, s'.m_base, s'.m_fixScene, s'.m_editLock, s'.movieExists,
        s'.m_sceneReadPath, s'.m_controller, s'.m_selectInsect, s'.m_movieLock)
      = (s.objects, s.nextId, s.m_base, s.m_fixScene, s.m_editLock, s.movieExists,
        s.m_sceneReadPath, s.m_controller, s.m_selectInsect, s.m_movieLock) := by
  unfold CRobotMain.CreateScene.Level at h
  obtain ⟨_, -, h⟩ := bind_eq_ok _ _ _ h
  have := setup_kept env line _ s' h
  exact this

/-- A command of a level (not a saved game) that is neither `CreateObject` nor
`LevelController` leaves alone the registry, the space ship, what the
selection reads and the local variables of the loop, except that it may
release the lock of the movie. -/
theorem command_kept (env : Env) (line : CLevelParserLine)
    (st st' : CRobotMain.CreateScene.State)
    (hc1 : line.command ≠ "CreateObject") (hc2 : line.command ≠ "LevelController")
    (hpath : st.s.m_sceneReadPath = "")
    (h : CRobotMain.CreateScene.command env false line st = .ok st') :
    (st'.s.objects, st'.s.nextId, st'.s.m_base, st'.s.m_fixScene, st'.s.m_editLock,
        st'.s.movieExists, st'.s.m_sceneReadPath, st'.s.m_controller, st'.s.m_selectInsect)
      = (st.s.objects, st.s.nextId, st.s.m_base, st.s.m_fixScene, st.s.m_editLock,
        st.s.movieExists, st.s.m_sceneReadPath, st.s.m_controller, st.s.m_selectInsect)
      ∧ (st.s.m_movieLock = false → st'.s.m_movieLock = false)
      ∧ st'.rankObj = st.rankObj ∧ st'.rankGadget = st.rankGadget ∧ st'.sel = st.sel := by
  have lift : ∀ r : Except String Scene,
      (∀ s, r = .ok s →
        (s.objects, s.nextId, s.m_base, s.m_fixScene, s.m_editLock, s.movieExists,
            s.m_sceneReadPath, s.m_controller, s.m_selectInsect, s.m_movieLock)
          = (st.s.objects, st.s.nextId, st.s.m_base, st.s.m_fixScene, st.s.m_editLock,
            st.s.movieExists, st.s.m_sceneReadPath, st.s.m_controller, st.s.m_selectInsect,
            st.s.m_movieLock)) →
      st.lift r = .ok st' →
      (st'.s.objects, st'.s.nextId, st'.s.m_base, st'.s.m_fixScene, st'.s.m_editLock,
          st'.s.movieExists, st'.s.m_sceneReadPath, st'.s.m_controller, st'.s.m_selectInsect)
        = (st.s.objects, st.s.nextId, st.s.m_base, st.s.m_fixScene, st.s.m_editLock,
          st.s.movieExists, st.s.m_sceneReadPath, st.s.m_controller, st.s.m_selectInsect)
        ∧ (st.s.m_movieLock = false → st'.s.m_movieLock = false)
        ∧ st'.rankObj = st.rankObj ∧ st'.rankGadget = st.rankGadget ∧ st'.sel = st.sel := by
    intro r hr h
    obtain ⟨s, hs, rfl⟩ := lift_ok _ _ _ h
    have := hr s hs
    simp only [Prod.mk.injEq] at this ⊢
    obtain ⟨h1, h2, h3, h4, h5, h6, h7, h8, h9, h10⟩ := this
    exact ⟨⟨h1, h2, h3, h4, h5, h6, h7, h8, h9⟩, fun hm => h10.trans hm, trivial, trivial, trivial⟩
  unfold CRobotMain.CreateScene.command at h
  refine ite_ok_elim h (fun _ h => ?_) (fun _ h => ?_)
  · exact lift _ (fun s hs => setup_kept _ _ _ _ hs) h
  refine ite_ok_elim h (fun _ h => ?_) (fun _ h => ?_)
  · exact lift _ (fun s hs => MissionTimer_kept _ _ _ hs) h
  refine ite_ok_elim h (fun _ h => ?_) (fun _ h => ?_)
  · exact lift _ (fun s hs => TeamName_kept _ _ _ hs) h
  refine ite_ok_elim h (fun _ h => ?_) (fun _ h => ?_)
  · exact lift _ (fun s hs => AudioChange_kept _ _ _ _ hs) h
  refine ite_ok_elim h (fun _ h => ?_) (fun _ h => ?_)
  · exact lift _ (fun s hs => Audio_kept _ _ _ _ hs) h
  refine ite_ok_elim h (fun _ h => ?_) (fun _ h => ?_)
  · exact lift _ (fun s hs => Level_kept _ _ _ _ hs) h
  refine ite_ok_elim h (fun _ h => ?_) (fun _ h => ?_)
  · unfold CRobotMain.CreateScene.BeginObject at h
    simp only [] at h
    rw [if_neg (by simp [hpath])] at h
    cases h
    exact ⟨rfl, fun _ => rfl, rfl, rfl, rfl⟩
  refine ite_ok_elim h (fun hc _ => absurd hc.1 hc2) (fun _ h => ?_)
  refine ite_ok_elim h (fun hc _ => absurd hc.1 hc1) (fun _ h => ?_)
  refine ite_ok_elim h (fun _ h => ?_) (fun _ h => ?_)
  · exact lift _ (fun s hs => Camera_kept _ _ _ _ hs) h
  refine ite_ok_elim h (fun _ h => ?_) (fun _ h => ?_)
  · exact lift _ (fun s hs => EndMissionTake_kept _ _ _ _ hs) h
  refine ite_ok_elim h (fun _ h => ?_) (fun _ h => ?_)
  · exact lift _ (fun s hs => EndMissionDelay_kept _ _ _ hs) h
  refine ite_ok_elim h (fun _ h => ?_) (fun _ h => ?_)
  · exact lift _ (fun s hs => EndMissionResearch_kept _ _ _ hs) h
  refine ite_ok_elim h (fun _ h => ?_) (fun _ h => ?_)
  · exact lift _ (fun s hs => DoneResearch_kept _ _ _ hs) h
  refine ite_ok_elim h (fun _ h => ?_) (fun _ h => ?_)
  · cases h; exact ⟨rfl, fun hm => hm, rfl, rfl, rfl⟩
  refine ite_ok_elim h (fun _ h => ?_) (fun _ h => ?_)
  · cases h; exact ⟨rfl, fun hm => hm, rfl, rfl, rfl⟩
  · exact Except.noConfusion h

/-- Commands of a level (not a saved game, no controller) that are neither
`CreateObject` nor `LevelController` and raise nothing run to the end and
leave alone the registry, the space ship, what the selection reads and the
local variables of the loop, except that they may release the lock of the
movie. -/
theorem lines_kept (env : Env) (lines : List CLevelParserLine)
    (st : CRobotMain.CreateScene.State)
    (hother : ∀ line ∈ lines,
      line.command ≠ "CreateObject" ∧ line.command ≠ "LevelController"
        ∧ ∀ st : CRobotMain.CreateScene.State,
            st.s.m_sceneReadPath = "" → st.s.m_controller = none →
            ∃ st', CRobotMain.CreateScene.command env false line st = .ok st')
    (hpath : st.s.m_sceneReadPath = "") (hctl : st.s.m_controller = none) :
    ∃ st', CRobotMain.CreateScene.lines env false lines st = .ok st'
      ∧ (st'.s.objects, st'.s.nextId, st'.s.m_base, st'.s.m_fixScene, st'.s.m_editLock,
          st'.s.movieExists, st'.s.m_sceneReadPath, st'.s.m_controller, st'.s.m_selectInsect)
        = (st.s.objects, st.s.nextId, st.s.m_base, st.s.m_fixScene, st.s.m_editLock,
          st.s.movieExists, st.s.m_sceneReadPath, st.s.m_controller, st.s.m_selectInsect)
      ∧ (st.s.m_movieLock = false → st'.s.m_movieLock = false)
      ∧ st'.rankObj = st.rankObj ∧ st'.rankGadget = st.rankGadget ∧ st'.sel = st.sel := by
  induction lines generalizing st with
  | nil => exact ⟨st, rfl, rfl, fun h => h, rfl, rfl, rfl⟩
  | cons line rest ih =>
    obtain ⟨hc1, hc2, hok⟩ := hother line (List.mem_cons_self _ _)
    obtain ⟨st1, h1⟩ := hok st hpath hctl
    obtain ⟨k1, k2, k3, k4, k5⟩ := command_kept env line st st1 hc1 hc2 hpath h1
    simp only [Prod.mk.injEq] at k1
    obtain ⟨st', h2, j1, j2, j3, j4, j5⟩ := ih st1
      (fun l hl => hother l (List.mem_cons_of_mem _ hl))
      (k1.2.2.2.2.2.2.1.trans hpath) (k1.2.2.2.2.2.2.2.1.trans hctl)
    refine ⟨st', ?_, ?_, fun hm => j2 (k2 hm), j3.trans k3, j4.trans k4, j5.trans k5⟩
    · rw [lines_cons, h1]
      exact h2
    · simp only [Prod.mk.injEq] at j1 ⊢
      obtain ⟨a1, a2, a3, a4, a5, a6, a7, a8, a9⟩ := j1
      obtain ⟨b1, b2, b3, b4, b5, b6, b7, b8, b9⟩ := k1
      exact ⟨a1.trans b1, a2.trans b2, a3.trans b3, a4.trans b4, a5.trans b5, a6.trans b6,
        a7.trans b7, a8.trans b8, a9.trans b9⟩

theorem finish_selects_second (env : Env) (st : CRobotMain.CreateScene.State)
    (a b : COldObject) (hobjects : st.s.objects = [a, b]) (hid : a.id ≠ b.id)
    (ha : a.select = false) (hb : b.select = false) (hselectable : b.selectable = true)
    (htype : IsSelectable.type st.s.m_selectInsect b.type = true)
    (hsel : st.sel = some b.id) (hbase : st.s.m_base = none)
    (hfix : st.s.m_fixScene = false) (hmovie : st.s.m_movieLock = false)
    (hedit : st.s.m_editLock = false) (hexist : st.s.movieExists = false)
    (hpath : st.s.m_sceneReadPath = "") :
    (CRobotMain.CreateScene.finish env st).objects
        = [{ a with select := false }, { b with select := true }]
      ∧ (CRobotMain.CreateScene.finish env st).m_selectObject = some b.id := by
  have hid2 : ¬ b.id = a.id := fun h => hid h.symm
  cases ht : env.sceneTestMode <;>
    simp [CRobotMain.CreateScene.finish, SelectObject, Scene.find, IsSelectable, DeselectAll,
      PushToSelectionHistory, SelectOneObject, Scene.update, hobjects, hid, hid2, ha, hb,
      hselectable, htype, hsel, hbase, hfix, hmovie, hedit, hexist, hpath, ht]

theorem finish_two_objects (env : Env) (st : CRobotMain.CreateScene.State)
    (a b : COldObject) (X Y : ObjectType) (hobjects : st.s.objects = [a, b])
    (hid : a.id ≠ b.id) (ha : a.select = false) (hb : b.select = false)
    (hselectable : b.selectable = true)
    (htype : IsSelectable.type st.s.m_selectInsect b.type = true)
    (hsel : st.sel = some b.id) (hbase : st.s.m_base = none)
    (hfix : st.s.m_fixScene = false) (hmovie : st.s.m_movieLock = false)
    (hedit : st.s.m_editLock = false) (hexist : st.s.movieExists = false)
    (hpath : st.s.m_sceneReadPath = "") (hat : a.type = X) (hbt : b.type = Y) :
    ∃ (s1 : Scene) (a1 b1 : COldObject),
      (Except.ok (CRobotMain.CreateScene.finish env st) : Except String Scene) = .ok s1
      ∧ s1.objects = [a1, b1] ∧ a1.type = X ∧ b1.type = Y ∧ a1.select = false
      ∧ b1.select = true ∧ s1.m_selectObject = some b1.id := by
  obtain ⟨hfin, hselobj⟩ := finish_selects_second env st a b hobjects hid ha hb hselectable
    htype hsel hbase hfix hmovie hedit hexist hpath
  exact ⟨_, { a with select := false }, { b with select := true }, rfl, hfin, hat, hbt,
    rfl, rfl, hselobj⟩

theorem begin_facts (s : Scene) :
    (CRobotMain.CreateScene.begin false false s).objects = s.objects
      ∧ (CRobotMain.CreateScene.begin false false s).m_base = none
      ∧ (CRobotMain.CreateScene.begin false false s).m_fixScene = false
      ∧ (CRobotMain.CreateScene.begin false false s).m_movieLock = s.m_movieLock
      ∧ (CRobotMain.CreateScene.begin false false s).m_editLock = s.m_editLock
      ∧ (CRobotMain.CreateScene.begin false false s).movieExists = s.movieExists
      ∧ (CRobotMain.CreateScene.begin false false s).m_selectInsect = s.m_selectInsect
      ∧ (CRobotMain.CreateScene.begin false false s).m_controller = none
      ∧ (CRobotMain.CreateScene.begin false false s).m_sceneReadPath = s.m_sceneReadPath :=
  ⟨rfl, rfl, rfl, rfl, rfl, rfl, rfl, rfl, rfl⟩

set_option maxRecDepth 100000 in
/-- C14 (counterexample). Levels for which the registry does not end with
exactly two entries, the second selected: an ant as second object, which the
player cannot select; a space ship as first object, with which `CreateScene`
selects nothing; a `LevelController` command before the two objects, which
adds the controller to the registry; a fixed scene (`fixScene`, as for a win
or lost scene), in which `CreateScene` selects nothing; and objects that the
factory builds without the old interface, whose `select` parameter is not
read. -/
theorem CreateScene_second_not_selected :
    ((CRobotMain.CreateScene Env.sample false false
        [{ command := "CreateObject",
           params := [("type", .objectType (OBJECT_MOBILE "fa")),
                      ("pos", .point { x := 1, y := 0, z := 1 })],
           levelFilename := "level.txt", lineNumber := 1 },
         { command := "CreateObject",
           params := [("type", .objectType OBJECT_ANT),
                      ("pos", .point { x := 1, y := 0, z := 1 }), ("select", .bool true)],
           levelFilename := "level.txt", lineNumber := 2 }] Scene.initial).toOption.map
      fun s => s.objects.map fun o => (o.type, o.select))
      = some [(OBJECT_MOBILE "fa", false), (OBJECT_ANT, false)]
    ∧ ((CRobotMain.CreateScene Env.sample false false
        [{ command := "CreateObject",
           params := [("type", .objectType OBJECT_BASE),
                      ("pos", .point { x := 1, y := 0, z := 1 })],
           levelFilename := "level.txt", lineNumber := 1 },
         { command := "CreateObject",
           params := [("type", .objectType OBJECT_HUMAN),
                      ("pos", .point { x := 1, y := 0, z := 1 }), ("select", .bool true)],
           levelFilename := "level.txt", lineNumber := 2 }] Scene.initial).toOption.map
      fun s => s.objects.map fun o => (o.type, o.select))
      = some [(OBJECT_BASE, false), (OBJECT_HUMAN, false)]
    ∧ ((CRobotMain.CreateScene Env.sample false false
        [{ command := "LevelController", params := [], levelFilename := "level.txt",
           lineNumber := 1 },
         { command := "CreateObject",
           params := [("type", .objectType (OBJECT_MOBILE "fa")),
                      ("pos", .point { x := 1, y := 0, z := 1 })],
           levelFilename := "level.txt", lineNumber := 2 },
         { command := "CreateObject",
           params := [("type", .objectType OBJECT_HUMAN),
                      ("pos", .point { x := 1, y := 0, z := 1 }), ("select", .bool true)],
           levelFilename := "level.txt", lineNumber := 3 }] Scene.initial).toOption.map
      fun s => s.objects.map fun o => (o.type, o.select))
      = some [(OBJECT_CONTROLLER, false), (OBJECT_MOBILE "fa", false), (OBJECT_HUMAN, true)]
    ∧ ((CRobotMain.CreateScene Env.sample true false
        [{ command := "CreateObject",
           params := [("type", .objectType (OBJECT_MOBILE "fa")),
                      ("pos", .point { x := 1, y := 0, z := 1 })],
           levelFilename := "level.txt", lineNumber := 1 },
         { command := "CreateObject",
           params := [("type", .objectType OBJECT_HUMAN),
                      ("pos", .point { x := 1, y := 0, z := 1 }), ("select", .bool true)],
           levelFilename := "level.txt", lineNumber := 2 }] Scene.initial).toOption.map
      fun s => s.objects.map fun o => (o.type, o.select))
      = some [(OBJECT_MOBILE "fa", false), (OBJECT_HUMAN, false)]
    ∧ ((CRobotMain.CreateScene
        { Env.sample with
          factory := fun _ => some { old := false, programmable := false, carrier := false,
                                     powered := false, transportable := false } }
        false false
        [{ command := "CreateObject",
           params := [("type", .objectType (OBJECT_MOBILE "fa")),
                      ("pos", .point { x := 1, y := 0, z := 1 })],
           levelFilename := "level.txt", lineNumber := 1 },
         { command := "CreateObject",
           params := [("type", .objectType (OBJECT_MOBILE "wa")),
                      ("pos", .point { x := 1, y := 0, z := 1 }), ("select", .bool true)],
           levelFilename := "level.txt", lineNumber := 2 }] Scene.initial).toOption.map
      fun s => s.objects.map fun o => (o.type, o.select))
      = some [(OBJECT_MOBILE "fa", false), (OBJECT_MOBILE "wa", false)] := by
  decide

/-- C14 (amended). A level (not a saved game, not reset-only, not a fixed
scene) made of `CreateObject type=X pos=(1,0,1)`, immediately followed by
`CreateObject type=Y pos=(1,0,1) select=true`, with before and after them any
commands other than `CreateObject` and `LevelController` that raise nothing,
loaded into an empty registry with no movie running and the interface not
locked, ends with exactly 2 registry entries, of types X and Y, the second
selected and the first not, provided that the factory builds X and Y, Y with
the old interface, neither is the space ship (`OBJECT_BASE`), Y is of a type
the player can select, and a decorative X or Y passes the gadget quantity test
at its rank. -/
theorem CreateScene_two_objects (env : Env) (pre post : List CLevelParserLine) (s : Scene)
    (X Y : ObjectType) (capsX capsY : Capabilities) (file : String) (n m : Nat)
    (hpath : s.m_sceneReadPath = "") (hobjects : s.objects = [])
    (hmovie : s.m_movieLock = false) (hedit : s.m_editLock = false)
    (hexist : s.movieExists = false)
    (hother : ∀ line ∈ pre ++ post,
      line.command ≠ "CreateObject" ∧ line.command ≠ "LevelController"
        ∧ ∀ st : CRobotMain.CreateScene.State,
            st.s.m_sceneReadPath = "" → st.s.m_controller = none →
            ∃ st', CRobotMain.CreateScene.command env false line st = .ok st')
    (hX : env.factory X = some capsX) (hY : env.factory Y = some capsY)
    (hYold : capsY.old = true) (hXbase : X ≠ OBJECT_BASE) (hYbase : Y ≠ OBJECT_BASE)
    (hXq : CRobotMain.CreateScene.decorative X = true → TestGadgetQuantity env 0 = true)
    (hYq : CRobotMain.CreateScene.decorative Y = true →
      TestGadgetQuantity env (if CRobotMain.CreateScene.decorative X then 1 else 0) = true)
    (hYsel : IsSelectable.type s.m_selectInsect Y = true) :
    ∃ (s' : Scene) (a b : COldObject),
      CRobotMain.CreateScene env false false
          (pre ++ { command := "CreateObject",
                    params := [("type", .objectType X),
                               ("pos", .point { x := 1, y := 0, z := 1 })],
                    levelFilename := file, lineNumber := n }
            :: { command := "CreateObject",
                 params := [("type", .objectType Y),
                            ("pos", .point { x := 1, y := 0, z := 1 }),
                            ("select", .bool true)],
                 levelFilename := file, lineNumber := m } :: post) s = .ok s'
      ∧ s'.objects = [a, b] ∧ a.type = X ∧ b.type = Y ∧ a.select = false ∧ b.select = true
      ∧ s'.m_selectObject = some b.id := by
  have hpre : ∀ line ∈ pre,
      line.command ≠ "CreateObject" ∧ line.command ≠ "LevelController"
        ∧ ∀ st : CRobotMain.CreateScene.State,
            st.s.m_sceneReadPath = "" → st.s.m_controller = none →
            ∃ st', CRobotMain.CreateScene.command env false line st = .ok st' :=
    fun l hl => hother l (List.mem_append_left _ hl)
  have hpost : ∀ line ∈ post,
      line.command ≠ "CreateObject" ∧ line.command ≠ "LevelController"
        ∧ ∀ st : CRobotMain.CreateScene.State,
            st.s.m_sceneReadPath = "" → st.s.m_controller = none →
            ∃ st', CRobotMain.CreateScene.command env false line st = .ok st' :=
    fun l hl => hother l (List.mem_append_right _ hl)
  rw [CreateScene_eq_lines]
  obtain ⟨b1, b2, b3, b4, b5, b6, b7, b8, b9⟩ := begin_facts s
  generalize CRobotMain.CreateScene.begin false false s = s0 at *
  -- the commands before the two objects
  obtain ⟨st1, e1, k1, m1, r1, g1, l1⟩ := lines_kept env pre
    { s := s0, rankObj := 0, rankGadget := 0, sel := none } hpre (b9.trans hpath) b8
  simp only [Prod.mk.injEq] at k1
  obtain ⟨o1, n1, ba1, f1, ed1, ex1, p1, c1, i1⟩ := k1
  have hm1 : st1.s.m_movieLock = false := m1 (b4.trans hmovie)
  have hp1 : st1.s.m_sceneReadPath = "" := p1.trans (b9.trans hpath)
  have ho1 : st1.s.objects = [] := o1.trans (b1.trans hobjects)
  -- the first object
  obtain ⟨a, hA, haid, hatype, haselect, -, -⟩ :=
    CreateObject_plain env
      { command := "CreateObject",
        params := [("type", .objectType X), ("pos", .point { x := 1, y := 0, z := 1 })],
        levelFilename := file, lineNumber := n }
      st1 X capsX { x := 1, y := 0, z := 1 } false rfl rfl rfl rfl rfl rfl rfl rfl rfl rfl rfl
      rfl rfl hX hXbase (by rw [g1]; exact hXq) (by simp [ho1])
  -- the second object
  obtain ⟨b, hB, hbid, hbtype, hbselect, hbselectable, -⟩ :=
    CreateObject_plain env
      { command := "CreateObject",
        params := [("type", .objectType Y), ("pos", .point { x := 1, y := 0, z := 1 }),
                   ("select", .bool true)],
        levelFilename := file, lineNumber := m }
      { s := { st1.s with objects := st1.s.objects ++ [a], nextId := st1.s.nextId + 1 },
        rankObj := st1.rankObj + 1,
        rankGadget := if CRobotMain.CreateScene.decorative X then st1.rankGadget + 1
          else st1.rankGadget,
        sel := if capsX.old ∧ false then some st1.s.nextId else st1.sel }
      Y capsY { x := 1, y := 0, z := 1 } true rfl rfl rfl rfl rfl rfl rfl rfl rfl rfl rfl rfl
      rfl hY hYbase
      (by
        intro hd
        have := hYq hd
        simp only [g1]
        simpa using this)
      (by
        intro o ho
        simp only [ho1, List.nil_append, List.mem_singleton] at ho
        rw [ho, haid]
        simp)
  -- the commands after the two objects, and the selection
  have key : ∀ stB : CRobotMain.CreateScene.State,
      stB.s.m_sceneReadPath = "" → stB.s.m_controller = none → stB.s.objects = [a, b] →
      stB.sel = some b.id → stB.s.m_base = none → stB.s.m_fixScene = false →
      stB.s.m_movieLock = false → stB.s.m_editLock = false → stB.s.movieExists = false →
      stB.s.m_selectInsect = s.m_selectInsect →
      ∃ (s' : Scene) (a b : COldObject),
        (match CRobotMain.CreateScene.lines env false post stB with
          | .error e => .error e
          | .ok st => .ok (CRobotMain.CreateScene.finish env st)) = Except.ok s'
        ∧ s'.objects = [a, b] ∧ a.type = X ∧ b.type = Y ∧ a.select = false ∧ b.select = true
        ∧ s'.m_selectObject = some b.id := by
    intro stB q1 q2 q3 q4 q5 q6 q7 q8 q9 q10
    obtain ⟨st2, e2, k2, m2, -, -, l2⟩ := lines_kept env post stB hpost q1 q2
    simp only [Prod.mk.injEq] at k2
    obtain ⟨o2, -, ba2, f2, ed2, ex2, p2, -, i2⟩ := k2
    rw [e2]
    exact finish_two_objects env st2 a b X Y (o2.trans q3)
      (by rw [haid, hbid]; simp) haselect hbselect hbselectable
      (by rw [hbtype, i2, q10]; exact hYsel) (l2.trans q4) (ba2.trans q5) (f2.trans q6)
      (m2 q7) (ed2.trans q8) (ex2.trans q9) (p2.trans q1) hatype hbtype
  rw [lines_append, e1]
  simp only []
  rw [lines_cons, command_CreateObject env false _ _ rfl hp1, hA]
  simp only []
  rw [lines_cons, command_CreateObject env false _ _ rfl (by exact hp1), hB]
  simp only []
  refine key _ hp1 (c1.trans b8) ?_ ?_ (ba1.trans b2) (f1.trans b3) hm1
    (ed1.trans (b5.trans hedit)) (ex1.trans (b6.trans hexist)) (i1.trans b7)
  · simp [ho1]
  · simp [hYold, hbid]

set_option maxRecDepth 100000 in
theorem CreateScene_two_objects_witness :
    ∃ (s' : Scene) (a b : COldObject),
      CRobotMain.CreateScene Env.sample false false
          ([{ command := "Title", params := [], levelFilename := "level.txt", lineNumber := 1 },
            { command := "Level", params := [], levelFilename := "level.txt", lineNumber := 2 },
            { command := "MissionTimer", params := [("enabled", .bool true)],
              levelFilename := "level.txt", lineNumber := 3 },
            { command := "BeginObject", params := [], levelFilename := "level.txt",
              lineNumber := 4 }]
            ++ { command := "CreateObject",
                 params := [("type", .objectType (OBJECT_MOBILE "fa")),
                            ("pos", .point { x := 1, y := 0, z := 1 })],
                 levelFilename := "level.txt", lineNumber := 5 }
            :: { command := "CreateObject",
                 params := [("type", .objectType OBJECT_HUMAN),
                            ("pos", .point { x := 1, y := 0, z := 1 }),
                            ("select", .bool true)],
                 levelFilename := "level.txt", lineNumber := 6 }
            :: [{ command := "Camera", params := [], levelFilename := "level.txt",
                  lineNumber := 7 },
                { command := "EndMissionTake", params := [], levelFilename := "level.txt",
                  lineNumber := 8 },
                { command := "EndMissionDelay", params := [], levelFilename := "level.txt",
                  lineNumber := 9 }]) Scene.initial = .ok s'
      ∧ s'.objects = [a, b] ∧ a.type = OBJECT_MOBILE "fa" ∧ b.type = OBJECT_HUMAN
      ∧ a.select = false ∧ b.select = true ∧ s'.m_selectObject = some b.id :=
  CreateScene_two_objects Env.sample
    [{ command := "Title", params := [], levelFilename := "level.txt", lineNumber := 1 },
     { command := "Level", params := [], levelFilename := "level.txt", lineNumber := 2 },
     { command := "MissionTimer", params := [("enabled", .bool true)],
       levelFilename := "level.txt", lineNumber := 3 },
     { command := "BeginObject", params := [], levelFilename := "level.txt", lineNumber := 4 }]
    [{ command := "Camera", params := [], levelFilename := "level.txt", lineNumber := 7 },
     { command := "EndMissionTake", params := [], levelFilename := "level.txt",
       lineNumber := 8 },
     { command := "EndMissionDelay", params := [], levelFilename := "level.txt",
       lineNumber := 9 }]
    Scene.initial (OBJECT_MOBILE "fa") OBJECT_HUMAN
    { old := true, programmable := true, carrier := true, powered := true,
      transportable := true }
    { old := true, programmable := true, carrier := true, powered := true,
      transportable := true }
    "level.txt" 5 6 rfl rfl rfl rfl rfl
    (by
      intro line hl
      simp only [List.mem_append, List.mem_cons, List.mem_singleton, List.not_mem_nil,
        or_false] at hl
      rcases hl with (rfl | rfl | rfl | rfl) | rfl | rfl | rfl <;>
        refine ⟨by decide, by decide, fun st hp hc => ?_⟩
      · simp [CRobotMain.CreateScene.command, CRobotMain.CreateScene.oneTime,
          CRobotMain.CreateScene.setup, CRobotMain.CreateScene.State.lift, Env.sample]
      · simp [CRobotMain.CreateScene.command, CRobotMain.CreateScene.oneTime,
          CRobotMain.CreateScene.Level, CRobotMain.CreateScene.setup,
          CRobotMain.CreateScene.State.lift, Env.sample, CLevelParserLine.GetParam, AsFloatOr,
          ok_bind]
      · exact ⟨_, rfl⟩
      · simp [CRobotMain.CreateScene.command, CRobotMain.CreateScene.oneTime,
          CRobotMain.CreateScene.BeginObject, hp]
      · simp [CRobotMain.CreateScene.command, CRobotMain.CreateScene.oneTime,
          CRobotMain.CreateScene.Camera, CRobotMain.CreateScene.State.lift,
          CLevelParserLine.GetParam, AsPointOr, AsFloatOr, ok_bind]
      · simp [CRobotMain.CreateScene.command, CRobotMain.CreateScene.oneTime,
          CRobotMain.CreateScene.EndMissionTake, CRobotMain.CreateScene.State.lift, hc,
          Env.sample]
      · simp [CRobotMain.CreateScene.command, CRobotMain.CreateScene.oneTime,
          CRobotMain.CreateScene.EndMissionDelay, CRobotMain.CreateScene.State.lift, hc,
          CLevelParserLine.GetParam, AsFloatOr, ok_bind])
    rfl rfl rfl (by decide) (by decide) (by decide) (by decide) (by decide)

/-! ### The stack file -/

/-- C17. When the stack file can be opened and its outer version is not 1, or
its interpreter version is not that of the running interpreter, the end of
`IOReadScene` restores the execution stack of no object (the registry is left
as it is) and raises nothing, but it still calls
`CBotClass::RestoreStaticState` on the file, at the position after the version
numbers read: the static state of the interpreter is read from a file that was
to be ignored. -/
theorem readStackFile_version_mismatch (env : Env) (file : List StackItem) (s : Scene)
    (h : (fReadLong file).1 ≠ some 1
      ∨ (fReadLong (fReadLong file).2).1 ≠ some env.cbotVersion) :
    IOReadScene.readStackFile env (some file) s
      = { s with staticRestored := s.staticRestored ++
            [if (fReadLong file).1 = some 1 then (fReadLong (fReadLong file).2).2
              else (fReadLong file).2] } := by
  unfold IOReadScene.readStackFile
  by_cases h1 : (fReadLong file).1 = some 1
  · have h2 : (fReadLong (fReadLong file).2).1 ≠ some env.cbotVersion := by
      rcases h with h | h
      · exact absurd h1 h
      · exact h
    simp only [h1, h2, if_true, if_false]
  · simp only [h1, if_false]

theorem readStackFile_version_mismatch_witness :
    IOReadScene.readStackFile Env.sample
        (some [StackItem.long 2, StackItem.long 2, StackItem.stack (some 5),
          StackItem.static 9])
        Scene.initial
      = { Scene.initial with
          staticRestored := Scene.initial.staticRestored ++
            [[StackItem.long 2, StackItem.stack (some 5), StackItem.static 9]] } :=
  readStackFile_version_mismatch Env.sample
    [StackItem.long 2, StackItem.long 2, StackItem.stack (some 5), StackItem.static 9]
    Scene.initial (Or.inl (by decide))

/-! ### Saving and reading back -/

/-! #### The parameters of a written line -/

theorem GetParam_new (command : String) (name : ParamName) :
    (CLevelParserLine.new command).GetParam name = none := rfl

theorem GetParam_AddParam (line : CLevelParserLine) (n m : ParamName)
    (v : CLevelParserParam) :
    (line.AddParam n v).GetParam m
      = match line.GetParam m with
        | some x => some x
        | none => if m = n then some v else none := by
  unfold CLevelParserLine.AddParam CLevelParserLine.GetParam
  simp only [List.lookup_append]
  cases h : List.lookup m line.params with
  | some x => simp
  | none =>
    by_cases hm : m = n
    · subst hm
      simp [List.lookup]
    · have : (m == n) = false := by simpa using hm
      simp [List.lookup, this, hm]

theorem command_AddParam (line : CLevelParserLine) (n : ParamName) (v : CLevelParserParam) :
    (line.AddParam n v).command = line.command := rfl

theorem command_readOnly (line : CLevelParserLine) (i : Nat) (ps : List Program) :
    (IOWriteObject.readOnly line i ps).command = line.command := by
  induction ps generalizing line i with
  | nil => rfl
  | cons p rest ih =>
    unfold IOWriteObject.readOnly
    rw [ih]
    split <;> rfl

theorem GetParam_readOnly_other (line : CLevelParserLine) (i : Nat) (ps : List Program)
    (name : ParamName) (h : name.word ≠ "scriptReadOnly") :
    (IOWriteObject.readOnly line i ps).GetParam name = line.GetParam name := by
  induction ps generalizing line i with
  | nil => rfl
  | cons p rest ih =>
    unfold IOWriteObject.readOnly
    rw [ih]
    split
    · rw [GetParam_AddParam]
      have hne : name ≠ { word := "scriptReadOnly", number := some (i + 1) } := by
        intro hn
        exact h (by rw [hn])
      cases line.GetParam name <;> simp [hne]
    · rfl

theorem GetParam_readOnly (line : CLevelParserLine) (i : Nat) (ps : List Program)
    (h : ∀ k : Nat, line.GetParam { word := "scriptReadOnly", number := some (k + 1) } = none
      ∨ (line.GetParam { word := "scriptReadOnly", number := some (k + 1) }
          = some (.bool true) ∧ k < i)) (k : Nat) :
    (IOWriteObject.readOnly line i ps).GetParam
        { word := "scriptReadOnly", number := some (k + 1) } = none
      ∨ ((IOWriteObject.readOnly line i ps).GetParam
          { word := "scriptReadOnly", number := some (k + 1) } = some (.bool true)
        ∧ k < i + ps.length) := by
  induction ps generalizing line i with
  | nil => simpa [IOWriteObject.readOnly] using h k
  | cons p rest ih =>
    unfold IOWriteObject.readOnly
    have := ih (if p.readOnly then
        line.AddParam { word := "scriptReadOnly", number := some (i + 1) } (.bool true)
      else line) (i + 1) (by
        intro j
        split
        · rw [GetParam_AddParam]
          rcases h j with hj | ⟨hj, hlt⟩
          · rw [hj]
            by_cases hji : j = i
            · subst hji
              simp
            · simp [hji]
          · rw [hj]
            exact Or.inr ⟨rfl, by omega⟩
        · rcases h j with hj | ⟨hj, hlt⟩
          · exact Or.inl hj
          · exact Or.inr ⟨hj, by omega⟩)
    rcases this with h1 | ⟨h1, h2⟩
    · exact Or.inl h1
    · exact Or.inr ⟨h1, by simp only [List.length_cons]; omega⟩

theorem IOWriteObject_command (env : Env) (s : Scene) (command : String) (obj : COldObject) :
    (IOWriteObject env s (CLevelParserLine.new command) obj).command = command := by
  unfold IOWriteObject
  split
  · rfl
  · simp only []
    split_ifs <;> simp [command_readOnly, command_AddParam, CLevelParserLine.new]

theorem IOWriteObject_pos (env : Env) (s : Scene) (command : String) (obj : COldObject)
    (hfix : obj.type ≠ OBJECT_FIX) :
    (IOWriteObject env s (CLevelParserLine.new command) obj).GetParam "pos"
      = some (.point ((obj.position.div s.g_unit).round env.round)) := by
  unfold IOWriteObject
  rw [if_neg hfix]
  simp only []
  split_ifs <;>
    simp [GetParam_readOnly_other, GetParam_AddParam, GetParam_new]

theorem IOWriteObject_angle (env : Env) (s : Scene) (command : String) (obj : COldObject)
    (hfix : obj.type ≠ OBJECT_FIX) :
    (IOWriteObject env s (CLevelParserLine.new command) obj).GetParam "angle"
      = some (.point ((obj.rotation.mul env.RAD_TO_DEG).round env.round)) := by
  unfold IOWriteObject
  rw [if_neg hfix]
  simp only []
  split_ifs <;>
    simp_all [GetParam_readOnly_other, GetParam_AddParam, GetParam_new]

theorem IOWriteObject_zoom (env : Env) (s : Scene) (command : String) (obj : COldObject)
    (hfix : obj.type ≠ OBJECT_FIX) :
    (IOWriteObject env s (CLevelParserLine.new command) obj).GetParam "zoom"
      = some (.point obj.scale) := by
  unfold IOWriteObject
  rw [if_neg hfix]
  simp only []
  split_ifs <;>
    simp_all [GetParam_readOnly_other, GetParam_AddParam, GetParam_new]

theorem IOWriteObject_type (env : Env) (s : Scene) (command : String) (obj : COldObject)
    (hfix : obj.type ≠ OBJECT_FIX) :
    (IOWriteObject env s (CLevelParserLine.new command) obj).GetParam "type"
      = some (.objectType obj.type) := by
  unfold IOWriteObject
  rw [if_neg hfix]
  simp only []
  split_ifs <;>
    simp_all [GetParam_readOnly_other, GetParam_AddParam, GetParam_new]

theorem IOWriteObject_id (env : Env) (s : Scene) (command : String) (obj : COldObject)
    (hfix : obj.type ≠ OBJECT_FIX) :
    (IOWriteObject env s (CLevelParserLine.new command) obj).GetParam "id"
      = some (.int obj.id) := by
  unfold IOWriteObject
  rw [if_neg hfix]
  simp only []
  split_ifs <;>
    simp_all [GetParam_readOnly_other, GetParam_AddParam, GetParam_new]

theorem IOWriteObject_trainer (env : Env) (s : Scene) (command : String) (obj : COldObject)
    (hfix : obj.type ≠ OBJECT_FIX) :
    (IOWriteObject env s (CLevelParserLine.new command) obj).GetParam "trainer"
      = if obj.caps.old then some (.bool obj.trainer) else none := by
  unfold IOWriteObject
  rw [if_neg hfix]
  simp only []
  split_ifs <;>
    simp_all [GetParam_readOnly_other, GetParam_AddParam, GetParam_new]

theorem IOWriteObject_toy (env : Env) (s : Scene) (command : String) (obj : COldObject)
    (hfix : obj.type ≠ OBJECT_FIX) :
    (IOWriteObject env s (CLevelParserLine.new command) obj).GetParam "toy"
      = none := by
  unfold IOWriteObject
  rw [if_neg hfix]
  simp only []
  split_ifs <;>
    simp_all [GetParam_readOnly_other, GetParam_AddParam, GetParam_new]

theorem IOWriteObject_option (env : Env) (s : Scene) (command : String) (obj : COldObject)
    (hfix : obj.type ≠ OBJECT_FIX) :
    (IOWriteObject env s (CLevelParserLine.new command) obj).GetParam "option"
      = if obj.caps.old then some (.int obj.option) else none := by
  unfold IOWriteObject
  rw [if_neg hfix]
  simp only []
  split_ifs <;>
    simp_all [GetParam_readOnly_other, GetParam_AddParam, GetParam_new]

theorem IOWriteObject_team (env : Env) (s : Scene) (command : String) (obj : COldObject)
    (hfix : obj.type ≠ OBJECT_FIX) :
    (IOWriteObject env s (CLevelParserLine.new command) obj).GetParam "team"
      = none := by
  unfold IOWriteObject
  rw [if_neg hfix]
  simp only []
  split_ifs <;>
    simp_all [GetParam_readOnly_other, GetParam_AddParam, GetParam_new]

theorem IOWriteObject_select (env : Env) (s : Scene) (command : String) (obj : COldObject)
    (hfix : obj.type ≠ OBJECT_FIX) :
    (IOWriteObject env s (CLevelParserLine.new command) obj).GetParam "select"
      = if obj.select then some (.bool true) else none := by
  unfold IOWriteObject
  rw [if_neg hfix]
  simp only []
  split_ifs <;>
    simp_all [GetParam_readOnly_other, GetParam_AddParam, GetParam_new]

theorem IOWriteObject_run (env : Env) (s : Scene) (command : String) (obj : COldObject)
    (hfix : obj.type ≠ OBJECT_FIX) :
    (IOWriteObject env s (CLevelParserLine.new command) obj).GetParam "run"
      = if obj.type = OBJECT_BASE then some (.int 3)
        else if obj.caps.programmable ∧ obj.program ≠ -1 then some (.int (obj.program + 1))
        else none := by
  unfold IOWriteObject
  rw [if_neg hfix]
  simp only []
  split_ifs <;>
    simp_all [GetParam_readOnly_other, GetParam_AddParam, GetParam_new]

theorem IOWriteObject_scriptReadOnly (env : Env) (s : Scene) (command : String)
    (obj : COldObject) (k : Nat) :
    (IOWriteObject env s (CLevelParserLine.new command) obj).GetParam
        { word := "scriptReadOnly", number := some (k + 1) } = none
      ∨ ((IOWriteObject env s (CLevelParserLine.new command) obj).GetParam
          { word := "scriptReadOnly", number := some (k + 1) } = some (.bool true)
        ∧ k < obj.programs.length) := by
  unfold IOWriteObject
  split
  · exact Or.inl rfl
  · simp only []
    split_ifs <;>
      first
      | exact (GetParam_readOnly _ 0 obj.programs
          (fun j => Or.inl (by simp [GetParam_AddParam, GetParam_new])) k).imp id
          (fun h => ⟨h.1, by simpa using h.2⟩)
      | exact Or.inl (by simp [GetParam_AddParam, GetParam_new])

/-! #### Reading an object line back -/

theorem GetOrAddProgram_length (index : Int) (programs : List Program) :
    (GetOrAddProgram index programs).2.length
      = if index < 0 ∨ index ≥ programs.length then programs.length + 1
        else programs.length := by
  unfold GetOrAddProgram
  split <;> simp

theorem IOReadObject_readOnly_ok (line : CLevelParserLine) (n : Nat)
    (h : ∀ k : Nat, line.GetParam { word := "scriptReadOnly", number := some (k + 1) } = none
      ∨ (line.GetParam { word := "scriptReadOnly", number := some (k + 1) }
          = some (.bool true) ∧ k < n))
    (fuel i : Nat) (ps : List Program) :
    ∃ ps1, IOReadObject.readOnly line fuel i ps = .ok ps1
      ∧ (ps.length ≤ n → ps1.length ≤ n) := by
  induction fuel generalizing i ps with
  | zero => exact ⟨ps, rfl, id⟩
  | succ fuel ih =>
    unfold IOReadObject.readOnly
    rcases h i with hi | ⟨hi, hlt⟩
    · rw [hi]
      exact ih (i + 1) ps
    · rw [hi]
      obtain ⟨ps1, h1, h2⟩ := ih (i + 1)
        (((GetOrAddProgram i ps).2).modify
          (fun prog => { prog with readOnly := true }) (GetOrAddProgram i ps).1)
      refine ⟨ps1, h1, fun hle => h2 ?_⟩
      rw [List.length_modify, GetOrAddProgram_length]
      split
      · rename_i hc
        rcases hc with hc | hc
        · omega
        · have : ps.length ≤ i := by exact_mod_cast hc
          omega
      · exact hle

theorem AsInt_int (name : String) (n : Int) : AsInt name (some (.int n)) = .ok n := rfl

theorem AsIntOr_int (name : String) (d n : Int) : AsIntOr name d (some (.int n)) = .ok n := rfl

theorem AsBoolOr_bool (name : String) (d b : Bool) :
    AsBoolOr name d (some (.bool b)) = .ok b := rfl

theorem IOReadObject_programs_ok (line : CLevelParserLine) (n : Nat)
    (h : ∀ k : Nat, line.GetParam { word := "scriptReadOnly", number := some (k + 1) } = none
      ∨ (line.GetParam { word := "scriptReadOnly", number := some (k + 1) }
          = some (.bool true) ∧ k < n))
    (obj : COldObject) :
    ∃ ps1, IOReadObject.programs line obj = .ok ps1
      ∧ (obj.programs.length ≤ n → ps1.length ≤ n) := by
  unfold IOReadObject.programs
  split
  · exact IOReadObject_readOnly_ok line n h 1000 0 obj.programs
  · exact ⟨obj.programs, rfl, id⟩

theorem setup_facts (rank : Int) (pos dir zoom : Math.Vector) (run : Int) (obj : COldObject)
    (hold : obj.caps.old = true) :
    (IOReadObject.setup rank pos dir zoom run obj).id = obj.id
      ∧ (IOReadObject.setup rank pos dir zoom run obj).type = obj.type
      ∧ (IOReadObject.setup rank pos dir zoom run obj).caps = obj.caps
      ∧ (IOReadObject.setup rank pos dir zoom run obj).position = pos
      ∧ (IOReadObject.setup rank pos dir zoom run obj).rotation = dir
      ∧ (IOReadObject.setup rank pos dir zoom run obj).defRank = rank
      ∧ (IOReadObject.setup rank pos dir zoom run obj).cargo = obj.cargo
      ∧ (IOReadObject.setup rank pos dir zoom run obj).power = obj.power
      ∧ (IOReadObject.setup rank pos dir zoom run obj).transporter = obj.transporter
      ∧ (IOReadObject.setup rank pos dir zoom run obj).programs.length
          ≤ obj.programs.length + (if run ≠ -1 then 1 else 0) := by
  unfold IOReadObject.setup
  simp only [hold, if_true]
  split_ifs <;> simp [GetOrAddProgram_length] <;> split_ifs <;> omega

theorem IOReadObject_IOWriteObject (env : Env) (s : Scene) (command : String)
    (obj : COldObject) (rank : Int) (s1 : Scene)
    (hfix : obj.type ≠ OBJECT_FIX) (hold : obj.caps.old = true)
    (hfactory : env.factory obj.type = some obj.caps)
    (hg : s1.g_unit = s.g_unit) (hfresh : ∀ o ∈ s1.objects, o.id ≠ obj.id) :
    ∃ r : COldObject,
      IOReadObject env (IOWriteObject env s (CLevelParserLine.new command) obj) rank s1
        = .ok (obj.id, { s1 with objects := s1.objects ++ [r],
                                 m_base := if obj.type = OBJECT_BASE then some obj.id
                                   else s1.m_base })
      ∧ r.id = obj.id ∧ r.type = obj.type ∧ r.caps = obj.caps
      ∧ r.position = (((obj.position.div s.g_unit).round env.round).mul s.g_unit).round env.round
      ∧ r.rotation = (((obj.rotation.mul env.RAD_TO_DEG).round env.round).mul (env.round (env.PI / 180))).round env.round
      ∧ r.defRank = rank ∧ r.cargo = none ∧ r.power = none
      ∧ r.transporter = none
      ∧ (((obj.type = OBJECT_BASE ∨ obj.program ≠ -1) → obj.programs ≠ []) →
          r.programs.length ≤ obj.programs.length) := by
  unfold IOReadObject
  rw [IOWriteObject_pos env s command obj hfix, IOWriteObject_angle env s command obj hfix,
    IOWriteObject_zoom env s command obj hfix, IOWriteObject_type env s command obj hfix,
    IOWriteObject_id env s command obj hfix, IOWriteObject_trainer env s command obj hfix,
    IOWriteObject_toy env s command obj hfix, IOWriteObject_option env s command obj hfix,
    IOWriteObject_team env s command obj hfix, IOWriteObject_run env s command obj hfix]
  simp only [hold, if_true, AsPoint_point, AsObjectType_objectType, ok_bind, AsIntOr_none,
    AsBoolOr_none, AsInt_int, AsIntOr_int, AsBoolOr_bool, hg, CObjectManager.CreateObject,
    hfactory, Int.toNat_ofNat,
    Option.getD_some, Option.isSome_some]
  obtain ⟨run, hrun, hrunv⟩ : ∃ run : Int,
      AsIntOr "run" (-1)
        (if obj.type = OBJECT_BASE then some (CLevelParserParam.int 3)
          else if obj.caps.programmable = true ∧ obj.program ≠ -1 then
            some (CLevelParserParam.int (obj.program + 1))
          else none) = .ok run
      ∧ (run ≠ -1 → obj.type = OBJECT_BASE ∨ obj.program ≠ -1) := by
    split_ifs with h1 h2
    · exact ⟨3, rfl, fun _ => Or.inl h1⟩
    · exact ⟨obj.program + 1, rfl, fun _ => Or.inr h2.2⟩
    · exact ⟨-1, rfl, fun h => absurd rfl h⟩
  rw [hrun, ok_bind]
  obtain ⟨ps1, hps1, hlen⟩ := IOReadObject_programs_ok
    (IOWriteObject env s (CLevelParserLine.new command) obj) obj.programs.length
    (IOWriteObject_scriptReadOnly env s command obj)
    (IOReadObject.setup rank ((((obj.position.div s.g_unit).round env.round).mul s.g_unit).round env.round)
      ((((obj.rotation.mul env.RAD_TO_DEG).round env.round).mul (env.round (env.PI / 180))).round env.round) obj.scale run
      { id := obj.id, type := obj.type,
        position := (((obj.position.div s.g_unit).round env.round).mul s.g_unit).round env.round,
        rotation := { x := 0,
                      y := ((((obj.rotation.mul env.RAD_TO_DEG).round env.round).mul (env.round (env.PI / 180))).round env.round).y,
                      z := 0 }, scale := { x := 1, y := 1, z := 1 },
        team := 0, trainer := obj.trainer, toy := false, option := obj.option, defRank := -1,
        select := false, selectable := true, burn := false, dead := false,
        exploding := false, animateOnReset := false, caps := obj.caps, cargo := none,
        power := none, transporter := none, programs := [], program := -1,
        scriptRun := none, stack := none })
  rw [hps1, ok_bind]
  obtain ⟨hid, htype, hcaps, hpos, hrot, hrank, hcargo, hpower, htrans, hplen⟩ :=
    setup_facts rank ((((obj.position.div s.g_unit).round env.round).mul s.g_unit).round env.round)
      ((((obj.rotation.mul env.RAD_TO_DEG).round env.round).mul (env.round (env.PI / 180))).round env.round) obj.scale run
      { id := obj.id, type := obj.type,
        position := (((obj.position.div s.g_unit).round env.round).mul s.g_unit).round env.round,
        rotation := { x := 0,
                      y := ((((obj.rotation.mul env.RAD_TO_DEG).round env.round).mul (env.round (env.PI / 180))).round env.round).y,
                      z := 0 }, scale := { x := 1, y := 1, z := 1 },
        team := 0, trainer := obj.trainer, toy := false, option := obj.option, defRank := -1,
        select := false, selectable := true, burn := false, dead := false,
        exploding := false, animateOnReset := false, caps := obj.caps, cargo := none,
        power := none, transporter := none, programs := [], program := -1,
        scriptRun := none, stack := none } hold
  generalize IOReadObject.setup rank ((((obj.position.div s.g_unit).round env.round).mul s.g_unit).round env.round)
      ((((obj.rotation.mul env.RAD_TO_DEG).round env.round).mul (env.round (env.PI / 180))).round env.round) obj.scale run
      { id := obj.id, type := obj.type,
        position := (((obj.position.div s.g_unit).round env.round).mul s.g_unit).round env.round,
        rotation := { x := 0,
                      y := ((((obj.rotation.mul env.RAD_TO_DEG).round env.round).mul (env.round (env.PI / 180))).round env.round).y,
                      z := 0 }, scale := { x := 1, y := 1, z := 1 },
        team := 0, trainer := obj.trainer, toy := false, option := obj.option, defRank := -1,
        select := false, selectable := true, burn := false, dead := false,
        exploding := false, animateOnReset := false, caps := obj.caps, cargo := none,
        power := none, transporter := none, programs := [], program := -1,
        scriptRun := none, stack := none } = X at *
  refine ⟨{ X with programs := ps1 }, ?_, hid, htype, hcaps, hpos, hrot, hrank, hcargo, hpower,
    htrans, fun hp => hlen ?_⟩
  · simp only [IOReadObject.register, Scene.update, hid, htype, List.map_append,
      map_ite_fresh _ _ _ hfresh, List.map_cons, List.map_nil, if_true]
    split_ifs <;> rfl
  · by_cases hr : run = -1
    · simp only [hr, ne_eq, not_true_eq_false, if_false, List.length_nil, add_zero,
        Nat.le_zero] at hplen
      rw [hplen]
      exact Nat.zero_le _
    · have := hp (hrunv hr)
      have h1 : 1 ≤ obj.programs.length := by
        cases hps : obj.programs with
        | nil => exact absurd hps this
        | cons p rest => simp
      simp only [List.length_nil] at hplen
      rw [if_pos hr] at hplen
      omega

@[simp] theorem placed_id (env : Env) (s : Scene) (obj : COldObject) :
    (IOReadScene.placed env s obj).id = obj.id := rfl

@[simp] theorem placed_type (env : Env) (s : Scene) (obj : COldObject) :
    (IOReadScene.placed env s obj).type = obj.type := rfl

@[simp] theorem placed_caps (env : Env) (s : Scene) (obj : COldObject) :
    (IOReadScene.placed env s obj).caps = obj.caps := rfl

@[simp] theorem placed_programs (env : Env) (s : Scene) (obj : COldObject) :
    (IOReadScene.placed env s obj).programs = obj.programs := rfl

@[simp] theorem placed_program (env : Env) (s : Scene) (obj : COldObject) :
    (IOReadScene.placed env s obj).program = obj.program := rfl


/-! #### Reading the lines of one saved object -/

theorem IOReadScene_lines_nil (env : Env) (st : IOReadScene.State) :
    IOReadScene.lines env [] st = .ok st := rfl

theorem IOReadScene_lines_cons (env : Env) (line : CLevelParserLine)
    (rest : List CLevelParserLine) (st : IOReadScene.State) :
    IOReadScene.lines env (line :: rest) st
      = match IOReadScene.line env line st with
        | .error e => .error e
        | .ok st1 => IOReadScene.lines env rest st1 := rfl

theorem IOReadScene_lines_append (env : Env) (l1 l2 : List CLevelParserLine)
    (st : IOReadScene.State) :
    IOReadScene.lines env (l1 ++ l2) st
      = match IOReadScene.lines env l1 st with
        | .error e => .error e
        | .ok st1 => IOReadScene.lines env l2 st1 := by
  induction l1 generalizing st with
  | nil => rw [List.nil_append, IOReadScene_lines_nil]
  | cons line rest ih =>
    rw [List.cons_append, IOReadScene_lines_cons, IOReadScene_lines_cons]
    cases IOReadScene.line env line st with
    | error e => rfl
    | ok st1 => exact ih st1

theorem line_CreateFret (env : Env) (line : CLevelParserLine) (st : IOReadScene.State)
    (h : line.command = "CreateFret") :
    IOReadScene.line env line st = IOReadScene.CreateFret env line st := by
  simp [IOReadScene.line, h]

theorem line_CreatePower (env : Env) (line : CLevelParserLine) (st : IOReadScene.State)
    (h : line.command = "CreatePower") :
    IOReadScene.line env line st = IOReadScene.CreatePower env line st := by
  simp [IOReadScene.line, h]

theorem line_CreateObject (env : Env) (line : CLevelParserLine) (st : IOReadScene.State)
    (h : line.command = "CreateObject") :
    IOReadScene.line env line st = IOReadScene.CreateObject env line st := by
  simp [IOReadScene.line, h]

theorem find_append_fresh (pre : List COldObject) (r : COldObject) (s : Scene)
    (hfresh : ∀ o ∈ pre, o.id ≠ r.id) :
    Scene.find { s with objects := pre ++ [r] } r.id = some r := by
  unfold Scene.find
  simp only [List.find?_append]
  have : pre.find? (fun o => o.id == r.id) = none := by
    rw [List.find?_eq_none]
    intro o ho
    simpa using hfresh o ho
  rw [this]
  simp

theorem find_map_id (objects : List COldObject) (f : COldObject → COldObject)
    (hf : ∀ o, (f o).id = o.id) (id : Nat) :
    (objects.map f).find? (fun o => o.id == id)
      = (objects.find? fun o => o.id == id).map f := by
  induction objects with
  | nil => rfl
  | cons o rest ih =>
    simp only [List.map_cons, List.find?_cons, hf]
    cases o.id == id
    · exact ih
    · rfl

theorem IOReadObject_renders (env : Env) (s : Scene) (command : String)
    (obj : COldObject) (rank : Int) (s1 : Scene)
    (hfix : obj.type ≠ OBJECT_FIX) (hold : obj.caps.old = true)
    (hfactory : env.factory obj.type = some obj.caps)
    (hg : s1.g_unit = s.g_unit) (hfresh : ∀ o ∈ s1.objects, o.id ≠ obj.id) :
    ∃ r : COldObject,
      IOReadObject env (IOWriteObject env s (CLevelParserLine.new command) obj) rank s1
        = .ok (obj.id, { s1 with objects := s1.objects ++ [r],
                                 m_base := if obj.type = OBJECT_BASE then some obj.id
                                   else s1.m_base })
      ∧ IOReadScene.Renders r
          { IOReadScene.placed env s obj with
              defRank := rank,
              cargo := none,
              power := none,
              transporter := none } := by
  obtain ⟨r, h, h1, h2, h3, h4, h5, h6, h7, h8, h9, h10⟩ :=
    IOReadObject_IOWriteObject env s command obj rank s1 hfix hold hfactory hg hfresh
  exact ⟨r, h, h1, h2, h3, h4, h5, h6, h7, h8, h9, fun _ hp => h10 hp⟩

theorem read_CreateFret (env : Env) (s : Scene) (c : COldObject) (st : IOReadScene.State)
    (hfix : c.type ≠ OBJECT_FIX) (hold : c.caps.old = true)
    (hfactory : env.factory c.type = some c.caps)
    (hg : st.s.g_unit = s.g_unit) (hfresh : ∀ o ∈ st.s.objects, o.id ≠ c.id) :
    ∃ r : COldObject,
      IOReadScene.line env (IOWriteObject env s (CLevelParserLine.new "CreateFret") c) st
        = .ok { st with
            s := { st.s with objects := st.s.objects ++ [r],
                             m_base := if c.type = OBJECT_BASE then some c.id
                               else st.s.m_base },
            cargo := some c.id, objCounter := st.objCounter + 1 }
      ∧ IOReadScene.Renders r
          { IOReadScene.placed env s c with
              defRank := -1,
              cargo := none,
              power := none,
              transporter := none } := by
  obtain ⟨r, h, hr⟩ := IOReadObject_renders env s "CreateFret" c (-1) st.s hfix hold hfactory
    hg hfresh
  refine ⟨r, ?_, hr⟩
  rw [line_CreateFret _ _ _ (IOWriteObject_command env s "CreateFret" c)]
  unfold IOReadScene.CreateFret
  rw [h, ok_bind]

theorem read_CreatePower (env : Env) (s : Scene) (p : COldObject) (st : IOReadScene.State)
    (hfix : p.type ≠ OBJECT_FIX) (hold : p.caps.old = true)
    (hfactory : env.factory p.type = some p.caps)
    (hg : st.s.g_unit = s.g_unit) (hfresh : ∀ o ∈ st.s.objects, o.id ≠ p.id) :
    ∃ r : COldObject,
      IOReadScene.line env (IOWriteObject env s (CLevelParserLine.new "CreatePower") p) st
        = .ok { st with
            s := { st.s with objects := st.s.objects ++ [r],
                             m_base := if p.type = OBJECT_BASE then some p.id
                               else st.s.m_base },
            power := some p.id, objCounter := st.objCounter + 1 }
      ∧ IOReadScene.Renders r
          { IOReadScene.placed env s p with
              defRank := -1,
              cargo := none,
              power := none,
              transporter := none } := by
  obtain ⟨r, h, hr⟩ := IOReadObject_renders env s "CreatePower" p (-1) st.s hfix hold hfactory
    hg hfresh
  refine ⟨r, ?_, hr⟩
  rw [line_CreatePower _ _ _ (IOWriteObject_command env s "CreatePower" p)]
  unfold IOReadScene.CreatePower
  rw [h, ok_bind]

theorem attachCargo_append (cargo : Option Nat) (pre : List COldObject) (r : COldObject)
    (s : Scene) (hfresh : ∀ o ∈ pre, o.id ≠ r.id) (hr : r.cargo = none)
    (hc : ∀ cid, cargo = some cid →
      r.caps.carrier = true ∧ r.caps.old = true ∧ cid ≠ r.id) :
    IOReadScene.attachCargo cargo r.id { s with objects := pre ++ [r] }
      = .ok { s with
          objects := (pre.map (fun o => if some o.id = cargo then
              { o with transporter := some r.id } else o) ++ [{ r with cargo := cargo }]) } := by
  cases cargo with
  | none =>
    unfold IOReadScene.attachCargo
    have h1 : pre.map (fun o => if some o.id = none then { o with transporter := some r.id }
        else o) = pre := by
      conv_rhs => rw [← List.map_id pre]
      apply List.map_congr_left
      intro o _
      simp
    have h2 : ({ r with cargo := none } : COldObject) = r := by
      cases r
      simp_all
    simp only [h1, h2]
  | some cid =>
    obtain ⟨h1, h2, h3⟩ := hc cid rfl
    unfold IOReadScene.attachCargo
    simp only [find_append_fresh pre r s hfresh, Option.any_some, h1, h2, Bool.and_self,
      if_true, Scene.update, List.map_append, List.map_map, List.map_cons, List.map_nil,
      Option.some.injEq]
    have h4 : ¬ r.id = cid := fun h => h3 h.symm
    have h5 : pre.map ((fun o => if o.id = cid then { o with transporter := some r.id } else o)
          ∘ fun o => if o.id = r.id then { o with cargo := some cid } else o)
        = pre.map (fun o => if o.id = cid then { o with transporter := some r.id } else o) := by
      apply List.map_congr_left
      intro o ho
      simp [hfresh o ho]
    rw [h5]
    simp [h4]

theorem attachPower_append (power : Option Nat) (pre : List COldObject) (r : COldObject)
    (s : Scene) (hfresh : ∀ o ∈ pre, o.id ≠ r.id) (hr : r.power = none)
    (hp : ∀ pid, power = some pid →
      r.caps.powered = true ∧ pid ≠ r.id
        ∧ (pre.find? fun o => o.id == pid).any (fun p => p.caps.transportable) = true) :
    IOReadScene.attachPower power r.id { s with objects := pre ++ [r] }
      = .ok { s with
          objects := (pre.map (fun o => if some o.id = power then
              { o with transporter := some r.id } else o) ++ [{ r with power := power }]) } := by
  cases power with
  | none =>
    unfold IOReadScene.attachPower
    have h1 : pre.map (fun o => if some o.id = none then { o with transporter := some r.id }
        else o) = pre := by
      conv_rhs => rw [← List.map_id pre]
      apply List.map_congr_left
      intro o _
      simp
    have h2 : ({ r with power := none } : COldObject) = r := by
      cases r
      simp_all
    simp only [h1, h2]
  | some pid =>
    obtain ⟨h1, h2, h3⟩ := hp pid rfl
    have h4 : ¬ r.id = pid := fun h => h2 h.symm
    have h6 : Scene.find { s with objects := pre ++ [r] } pid
        = pre.find? fun o => o.id == pid := by
      unfold Scene.find
      simp only [List.find?_append]
      cases pre.find? fun o => o.id == pid with
      | some x => rfl
      | none => simp [h4]
    unfold IOReadScene.attachPower
    simp only [find_append_fresh pre r s hfresh, Option.any_some, h1, h6, h3, and_self,
      if_true, Scene.update, List.map_append, List.map_map, List.map_cons, List.map_nil,
      Option.some.injEq]
    have h5 : pre.map ((fun o => if o.id = pid then { o with transporter := some r.id } else o)
          ∘ fun o => if o.id = r.id then { o with power := some pid } else o)
        = pre.map (fun o => if o.id = pid then { o with transporter := some r.id } else o) := by
      apply List.map_congr_left
      intro o ho
      simp [hfresh o ho]
    rw [h5]
    simp [h4]

theorem AsBoolOr_select (b : Bool) :
    AsBoolOr "select" false (if b = true then some (CLevelParserParam.bool true) else none)
      = .ok b := by
  cases b <;> rfl

theorem read_CreateObject (env : Env) (s : Scene) (obj : COldObject)
    (st : IOReadScene.State)
    (hfix : obj.type ≠ OBJECT_FIX) (hold : obj.caps.old = true)
    (hfactory : env.factory obj.type = some obj.caps)
    (hg : st.s.g_unit = s.g_unit) (hfresh : ∀ o ∈ st.s.objects, o.id ≠ obj.id)
    (hc : ∀ cid, st.cargo = some cid → obj.caps.carrier = true ∧ cid ≠ obj.id)
    (hp : ∀ pid, st.power = some pid →
      obj.caps.powered = true ∧ pid ≠ obj.id
        ∧ (st.s.objects.find? fun o => o.id == pid).any (fun p => p.caps.transportable)
            = true) :
    ∃ r : COldObject,
      IOReadScene.line env (IOWriteObject env s (CLevelParserLine.new "CreateObject") obj) st
        = .ok { s := { st.s with
                  objects := (((st.s.objects.map fun o =>
                      if some o.id = st.cargo then { o with transporter := some obj.id }
                      else o).map fun o =>
                      if some o.id = st.power then { o with transporter := some obj.id }
                      else o) ++ [r]),
                  m_base := if obj.type = OBJECT_BASE then some obj.id else st.s.m_base },
                cargo := none, power := none,
                sel := if obj.select then some obj.id else st.sel,
                objRank := st.objRank + 1, objCounter := st.objCounter + 1 }
      ∧ IOReadScene.Renders r
          { IOReadScene.placed env s obj with
              defRank := st.objRank,
              cargo := st.cargo,
              power := st.power,
              transporter := none } := by
  obtain ⟨r, h, hid, htype, hcaps, hpos, hrot, hrank, hcargo, hpower, htrans, hprog⟩ :=
    IOReadObject_renders env s "CreateObject" obj st.objRank st.s hfix hold hfactory hg hfresh
  simp only [IOReadScene.placed] at hid htype hcaps hpos hrot hrank hcargo hpower htrans hprog
  have hfresh1 : ∀ o ∈ st.s.objects, o.id ≠ r.id := by
    rw [hid]
    exact hfresh
  have hA := attachCargo_append st.cargo st.s.objects r
    { st.s with m_base := if obj.type = OBJECT_BASE then some obj.id else st.s.m_base }
    hfresh1 hcargo (fun cid hcid => by
      rw [hcaps, hid]
      exact ⟨(hc cid hcid).1, hold, (hc cid hcid).2⟩)
  have hfresh2 : ∀ o ∈ st.s.objects.map (fun o =>
      if some o.id = st.cargo then { o with transporter := some r.id } else o),
      o.id ≠ r.id := by
    intro o ho
    rw [List.mem_map] at ho
    obtain ⟨o1, ho1, rfl⟩ := ho
    have := hfresh1 o1 ho1
    split <;> exact this
  have hB := attachPower_append st.power
    (st.s.objects.map (fun o =>
      if some o.id = st.cargo then { o with transporter := some r.id } else o))
    { r with cargo := st.cargo }
    { st.s with m_base := if obj.type = OBJECT_BASE then some obj.id else st.s.m_base }
    hfresh2 hpower (fun pid hpid => by
      obtain ⟨h1, h2, h3⟩ := hp pid hpid
      refine ⟨by rw [hcaps]; exact h1, by rw [hid]; exact h2, ?_⟩
      rw [find_map_id _ _ (fun o => by split <;> rfl)]
      cases hf : st.s.objects.find? fun o => o.id == pid with
      | none => rw [hf] at h3; exact absurd h3 (by simp)
      | some x =>
        rw [hf] at h3
        simp only [Option.map_some', Option.any_some] at h3 ⊢
        split <;> exact h3)
  simp only [hid] at hA hB
  refine ⟨{ r with cargo := st.cargo, power := st.power }, ?_, hid, htype, hcaps, hpos, hrot,
    hrank, rfl, rfl, htrans, hprog⟩
  rw [line_CreateObject _ _ _ (IOWriteObject_command env s "CreateObject" obj)]
  unfold IOReadScene.CreateObject
  rw [h, ok_bind, IOWriteObject_select env s "CreateObject" obj hfix, AsBoolOr_select, ok_bind]
  simp only []
  rw [hA, ok_bind, hB, ok_bind]
  simp only [hid]

theorem map_link_fresh (l : List COldObject) (x : Option Nat) (t : Option Nat)
    (h : ∀ o ∈ l, some o.id ≠ x) :
    l.map (fun o => if some o.id = x then { o with transporter := t } else o) = l := by
  conv_rhs => rw [← List.map_id l]
  apply List.map_congr_left
  intro o ho
  rw [if_neg (h o ho)]
  rfl

theorem carrier_of_cargo (s : Scene) (obj c : COldObject)
    (h : IOWriteScene.cargo s obj = some c) : obj.caps.carrier = true := by
  unfold IOWriteScene.cargo at h
  by_contra hn
  rw [if_neg hn] at h
  exact Option.noConfusion h

theorem powered_of_power (s : Scene) (obj p : COldObject)
    (h : IOWriteScene.power s obj = some p) : obj.caps.powered = true := by
  unfold IOWriteScene.power at h
  by_contra hn
  rw [if_neg hn] at h
  exact Option.noConfusion h

theorem Renders_link (r e : COldObject) (t : Option Nat)
    (h : IOReadScene.Renders r
      { e with defRank := -1, cargo := none, power := none, transporter := none }) :
    IOReadScene.Renders { r with transporter := t }
      { e with defRank := -1, cargo := none, power := none, transporter := t } := by
  obtain ⟨h1, h2, h3, h4, h5, h6, h7, h8, -, -⟩ := h
  exact ⟨h1, h2, h3, h4, h5, h6, h7, h8, rfl, fun h => absurd rfl h⟩

theorem read_CreateFret_facts (env : Env) (s : Scene) (c : COldObject)
    (st : IOReadScene.State)
    (hfix : c.type ≠ OBJECT_FIX) (hold : c.caps.old = true)
    (hfactory : env.factory c.type = some c.caps)
    (hg : st.s.g_unit = s.g_unit) (hfresh : ∀ o ∈ st.s.objects, o.id ≠ c.id) :
    ∃ (st1 : IOReadScene.State) (r : COldObject),
      IOReadScene.line env (IOWriteObject env s (CLevelParserLine.new "CreateFret") c) st
        = .ok st1
      ∧ st1.s.objects = st.s.objects ++ [r] ∧ st1.cargo = some c.id ∧ st1.power = st.power
      ∧ st1.objRank = st.objRank ∧ st1.s.g_unit = s.g_unit
      ∧ IOReadScene.Renders r
          { IOReadScene.placed env s c with
              defRank := -1,
              cargo := none,
              power := none,
              transporter := none } := by
  obtain ⟨r, hr, hrenders⟩ := read_CreateFret env s c st hfix hold hfactory hg hfresh
  exact ⟨_, r, hr, rfl, rfl, rfl, rfl, hg, hrenders⟩

theorem read_CreatePower_facts (env : Env) (s : Scene) (p : COldObject)
    (st : IOReadScene.State)
    (hfix : p.type ≠ OBJECT_FIX) (hold : p.caps.old = true)
    (hfactory : env.factory p.type = some p.caps)
    (hg : st.s.g_unit = s.g_unit) (hfresh : ∀ o ∈ st.s.objects, o.id ≠ p.id) :
    ∃ (st1 : IOReadScene.State) (r : COldObject),
      IOReadScene.line env (IOWriteObject env s (CLevelParserLine.new "CreatePower") p) st
        = .ok st1
      ∧ st1.s.objects = st.s.objects ++ [r] ∧ st1.cargo = st.cargo ∧ st1.power = some p.id
      ∧ st1.objRank = st.objRank ∧ st1.s.g_unit = s.g_unit
      ∧ IOReadScene.Renders r
          { IOReadScene.placed env s p with
              defRank := -1,
              cargo := none,
              power := none,
              transporter := none } := by
  obtain ⟨r, hr, hrenders⟩ := read_CreatePower env s p st hfix hold hfactory hg
    hfresh
  exact ⟨_, r, hr, rfl, rfl, rfl, rfl, hg, hrenders⟩

theorem read_CreateObject_facts (env : Env) (s : Scene) (obj : COldObject)
    (st : IOReadScene.State)
    (hfix : obj.type ≠ OBJECT_FIX) (hold : obj.caps.old = true)
    (hfactory : env.factory obj.type = some obj.caps)
    (hg : st.s.g_unit = s.g_unit) (hfresh : ∀ o ∈ st.s.objects, o.id ≠ obj.id)
    (hc : ∀ cid, st.cargo = some cid → obj.caps.carrier = true ∧ cid ≠ obj.id)
    (hp : ∀ pid, st.power = some pid →
      obj.caps.powered = true ∧ pid ≠ obj.id
        ∧ (st.s.objects.find? fun o => o.id == pid).any (fun p => p.caps.transportable)
            = true) :
    ∃ (st1 : IOReadScene.State) (r : COldObject),
      IOReadScene.line env (IOWriteObject env s (CLevelParserLine.new "CreateObject") obj) st
        = .ok st1
      ∧ st1.s.objects = ((st.s.objects.map fun o =>
            if some o.id = st.cargo then { o with transporter := some obj.id } else o).map
          fun o => if some o.id = st.power then { o with transporter := some obj.id } else o)
          ++ [r]
      ∧ st1.cargo = none ∧ st1.power = none ∧ st1.objRank = st.objRank + 1
      ∧ st1.s.g_unit = s.g_unit
      ∧ IOReadScene.Renders r
          { IOReadScene.placed env s obj with
              defRank := st.objRank,
              cargo := st.cargo,
              power := st.power,
              transporter := none } := by
  obtain ⟨r, hr, hrenders⟩ := read_CreateObject env s obj st hfix hold hfactory hg
    hfresh hc hp
  exact ⟨_, r, hr, rfl, rfl, rfl, rfl, hg, hrenders⟩

theorem read_group (env : Env) (s : Scene) (obj : COldObject) (st : IOReadScene.State)
    (hW : ∀ w ∈ (IOWriteScene.cargo s obj).toList ++ (IOWriteScene.power s obj).toList
        ++ [obj],
      w.type ≠ OBJECT_FIX ∧ w.caps.old = true ∧ env.factory w.type = some w.caps)
    (hnodup : (((IOWriteScene.cargo s obj).toList ++ (IOWriteScene.power s obj).toList
        ++ [obj]).map fun w => w.id).Nodup)
    (hfresh : ∀ o ∈ st.s.objects,
      ∀ w ∈ (IOWriteScene.cargo s obj).toList ++ (IOWriteScene.power s obj).toList ++ [obj],
        o.id ≠ w.id)
    (htransportable : ∀ p, IOWriteScene.power s obj = some p → p.caps.transportable = true)
    (hg : st.s.g_unit = s.g_unit) (hcargo : st.cargo = none) (hpower : st.power = none) :
    ∃ (st1 : IOReadScene.State) (G : List COldObject),
      IOReadScene.lines env (IOWriteScene.objectLines env s obj) st = .ok st1
      ∧ st1.s.objects = st.s.objects ++ G
      ∧ List.Forall₂ IOReadScene.Renders G (IOReadScene.group env s obj st.objRank)
      ∧ st1.cargo = none ∧ st1.power = none ∧ st1.objRank = st.objRank + 1
      ∧ st1.s.g_unit = s.g_unit := by
  unfold IOWriteScene.objectLines IOReadScene.group
  cases hc : IOWriteScene.cargo s obj with
  | none =>
    cases hp : IOWriteScene.power s obj with
    | none =>
      have hWo := hW obj (by simp)
      have hfo : ∀ o ∈ st.s.objects, o.id ≠ obj.id := fun o ho => hfresh o ho obj (by simp)
      simp only [Option.toList_none, List.nil_append, Option.map_none']
      obtain ⟨st1, r, hr, hobjs, h1, h2, h3, h4, hrenders⟩ :=
        read_CreateObject_facts env s obj st hWo.1 hWo.2.1 hWo.2.2 
          hg hfo (fun cid h => by rw [hcargo] at h; exact Option.noConfusion h)
          (fun pid h => by rw [hpower] at h; exact Option.noConfusion h)
      rw [hcargo, hpower] at hobjs hrenders
      rw [map_link_fresh _ _ _ (fun o _ => by simp),
        map_link_fresh _ _ _ (fun o _ => by simp)] at hobjs
      refine ⟨st1, [r], ?_, hobjs, List.Forall₂.cons hrenders List.Forall₂.nil, h1, h2, h3, h4⟩
      rw [IOReadScene_lines_cons, hr]
      rfl
    | some p =>
      have hWp := hW p (by simp [hp])
      have hWo := hW obj (by simp)
      have hfp : ∀ o ∈ st.s.objects, o.id ≠ p.id := fun o ho => hfresh o ho p (by simp [hp])
      have hfo : ∀ o ∈ st.s.objects, o.id ≠ obj.id := fun o ho => hfresh o ho obj (by simp)
      rw [hc, hp] at hnodup
      simp only [Option.toList_some, Option.toList_none, List.singleton_append,
        List.cons_append, List.nil_append, List.mem_cons, List.mem_singleton, List.map_cons,
        List.map_nil, List.nodup_cons, List.not_mem_nil, not_false_eq_true, List.nodup_nil,
        and_true, not_or, Option.map_some', Option.map_none'] at hnodup ⊢
      have hpo : ¬ p.id = obj.id := hnodup
      obtain ⟨st2, rp, hrp, hobjs2, hc2, hp2, hk2, hg2, hrenders2⟩ :=
        read_CreatePower_facts env s p st hWp.1 hWp.2.1 hWp.2.2 hg hfp
      have hfresh2 : ∀ o ∈ st2.s.objects, o.id ≠ obj.id := by
        intro o ho
        rw [hobjs2, List.mem_append, List.mem_singleton] at ho
        rcases ho with ho | rfl
        · exact hfo o ho
        · rw [hrenders2.1]
          exact hpo
      have hfind : (st2.s.objects.find? fun o => o.id == p.id).any
          (fun q => q.caps.transportable) = true := by
        rw [hobjs2, List.find?_append]
        have : st.s.objects.find? (fun o => o.id == p.id) = none := by
          rw [List.find?_eq_none]
          intro o ho
          simpa using hfp o ho
        rw [this]
        simp [hrenders2.1, hrenders2.2.2.1, htransportable p hp]
      obtain ⟨st3, r, hr, hobjs3, h1, h2, h3, h4, hrenders3⟩ :=
        read_CreateObject_facts env s obj st2 hWo.1 hWo.2.1 hWo.2.2 hg2
          hfresh2
          (fun cid h => by
            rw [hc2, hcargo] at h
            exact Option.noConfusion h)
          (fun pid h => by
            rw [hp2] at h
            cases h
            exact ⟨powered_of_power s obj p hp, hpo, hfind⟩)
      rw [hc2, hcargo, hp2, hk2] at hrenders3
      rw [hobjs2, hc2, hcargo, hp2] at hobjs3
      refine ⟨st3, [{ rp with transporter := some obj.id }, r], ?_, ?_, ?_, h1, h2,
        by rw [h3, hk2], h4⟩
      · rw [IOReadScene_lines_cons, hrp]
        simp only []
        rw [IOReadScene_lines_cons, hr]
        rfl
      · rw [hobjs3]
        simp only [List.map_append, List.map_cons, List.map_nil, List.append_assoc,
          List.singleton_append]
        rw [map_link_fresh st.s.objects none _ (fun o _ => by simp),
          map_link_fresh st.s.objects (some p.id) _ (fun o ho => by simpa using hfp o ho)]
        have e2 : rp.id = p.id := hrenders2.1
        simp [e2]
      · exact List.Forall₂.cons (Renders_link rp (IOReadScene.placed env s p) _ hrenders2)
          (List.Forall₂.cons hrenders3 List.Forall₂.nil)
  | some c =>
    cases hp : IOWriteScene.power s obj with
    | none =>
      have hWc := hW c (by simp [hc])
      have hWo := hW obj (by simp)
      have hfc : ∀ o ∈ st.s.objects, o.id ≠ c.id := fun o ho => hfresh o ho c (by simp [hc])
      have hfo : ∀ o ∈ st.s.objects, o.id ≠ obj.id := fun o ho => hfresh o ho obj (by simp)
      rw [hc, hp] at hnodup
      simp only [Option.toList_some, Option.toList_none, List.singleton_append,
        List.cons_append, List.nil_append, List.mem_cons, List.mem_singleton, List.map_cons,
        List.map_nil, List.nodup_cons, List.not_mem_nil, not_false_eq_true, List.nodup_nil,
        and_true, not_or, Option.map_some', Option.map_none', List.append_nil] at hnodup ⊢
      have hco : ¬ c.id = obj.id := hnodup
      obtain ⟨st1, rc, hrc, hobjs1, hc1, hp1, hk1, hg1, hrenders1⟩ :=
        read_CreateFret_facts env s c st hWc.1 hWc.2.1 hWc.2.2 hg hfc
      have hfresh2 : ∀ o ∈ st1.s.objects, o.id ≠ obj.id := by
        intro o ho
        rw [hobjs1, List.mem_append, List.mem_singleton] at ho
        rcases ho with ho | rfl
        · exact hfo o ho
        · rw [hrenders1.1]
          exact hco
      obtain ⟨st3, r, hr, hobjs3, h1, h2, h3, h4, hrenders3⟩ :=
        read_CreateObject_facts env s obj st1 hWo.1 hWo.2.1 hWo.2.2 hg1
          hfresh2
          (fun cid h => by
            rw [hc1] at h
            cases h
            exact ⟨carrier_of_cargo s obj c hc, hco⟩)
          (fun pid h => by
            rw [hp1, hpower] at h
            exact Option.noConfusion h)
      rw [hc1, hp1, hpower, hk1] at hrenders3
      rw [hobjs1, hc1, hp1, hpower] at hobjs3
      refine ⟨st3, [{ rc with transporter := some obj.id }, r], ?_, ?_, ?_, h1, h2,
        by rw [h3, hk1], h4⟩
      · rw [IOReadScene_lines_cons, hrc]
        simp only []
        rw [IOReadScene_lines_cons, hr]
        rfl
      · rw [hobjs3]
        simp only [List.map_append, List.map_cons, List.map_nil, List.append_assoc,
          List.singleton_append]
        rw [map_link_fresh st.s.objects (some c.id) _ (fun o ho => by simpa using hfc o ho),
          map_link_fresh st.s.objects none _ (fun o _ => by simp)]
        have e1 : rc.id = c.id := hrenders1.1
        simp [e1]
      · exact List.Forall₂.cons (Renders_link rc (IOReadScene.placed env s c) _ hrenders1)
          (List.Forall₂.cons hrenders3 List.Forall₂.nil)
    | some p =>
      have hWc := hW c (by simp [hc])
      have hWp := hW p (by simp [hp])
      have hWo := hW obj (by simp)
      have hfc : ∀ o ∈ st.s.objects, o.id ≠ c.id := fun o ho => hfresh o ho c (by simp [hc])
      have hfp : ∀ o ∈ st.s.objects, o.id ≠ p.id := fun o ho => hfresh o ho p (by simp [hp])
      have hfo : ∀ o ∈ st.s.objects, o.id ≠ obj.id := fun o ho => hfresh o ho obj (by simp)
      rw [hc, hp] at hnodup
      simp only [Option.toList_some, List.singleton_append, List.cons_append, List.nil_append,
        List.mem_cons, List.mem_singleton, List.map_cons,
        List.map_nil, List.nodup_cons, List.not_mem_nil, not_false_eq_true, List.nodup_nil,
        and_true, not_or, Option.map_some'] at hnodup ⊢
      obtain ⟨⟨hcp, hco⟩, hpo⟩ := hnodup
      obtain ⟨st1, rc, hrc, hobjs1, hc1, hp1, hk1, hg1, hrenders1⟩ :=
        read_CreateFret_facts env s c st hWc.1 hWc.2.1 hWc.2.2 hg hfc
      have hfresh1 : ∀ o ∈ st1.s.objects, o.id ≠ p.id := by
        intro o ho
        rw [hobjs1, List.mem_append, List.mem_singleton] at ho
        rcases ho with ho | rfl
        · exact hfp o ho
        · rw [hrenders1.1]
          exact hcp
      obtain ⟨st2, rp, hrp, hobjs2, hc2, hp2, hk2, hg2, hrenders2⟩ :=
        read_CreatePower_facts env s p st1 hWp.1 hWp.2.1 hWp.2.2 hg1 hfresh1
      have hfresh2 : ∀ o ∈ st2.s.objects, o.id ≠ obj.id := by
        intro o ho
        rw [hobjs2, hobjs1, List.mem_append, List.mem_append, List.mem_singleton,
          List.mem_singleton] at ho
        rcases ho with (ho | rfl) | rfl
        · exact hfo o ho
        · rw [hrenders1.1]
          exact hco
        · rw [hrenders2.1]
          exact hpo
      have hfind : (st2.s.objects.find? fun o => o.id == p.id).any
          (fun q => q.caps.transportable) = true := by
        rw [hobjs2, List.find?_append]
        have : st1.s.objects.find? (fun o => o.id == p.id) = none := by
          rw [List.find?_eq_none]
          intro o ho
          simpa using hfresh1 o ho
        rw [this]
        simp [hrenders2.1, hrenders2.2.2.1, htransportable p hp]
      obtain ⟨st3, r, hr, hobjs3, h1, h2, h3, h4, hrenders3⟩ :=
        read_CreateObject_facts env s obj st2 hWo.1 hWo.2.1 hWo.2.2 hg2
          hfresh2
          (fun cid h => by
            rw [hc2, hc1] at h
            cases h
            exact ⟨carrier_of_cargo s obj c hc, hco⟩)
          (fun pid h => by
            rw [hp2] at h
            cases h
            exact ⟨powered_of_power s obj p hp, hpo, hfind⟩)
      rw [hc2, hc1, hp2, hk2, hk1] at hrenders3
      rw [hobjs2, hobjs1, hc2, hc1, hp2] at hobjs3
      refine ⟨st3, [{ rc with transporter := some obj.id }, { rp with transporter := some obj.id },
        r], ?_, ?_, ?_, h1, h2, by rw [h3, hk2, hk1], h4⟩
      · rw [IOReadScene_lines_cons, hrc]
        simp only []
        rw [IOReadScene_lines_cons, hrp]
        simp only []
        rw [IOReadScene_lines_cons, hr]
        rfl
      · rw [hobjs3]
        simp only [List.map_append, List.map_cons, List.map_nil, List.append_assoc,
          List.singleton_append]
        rw [map_link_fresh st.s.objects (some c.id) _ (fun o ho => by simpa using hfc o ho),
          map_link_fresh st.s.objects (some p.id) _ (fun o ho => by simpa using hfp o ho)]
        have e1 : rc.id = c.id := hrenders1.1
        have e2 : rp.id = p.id := hrenders2.1
        have hpc : ¬ p.id = c.id := fun h => hcp h.symm
        simp [e1, e2, hcp, hpc]
      · exact List.Forall₂.cons (Renders_link rc (IOReadScene.placed env s c) _ hrenders1)
          (List.Forall₂.cons (Renders_link rp (IOReadScene.placed env s p) _ hrenders2)
            (List.Forall₂.cons hrenders3 List.Forall₂.nil))

/-! #### Reading the scene file -/

theorem Renders_ids (l E : List COldObject) (h : List.Forall₂ IOReadScene.Renders l E) :
    l.map (fun o => o.id) = E.map fun o => o.id := by
  induction h with
  | nil => rfl
  | cons h1 _ ih =>
    simp only [List.map_cons, ih, h1.1]

theorem group_ids (env : Env) (s : Scene) (obj : COldObject) (objRank : Int) :
    (IOReadScene.group env s obj objRank).map (fun o => o.id)
      = ((IOWriteScene.cargo s obj).toList ++ (IOWriteScene.power s obj).toList
          ++ [obj]).map fun o => o.id := by
  unfold IOReadScene.group
  cases IOWriteScene.cargo s obj <;> cases IOWriteScene.power s obj <;> simp

theorem read_objects (env : Env) (s : Scene) (objs : List COldObject)
    (st : IOReadScene.State) (E : List COldObject)
    (hW : ∀ o ∈ objs, IOWriteScene.saved o = true →
      ∀ w ∈ (IOWriteScene.cargo s o).toList ++ (IOWriteScene.power s o).toList ++ [o],
        w.type ≠ OBJECT_FIX ∧ w.caps.old = true ∧ env.factory w.type = some w.caps)
    (hT : ∀ o ∈ objs, IOWriteScene.saved o = true →
      ∀ p, IOWriteScene.power s o = some p → p.caps.transportable = true)
    (hnodup : (E.map (fun o => o.id)
      ++ ((objs.filter IOWriteScene.saved).flatMap fun o =>
        (IOWriteScene.cargo s o).toList ++ (IOWriteScene.power s o).toList ++ [o]).map
          fun o => o.id).Nodup)
    (hg : st.s.g_unit = s.g_unit) (hcargo : st.cargo = none) (hpower : st.power = none)
    (hE : List.Forall₂ IOReadScene.Renders st.s.objects E) :
    ∃ st1 : IOReadScene.State,
      IOReadScene.lines env
          ((objs.filter IOWriteScene.saved).flatMap (IOWriteScene.objectLines env s)) st
        = .ok st1
      ∧ List.Forall₂ IOReadScene.Renders st1.s.objects
          (E ++ IOReadScene.described env s objs st.objRank)
      ∧ st1.cargo = none ∧ st1.power = none ∧ st1.s.g_unit = s.g_unit := by
  induction objs generalizing st E with
  | nil =>
    refine ⟨st, rfl, ?_, hcargo, hpower, hg⟩
    simpa [IOReadScene.described] using hE
  | cons o rest ih =>
    by_cases hs : IOWriteScene.saved o = true
    · rw [List.filter_cons_of_pos hs, List.flatMap_cons, List.map_append] at hnodup
      rw [List.filter_cons_of_pos hs, List.flatMap_cons, IOReadScene_lines_append]
      have hids := Renders_ids _ _ hE
      obtain ⟨st1, G, hlines, hobjs, hG, hc1, hp1, hk1, hg1⟩ :=
        read_group env s o st (hW o (List.mem_cons_self _ _) hs)
          ((List.nodup_append.mp (List.nodup_append.mp hnodup).2.1).1)
          (by
            intro x hx w hw hxw
            have h1 : x.id ∈ E.map fun o => o.id := by
              rw [← hids]
              exact List.mem_map_of_mem _ hx
            refine (List.nodup_append.mp hnodup).2.2 h1 ?_
            rw [hxw]
            exact List.mem_append_left _ (List.mem_map_of_mem _ hw))
          (hT o (List.mem_cons_self _ _) hs) hg hcargo hpower
      rw [hlines]
      simp only []
      obtain ⟨st2, h2, hE2, hc2, hp2, hg2⟩ :=
        ih st1 (E ++ IOReadScene.group env s o st.objRank)
          (fun x hx => hW x (List.mem_cons_of_mem _ hx))
          (fun x hx => hT x (List.mem_cons_of_mem _ hx))
          (by
            rw [List.map_append, group_ids, List.append_assoc]
            exact hnodup)
          hg1 hc1 hp1
          (by
            rw [hobjs]
            exact List.rel_append hE hG)
      refine ⟨st2, h2, ?_, hc2, hp2, hg2⟩
      rw [hk1, List.append_assoc] at hE2
      unfold IOReadScene.described
      rw [if_pos hs]
      exact hE2
    · rw [List.filter_cons_of_neg hs] at hnodup ⊢
      obtain ⟨st2, h2, hE2, hc2, hp2, hg2⟩ :=
        ih st E (fun x hx => hW x (List.mem_cons_of_mem _ hx))
          (fun x hx => hT x (List.mem_cons_of_mem _ hx)) hnodup hg hcargo hpower hE
      refine ⟨st2, h2, ?_, hc2, hp2, hg2⟩
      unfold IOReadScene.described
      rw [if_neg hs]
      exact hE2

theorem IOWriteScene_objects_lines (env : Env) (s : Scene) (objs : List COldObject)
    (lines : List CLevelParserLine) (files : List ((Int × Nat) × String)) (objRank : Int) :
    (IOWriteScene.objects env s objs (lines, files, objRank)).1
      = lines ++ (objs.filter IOWriteScene.saved).flatMap (IOWriteScene.objectLines env s) := by
  induction objs generalizing lines files objRank with
  | nil => simp [IOWriteScene.objects]
  | cons o rest ih =>
    unfold IOWriteScene.objects
    by_cases hs : IOWriteScene.saved o = true
    · rw [if_pos hs, ih, List.filter_cons_of_pos hs, List.flatMap_cons, List.append_assoc]
    · rw [if_neg hs, ih, List.filter_cons_of_neg hs]

theorem AsFloat_float (name : String) (x : ℚ) : AsFloat name (some (.float x)) = .ok x := rfl

theorem header_read (env : Env) (info : SaveInfo) (s : Scene) (st : IOReadScene.State) :
    ∃ st1 : IOReadScene.State,
      IOReadScene.lines env (IOWriteScene.header info s) st = .ok st1
      ∧ st1.s.objects = st.s.objects ∧ st1.cargo = st.cargo ∧ st1.power = st.power
      ∧ st1.objRank = st.objRank ∧ st1.s.g_unit = st.s.g_unit := by
  unfold IOWriteScene.header
  rcases hl : info.lightning with _ | ⟨sleep, delay, magnetic, progress⟩ <;>
    simp [IOReadScene.lines, IOReadScene.line, command_AddParam,
      IOReadScene.Map, IOReadScene.DoneResearch, IOReadScene.BlitzMode, GetParam_AddParam,
      GetParam_new, AsFloat_float, AsInt_int, ok_bind] <;>
    simp [CLevelParserLine.new]

/-! #### The program files -/

theorem lookup_enumFrom (l : List Program) (k : Int) (n i : Nat) :
    ((l.enumFrom n).map fun p => ((k, p.1), p.2.script)).lookup (k, i)
      = if i < n then none else (l.get? (i - n)).map fun p => p.script := by
  induction l generalizing n with
  | nil => simp
  | cons p rest ih =>
    simp only [List.enumFrom_cons, List.map_cons, List.lookup_cons, ih]
    by_cases h : i = n
    · subst h
      simp
    · have : ((k, i) == (k, n)) = false := by simpa using h
      rw [this]
      simp only []
      by_cases h1 : i < n
      · rw [if_pos (by omega), if_pos h1]
      · rw [if_neg (by omega), if_neg h1]
        have : i - n = (i - (n + 1)) + 1 := by omega
        rw [this, List.get?_cons_succ]

theorem lookup_filter_none (files : List ((Int × Nat) × String)) (k : Int) (i : Nat)
    (hi : i ≤ 999) :
    (files.filter fun f => !(f.1.1 == k && decide (f.1.2 ≤ 999))).lookup (k, i) = none := by
  induction files with
  | nil => rfl
  | cons f rest ih =>
    rw [List.filter_cons]
    split
    · rename_i h
      rw [List.lookup_cons]
      have : ((k, i) == f.1) = false := by
        rw [beq_eq_false_iff_ne]
        intro he
        rw [← he] at h
        simp [hi] at h
      rw [this]
      exact ih
    · exact ih

theorem lookup_filter_other (files : List ((Int × Nat) × String)) (k j : Int) (i : Nat)
    (hkj : k ≠ j) :
    (files.filter fun f => !(f.1.1 == j && decide (f.1.2 ≤ 999))).lookup (k, i)
      = files.lookup (k, i) := by
  induction files with
  | nil => rfl
  | cons f rest ih =>
    rw [List.filter_cons]
    split
    · rw [List.lookup_cons, List.lookup_cons, ih]
    · rename_i h
      rw [List.lookup_cons, ih]
      have : ((k, i) == f.1) = false := by
        rw [beq_eq_false_iff_ne]
        intro he
        rw [← he] at h
        simp at h
        exact hkj h.1
      rw [this]

theorem lookup_enumFrom_other (l : List Program) (k j : Int) (n i : Nat) (hkj : k ≠ j) :
    ((l.enumFrom n).map fun p => ((j, p.1), p.2.script)).lookup (k, i) = none := by
  induction l generalizing n with
  | nil => rfl
  | cons p rest ih =>
    simp only [List.enumFrom_cons, List.map_cons, List.lookup_cons, ih]
    have : ((k, i) == (j, n)) = false := by
      rw [beq_eq_false_iff_ne]
      intro he
      exact hkj (Prod.mk.inj he).1
    rw [this]

theorem SaveFileScript_lookup (obj : COldObject) (k : Int)
    (files : List ((Int × Nat) × String)) (i : Nat) (hk : k ≠ -1)
    (hp : obj.caps.programmable = true) (hh : obj.type ≠ OBJECT_HUMAN) (hi : i ≤ 999) :
    (SaveFileScript obj k files).lookup (k, i)
      = ((obj.programs.take 1000).get? i).map fun p => p.script := by
  unfold SaveFileScript
  rw [if_neg hk, if_neg (by simp [hp]), if_neg hh, List.lookup_append,
    lookup_filter_none files k i hi, List.enum, lookup_enumFrom]
  simp

theorem SaveFileScript_lookup_other (obj : COldObject) (k j : Int)
    (files : List ((Int × Nat) × String)) (i : Nat) (hkj : k ≠ j) :
    (SaveFileScript obj j files).lookup (k, i) = files.lookup (k, i) := by
  unfold SaveFileScript
  split_ifs
  · rfl
  · rfl
  · rfl
  · rw [List.lookup_append, lookup_filter_other files k j i hkj, List.enum,
      lookup_enumFrom_other _ k j 0 i hkj]
    cases List.lookup (k, i) files <;> rfl

theorem objects_files_preserve (env : Env) (s : Scene) (objs : List COldObject)
    (lines : List CLevelParserLine) (files : List ((Int × Nat) × String)) (objRank k : Int)
    (i : Nat) (hk : k < objRank) :
    (IOWriteScene.objects env s objs (lines, files, objRank)).2.1.lookup (k, i)
      = files.lookup (k, i) := by
  induction objs generalizing lines files objRank with
  | nil => rfl
  | cons o rest ih =>
    unfold IOWriteScene.objects
    split
    · rw [ih _ _ _ (by omega), SaveFileScript_lookup_other _ _ _ _ _ (by omega)]
    · exact ih _ _ _ hk

theorem mem_group (env : Env) (s : Scene) (obj : COldObject) (objRank : Int) (e : COldObject)
    (h : e ∈ IOReadScene.group env s obj objRank) :
    e.defRank = -1
      ∨ e = { IOReadScene.placed env s obj with
                defRank := objRank,
                cargo := (IOWriteScene.cargo s obj).map fun c => c.id,
                power := (IOWriteScene.power s obj).map fun p => p.id,
                transporter := none } := by
  unfold IOReadScene.group at h
  simp only [List.mem_append, List.mem_singleton, Option.mem_toList, Option.mem_def,
    Option.map_eq_some'] at h
  rcases h with (⟨c, -, rfl⟩ | ⟨p, -, rfl⟩) | rfl
  · exact Or.inl rfl
  · exact Or.inl rfl
  · exact Or.inr rfl

theorem objects_files_described (env : Env) (s : Scene) (objs : List COldObject)
    (lines : List CLevelParserLine) (files : List ((Int × Nat) × String)) (objRank : Int)
    (hrank : 0 ≤ objRank) (e : COldObject) (he : e ∈ IOReadScene.described env s objs objRank)
    (hdef : e.defRank ≠ -1) (hp : e.caps.programmable = true) (hh : e.type ≠ OBJECT_HUMAN)
    (i : Nat) (hi : i ≤ 999) :
    (IOWriteScene.objects env s objs (lines, files, objRank)).2.1.lookup (e.defRank, i)
      = ((e.programs.take 1000).get? i).map fun p => p.script := by
  induction objs generalizing lines files objRank with
  | nil => simp [IOReadScene.described] at he
  | cons o rest ih =>
    unfold IOReadScene.described at he
    unfold IOWriteScene.objects
    by_cases hs : IOWriteScene.saved o = true
    · rw [if_pos hs] at he ⊢
      rw [List.mem_append] at he
      rcases he with he | he
      · rcases mem_group env s o objRank e he with h1 | h1
        · exact absurd h1 hdef
        · subst h1
          rw [objects_files_preserve env s rest _ _ (objRank + 1) objRank i (by omega)]
          exact SaveFileScript_lookup o objRank files i (by omega) hp hh hi
      · exact ih _ _ _ (by omega) he
    · rw [if_neg hs] at he ⊢
      exact ih _ _ _ hrank he

theorem GetOrAddProgram_step (i : Nat) (ps : List Program) (f : Program → Program)
    (hi : i ≤ ps.length) :
    (((GetOrAddProgram i ps).2).modify f (GetOrAddProgram i ps).1).length
        = max ps.length (i + 1)
      ∧ ∀ j, (((GetOrAddProgram i ps).2).modify f (GetOrAddProgram i ps).1)[j]?
        = if j = i then some (f ((ps[i]?).getD Program.empty))
          else ps[j]? := by
  unfold GetOrAddProgram
  by_cases h : i < ps.length
  · have hc : ¬ ((i : Int) < 0 ∨ (i : Int) ≥ ps.length) := by
      intro hc
      rcases hc with hc | hc
      · omega
      · have : ps.length ≤ i := by exact_mod_cast hc
        omega
    rw [if_neg hc]
    simp only [Int.toNat_ofNat, List.length_modify]
    refine ⟨by omega, fun j => ?_⟩
    rw [List.getElem?_modify]
    by_cases hj : j = i
    · subst hj
      simp [List.getElem?_eq_getElem h]
    · have : ¬ i = j := fun h => hj h.symm
      simp [hj, this]
  · have hil : i = ps.length := by omega
    have hc : ((i : Int) < 0 ∨ (i : Int) ≥ ps.length) := Or.inr (by exact_mod_cast (by omega))
    rw [if_pos hc]
    simp only [List.length_modify, List.length_append, List.length_singleton]
    refine ⟨by omega, fun j => ?_⟩
    rw [List.getElem?_modify]
    by_cases hj : j = i
    · subst hj
      subst hil
      simp
    · have : ¬ ps.length = j := fun h => hj (by omega)
      simp only [this, if_false, hj]
      by_cases hjl : j < ps.length
      · rw [List.getElem?_append_left hjl]
        simp
      · rw [List.getElem?_eq_none (by simp; omega), List.getElem?_eq_none (by omega)]
        rfl

theorem LoadFileScript_loop (files : List ((Int × Nat) × String)) (objRank : Int)
    (texts : List String) (h : ∀ i ≤ 999, files.lookup (objRank, i) = texts[i]?)
    (hn : texts.length ≤ 1000) (fuel i : Nat) (ps : List Program)
    (hfuel : i + fuel = 1000) (hA : min i texts.length ≤ ps.length)
    (hB : ps.length ≤ texts.length)
    (hC : ∀ j, j < i → j < texts.length → (ps[j]?).map (fun p => p.script) = texts[j]?) :
    (LoadFileScript.loop files objRank fuel i ps).map (fun p => p.script) = texts := by
  induction fuel generalizing i ps with
  | zero =>
    unfold LoadFileScript.loop
    have hlen : ps.length = texts.length := by
      have : min i texts.length = texts.length := by omega
      omega
    apply List.ext_getElem?
    intro j
    rw [List.getElem?_map]
    by_cases hj : j < texts.length
    · exact hC j (by omega) hj
    · rw [List.getElem?_eq_none (by omega), List.getElem?_eq_none (by omega)]
      rfl
  | succ fuel ih =>
    unfold LoadFileScript.loop
    rw [h i (by omega)]
    by_cases hi : i < texts.length
    · rw [List.getElem?_eq_getElem hi]
      simp only []
      have hil : i ≤ ps.length := by
        have : min i texts.length = i := by omega
        omega
      obtain ⟨hlen, hget⟩ := GetOrAddProgram_step i ps
        (fun prog => { prog with script := texts[i] }) hil
      apply ih (i + 1) _ (by omega)
      · rw [hlen]
        omega
      · rw [hlen]
        omega
      · intro j hj hjn
        rw [hget]
        by_cases hji : j = i
        · subst hji
          simp [List.getElem?_eq_getElem hi]
        · rw [if_neg hji]
          exact hC j (by omega) hjn
    · rw [List.getElem?_eq_none (by omega)]
      simp only []
      apply ih (i + 1) ps (by omega)
      · have : min i texts.length = texts.length := by omega
        omega
      · exact hB
      · intro j hj hjn
        exact hC j (by omega) hjn

/-! #### Loading the programs and the stacks -/

theorem compile_restores (files : List ((Int × Nat) × String)) (r e : COldObject)
    (hR : IOReadScene.Renders r e) (htrans : e.defRank ≠ -1 → e.transporter = none)
    (hfiles : e.defRank ≠ -1 → e.caps.programmable = true → e.type ≠ OBJECT_HUMAN →
      ∀ i ≤ 999, files.lookup (e.defRank, i)
        = ((e.programs.take 1000).get? i).map fun p => p.script) :
    IOReadScene.Restores (IOReadScene.compile files r) e := by
  obtain ⟨h1, h2, h3, h4, h5, h6, h7, h8, h9, h10⟩ := hR
  have key : (IOReadScene.compile files r).id = r.id
      ∧ (IOReadScene.compile files r).type = r.type
      ∧ (IOReadScene.compile files r).caps = r.caps
      ∧ (IOReadScene.compile files r).position = r.position
      ∧ (IOReadScene.compile files r).rotation = r.rotation
      ∧ (IOReadScene.compile files r).defRank = r.defRank
      ∧ (IOReadScene.compile files r).cargo = r.cargo
      ∧ (IOReadScene.compile files r).power = r.power
      ∧ (IOReadScene.compile files r).transporter = r.transporter := by
    unfold IOReadScene.compile LoadFileScript
    simp only []
    split_ifs <;> (try split) <;> simp_all
  obtain ⟨k1, k2, k3, k4, k5, k6, k7, k8, k9⟩ := key
  refine ⟨k1.trans h1, k2.trans h2, k3.trans h3, k4.trans h4, k5.trans h5, k6.trans h6,
    k7.trans h7, k8.trans h8, k9.trans h9, fun hdef hp hh hprog hlen => ?_⟩
  have hprograms : (IOReadScene.compile files r).programs
      = LoadFileScript.loop files r.defRank 1000 0 r.programs := by
    have ht : IsObjectBeingTransported r = false := by
      unfold IsObjectBeingTransported
      rw [h9, htrans hdef]
      simp
    have hp1 : r.caps.programmable = true := by rw [h3]; exact hp
    have hd1 : r.defRank ≠ -1 := by rw [h6]; exact hdef
    have hh1 : r.type ≠ OBJECT_HUMAN := by rw [h2]; exact hh
    unfold IOReadScene.compile LoadFileScript
    simp only [hp1, ht, hd1, hh1, Bool.not_true, Bool.false_eq_true, if_false]
    split <;> rfl
  rw [hprograms, h6]
  apply LoadFileScript_loop files e.defRank (e.programs.map fun p => p.script)
  · intro i hi
    rw [hfiles hdef hp hh i hi, List.take_of_length_le hlen]
    simp
  · simpa using hlen
  · rfl
  · simp
  · simpa using h10 hdef hprog
  · intro j hj
    omega

theorem ReadFileStack_restores (r e : COldObject) (file : List StackItem) (objRank : Int)
    (h : IOReadScene.Restores r e) :
    IOReadScene.Restores (ReadFileStack r file objRank).2.1 e := by
  unfold ReadFileStack
  split_ifs
  · exact h
  · exact h
  · exact h
  · split
    · exact h
    · exact h

theorem stacks_restores (l E : List COldObject) (file : List StackItem) (objRank : Int)
    (h : List.Forall₂ IOReadScene.Restores l E) :
    List.Forall₂ IOReadScene.Restores (IOReadScene.stacks l file objRank).1 E := by
  induction h generalizing file objRank with
  | nil => exact List.Forall₂.nil
  | cons h1 h2 ih =>
    unfold IOReadScene.stacks
    split_ifs
    · exact List.Forall₂.cons h1 (ih _ _)
    · exact List.Forall₂.cons (ReadFileStack_restores _ _ _ _ h1) (ih _ _)
    · exact List.Forall₂.cons (ReadFileStack_restores _ _ _ _ h1) h2

theorem readStackFile_restores (env : Env) (stack : Option (List StackItem)) (s : Scene)
    (E : List COldObject) (h : List.Forall₂ IOReadScene.Restores s.objects E) :
    List.Forall₂ IOReadScene.Restores (IOReadScene.readStackFile env stack s).objects E := by
  unfold IOReadScene.readStackFile
  cases stack with
  | none => exact h
  | some file =>
    simp only []
    split_ifs
    · exact stacks_restores _ _ _ _ h
    · exact h
    · exact h

/-! #### The round trip -/

theorem forall₂_map_of_mem {R S : COldObject → COldObject → Prop} (f : COldObject → COldObject)
    (l E : List COldObject) (h : List.Forall₂ R l E)
    (hf : ∀ r e, e ∈ E → R r e → S (f r) e) : List.Forall₂ S (l.map f) E := by
  induction h with
  | nil => exact List.Forall₂.nil
  | cons h1 _ ih =>
    exact List.Forall₂.cons (hf _ _ (List.mem_cons_self _ _) h1)
      (ih fun r e he hr => hf r e (List.mem_cons_of_mem _ he) hr)

theorem mem_described (env : Env) (s : Scene) (objs : List COldObject) (objRank : Int)
    (e : COldObject)
    (he : e ∈ IOReadScene.described env s objs objRank) :
    ∃ o ∈ objs, IOWriteScene.saved o = true
      ∧ ∃ k, objRank ≤ k ∧ e ∈ IOReadScene.group env s o k := by
  induction objs generalizing objRank with
  | nil => simp [IOReadScene.described] at he
  | cons o rest ih =>
    unfold IOReadScene.described at he
    by_cases hs : IOWriteScene.saved o = true
    · rw [if_pos hs, List.mem_append] at he
      rcases he with he | he
      · exact ⟨o, List.mem_cons_self _ _, hs, objRank, le_refl _, he⟩
      · obtain ⟨o1, ho1, hs1, k, hk, hek⟩ := ih _ he
        exact ⟨o1, List.mem_cons_of_mem _ ho1, hs1, k, by omega, hek⟩
    · rw [if_neg hs] at he
      obtain ⟨o1, ho1, hs1, k, hk, hek⟩ := ih _ he
      exact ⟨o1, List.mem_cons_of_mem _ ho1, hs1, k, hk, hek⟩

theorem described_mem (env : Env) (s : Scene) (objs : List COldObject) (objRank : Int)
    (o : COldObject)
    (ho : o ∈ objs) (hs : IOWriteScene.saved o = true) :
    ∃ k, objRank ≤ k
      ∧ ∀ e ∈ IOReadScene.group env s o k, e ∈ IOReadScene.described env s objs objRank := by
  induction objs generalizing objRank with
  | nil => simp at ho
  | cons o1 rest ih =>
    unfold IOReadScene.described
    rcases List.mem_cons.mp ho with rfl | ho
    · rw [if_pos hs]
      exact ⟨objRank, le_refl _, fun e he => List.mem_append_left _ he⟩
    · by_cases hs1 : IOWriteScene.saved o1 = true
      · rw [if_pos hs1]
        obtain ⟨k, hk, h⟩ := ih (objRank + 1) ho
        exact ⟨k, by omega, fun e he => List.mem_append_right _ (h e he)⟩
      · rw [if_neg hs1]
        exact ih objRank ho

theorem IOReadScene_IOWriteScene (env : Env) (info : SaveInfo)
    (files : List ((Int × Nat) × String)) (s s0 : Scene)
    (hW : ∀ w ∈ IOWriteScene.written s,
      w.type ≠ OBJECT_FIX ∧ w.caps.old = true ∧ env.factory w.type = some w.caps)
    (hT : ∀ o ∈ s.objects, IOWriteScene.saved o = true →
      ∀ p, IOWriteScene.power s o = some p → p.caps.transportable = true)
    (hnodup : ((IOWriteScene.written s).map fun w => w.id).Nodup)
    (h0 : s0.objects = []) (hg0 : s0.g_unit = s.g_unit) :
    ∃ (sel : Option Nat) (s1 : Scene),
      IOReadScene env (IOWriteScene env info files s) s0 = .ok (sel, s1)
      ∧ List.Forall₂ IOReadScene.Restores s1.objects
          (IOReadScene.described env s s.objects 0) := by
  unfold IOReadScene IOWriteScene
  simp only []
  rw [IOWriteScene_objects_lines, IOReadScene_lines_append]
  obtain ⟨st1, hst1, hobjs1, hc1, hp1, hk1, hg1⟩ := header_read env info s
    { s := { s0 with m_base := none }, cargo := none, power := none, sel := none,
      objRank := 0, objCounter := 0 }
  rw [hst1]
  simp only []
  obtain ⟨st2, hst2, hE2, -, -, -⟩ := read_objects env s s.objects st1 []
    (fun o ho hs w hw => hW w (by
      unfold IOWriteScene.written
      rw [List.mem_flatMap]
      exact ⟨o, List.mem_filter.mpr ⟨ho, hs⟩, hw⟩))
    hT (by simpa [IOWriteScene.written] using hnodup) 
    (by rw [hg1]; exact hg0) hc1 hp1
    (by rw [hobjs1]; simp only [h0]; exact List.Forall₂.nil)
  rw [hst2]
  simp only []
  refine ⟨_, _, rfl, ?_⟩
  apply readStackFile_restores
  simp only [List.nil_append, hk1] at hE2 ⊢
  apply forall₂_map_of_mem _ _ _ hE2
  intro r e he hr
  obtain ⟨o, ho, hs, k, hk, hek⟩ := mem_described env s s.objects 0 e he
  apply compile_restores _ _ _ hr
  · intro hdef
    rcases mem_group env s o k e hek with h | h
    · exact absurd h hdef
    · rw [h]
  · intro hdef hp hh i hi
    exact objects_files_described env s s.objects _ files 0 (le_refl _) e he hdef hp hh i hi

theorem forall₂_mem_right {R : COldObject → COldObject → Prop} (l E : List COldObject)
    (h : List.Forall₂ R l E) (e : COldObject) (he : e ∈ E) : ∃ r ∈ l, R r e := by
  induction h with
  | nil => simp at he
  | cons h1 _ ih =>
    rcases List.mem_cons.mp he with rfl | he
    · exact ⟨_, List.mem_cons_self _ _, h1⟩
    · obtain ⟨r, hr, hR⟩ := ih he
      exact ⟨r, List.mem_cons_of_mem _ hr, hR⟩

theorem forall₂_mem_left {R : COldObject → COldObject → Prop} (l E : List COldObject)
    (h : List.Forall₂ R l E) (r : COldObject) (hr : r ∈ l) : ∃ e ∈ E, R r e := by
  induction h with
  | nil => simp at hr
  | cons h1 _ ih =>
    rcases List.mem_cons.mp hr with rfl | hr
    · exact ⟨_, List.mem_cons_self _ _, h1⟩
    · obtain ⟨e, he, hR⟩ := ih hr
      exact ⟨e, List.mem_cons_of_mem _ he, hR⟩

theorem IOWriteScene_lines (env : Env) (info : SaveInfo)
    (files : List ((Int × Nat) × String)) (s : Scene) :
    (IOWriteScene env info files s).lines
      = IOWriteScene.header info s
        ++ (s.objects.filter IOWriteScene.saved).flatMap (IOWriteScene.objectLines env s) := by
  unfold IOWriteScene
  simp only []
  rw [IOWriteScene_objects_lines]

theorem mem_group_iff (env : Env) (s : Scene) (obj : COldObject) (objRank : Int) (e : COldObject) :
    e ∈ IOReadScene.group env s obj objRank ↔
      (∃ c, IOWriteScene.cargo s obj = some c
        ∧ e = { IOReadScene.placed env s c with
                  defRank := -1,
                  cargo := none,
                  power := none,
                  transporter := some obj.id })
      ∨ (∃ p, IOWriteScene.power s obj = some p
        ∧ e = { IOReadScene.placed env s p with
                  defRank := -1,
                  cargo := none,
                  power := none,
                  transporter := some obj.id })
      ∨ e = { IOReadScene.placed env s obj with
                defRank := objRank,
                cargo := (IOWriteScene.cargo s obj).map fun c => c.id,
                power := (IOWriteScene.power s obj).map fun p => p.id,
                transporter := none } := by
  unfold IOReadScene.group
  simp only [List.mem_append, List.mem_singleton, Option.mem_toList, Option.mem_def,
    Option.map_eq_some', or_assoc]
  constructor
  · rintro (⟨c, hc, rfl⟩ | ⟨p, hp, rfl⟩ | rfl)
    · exact Or.inl ⟨c, hc, rfl⟩
    · exact Or.inr (Or.inl ⟨p, hp, rfl⟩)
    · exact Or.inr (Or.inr rfl)
  · rintro (⟨c, hc, rfl⟩ | ⟨p, hp, rfl⟩ | rfl)
    · exact Or.inl ⟨c, hc, rfl⟩
    · exact Or.inr (Or.inl ⟨p, hp, rfl⟩)
    · exact Or.inr (Or.inr rfl)

theorem CreateObject_clears (env : Env) (line : CLevelParserLine)
    (st st1 : IOReadScene.State) (h : IOReadScene.CreateObject env line st = .ok st1) :
    st1.cargo = none ∧ st1.power = none := by
  unfold IOReadScene.CreateObject at h
  iterate 4 obtain ⟨_, -, h⟩ := bind_eq_ok _ _ _ h
  cases h
  exact ⟨rfl, rfl⟩

/-- The round trip in terms of what the scene loop writes: the lines of the
scene file, the pending cargo and power cell cleared by a `CreateObject` line,
and the links read back, those of the cargo and the power cell written with
each saved object. -/
theorem IOReadScene_written_links (env : Env) (info : SaveInfo)
    (files : List ((Int × Nat) × String)) (s s0 : Scene)
    (hW : ∀ w ∈ IOWriteScene.written s,
      w.type ≠ OBJECT_FIX ∧ w.caps.old = true ∧ env.factory w.type = some w.caps)
    (hT : ∀ o ∈ s.objects, IOWriteScene.saved o = true →
      ∀ p, IOWriteScene.power s o = some p → p.caps.transportable = true)
    (hnodup : ((IOWriteScene.written s).map fun w => w.id).Nodup)
    (h0 : s0.objects = []) (hg0 : s0.g_unit = s.g_unit) :
    (IOWriteScene env info files s).lines
        = IOWriteScene.header info s
          ++ (s.objects.filter IOWriteScene.saved).flatMap (fun obj =>
            ((IOWriteScene.cargo s obj).map
                (IOWriteObject env s (CLevelParserLine.new "CreateFret"))).toList
            ++ ((IOWriteScene.power s obj).map
                (IOWriteObject env s (CLevelParserLine.new "CreatePower"))).toList
            ++ [IOWriteObject env s (CLevelParserLine.new "CreateObject") obj])
      ∧ (∀ line st st1, IOReadScene.CreateObject env line st = .ok st1 →
          st1.cargo = none ∧ st1.power = none)
      ∧ ∃ (sel : Option Nat) (s1 : Scene),
          IOReadScene env (IOWriteScene env info files s) s0 = .ok (sel, s1)
          ∧ (∀ obj ∈ s.objects, IOWriteScene.saved obj = true →
              (∃ r ∈ s1.objects, r.id = obj.id
                ∧ r.cargo = (IOWriteScene.cargo s obj).map (fun c => c.id)
                ∧ r.power = (IOWriteScene.power s obj).map fun p => p.id)
              ∧ ∀ c, IOWriteScene.cargo s obj = some c ∨ IOWriteScene.power s obj = some c →
                  ∃ r ∈ s1.objects, r.id = c.id ∧ r.transporter = some obj.id)
          ∧ ∀ r ∈ s1.objects,
              (∀ cid, r.cargo = some cid →
                ∃ obj ∈ s.objects, IOWriteScene.saved obj = true ∧ obj.id = r.id
                  ∧ (IOWriteScene.cargo s obj).map (fun c => c.id) = some cid)
              ∧ (∀ pid, r.power = some pid →
                ∃ obj ∈ s.objects, IOWriteScene.saved obj = true ∧ obj.id = r.id
                  ∧ (IOWriteScene.power s obj).map (fun p => p.id) = some pid)
              ∧ ∀ t, r.transporter = some t →
                ∃ obj ∈ s.objects, IOWriteScene.saved obj = true ∧ obj.id = t
                  ∧ ((IOWriteScene.cargo s obj).map (fun c => c.id) = some r.id
                    ∨ (IOWriteScene.power s obj).map (fun p => p.id) = some r.id) := by
  obtain ⟨sel, s1, hread, hE⟩ :=
    IOReadScene_IOWriteScene env info files s s0 hW hT hnodup h0 hg0
  refine ⟨IOWriteScene_lines env info files s, CreateObject_clears env, sel, s1, hread, ?_, ?_⟩
  · intro obj hobj hsaved
    obtain ⟨k, hk, hmem⟩ := described_mem env s s.objects 0 obj hobj hsaved
    constructor
    · obtain ⟨r, hr, h1, -, -, -, -, -, h7, h8, -, -⟩ := forall₂_mem_right _ _ hE _
        (hmem _ ((mem_group_iff env s obj k _).mpr (Or.inr (Or.inr rfl))))
      exact ⟨r, hr, h1, h7, h8⟩
    · rintro c (hc | hc)
      · obtain ⟨r, hr, h1, -, -, -, -, -, -, -, h9, -⟩ := forall₂_mem_right _ _ hE _
          (hmem _ ((mem_group_iff env s obj k _).mpr (Or.inl ⟨c, hc, rfl⟩)))
        exact ⟨r, hr, h1, h9⟩
      · obtain ⟨r, hr, h1, -, -, -, -, -, -, -, h9, -⟩ := forall₂_mem_right _ _ hE _
          (hmem _ ((mem_group_iff env s obj k _).mpr (Or.inr (Or.inl ⟨c, hc, rfl⟩))))
        exact ⟨r, hr, h1, h9⟩
  · intro r hr
    obtain ⟨e, he, h1, -, -, -, -, -, h7, h8, h9, -⟩ := forall₂_mem_left _ _ hE r hr
    obtain ⟨obj, hobj, hsaved, k, -, hek⟩ := mem_described env s s.objects 0 e he
    rcases (mem_group_iff env s obj k e).mp hek with ⟨c, hc, rfl⟩ | ⟨p, hp, rfl⟩ | rfl
    · refine ⟨fun cid h => ?_, fun pid h => ?_, fun t h => ?_⟩
      · rw [h7] at h
        exact Option.noConfusion h
      · rw [h8] at h
        exact Option.noConfusion h
      · rw [h9] at h
        cases h
        exact ⟨obj, hobj, hsaved, rfl, Or.inl (by rw [hc, h1]; rfl)⟩
    · refine ⟨fun cid h => ?_, fun pid h => ?_, fun t h => ?_⟩
      · rw [h7] at h
        exact Option.noConfusion h
      · rw [h8] at h
        exact Option.noConfusion h
      · rw [h9] at h
        cases h
        exact ⟨obj, hobj, hsaved, rfl, Or.inr (by rw [hp, h1]; rfl)⟩
    · refine ⟨fun cid h => ?_, fun pid h => ?_, fun t h => ?_⟩
      · rw [h7] at h
        exact ⟨obj, hobj, hsaved, h1.symm, h⟩
      · rw [h8] at h
        exact ⟨obj, hobj, hsaved, h1.symm, h⟩
      · rw [h9] at h
        exact Option.noConfusion h

theorem find_id (s : Scene) (id : Nat) (c : COldObject) (h : s.find id = some c) : c.id = id := by
  unfold Scene.find at h
  simpa using List.find?_some h

theorem flatMap_congr_mem {α β : Type} (l : List α) (f g : α → List β)
    (h : ∀ x ∈ l, f x = g x) : l.flatMap f = l.flatMap g := by
  induction l with
  | nil => rfl
  | cons x rest ih =>
    rw [List.flatMap_cons, List.flatMap_cons, h x (List.mem_cons_self _ _),
      ih fun y hy => h y (List.mem_cons_of_mem _ hy)]

/-- For an object that carries its cargo as a carrier and whose cargo is in
the registry, the cargo written is the registry entry of the id held, and its
id is the id held; likewise for the power cell. -/
theorem written_links (s : Scene) (obj : COldObject)
    (hc : ∀ cid ∈ obj.cargo, obj.caps.carrier = true ∧ (s.find cid).isSome = true)
    (hp : ∀ pid ∈ obj.power, obj.caps.powered = true ∧ (s.find pid).isSome = true) :
    IOWriteScene.cargo s obj = obj.cargo.bind s.find
      ∧ IOWriteScene.power s obj = obj.power.bind s.find
      ∧ (IOWriteScene.cargo s obj).map (fun c => c.id) = obj.cargo
      ∧ (IOWriteScene.power s obj).map (fun p => p.id) = obj.power := by
  have h1 : IOWriteScene.cargo s obj = obj.cargo.bind s.find := by
    unfold IOWriteScene.cargo
    cases hcargo : obj.cargo with
    | none => simp
    | some cid => rw [if_pos (hc cid (by rw [hcargo]; rfl)).1]
  have h2 : IOWriteScene.power s obj = obj.power.bind s.find := by
    unfold IOWriteScene.power
    cases hpower : obj.power with
    | none => simp
    | some pid => rw [if_pos (hp pid (by rw [hpower]; rfl)).1]
  refine ⟨h1, h2, ?_, ?_⟩
  · rw [h1]
    cases hcargo : obj.cargo with
    | none => rfl
    | some cid =>
      obtain ⟨c, hfind⟩ := Option.isSome_iff_exists.mp (hc cid (by rw [hcargo]; rfl)).2
      simp [hfind, find_id s cid c hfind]
  · rw [h2]
    cases hpower : obj.power with
    | none => rfl
    | some pid =>
      obtain ⟨p, hfind⟩ := Option.isSome_iff_exists.mp (hp pid (by rw [hpower]; rfl)).2
      simp [hfind, find_id s pid p hfind]

/-- C16. Let a scene be saved by `IOWriteScene` and the saved game be read by
`IOReadScene` into an empty registry with the same unit factor, where every
saved object that holds a cargo is a carrier, every saved object that holds a
power cell is powered, the cargo and the power cell held are in the registry,
no object is written twice (distinct ids), every written object is not a
fixed decoration, is built again by the factory with the same capabilities
and has the old interface, and every power cell written is transportable.
Then the scene file is the header followed, for each saved object in registry
order, by the `CreateFret` line of the cargo it holds if any, the
`CreatePower` line of the power cell it holds if any, and its own
`CreateObject` line; a `CreateObject` line read leaves no cargo and no power
cell pending; the read succeeds, every saved object is read back holding the
cargo and the power cell it held, each of them carried by that object, and
every link between objects read back is one of these. -/
theorem IOReadScene_reattaches (env : Env) (info : SaveInfo)
    (files : List ((Int × Nat) × String)) (s s0 : Scene)
    (hlinks : ∀ obj ∈ s.objects, IOWriteScene.saved obj = true →
      (∀ cid ∈ obj.cargo, obj.caps.carrier = true ∧ (s.find cid).isSome = true)
      ∧ ∀ pid ∈ obj.power, obj.caps.powered = true ∧ (s.find pid).isSome = true)
    (hW : ∀ obj ∈ s.objects, IOWriteScene.saved obj = true →
      ∀ w ∈ (obj.cargo.bind s.find).toList ++ (obj.power.bind s.find).toList ++ [obj],
        w.type ≠ OBJECT_FIX ∧ w.caps.old = true ∧ env.factory w.type = some w.caps)
    (hT : ∀ obj ∈ s.objects, IOWriteScene.saved obj = true →
      ∀ p ∈ obj.power.bind s.find, p.caps.transportable = true)
    (hnodup : (((s.objects.filter IOWriteScene.saved).flatMap fun obj =>
      (obj.cargo.bind s.find).toList ++ (obj.power.bind s.find).toList ++ [obj]).map
        fun w => w.id).Nodup)
    (h0 : s0.objects = []) (hg0 : s0.g_unit = s.g_unit) :
    (IOWriteScene env info files s).lines
        = IOWriteScene.header info s
          ++ (s.objects.filter IOWriteScene.saved).flatMap (fun obj =>
            ((obj.cargo.bind s.find).map
                (IOWriteObject env s (CLevelParserLine.new "CreateFret"))).toList
            ++ ((obj.power.bind s.find).map
                (IOWriteObject env s (CLevelParserLine.new "CreatePower"))).toList
            ++ [IOWriteObject env s (CLevelParserLine.new "CreateObject") obj])
      ∧ (∀ line st st1, IOReadScene.CreateObject env line st = .ok st1 →
          st1.cargo = none ∧ st1.power = none)
      ∧ ∃ (sel : Option Nat) (s1 : Scene),
          IOReadScene env (IOWriteScene env info files s) s0 = .ok (sel, s1)
          ∧ (∀ obj ∈ s.objects, IOWriteScene.saved obj = true →
              (∃ r ∈ s1.objects, r.id = obj.id ∧ r.cargo = obj.cargo ∧ r.power = obj.power)
              ∧ ∀ cid, obj.cargo = some cid ∨ obj.power = some cid →
                  ∃ r ∈ s1.objects, r.id = cid ∧ r.transporter = some obj.id)
          ∧ ∀ r ∈ s1.objects,
              (∀ cid, r.cargo = some cid →
                ∃ obj ∈ s.objects, IOWriteScene.saved obj = true ∧ obj.id = r.id
                  ∧ obj.cargo = some cid)
              ∧ (∀ pid, r.power = some pid →
                ∃ obj ∈ s.objects, IOWriteScene.saved obj = true ∧ obj.id = r.id
                  ∧ obj.power = some pid)
              ∧ ∀ t, r.transporter = some t →
                ∃ obj ∈ s.objects, IOWriteScene.saved obj = true ∧ obj.id = t
                  ∧ (obj.cargo = some r.id ∨ obj.power = some r.id) := by
  have hL : ∀ obj ∈ s.objects, IOWriteScene.saved obj = true →
      IOWriteScene.cargo s obj = obj.cargo.bind s.find
        ∧ IOWriteScene.power s obj = obj.power.bind s.find
        ∧ (IOWriteScene.cargo s obj).map (fun c => c.id) = obj.cargo
        ∧ (IOWriteScene.power s obj).map (fun p => p.id) = obj.power :=
    fun obj hobj hsaved =>
      written_links s obj (hlinks obj hobj hsaved).1 (hlinks obj hobj hsaved).2
  have hwritten : IOWriteScene.written s
      = (s.objects.filter IOWriteScene.saved).flatMap fun obj =>
        (obj.cargo.bind s.find).toList ++ (obj.power.bind s.find).toList ++ [obj] := by
    unfold IOWriteScene.written
    apply flatMap_congr_mem
    intro obj hobj
    obtain ⟨hobj, hsaved⟩ := List.mem_filter.mp hobj
    rw [(hL obj hobj hsaved).1, (hL obj hobj hsaved).2.1]
  have hW1 : ∀ w ∈ IOWriteScene.written s,
      w.type ≠ OBJECT_FIX ∧ w.caps.old = true ∧ env.factory w.type = some w.caps := by
    intro w hw
    rw [hwritten, List.mem_flatMap] at hw
    obtain ⟨obj, hobj, hw⟩ := hw
    obtain ⟨hobj, hsaved⟩ := List.mem_filter.mp hobj
    exact hW obj hobj hsaved w hw
  have hT1 : ∀ o ∈ s.objects, IOWriteScene.saved o = true →
      ∀ p, IOWriteScene.power s o = some p → p.caps.transportable = true := by
    intro o ho hsaved p hp
    rw [(hL o ho hsaved).2.1] at hp
    exact hT o ho hsaved p hp
  obtain ⟨hlines, hclear, sel, s1, hread, hfwd, hback⟩ :=
    IOReadScene_written_links env info files s s0 hW1 hT1 (by rw [hwritten]; exact hnodup) h0 hg0
  refine ⟨?_, hclear, sel, s1, hread, ?_, ?_⟩
  · rw [hlines]
    congr 1
    apply flatMap_congr_mem
    intro obj hobj
    obtain ⟨hobj, hsaved⟩ := List.mem_filter.mp hobj
    rw [(hL obj hobj hsaved).1, (hL obj hobj hsaved).2.1]
  · intro obj hobj hsaved
    obtain ⟨⟨r, hr, h1, h2, h3⟩, h4⟩ := hfwd obj hobj hsaved
    obtain ⟨e1, e2, e3, e4⟩ := hL obj hobj hsaved
    refine ⟨⟨r, hr, h1, h2.trans e3, h3.trans e4⟩, ?_⟩
    rintro cid (hc | hc)
    · obtain ⟨c, hfind⟩ := Option.isSome_iff_exists.mp
        ((hlinks obj hobj hsaved).1 cid (by rw [hc]; rfl)).2
      obtain ⟨r, hr, h5, h6⟩ := h4 c (Or.inl (by rw [e1, hc]; exact hfind))
      exact ⟨r, hr, h5.trans (find_id s cid c hfind), h6⟩
    · obtain ⟨c, hfind⟩ := Option.isSome_iff_exists.mp
        ((hlinks obj hobj hsaved).2 cid (by rw [hc]; rfl)).2
      obtain ⟨r, hr, h5, h6⟩ := h4 c (Or.inr (by rw [e2, hc]; exact hfind))
      exact ⟨r, hr, h5.trans (find_id s cid c hfind), h6⟩
  · intro r hr
    obtain ⟨h1, h2, h3⟩ := hback r hr
    refine ⟨fun cid h => ?_, fun pid h => ?_, fun t h => ?_⟩
    · obtain ⟨obj, hobj, hsaved, hid, hc⟩ := h1 cid h
      exact ⟨obj, hobj, hsaved, hid, (hL obj hobj hsaved).2.2.1.symm.trans hc⟩
    · obtain ⟨obj, hobj, hsaved, hid, hc⟩ := h2 pid h
      exact ⟨obj, hobj, hsaved, hid, (hL obj hobj hsaved).2.2.2.symm.trans hc⟩
    · obtain ⟨obj, hobj, hsaved, hid, hc⟩ := h3 t h
      refine ⟨obj, hobj, hsaved, hid, ?_⟩
      rcases hc with hc | hc
      · exact Or.inl ((hL obj hobj hsaved).2.2.1.symm.trans hc)
      · exact Or.inr ((hL obj hobj hsaved).2.2.2.symm.trans hc)

set_option maxRecDepth 100000 in
theorem IOReadScene_reattaches_witness :
    ∃ (sel : Option Nat) (s1 : Scene),
      IOReadScene Env.sample (IOWriteScene Env.sample SaveInfo.sample [] Scene.sample)
          Scene.initial = .ok (sel, s1)
      ∧ (∀ obj ∈ Scene.sample.objects, IOWriteScene.saved obj = true →
          (∃ r ∈ s1.objects, r.id = obj.id ∧ r.cargo = obj.cargo ∧ r.power = obj.power)
          ∧ ∀ cid, obj.cargo = some cid ∨ obj.power = some cid →
              ∃ r ∈ s1.objects, r.id = cid ∧ r.transporter = some obj.id)
      ∧ ∀ r ∈ s1.objects,
          (∀ cid, r.cargo = some cid →
            ∃ obj ∈ Scene.sample.objects, IOWriteScene.saved obj = true ∧ obj.id = r.id
              ∧ obj.cargo = some cid)
          ∧ (∀ pid, r.power = some pid →
            ∃ obj ∈ Scene.sample.objects, IOWriteScene.saved obj = true ∧ obj.id = r.id
              ∧ obj.power = some pid)
          ∧ ∀ t, r.transporter = some t →
            ∃ obj ∈ Scene.sample.objects, IOWriteScene.saved obj = true ∧ obj.id = t
              ∧ (obj.cargo = some r.id ∨ obj.power = some r.id) :=
  (IOReadScene_reattaches Env.sample SaveInfo.sample [] Scene.sample Scene.initial
    (by decide) (by decide) (by decide) (by decide) rfl rfl).2.2

/-! ### Commands after the level controller -/

/-- C28 fails on the code: in a level (no saved game, no reset) whose
`LevelController` command comes first, each of the commands `AudioChange`,
`Audio`, `EndMissionTake`, `EndMissionDelay` and `EndMissionResearch` that
follows makes `CreateScene` raise "Unknown command", because its branch is
taken only while there is no controller and no other branch skips it; with the
two commands in the other order the level loads. -/
theorem CreateScene_known_command_after_controller :
    (∀ c ∈ ["AudioChange", "Audio", "EndMissionTake", "EndMissionDelay", "EndMissionResearch"],
        CRobotMain.CreateScene Env.sample false false
            [{ command := "LevelController", params := [], levelFilename := "level.txt",
               lineNumber := 1 },
             { command := c, params := [("type", .int 1)], levelFilename := "level.txt",
               lineNumber := 2 }] Scene.initial
          = .error ("Unknown command: '" ++ c ++ "' in level.txt:2"))
      ∧ ∀ c ∈ ["AudioChange", "Audio", "EndMissionTake", "EndMissionDelay",
          "EndMissionResearch"],
        (CRobotMain.CreateScene Env.sample false false
            [{ command := c, params := [("type", .int 1)], levelFilename := "level.txt",
               lineNumber := 1 },
             { command := "LevelController", params := [], levelFilename := "level.txt",
               lineNumber := 2 }] Scene.initial).isOk = true := by
  constructor
  · intro c hc
    simp only [List.mem_cons, List.mem_singleton, List.not_mem_nil, or_false] at hc
    rcases hc with rfl | rfl | rfl | rfl | rfl <;> rfl
  · intro c hc
    simp only [List.mem_cons, List.mem_singleton, List.not_mem_nil, or_false] at hc
    rcases hc with rfl | rfl | rfl | rfl | rfl <;> rfl

/-! ### The stacks of exploding objects -/

set_option maxRecDepth 100000 in
/-- C26 fails on the code: the stack loop of `IOWriteScene` does not skip an
exploding object, which the scene loop skips.  With robot 1 exploding and
robot 2 behind it in the registry, the scene file has a `CreateObject` line for
robot 2 only, the stack file holds the stack of robot 1 and then that of
robot 2, and `IOReadScene` gives robot 2 the stack that robot 1 wrote. -/
theorem IOWriteScene_stack_of_exploding :
    ((IOWriteScene Env.sample SaveInfo.sample [] Scene.exploding).lines.filter
        (fun line => line.command == "CreateObject")).map (fun line => line.GetParam "id")
        = [some (.int 2)]
      ∧ (IOWriteScene Env.sample SaveInfo.sample [] Scene.exploding).stack
        = some [.long 1, .long 2, .stack (some 7), .stack (some 9), .static 0]
      ∧ (Scene.exploding.objects.map fun o => (o.id, o.stack)) = [(1, some 7), (2, some 9)]
      ∧ (IOReadScene Env.sample (IOWriteScene Env.sample SaveInfo.sample [] Scene.exploding)
          Scene.initial).map (fun r => r.2.objects.map fun o => (o.id, o.stack))
        = .ok [(2, some 7)] := by
  refine ⟨by decide, by decide, by decide, ?_⟩
  rfl

/-! ### Selection history -/

theorem PushToSelectionHistory_history (obj : Nat) (s : Scene) :
    (PushToSelectionHistory obj s).m_selectionHistory
      = if s.m_selectionHistory.getLast? = some obj then s.m_selectionHistory
        else if (s.m_selectionHistory ++ [obj]).length > 50 then
          (s.m_selectionHistory ++ [obj]).tail
        else s.m_selectionHistory ++ [obj] := by
  unfold PushToSelectionHistory
  by_cases h : s.m_selectionHistory.getLast? = some obj
  · have hne : s.m_selectionHistory ≠ [] := by
      intro h0
      rw [h0] at h
      exact Option.noConfusion h
    rw [if_pos ⟨hne, h⟩, if_pos h]
  · rw [if_neg (fun hh => h hh.2), if_neg h]
    simp only []
    split <;> rfl

theorem PopFromSelectionHistory_history (s : Scene) :
    (PopFromSelectionHistory s).2.m_selectionHistory = s.m_selectionHistory.dropLast := by
  unfold PopFromSelectionHistory
  split
  · rename_i h
    rw [h]
    rfl
  · rfl

theorem chain_push (h : List Nat) (obj : Nat) (hc : h.Chain' (fun a b => a ≠ b))
    (hlast : h.getLast? ≠ some obj) : (h ++ [obj]).Chain' (fun a b => a ≠ b) := by
  rw [List.chain'_append]
  refine ⟨hc, List.chain'_singleton _, ?_⟩
  intro x hx y hy
  rw [List.head?_cons, Option.mem_def] at hy
  cases hy
  intro hxy
  apply hlast
  rw [← hxy]
  exact hx

theorem PushToSelectionHistory_chain (obj : Nat) (s : Scene)
    (hc : s.m_selectionHistory.Chain' (fun a b => a ≠ b)) :
    (PushToSelectionHistory obj s).m_selectionHistory.Chain' (fun a b => a ≠ b) := by
  rw [PushToSelectionHistory_history]
  split
  · exact hc
  · rename_i hlast
    have := chain_push _ obj hc hlast
    split
    · exact this.tail
    · exact this

theorem PopFromSelectionHistory_chain (s : Scene)
    (hc : s.m_selectionHistory.Chain' (fun a b => a ≠ b)) :
    (PopFromSelectionHistory s).2.m_selectionHistory.Chain' (fun a b => a ≠ b) := by
  rw [PopFromSelectionHistory_history]
  exact hc.prefix (List.dropLast_prefix _)

theorem PushToSelectionHistory_length (obj : Nat) (s : Scene)
    (hlen : s.m_selectionHistory.length ≤ 50) :
    (PushToSelectionHistory obj s).m_selectionHistory.length ≤ 50 := by
  rw [PushToSelectionHistory_history]
  split
  · exact hlen
  · split
    · rw [List.length_tail, List.length_append, List.length_singleton]
      omega
    · rename_i h
      omega

theorem SelectionHistoryOp_apply_length (op : SelectionHistoryOp) (s : Scene)
    (hlen : s.m_selectionHistory.length ≤ 50) :
    (op.apply s).m_selectionHistory.length ≤ 50 := by
  cases op with
  | push obj => exact PushToSelectionHistory_length obj s hlen
  | pop =>
    show (PopFromSelectionHistory s).2.m_selectionHistory.length ≤ 50
    rw [PopFromSelectionHistory_history, List.length_dropLast]
    omega
  | remove obj =>
    exact le_trans (List.length_filter_le _ _) hlen

theorem SelectionHistoryOp_run_length (ops : List SelectionHistoryOp) (s : Scene)
    (hlen : s.m_selectionHistory.length ≤ 50) :
    (SelectionHistoryOp.run ops s).m_selectionHistory.length ≤ 50 := by
  induction ops generalizing s with
  | nil => exact hlen
  | cons op ops ih =>
    exact ih (op.apply s) (SelectionHistoryOp_apply_length op s hlen)

/-- C22 as stated fails: after the pushes of objects 1, 2 and 1, removing
object 2 from the history leaves the two entries of object 1 next to each
other. -/
theorem RemoveFromSelectionHistory_adjacent :
    (SelectionHistoryOp.run [.push 1, .push 2, .push 1, .remove 2]
        Scene.initial).m_selectionHistory = [1, 1]
      ∧ ¬ (SelectionHistoryOp.run [.push 1, .push 2, .push 1, .remove 2]
        Scene.initial).m_selectionHistory.Chain' (fun a b => a ≠ b) := by
  have h : (SelectionHistoryOp.run [.push 1, .push 2, .push 1, .remove 2]
        Scene.initial).m_selectionHistory = [1, 1] := by decide
  rw [h]
  exact ⟨rfl, by simp⟩

/-- C22 (amended): for every sequence of `PushToSelectionHistory` and
`PopFromSelectionHistory` calls, made on a history without two adjacent equal
entries (the empty history for one), no two adjacent entries of the selection
history are the same object; `RemoveFromSelectionHistory` drops every entry of
its object and keeps the others in order. -/
theorem SelectionHistory_no_adjacent (ops : List SelectionHistoryOp) (s : Scene)
    (hs : s.m_selectionHistory.Chain' (fun a b => a ≠ b))
    (hops : ∀ obj, SelectionHistoryOp.remove obj ∉ ops) :
    (SelectionHistoryOp.run ops s).m_selectionHistory.Chain' (fun a b => a ≠ b)
      ∧ ∀ obj (s1 : Scene),
          (RemoveFromSelectionHistory obj s1).m_selectionHistory
            = s1.m_selectionHistory.filter fun x => decide (x ≠ obj) := by
  refine ⟨?_, ?_⟩
  · induction ops generalizing s with
    | nil => exact hs
    | cons op ops ih =>
      refine ih (op.apply s) ?_ (fun obj h => hops obj (List.mem_cons_of_mem _ h))
      cases op with
      | push obj => exact PushToSelectionHistory_chain obj s hs
      | pop => exact PopFromSelectionHistory_chain s hs
      | remove obj => exact absurd (List.mem_cons_self _ _) (hops obj)
  · intro obj s1
    unfold RemoveFromSelectionHistory
    apply List.filter_congr
    intro x _
    by_cases h : x = obj <;> simp [h]

/-- Witness of `SelectionHistory_no_adjacent`: object 1 pushed twice, object 2
pushed and popped, from the empty history. -/
theorem SelectionHistory_no_adjacent_witness :
    (SelectionHistoryOp.run [.push 1, .push 1, .push 2, .pop]
        Scene.initial).m_selectionHistory.Chain' (fun a b => a ≠ b)
      ∧ ∀ obj (s1 : Scene),
          (RemoveFromSelectionHistory obj s1).m_selectionHistory
            = s1.m_selectionHistory.filter fun x => decide (x ≠ obj) :=
  SelectionHistory_no_adjacent [.push 1, .push 1, .push 2, .pop] Scene.initial
    (by decide) (fun obj h => by simp at h)

/-- C23: for a selection history `h` of at most 50 entries and an object `x`
that is not its last entry, `PopFromSelectionHistory` right after
`PushToSelectionHistory(x)` returns `x` and leaves `h` when `h` has fewer than
50 entries, `h` without its oldest entry when it has 50; the history holds at
most 50 entries after the push and after any further calls; popping the empty
history returns no object and changes nothing. -/
theorem PopFromSelectionHistory_PushToSelectionHistory (s : Scene) (x : Nat)
    (hlen : s.m_selectionHistory.length ≤ 50)
    (hlast : s.m_selectionHistory.getLast? ≠ some x) :
    PopFromSelectionHistory (PushToSelectionHistory x s)
        = (some x, { s with m_selectionHistory :=
            if s.m_selectionHistory.length < 50 then s.m_selectionHistory
            else s.m_selectionHistory.tail })
      ∧ (PushToSelectionHistory x s).m_selectionHistory.length ≤ 50
      ∧ (∀ ops : List SelectionHistoryOp,
          (SelectionHistoryOp.run ops s).m_selectionHistory.length ≤ 50)
      ∧ ∀ s0 : Scene, s0.m_selectionHistory = [] → PopFromSelectionHistory s0 = (none, s0) := by
  refine ⟨?_, PushToSelectionHistory_length x s hlen,
    fun ops => SelectionHistoryOp_run_length ops s hlen, ?_⟩
  · have hpush : PushToSelectionHistory x s
        = { s with m_selectionHistory :=
            if s.m_selectionHistory.length < 50 then s.m_selectionHistory ++ [x]
            else s.m_selectionHistory.tail ++ [x] } := by
      unfold PushToSelectionHistory
      rw [if_neg (fun hh => hlast hh.2)]
      simp only [List.length_append, List.length_singleton]
      by_cases h50 : s.m_selectionHistory.length < 50
      · rw [if_neg (by omega), if_pos h50]
      · rw [if_pos (by omega), if_neg h50]
        have hne : s.m_selectionHistory ≠ [] := by
          intro h0
          rw [h0] at h50
          simp at h50
        rw [List.tail_append_of_ne_nil hne]
    rw [hpush]
    unfold PopFromSelectionHistory
    by_cases h50 : s.m_selectionHistory.length < 50
    · simp only [if_pos h50]
      rw [if_neg (by simp)]
      simp
    · simp only [if_neg h50]
      rw [if_neg (by simp)]
      simp
  · intro s0 h0
    unfold PopFromSelectionHistory
    rw [if_pos h0]

/-- Witness of `PopFromSelectionHistory_PushToSelectionHistory`: object 3
pushed on the history of objects 1 and 2. -/
theorem PopFromSelectionHistory_PushToSelectionHistory_witness :
    PopFromSelectionHistory
        (PushToSelectionHistory 3 { Scene.initial with m_selectionHistory := [1, 2] })
        = (some 3, { Scene.initial with m_selectionHistory := [1, 2] })
      ∧ (PushToSelectionHistory 3
          { Scene.initial with m_selectionHistory := [1, 2] }).m_selectionHistory.length ≤ 50
      ∧ (∀ ops : List SelectionHistoryOp,
          (SelectionHistoryOp.run ops
            { Scene.initial with m_selectionHistory := [1, 2] }).m_selectionHistory.length ≤ 50)
      ∧ ∀ s0 : Scene, s0.m_selectionHistory = [] → PopFromSelectionHistory s0 = (none, s0) :=
  PopFromSelectionHistory_PushToSelectionHistory
    { Scene.initial with m_selectionHistory := [1, 2] } 3 (by decide) (by decide)

/-! ### Deselection -/

theorem SearchHuman_DeselectAll (s : Scene) : SearchHuman (DeselectAll s).2 = SearchHuman s := by
  unfold SearchHuman DeselectAll
  simp only []
  induction s.objects with
  | nil => rfl
  | cons o rest ih =>
    rw [List.map_cons, List.find?_cons, List.find?_cons]
    cases h : o.type == OBJECT_HUMAN
    · simp only [h]
      exact ih
    · simp only [h, Option.map_some']

theorem SelectOneObject_DeselectAll (obj : Nat) (s : Scene) :
    SelectOneObject obj (DeselectAll s).2
      = { s with objects := s.objects.map fun o => { o with select := decide (o.id = obj) } } := by
  unfold SelectOneObject DeselectAll Scene.update
  simp only [List.map_map]
  congr 1
  apply List.map_congr_left
  intro o _
  simp only [Function.comp]
  by_cases h : o.id = obj
  · rw [if_pos h]
    simp [h]
  · rw [if_neg h]
    simp [h]

theorem DeselectObject_of_history (G : Nat → Gfx.CameraType) (camera : Gfx.CCamera)
    (s : Scene) (h : List Nat) (x : Nat) (hs : s.m_selectionHistory = h ++ [x]) :
    (DeselectObject G camera s).2.2
      = { s with m_selectionHistory := h,
                 objects := s.objects.map fun o => { o with select := decide (o.id = x) } } := by
  have hpop : PopFromSelectionHistory (DeselectAll s).2
      = (some x, { (DeselectAll s).2 with m_selectionHistory := h }) := by
    unfold PopFromSelectionHistory
    have h1 : (DeselectAll s).2.m_selectionHistory = h ++ [x] := hs
    rw [h1, if_neg (by simp)]
    simp
  unfold DeselectObject
  simp only [hpop]
  rw [if_neg (by simp)]
  simp only []
  exact SelectOneObject_DeselectAll x { s with m_selectionHistory := h }

theorem DeselectObject_of_empty (G : Nat → Gfx.CameraType) (camera : Gfx.CCamera)
    (s : Scene) (hs : s.m_selectionHistory = []) :
    DeselectObject G camera s
      = match SearchHuman s with
        | some p =>
          (true,
            match (DeselectAll s).2.find p with
            | some o => SelectOneObject.camera G p o.type camera
            | none => camera,
            { s with objects := s.objects.map fun o => { o with select := decide (o.id = p) } })
        | none =>
          (true, { camera with type := Gfx.CameraType.CAM_TYPE_FREE },
            { s with objects := s.objects.map fun o => { o with select := false } }) := by
  have hpop : PopFromSelectionHistory (DeselectAll s).2 = (none, (DeselectAll s).2) := by
    unfold PopFromSelectionHistory
    have h1 : (DeselectAll s).2.m_selectionHistory = [] := hs
    rw [if_pos h1]
  unfold DeselectObject
  simp only [hpop, if_true, SearchHuman_DeselectAll]
  cases hh : SearchHuman s with
  | none => rfl
  | some p =>
    simp only []
    rw [SelectOneObject_DeselectAll]

/-- C24 as stated fails: robots 1 and 2 are selected in turn twice and robot 2
is then taken out of the history (as `DeleteObject` does), which leaves the
history `[1, 1]`; the first `DeselectObject` selects robot 1 and the second one
selects robot 1 again, the object that was selected before the call. -/
theorem DeselectObject_selects_same :
    (RemoveFromSelectionHistory 2 (DeselectAll (SelectObject (some 2) (SelectObject (some 1)
        (SelectObject (some 2) (SelectObject (some 1)
          Scene.twoRobots).2).2).2).2).2).m_selectionHistory = [1, 1]
      ∧ (DeselectAll (DeselectObject (fun _ => Gfx.CameraType.CAM_TYPE_BACK) Gfx.CCamera.sample
          (RemoveFromSelectionHistory 2 (DeselectAll (SelectObject (some 2)
            (SelectObject (some 1) (SelectObject (some 2) (SelectObject (some 1)
              Scene.twoRobots).2).2).2).2).2)).2.2).1 = some 1
      ∧ (DeselectAll (DeselectObject (fun _ => Gfx.CameraType.CAM_TYPE_BACK) Gfx.CCamera.sample
          (DeselectObject (fun _ => Gfx.CameraType.CAM_TYPE_BACK) Gfx.CCamera.sample
            (RemoveFromSelectionHistory 2 (DeselectAll (SelectObject (some 2)
              (SelectObject (some 1) (SelectObject (some 2) (SelectObject (some 1)
                Scene.twoRobots).2).2).2).2).2)).2.2).2.2).1 = some 1 := by
  decide

/-- C24 (amended): `DeselectObject` returns true and leaves every object
deselected but one: the last entry of the selection history, which the history
loses, whether or not it is the object that was selected before the call; when
the history is empty, the default pilot (the human); when there is no pilot
either, no object is selected and the camera is given the free type. -/
theorem DeselectObject_selects (GetCameraType : Nat → Gfx.CameraType)
    (camera : Gfx.CCamera) (s : Scene) :
    (DeselectObject GetCameraType camera s).1 = true
      ∧ (∀ h x, s.m_selectionHistory = h ++ [x] →
          (DeselectObject GetCameraType camera s).2.2
            = { s with m_selectionHistory := h,
                       objects := s.objects.map fun o =>
                         { o with select := decide (o.id = x) } })
      ∧ (s.m_selectionHistory = [] → ∀ p, SearchHuman s = some p →
          (DeselectObject GetCameraType camera s).2.2
            = { s with objects := s.objects.map fun o =>
                         { o with select := decide (o.id = p) } })
      ∧ (s.m_selectionHistory = [] → SearchHuman s = none →
          (DeselectObject GetCameraType camera s).2.2
              = { s with objects := s.objects.map fun o => { o with select := false } }
            ∧ (DeselectObject GetCameraType camera s).2.1
              = { camera with type := Gfx.CameraType.CAM_TYPE_FREE }) := by
  refine ⟨?_, fun h x hs => DeselectObject_of_history _ _ s h x hs, ?_, ?_⟩
  · unfold DeselectObject
    simp only []
    split <;> rfl
  · intro hs p hp
    rw [DeselectObject_of_empty _ _ s hs, hp]
  · intro hs hp
    rw [DeselectObject_of_empty _ _ s hs, hp]
    exact ⟨rfl, rfl⟩

/-- Witness of `DeselectObject_selects`: robot 2 selected, robot 1 in the
history. -/
theorem DeselectObject_selects_witness :
    (DeselectObject (fun _ => Gfx.CameraType.CAM_TYPE_BACK) Gfx.CCamera.sample
        (SelectObject (some 2) (SelectObject (some 1) Scene.twoRobots).2).2).2.2
      = { Scene.twoRobots with
          m_selectionHistory := [],
          objects := [{ COldObject.sample 1 (OBJECT_MOBILE "wa") with select := true },
                      COldObject.sample 2 (OBJECT_MOBILE "wa")] } :=
  (DeselectObject_selects (fun _ => Gfx.CameraType.CAM_TYPE_BACK) Gfx.CCamera.sample
    (SelectObject (some 2) (SelectObject (some 1) Scene.twoRobots).2).2).2.1 [] 1 (by decide)

/-! ### Terrain levels -/

theorem TerrainLevel_loop (size : Nat) (fuel i : Nat) (acc : TerrainLevel.Access)
    (hi : i < size) (hsize : size ≤ 50) (hfuel : size ≤ i + fuel) :
    TerrainLevel.loop size fuel i acc
      = (size, { reads := acc.reads ++ List.range' i (size - i),
                 writes := acc.writes ++ List.range' i (size - i) }) := by
  induction fuel generalizing i acc with
  | zero => omega
  | succ fuel ih =>
    unfold TerrainLevel.loop
    rw [if_pos (by omega)]
    by_cases h : i + 1 ≥ size
    · rw [if_pos h]
      have h1 : size = i + 1 := by omega
      subst h1
      simp
    · rw [if_neg h, ih (i + 1) _ (by omega) (by omega)]
      have h2 : size - i = (size - (i + 1)) + 1 := by omega
      rw [h2, List.range'_succ]
      simp

/-- What the `TerrainLevel` command accesses for an id array of 1 to 50
entries: it reads the entries 0 to `size - 1`, writes them at the same indices
and writes the closing zero at index `size`. -/
theorem TerrainLevel_accesses (size : Nat) (h1 : 1 ≤ size) (h50 : size ≤ 50) :
    TerrainLevel (some size)
      = .ok { reads := List.range size, writes := List.range size ++ [size] } := by
  unfold TerrainLevel
  simp only []
  rw [if_neg (by omega), TerrainLevel_loop size 50 0 _ (by omega) h50 (by omega)]
  simp [List.range_eq_range']

/-- C27 fails on the code: a `TerrainLevel` command whose id array has 50
entries is accepted (the test is `size > 50`), and after the 50 entries have
been copied the closing zero is written at index 50 of the 50-element buffer;
a command whose id array is empty reads the entry of index 0, which the array
does not have. -/
theorem TerrainLevel_out_of_bounds :
    (∃ acc, TerrainLevel (some 50) = .ok acc ∧ acc.writes.getLast? = some 50
        ∧ ¬ ∀ i ∈ acc.writes, i < 50)
      ∧ ∃ acc, TerrainLevel (some 0) = .ok acc ∧ acc.reads = [0]
        ∧ ¬ ∀ i ∈ acc.reads, i < 0 := by
  refine ⟨⟨_, TerrainLevel_accesses 50 (by decide) (by decide), by simp, ?_⟩,
    ⟨{ reads := [0], writes := [0, 1] }, rfl, rfl, ?_⟩⟩
  · intro h
    exact absurd (h 50 (by simp)) (lt_irrefl _)
  · intro h
    exact absurd (h 0 (by simp)) (lt_irrefl _)

/-! ### Research done -/

theorem mapIndex_eq (team : Int) (m : List (Int × Int))
    (hm : m.Pairwise fun a b => a.1 < b.1) :
    mapIndex team m
      = match m.lookup team with
        | some v => (v, m)
        | none => (0, mapSet team 0 m) := by
  induction m with
  | nil => rfl
  | cons e rest ih =>
    obtain ⟨k, v⟩ := e
    rw [List.pairwise_cons] at hm
    unfold mapIndex mapSet
    rw [lookup_cons_ite]
    by_cases h1 : team < k
    · rw [if_pos h1, if_neg (by omega), if_pos h1]
      have hnone : rest.lookup team = none := by
        cases hl : rest.lookup team with
        | none => rfl
        | some w =>
          have := hm.1 _ (mem_of_lookup team w rest hl)
          simp only at this
          omega
      rw [hnone]
    · rw [if_neg h1, if_neg h1]
      by_cases h2 : team = k
      · rw [if_pos h2, if_pos h2, if_pos h2]
      · rw [if_neg h2, if_neg h2, if_neg h2, ih hm.2]
        cases rest.lookup team <;> rfl

theorem mapIndex_of_lookup (team v : Int) (m : List (Int × Int))
    (hm : m.Pairwise fun a b => a.1 < b.1) (h : m.lookup team = some v) :
    mapIndex team m = (v, m) := by
  rw [mapIndex_eq team m hm, h]

theorem mapIndex_pairwise (team : Int) (m : List (Int × Int))
    (hm : m.Pairwise fun a b => a.1 < b.1) :
    (mapIndex team m).2.Pairwise fun a b => a.1 < b.1 := by
  rw [mapIndex_eq team m hm]
  cases m.lookup team with
  | none => exact mapSet_pairwise _ _ _ hm
  | some v => exact hm

theorem mapIndex_lookup (team i : Int) (m : List (Int × Int))
    (hm : m.Pairwise fun a b => a.1 < b.1) :
    (mapIndex team m).2.lookup i
      = if i = team then some (mapIndex team m).1 else m.lookup i := by
  rw [mapIndex_eq team m hm]
  cases h : m.lookup team with
  | none =>
    simp only []
    rw [lookup_mapSet]
  | some v =>
    simp only []
    by_cases hi : i = team
    · rw [if_pos hi, hi, h]
    · rw [if_neg hi]

theorem init_pairwise (team : Int) (m : List (Int × Int))
    (hm : m.Pairwise fun a b => a.1 < b.1) :
    (IsResearchDone.init team m).Pairwise fun a b => a.1 < b.1 := by
  unfold IsResearchDone.init
  split
  · exact mapSet_pairwise _ _ _ (mapIndex_pairwise 0 m hm)
  · exact hm

theorem init_of_lookup (team : Int) (m : List (Int × Int)) (h : m.lookup team ≠ none) :
    IsResearchDone.init team m = m := by
  unfold IsResearchDone.init
  rw [if_neg (fun hh => h hh.2)]

theorem init_lookup (team : Int) (m : List (Int × Int))
    (hm : m.Pairwise fun a b => a.1 < b.1) (t : Int) (ht : t ≠ team) (h0 : t ≠ 0) :
    (IsResearchDone.init team m).lookup t = m.lookup t := by
  unfold IsResearchDone.init
  split
  · rw [lookup_mapSet, if_neg ht, mapIndex_lookup 0 t m hm, if_neg h0]
  · rfl

theorem IsResearchDone_of_lookup (type team v : Int) (m : List (Int × Int))
    (hm : m.Pairwise fun a b => a.1 < b.1) (h : m.lookup team = some v) :
    IsResearchDone type team m = (decide (Int.land v type ≠ 0), m) := by
  unfold IsResearchDone
  rw [init_of_lookup team m (by rw [h]; exact Option.noConfusion),
    mapIndex_of_lookup team v m hm h]

/-- C29 as stated fails: with no research done and team 1 without a record of
its own, a query for team 1 gives the team a record (the table changes);
research 1 marked done for team 0 afterwards is not seen by team 1, although
it is seen when team 1 was not queried before.  `GetDoneResearch` too adds a
record, an empty one, for a team that has none. -/
theorem IsResearchDone_changes_later_query :
    (IsResearchDone 1 1 [(0, 0)]).2 = [(0, 0), (1, 0)]
      ∧ (IsResearchDone 1 1 (MarkResearchDone 1 0 0 (IsResearchDone 1 1 [(0, 0)]).2).1).1 = false
      ∧ (IsResearchDone 1 1 (MarkResearchDone 1 0 0 [(0, 0)]).1).1 = true
      ∧ (GetDoneResearch 1 [(0, 1)]).2 = [(0, 1), (1, 0)]
      ∧ (IsResearchDone 1 1 (GetDoneResearch 1 [(0, 1)]).2).1 = false
      ∧ (IsResearchDone 1 1 [(0, 1)]).1 = true := by
  decide

/-- C29 (amended): on a table in key order, `IsResearchDone` and
`GetDoneResearch` leave the table as it is when the team has a record in it;
`IsResearchDone` for a team other than 0 that has none gives the team a record
of its own, the value that team 0 has at that moment, and answers from it; it
never changes the record of another team (other than giving team 0 an empty
one); and the same query made again returns the same answer and changes
nothing more. -/
theorem IsResearchDone_frame (type team : Int) (m_researchDone : List (Int × Int))
    (hm : m_researchDone.Pairwise fun a b => a.1 < b.1) :
    (m_researchDone.lookup team ≠ none →
        (IsResearchDone type team m_researchDone).2 = m_researchDone
          ∧ (GetDoneResearch team m_researchDone).2 = m_researchDone)
      ∧ (team ≠ 0 → m_researchDone.lookup team = none →
          ∀ v, m_researchDone.lookup 0 = some v →
            IsResearchDone type team m_researchDone
              = (decide (Int.land v type ≠ 0), mapSet team v m_researchDone))
      ∧ (∀ t, t ≠ team → t ≠ 0 →
          (IsResearchDone type team m_researchDone).2.lookup t = m_researchDone.lookup t)
      ∧ IsResearchDone type team (IsResearchDone type team m_researchDone).2
          = IsResearchDone type team m_researchDone := by
  refine ⟨?_, ?_, ?_, ?_⟩
  · intro h
    cases hl : m_researchDone.lookup team with
    | none => exact absurd hl h
    | some v =>
      rw [IsResearchDone_of_lookup type team v _ hm hl]
      exact ⟨rfl, by rw [GetDoneResearch, mapIndex_of_lookup team v _ hm hl]⟩
  · intro ht hnone v h0
    unfold IsResearchDone
    have hinit : IsResearchDone.init team m_researchDone = mapSet team v m_researchDone := by
      unfold IsResearchDone.init
      rw [if_pos ⟨ht, hnone⟩, mapIndex_of_lookup 0 v _ hm h0]
    rw [hinit, mapIndex_of_lookup team v _ (mapSet_pairwise _ _ _ hm)
      (by rw [lookup_mapSet, if_pos rfl])]
  · intro t ht h0
    unfold IsResearchDone
    simp only []
    rw [mapIndex_lookup team t _ (init_pairwise team _ hm), if_neg ht,
      init_lookup team _ hm t ht h0]
  · have hp := mapIndex_pairwise team _ (init_pairwise team _ hm)
    have hl := mapIndex_lookup team team _ (init_pairwise team _ hm)
    rw [if_pos rfl] at hl
    have h2 : (IsResearchDone type team m_researchDone).2
        = (mapIndex team (IsResearchDone.init team m_researchDone)).2 := rfl
    rw [h2, IsResearchDone_of_lookup type team _ _ hp hl]
    rfl

/-- Witness of `IsResearchDone_frame`: team 0 has done research 5 and team 1,
which has no record, is asked about research 4. -/
theorem IsResearchDone_frame_witness :
    IsResearchDone 4 1 [(0, 5)] = (true, [(0, 5), (1, 5)])
      ∧ IsResearchDone 4 1 (IsResearchDone 4 1 [(0, 5)]).2 = IsResearchDone 4 1 [(0, 5)] :=
  ⟨(IsResearchDone_frame 4 1 [(0, 5)] (by decide)).2.1 (by decide) (by decide) 5 (by decide),
    (IsResearchDone_frame 4 1 [(0, 5)] (by decide)).2.2.2⟩

/-! ### Simulation clock -/

/-- C25: `SuspendSimulation()` followed by `ResumeSimulation()` with no tick in
between leaves `GetExactAbsTime`, `GetAbsTime` and `GetRealAbsTime` as they
were, and the real absolute time of any later tick is what it is without the
two calls. -/
theorem ResumeSimulation_SuspendSimulation (app : CApplication) (now : Int) :
    (app.SuspendSimulation.ResumeSimulation now).GetExactAbsTime = app.GetExactAbsTime
      ∧ (app.SuspendSimulation.ResumeSimulation now).GetAbsTime = app.GetAbsTime
      ∧ (app.SuspendSimulation.ResumeSimulation now).GetRealAbsTime = app.GetRealAbsTime
      ∧ ∀ t : Int,
          ((app.SuspendSimulation.ResumeSimulation now).Tick t).GetRealAbsTime
            = (app.Tick t).GetRealAbsTime := by
  refine ⟨rfl, rfl, rfl, ?_⟩
  intro t
  have h : ∀ a : CApplication,
      (a.Tick t).GetRealAbsTime = a.m_realAbsTimeBase + (t - a.m_baseTimeStamp) := by
    intro a
    unfold CApplication.Tick CApplication.GetRealAbsTime
    simp only []
    split <;> rfl
  rw [h, h]
  unfold CApplication.ResumeSimulation CApplication.SuspendSimulation
  simp only []
  omega

end Colobot
